import Mathlib

/-!
# Burjuva firmware: SPI transport, chip-select arbiter, register drivers, module discovery

A shallow embedding of the device-communication layer of the STM32 firmware
(`spisurucu.c`, `16kanaldijital.c`, `20kanalanalogio.c`, `modul_algilama.c`,
`uart_helper.c`, `fpga.c`) together with theorems about it.

Conventions of the embedding.

* C integers are natural numbers (`uint8_t`, `uint16_t`) or integers (`int`,
  `spi_slot_t`); truncation to the C width is written out where it can occur.
* The firmware state is one record, `Fw`; every C function that touches global
  state or hardware becomes a function `Fw → result × Fw`.
* Hardware that the firmware only observes is an environment `Env`: what the SPI
  peripheral answers to the k-th call of `SPI_DataExchange`, and what the k-th
  read of `GPIOC->IDR` on a single-wire line returns.
* Busy-wait delays (`delay_us`, the `volatile` counting loops) take time and
  change nothing else; they do not appear.  `UART_SendString` appends to the
  transmitted character stream (one character U+0000..U+00FF per byte); its wait
  for the USART transmit flag is not modelled.  The file-local `UART_SendString`
  and `UART_SendHex8` of `modul_algilama.c` write the same characters as the ones
  of `uart_helper.c` and are not distinguished.
-/

namespace Burjuva

/-! ## State and environment -/

/-- Answer of the SPI2 peripheral during one call of `SPI_DataExchange`:
`txe` polls of the TXE flag read RESET before it reads SET, `rxne` polls of the
RXNE flag read RESET before it reads SET, and `data` is what
`SPI_I2S_ReceiveData` returns. -/
structure SpiResp where
  txe : Nat
  rxne : Nat
  data : Nat
deriving DecidableEq, Repr

/-- Observed hardware: `spi k` answers the k-th `SPI_DataExchange` call, `idr k`
is the level seen by the k-th sample of a single-wire line (`true` = high),
`dwt_ctrl` is the value read from the DWT control register. -/
structure Env where
  spi : Nat → SpiResp
  idr : Nat → Bool
  dwt_ctrl : Nat

/-- Argument type `chip_select_t` of `SPI_SetCS`. -/
inductive chip_select_t where
  | CS_ENABLE
  | CS_DISABLE
deriving DecidableEq, Repr

/-- Record of one `SPI_DataExchange` call: the `mosi` argument, whether the call
reached `SPI_I2S_SendData` (the byte was written to the data register), and the
byte the call returned. -/
structure Xfer where
  mosi : Nat
  wired : Bool
  miso : Nat
deriving DecidableEq, Repr

/-- What the firmware does on a single-wire line, bit by bit. -/
inductive OwEv where
  | reset (module : Int)
  | write_bit (module : Int) (bit : Nat)
  | read_bit (module : Int)
deriving DecidableEq, Repr

/-- Record of one call of a register-transaction function of a driver, written
when the call returns: the arguments, the return code, and for a read the
caller's buffer after the call. -/
inductive RegOp where
  | io16_write (slot reg count : Nat) (value : List Nat) (ret : Int)
  | io16_read (slot reg count : Nat) (ret : Int) (value : List Nat)
  | aio20_write (slot reg data : Nat) (ret : Int)
  | aio20_read (slot reg : Nat) (ret : Int) (data : Option Nat)
deriving DecidableEq, Repr

/-- Cached state of one digital module: `IO16_Module`. -/
structure IO16_Module where
  slot : Nat
  input_state : Nat
  output_state : Nat
  direction_mask : Nat
deriving DecidableEq, Repr

/-- Cached state of one analog module: `AIO20_Module`.  `afe_types` holds the
enum values of `AIO20_AFE_Type`. -/
structure AIO20_Module where
  slot : Nat
  adc_values : List Nat
  dac_values : List Nat
  port_modes : List Nat
  afe_types : List Nat
deriving DecidableEq, Repr

/-- Cached state of one FPGA module: `FPGA_Module` (slot, initialized flag,
256-byte register file). -/
structure FPGA_Module where
  slot : Nat
  initialized : Bool
  registers : List Nat
deriving DecidableEq, Repr

/-- Firmware state.

* `current_cs_slot`, `cs_pins`, `prescaler`: the arbiter variable of
  `spisurucu.c`, the output level of the five chip-select lines of `cs_pins[5]`
  (`true` = HIGH = deasserted) and the baud-rate divisor in `SPI2->CR1`.
* `spi_n`, `spi_log`: number of `SPI_DataExchange` calls so far and their record.
* `uart`: characters written to USART1.
* `ow_n`, `ow_log`: number of single-wire line samples taken so far, and the
  single-wire operations performed.
* `io16_modules`, `aio20_modules`, `fpga_modules`: the entries
  `[0, *_module_count)` of the three registry arrays; the count is the length.
* `reg_log`: the calls of `IO16_WriteRegister`, `IO16_ReadRegister`,
  `AIO20_WriteRegister` and `AIO20_ReadRegister` so far, in the order in which
  they returned. -/
structure Fw where
  current_cs_slot : Int
  cs_pins : List Bool
  prescaler : Nat
  spi_n : Nat
  spi_log : List Xfer
  uart : List Char
  ow_n : Nat
  ow_log : List OwEv
  io16_modules : List IO16_Module
  aio20_modules : List AIO20_Module
  fpga_modules : List FPGA_Module
  reg_log : List RegOp
deriving DecidableEq

/-- Append one entry to the record of register-transaction calls. -/
def log_reg (op : RegOp) (s : Fw) : Fw :=
  { s with reg_log := s.reg_log ++ [op] }

/-! ## uart_helper.c -/

/-- Source function `UART_SendString`: every character of the string goes to USART1. -/
def UART_SendString (str : String) (s : Fw) : Fw :=
  { s with uart := s.uart ++ str.toList }

/-- The lookup `hex_chars[i]` in "0123456789ABCDEF". -/
def hex_chars (i : Nat) : Char :=
  "0123456789ABCDEF".toList.getD i '0'

/-- Source function `UART_SendHex8`: two upper-case hex digits, high nibble first. -/
def UART_SendHex8 (data : Nat) (s : Fw) : Fw :=
  { s with uart := s.uart ++ [hex_chars ((data >>> 4) &&& 0x0F), hex_chars (data &&& 0x0F)] }

/-- Source function `UART_SendHex16`: high byte, then low byte. -/
def UART_SendHex16 (data : Nat) (s : Fw) : Fw :=
  UART_SendHex8 (data &&& 0xFF) (UART_SendHex8 ((data >>> 8) &&& 0xFF) s)

/-! ## spisurucu.c -/

/-- Source function `SPI_SetPrescalerForSlot`: the baud-rate divisor selected for a slot
(`SPI_BaudRatePrescaler_8`, `_4`, `_16`, `_8`, default `_8`). -/
def SPI_SetPrescalerForSlot (slot : Int) (s : Fw) : Fw :=
  { s with prescaler := if slot = 0 then 8 else if slot = 1 then 4 else if slot = 2 then 16
                        else if slot = 3 then 8 else 8 }

/-- The loop `for (i = 0; i < 5; i++) GPIO_SetBits(cs_pins[i]...)`: all five
chip-select lines HIGH. -/
def cs_all_high (s : Fw) : Fw :=
  { s with cs_pins := (((((s.cs_pins.set 0 true).set 1 true).set 2 true).set 3 true).set 4 true) }

/-- Source function `SPI_Module_Init`: `SPI_GPIO_Init` drives all chip-select lines HIGH,
`SPI_Peripheral_Init` selects divisor 8, and no slot is claimed. -/
def SPI_Module_Init (s : Fw) : Fw :=
  { s with cs_pins := [true, true, true, true, true], prescaler := 8, current_cs_slot := -1 }

/-- Source function `SPI_SetCS`. -/
def SPI_SetCS (slot : Int) (cs : chip_select_t) (s : Fw) : Int × Fw :=
  if slot < 0 ∨ slot > 4 then (-1, s)
  else
    match cs with
    | .CS_ENABLE =>
      if s.current_cs_slot = -1 then
        let s1 := cs_all_high s
        let s2 := SPI_SetPrescalerForSlot slot s1
        (0, { s2 with cs_pins := s2.cs_pins.set slot.toNat false, current_cs_slot := slot })
      else if s.current_cs_slot = slot then (0, s)
      else (-1, s)
    | .CS_DISABLE =>
      if s.current_cs_slot = slot then
        (0, { s with cs_pins := s.cs_pins.set slot.toNat true, current_cs_slot := -1 })
      else if s.current_cs_slot = -1 then (0, s)
      else (-1, s)

/-- The busy-wait `while (flag == RESET && timeout--);` of `SPI_DataExchange`.
First argument: how many further polls of the flag read RESET; second argument:
the value of `timeout`.  Result: `timeout` when the loop is left.  A poll that
reads SET leaves the loop with `timeout` untouched; a poll that reads RESET
evaluates `timeout--`, which leaves the loop when the old value is 0 and then
wraps the `uint32_t` to 0xFFFFFFFF. -/
def spi_wait : Nat → Nat → Nat
  | 0, timeout => timeout
  | _ + 1, 0 => 4294967295
  | w + 1, timeout + 1 => spi_wait w timeout

/-- Source function `SPI_DataExchange`: wait for TXE, write `mosi` to the data register, wait for
RXNE, read the data register.  After either wait `timeout == 0` returns 0xFF. -/
def SPI_DataExchange (env : Env) (_slot : Int) (mosi : Nat) (s : Fw) : Nat × Fw :=
  let r := env.spi s.spi_n
  if spi_wait r.txe 100000 = 0 then
    (0xFF, { s with spi_n := s.spi_n + 1, spi_log := s.spi_log ++ [⟨mosi, false, 0xFF⟩] })
  else if spi_wait r.rxne 100000 = 0 then
    (0xFF, { s with spi_n := s.spi_n + 1, spi_log := s.spi_log ++ [⟨mosi, true, 0xFF⟩] })
  else
    (r.data % 256,
      { s with spi_n := s.spi_n + 1, spi_log := s.spi_log ++ [⟨mosi, true, r.data % 256⟩] })

/-! ## 16kanaldijital.c: register transactions -/

/-- Protocol constant `CTRL_BYTE`. -/
def CTRL_BYTE : Nat := 0x59

/-- Protocol constant `NOP_BYTE`. -/
def NOP_BYTE : Nat := 0x0F

/-- Source function `get_address_byte`: `(ba << 6) | (ra << 1) | (rnw & 0x01)` with `ba = 0`,
returned as `uint8_t`. -/
def get_address_byte (ra rnw : Nat) : Nat :=
  (((0 <<< 6) ||| (ra <<< 1)) ||| (rnw &&& 0x01)) % 256

/-- Source function `get_count_byte`: `((count - 1) << 4) | (0x0F & ~(count - 1))` returned as
`uint8_t`.  The C expression is evaluated in `int`; shifting, and, or and
complement commute with truncation to 8 bits, so `count - 1` is taken modulo
256 (`count + 255`) and the complement is `255 - x`. -/
def get_count_byte (count : Nat) : Nat :=
  ((((count + 255) % 256) <<< 4) ||| (0x0F &&& (255 - (count + 255) % 256))) % 256

/-- The data loop of `IO16_WriteRegister`, `for (i = 0; i < count; i++)`: first
argument is `count - i`, second is `i`.  Result `false`: the count echo check at
`i == 0` failed and chip-select was released. -/
def IO16_WriteRegister_data (env : Env) (slot : Nat) (value : List Nat) (count_byte : Nat) :
    Nat → Nat → Fw → Bool × Fw
  | 0, _, s => (true, s)
  | k + 1, i, s =>
    let x := SPI_DataExchange env slot (value.getD i 0) s
    let s1 := UART_SendHex8 x.1 (UART_SendString " Got=0x" (UART_SendHex8 (value.getD i 0)
      (UART_SendString "]=0x" (UART_SendHex8 i (UART_SendString "[SPI-WR] Data[" x.2)))))
    if i = 0 ∧ x.1 ≠ count_byte then
      (false, (SPI_SetCS slot .CS_DISABLE (UART_SendString " COUNT_ECHO_FAIL!\r\n" s1)).2)
    else
      IO16_WriteRegister_data env slot value count_byte k (i + 1) (UART_SendString "\r\n" s1)

/-- Step 5 of `IO16_WriteRegister` ("5. CTRL byte gönder") to its end: exchange
the control byte, check its echo, release chip-select. -/
def IO16_WriteRegister_ctrl (env : Env) (slot : Nat) (s : Fw) : Int × Fw :=
  let x4 := SPI_DataExchange env slot CTRL_BYTE s
  let s := UART_SendHex8 x4.1 (UART_SendString "[SPI-WR] CTRL=0x59 Got=0x" x4.2)
  if x4.1 ≠ CTRL_BYTE then
    (-1, (SPI_SetCS slot .CS_DISABLE (UART_SendString " CTRL_ECHO_FAIL!\r\n" s)).2)
  else
    (0, (SPI_SetCS slot .CS_DISABLE (UART_SendString " OK\r\n[SPI-WR] SUCCESS!\r\n" s)).2)

/-- Step 4 of `IO16_WriteRegister` ("4. Son adres gönder") to its end: exchange
the end address, check that the answer is `value[count - 1]`, go on with step 5. -/
def IO16_WriteRegister_end (env : Env) (slot reg count : Nat) (value : List Nat) (s : Fw) :
    Int × Fw :=
  let end_address := get_address_byte ((reg + count + 255) % 256) 0
  let x3 := SPI_DataExchange env slot end_address s
  let s := UART_SendHex8 x3.1 (UART_SendString " Got=0x"
    (UART_SendHex8 end_address (UART_SendString "[SPI-WR] End_addr=0x" x3.2)))
  if x3.1 ≠ value.getD (count - 1) 0 then
    (-1, (SPI_SetCS slot .CS_DISABLE (UART_SendString " DATA_ECHO_FAIL!\r\n" s)).2)
  else
    IO16_WriteRegister_ctrl env slot (UART_SendString " OK\r\n" s)

/-- Steps 2 and 3 of `IO16_WriteRegister` ("2. Count gönder", "3. Data gönder")
to its end: exchange the count byte, check that the answer is the address byte,
run the data loop, go on with step 4. -/
def IO16_WriteRegister_count (env : Env) (slot reg count : Nat) (value : List Nat) (s : Fw) :
    Int × Fw :=
  let address_byte := get_address_byte reg 0
  let count_byte := get_count_byte count
  let x2 := SPI_DataExchange env slot count_byte s
  let s := UART_SendHex8 x2.1 (UART_SendString " Got=0x"
    (UART_SendHex8 count_byte (UART_SendString "[SPI-WR] Sent count=0x" x2.2)))
  if x2.1 ≠ address_byte then
    (-1, (SPI_SetCS slot .CS_DISABLE (UART_SendString " ADDR_ECHO_FAIL!\r\n" s)).2)
  else
    let d := IO16_WriteRegister_data env slot value count_byte count 0
      (UART_SendString " OK\r\n" s)
    if d.1 = false then (-1, d.2)
    else IO16_WriteRegister_end env slot reg count value d.2

/-- The body of `IO16_WriteRegister(slot, reg, count, value)`: debug header,
chip-select claim, step 1 ("1. Adres gönder"), then steps 2 to 5.  `value` is the
caller's buffer; every call site passes `count = 1`, and `value[count - 1]` is
read with `count ≥ 1`. -/
def IO16_WriteRegister_addr (env : Env) (slot reg count : Nat) (value : List Nat) (s : Fw) :
    Int × Fw :=
  let address_byte := get_address_byte reg 0
  let s := UART_SendString "\r\n" (UART_SendHex8 count (UART_SendString " Count="
    (UART_SendHex8 reg (UART_SendString " Reg=0x" (UART_SendHex8 slot
    (UART_SendString "[SPI-WR] Slot=" s))))))
  let cs := SPI_SetCS slot .CS_ENABLE s
  if cs.1 ≠ 0 then (-1, UART_SendString "[SPI-WR] CS Enable FAILED!\r\n" cs.2)
  else
    let x1 := SPI_DataExchange env slot address_byte cs.2
    IO16_WriteRegister_count env slot reg count value
      (UART_SendString "\r\n" (UART_SendHex8 x1.1 (UART_SendString " Got=0x"
        (UART_SendHex8 address_byte (UART_SendString "[SPI-WR] Sent addr=0x" x1.2)))))

/-- Source function `IO16_WriteRegister(slot, reg, count, value)`: the body above; the call is
entered in `reg_log` with the bytes `value[0..count-1]` and the return code. -/
def IO16_WriteRegister (env : Env) (slot reg count : Nat) (value : List Nat) (s : Fw) :
    Int × Fw :=
  let r := IO16_WriteRegister_addr env slot reg count value s
  (r.1, log_reg (.io16_write slot reg count (value.take count) r.1) r.2)

/-- The data loop of `IO16_ReadRegister`, `for (i = 0; i < count; i++)`:
`value[i] = miso`, then the byte is sent back as echo and `miso` becomes the
answer.  First argument is `count - i`, second is `i`; the result carries the
last `miso` and the buffer. -/
def IO16_ReadRegister_data (env : Env) (slot : Nat) :
    Nat → Nat → Nat → List Nat → Fw → (Nat × List Nat) × Fw
  | 0, _, miso, value, s => ((miso, value), s)
  | k + 1, i, miso, value, s =>
    let value1 := value.set i miso
    let s1 := UART_SendHex8 (value1.getD i 0) (UART_SendString "]=0x" (UART_SendHex8 i
      (UART_SendString "[SPI-RD] Data[" s)))
    let x := SPI_DataExchange env slot miso s1
    let s2 := UART_SendString "\r\n" (UART_SendHex8 x.1 (UART_SendString " Echo got=0x" x.2))
    IO16_ReadRegister_data env slot k (i + 1) x.1 value1 s2

/-- Step 5 of `IO16_ReadRegister` ("5. CTRL byte gönder") to its end; `value` is
the buffer as the data loop left it. -/
def IO16_ReadRegister_ctrl (env : Env) (slot : Nat) (value : List Nat) (s : Fw) :
    (Int × List Nat) × Fw :=
  let x4 := SPI_DataExchange env slot CTRL_BYTE s
  let s := UART_SendHex8 x4.1 (UART_SendString "[SPI-RD] CTRL=0x59 Got=0x" x4.2)
  if x4.1 ≠ CTRL_BYTE then
    ((-1, value), (SPI_SetCS slot .CS_DISABLE (UART_SendString " CTRL_ECHO_FAIL!\r\n" s)).2)
  else
    ((0, value), (SPI_SetCS slot .CS_DISABLE
      (UART_SendString " OK\r\n[SPI-RD] SUCCESS!\r\n" s)).2)

/-- Steps 3 and 4 of `IO16_ReadRegister` ("3. Count gönder", "4. Data oku") to
its end: exchange the count byte, whose answer is the first data byte, run the
data loop, go on with step 5. -/
def IO16_ReadRegister_count (env : Env) (slot count : Nat) (value : List Nat) (s : Fw) :
    (Int × List Nat) × Fw :=
  let count_byte := get_count_byte count
  let x3 := SPI_DataExchange env slot count_byte s
  let s := UART_SendString "\r\n" (UART_SendHex8 x3.1 (UART_SendString " Got=0x"
    (UART_SendHex8 count_byte (UART_SendString "[SPI-RD] Sent count=0x" x3.2))))
  let d := IO16_ReadRegister_data env slot count 0 x3.1 value s
  IO16_ReadRegister_ctrl env slot d.1.2 d.2

/-- Step 2 of `IO16_ReadRegister` ("2. NOP gönder") to its end: exchange the
no-op byte, check that the answer is the address byte, go on with step 3. -/
def IO16_ReadRegister_nop (env : Env) (slot reg count : Nat) (value : List Nat) (s : Fw) :
    (Int × List Nat) × Fw :=
  let address_byte := get_address_byte reg 1
  let x2 := SPI_DataExchange env slot NOP_BYTE s
  let s := UART_SendHex8 x2.1 (UART_SendString "[SPI-RD] Sent NOP=0x0F Got=0x" x2.2)
  if x2.1 ≠ address_byte then
    ((-1, value), (SPI_SetCS slot .CS_DISABLE (UART_SendString " ADDR_ECHO_FAIL!\r\n" s)).2)
  else
    IO16_ReadRegister_count env slot count value (UART_SendString " OK\r\n" s)

/-- The body of `IO16_ReadRegister(slot, reg, count, value)`: debug header,
chip-select claim, step 1 ("1. Adres gönder"), then steps 2 to 5.  The result
carries the return code and the caller's buffer `value` after the call. -/
def IO16_ReadRegister_addr (env : Env) (slot reg count : Nat) (value : List Nat) (s : Fw) :
    (Int × List Nat) × Fw :=
  let address_byte := get_address_byte reg 1
  let s := UART_SendString "\r\n" (UART_SendHex8 count (UART_SendString " Count="
    (UART_SendHex8 reg (UART_SendString " Reg=0x" (UART_SendHex8 slot
    (UART_SendString "[SPI-RD] Slot=" s))))))
  let cs := SPI_SetCS slot .CS_ENABLE s
  if cs.1 ≠ 0 then ((-1, value), UART_SendString "[SPI-RD] CS Enable FAILED!\r\n" cs.2)
  else
    let x1 := SPI_DataExchange env slot address_byte cs.2
    IO16_ReadRegister_nop env slot reg count value
      (UART_SendString "\r\n" (UART_SendHex8 x1.1 (UART_SendString " Got=0x"
        (UART_SendHex8 address_byte (UART_SendString "[SPI-RD] Sent addr=0x" x1.2)))))

/-- Source function `IO16_ReadRegister(slot, reg, count, value)`: the body above; the call is
entered in `reg_log` with the return code and the buffer after the call. -/
def IO16_ReadRegister (env : Env) (slot reg count : Nat) (value : List Nat) (s : Fw) :
    (Int × List Nat) × Fw :=
  let r := IO16_ReadRegister_addr env slot reg count value s
  (r.1, log_reg (.io16_read slot reg count r.1.1 r.1.2) r.2)

/-- The byte a call of `SPI_DataExchange` returns when the peripheral answers
`r`: 0xFF on either time-out path, else the received byte. -/
def miso_of (r : SpiResp) : Nat :=
  if spi_wait r.txe 100000 = 0 then 0xFF
  else if spi_wait r.rxne 100000 = 0 then 0xFF
  else r.data % 256

/-- Whether a call of `SPI_DataExchange` writes its byte to the data register
when the peripheral answers `r`. -/
def wired_of (r : SpiResp) : Bool :=
  !(spi_wait r.txe 100000 == 0)

/-- The `mosi` arguments of the `SPI_DataExchange` calls recorded in a state, in
call order. -/
def mosi_bytes (s : Fw) : List Nat :=
  s.spi_log.map Xfer.mosi

/-- The complete byte sequence of a write transaction as the driver computes it:
address byte, count byte, `value[0..count-1]`, end-address byte, control byte. -/
def write_frame (reg count : Nat) (value : List Nat) : List Nat :=
  [get_address_byte reg 0, get_count_byte count] ++
    (List.range count).map (fun j => value.getD j 0) ++
    [get_address_byte ((reg + count + 255) % 256) 0, CTRL_BYTE]

/-- The bytes the data loop of `IO16_ReadRegister` stores and echoes: `k` bytes,
first `miso`, then the answers to the echoes, read from exchange number `b` on. -/
def read_bytes (env : Env) : Nat → Nat → Nat → List Nat
  | 0, _, _ => []
  | k + 1, miso, b => miso :: read_bytes env k (miso_of (env.spi b)) (b + 1)

/-! ## modul_algilama.c: CRC8 -/

/-- One pass of the inner loop of `crc8` on the pair `(crc, inbyte)`:
`mix = (crc ^ inbyte) & 0x01; crc >>= 1; if (mix) crc ^= 0x8C; inbyte >>= 1`. -/
def crc8_bit (p : Nat × Nat) : Nat × Nat :=
  let mix := (p.1 ^^^ p.2) &&& 0x01
  let crc := p.1 >>> 1
  (if mix ≠ 0 then crc ^^^ 0x8C else crc, p.2 >>> 1)

/-- The inner loop of `crc8`, `for (j = 0; j < 8; j++)`, for one input byte. -/
def crc8_byte (crc inbyte : Nat) : Nat :=
  (crc8_bit^[8] (crc, inbyte)).1

/-- Source function `crc8(data, len)`: starting from 0, the bytes `data[0..len-1]` are fed in
order. -/
def crc8 (data : List Nat) (len : Nat) : Nat :=
  (data.take len).foldl crc8_byte 0

/-- The CRC check at the end of `read_module_uid`: `crc8(uid, 7) == uid[7]`. -/
def uid_crc_ok (uid : List Nat) : Bool :=
  crc8 uid 7 == uid.getD 7 0

/-- The ROM body with bit `i` flipped: bit `i % 8` of byte `i / 8` (the order in
which the bits travel on the single-wire line, least significant bit first). -/
def flip_bit (b : List Nat) (i : Nat) : List Nat :=
  b.set (i / 8) (b.getD (i / 8) 0 ^^^ (1 <<< (i % 8)))

/-- The shift register step behind `crc8_bit`, on `x = crc ^ inbyte`. -/
def crc8_shift (x : Nat) : Nat :=
  (x >>> 1) ^^^ (if x &&& 0x01 ≠ 0 then 0x8C else 0)

/-- Inverse of `crc8_shift` on bytes: bit 7 of the result tells whether 0x8C was
folded in. -/
def crc8_unshift (y : Nat) : Nat :=
  if y &&& 0x80 ≠ 0 then ((y ^^^ 0x8C) <<< 1) ||| 1 else y <<< 1

/-! ## 16kanaldijital.c: registration and chip initialisation -/

/-- Source function `IO16_Register`: a fresh entry at index `io16_module_count`, if the slot is
below 4 and the registry is not full. -/
def IO16_Register (slot : Nat) (s : Fw) : Fw :=
  if slot < 4 ∧ s.io16_modules.length < 4 then
    { s with io16_modules := s.io16_modules ++ [⟨slot, 0, 0, 0x0000⟩] }
  else s

/-- Source function `IO16_GetChipInfo`: read the INFO register 0x1D into `info` (initially 0xFF)
and report. -/
def IO16_GetChipInfo (env : Env) (slot : Nat) (s : Fw) : Nat × Fw :=
  let r := IO16_ReadRegister env slot 0x1D 1 [0xFF] s
  let info := r.1.2.getD 0 0
  if r.1.1 = 0 then
    let s := r.2 |> UART_SendString "[CHIP-INFO] iC-JX INFO Register = 0x" |> UART_SendHex8 info
      |> UART_SendString "\r\n"
    if info = 0x00 then
      (info, UART_SendString "[CHIP-INFO] WARNING: Chip not responding!\r\n" s)
    else if info = 0xFF then
      (info, UART_SendString "[CHIP-INFO] WARNING: No chip or bus error!\r\n" s)
    else
      (info, UART_SendString "[CHIP-INFO] iC-JX chip detected and responding!\r\n" s)
  else
    (info, UART_SendString "[CHIP-INFO] ERROR: Cannot read INFO register!\r\n" r.2)

/-- The pin report loop of `IO16_CheckOvercurrent`, `for (i = 0; i < 16; i++)`. -/
def IO16_CheckOvercurrent_pins (overcurrent : Nat) (s : Fw) : Fw :=
  (List.range 16).foldl (fun s i =>
    if overcurrent &&& (1 <<< i) ≠ 0 then
      s |> UART_SendString "[OVERCURRENT] Pin " |> UART_SendHex8 i
        |> UART_SendString " has overcurrent!\r\n"
    else s) s

/-- Source function `IO16_CheckOvercurrent`: read both overcurrent status registers (0x08,
0x09), report set bits, write them back to clear. -/
def IO16_CheckOvercurrent (env : Env) (slot : Nat) (s : Fw) : Nat × Fw :=
  let ra := IO16_ReadRegister env slot 0x08 1 [0] s
  let over_a := ra.1.2.getD 0 0
  let rb := IO16_ReadRegister env slot 0x09 1 [0] ra.2
  let over_b := rb.1.2.getD 0 0
  let overcurrent := ((over_b <<< 8) ||| over_a) % 65536
  if overcurrent ≠ 0 then
    let s := rb.2 |> UART_SendString "[OVERCURRENT] DETECTED on pins: 0x"
      |> UART_SendHex16 overcurrent |> UART_SendString "\r\n"
      |> IO16_CheckOvercurrent_pins overcurrent
    let s := (IO16_WriteRegister env slot 0x08 1 [over_a] s).2
    let s := (IO16_WriteRegister env slot 0x09 1 [over_b] s).2
    (overcurrent, UART_SendString "[OVERCURRENT] Status cleared.\r\n" s)
  else
    (overcurrent, UART_SendString "[OVERCURRENT] No overcurrent detected - OK!\r\n" rb.2)

/-- Step 9 of `IO16_ChipInit` to its end: overcurrent check, closing banner;
returns 0. -/
def IO16_ChipInit_step9 (env : Env) (slot : Nat) (s : Fw) : Int × Fw :=
  let s := UART_SendString "[iC-JX-INIT] Step 9: Checking for overcurrent...\r\n" s
  let s := (IO16_CheckOvercurrent env slot s).2
  (0, s |> UART_SendString "====================================\r\n"
    |> UART_SendString "[iC-JX-INIT] Chip ready for operation!\r\n"
    |> UART_SendString "====================================\r\n\r\n")

/-- Step 8 of `IO16_ChipInit` to its end: read-back of the input registers 0x00
and 0x01 with `test_a = 0xAA`, `test_b = 0xBB`, then step 9. -/
def IO16_ChipInit_step8 (env : Env) (slot : Nat) (s : Fw) : Int × Fw :=
  let s := s |> UART_SendString "[iC-JX-INIT] Direction will be set by IO16_SetPin() commands\r\n"
    |> UART_SendString "[iC-JX-INIT] Step 8: Verifying chip response...\r\n"
  let ra := IO16_ReadRegister env slot 0x00 1 [0xAA] s
  let s := if ra.1.1 = 0 then
      ra.2 |> UART_SendString "[iC-JX-INIT] INPUT_A = 0x" |> UART_SendHex8 (ra.1.2.getD 0 0)
        |> UART_SendString "\r\n"
    else ra.2
  let rb := IO16_ReadRegister env slot 0x01 1 [0xBB] s
  let s := if rb.1.1 = 0 then
      rb.2 |> UART_SendString "[iC-JX-INIT] INPUT_B = 0x" |> UART_SendHex8 (rb.1.2.getD 0 0)
        |> UART_SendString "\r\n"
    else rb.2
  IO16_ChipInit_step9 env slot s

/-- Step 5 of `IO16_ChipInit` to its end: input-change interrupts (0xFF to 0x10
and 0x11), then step 8.  `ret |= ...` is modelled by the disjunction of the two
failures. -/
def IO16_ChipInit_step5 (env : Env) (slot : Nat) (s : Fw) : Int × Fw :=
  let s := UART_SendString "[iC-JX-INIT] Step 5: Enabling input change interrupts...\r\n" s
  let wa := IO16_WriteRegister env slot 0x10 1 [0xFF] s
  let wb := IO16_WriteRegister env slot 0x11 1 [0xFF] wa.2
  let s := if wa.1 ≠ 0 ∨ wb.1 ≠ 0 then
      UART_SendString "[iC-JX-INIT] WARNING: Input change IRQ enable failed\r\n" wb.2
    else UART_SendString "[iC-JX-INIT] Input change IRQ enabled - OK!\r\n" wb.2
  IO16_ChipInit_step8 env slot s

/-- Step 4 of `IO16_ChipInit` to its end: interrupt reset (0x80 to 0x1A), then
step 5. -/
def IO16_ChipInit_step4 (env : Env) (slot : Nat) (s : Fw) : Int × Fw :=
  let s := UART_SendString "[iC-JX-INIT] Step 4: Resetting interrupt state (EOI)...\r\n" s
  let w := IO16_WriteRegister env slot 0x1A 1 [0x80] s
  let s := if w.1 ≠ 0 then UART_SendString "[iC-JX-INIT] WARNING: IRQ reset failed\r\n" w.2
    else UART_SendString "[iC-JX-INIT] IRQ reset - OK!\r\n" w.2
  IO16_ChipInit_step5 env slot s

/-- Step 3 of `IO16_ChipInit` to its end, after the clock has been enabled:
filter bypass (0x88 to 0x14 and 0x15), then step 4. -/
def IO16_ChipInit_step3 (env : Env) (slot : Nat) (s : Fw) : Int × Fw :=
  let s := s |> UART_SendString "[iC-JX-INIT] Clock enabled - OK!\r\n"
    |> UART_SendString "[iC-JX-INIT] Step 3: Enabling IO filter bypass (0x88)...\r\n"
  let w := IO16_WriteRegister env slot 0x14 1 [0x88] s
  let s := if w.1 ≠ 0 then
      UART_SendString "[iC-JX-INIT] WARNING: CONTROLWORD_1A bypass failed\r\n" w.2
    else w.2
  let w := IO16_WriteRegister env slot 0x15 1 [0x88] s
  let s := if w.1 ≠ 0 then
      UART_SendString "[iC-JX-INIT] WARNING: CONTROLWORD_1B bypass failed\r\n" w.2
    else UART_SendString "[iC-JX-INIT] Filter bypass enabled - OK!\r\n" w.2
  IO16_ChipInit_step4 env slot s

/-- Source function `IO16_ChipInit`: banner, step 0 (chip INFO), step 1 (0x00 to the four
interrupt-enable registers 0x10..0x13, results ignored), step 2 (0x05 to
CONTROLWORD_3B 0x19; its failure is returned), then step 3 and what follows. -/
def IO16_ChipInit (env : Env) (slot : Nat) (s : Fw) : Int × Fw :=
  let s := s |> UART_SendString "\r\n"
    |> UART_SendString "====================================\r\n"
    |> UART_SendString "[iC-JX-INIT] Slot " |> UART_SendHex8 slot
    |> UART_SendString " - Initializing iC-JX chip...\r\n"
    |> UART_SendString "====================================\r\n"
    |> UART_SendString "[iC-JX-INIT] Step 0: Reading chip INFO...\r\n"
  let ci := IO16_GetChipInfo env slot s
  let s := if ci.1 = 0x00 ∨ ci.1 = 0xFF then
      ci.2 |> UART_SendString "[iC-JX-INIT] WARNING: Chip may not be present or not responding!\r\n"
        |> UART_SendString "[iC-JX-INIT] Continuing with init anyway...\r\n"
    else ci.2
  let s := UART_SendString "[iC-JX-INIT] Step 1: Disabling all interrupts...\r\n" s
  let s := (IO16_WriteRegister env slot 0x10 1 [0x00] s).2
  let s := (IO16_WriteRegister env slot 0x11 1 [0x00] s).2
  let s := (IO16_WriteRegister env slot 0x12 1 [0x00] s).2
  let s := (IO16_WriteRegister env slot 0x13 1 [0x00] s).2
  let s := s |> UART_SendString "[iC-JX-INIT] Interrupts disabled - OK!\r\n"
    |> UART_SendString "[iC-JX-INIT] Step 2: Enabling internal clock (0x05)...\r\n"
  let w := IO16_WriteRegister env slot 0x19 1 [0x05] s
  if w.1 ≠ 0 then (w.1, UART_SendString "[iC-JX-INIT] ERROR: Clock enable FAILED!\r\n" w.2)
  else IO16_ChipInit_step3 env slot w.2

/-! ## 20kanalanalogio.c, fpga.c: registration -/

/-- Source function `AIO20_Register`: a fresh entry at index `aio20_module_count` with all ADC
values, DAC values and port modes 0.  `afe_types` is not written; the static
array starts zeroed (`AFE_TYPE_NONE`). -/
def AIO20_Register (slot : Nat) (s : Fw) : Fw :=
  if slot < 4 ∧ s.aio20_modules.length < 4 then
    { s with aio20_modules := s.aio20_modules ++
        [⟨slot, List.replicate 20 0, List.replicate 20 0, List.replicate 20 0,
          List.replicate 4 0⟩] }
  else s

/-- Source function `FPGA_Register`: a fresh entry with a zeroed register file, and a message
(its letter u-umlaut goes out as the two bytes 0xC3 0xBC). -/
def FPGA_Register (slot : Nat) (s : Fw) : Fw :=
  if slot < 4 ∧ s.fpga_modules.length < 4 then
    { s with fpga_modules := s.fpga_modules ++ [⟨slot, false, List.replicate 256 0⟩] }
      |> UART_SendString "FPGA mod\xc3\xbcl kaydedildi: Slot " |> UART_SendHex8 slot
      |> UART_SendString "\r\n"
  else s

/-! ## modul_algilama.c: single-wire bus -/

/-- Source function `onewire_reset`: sample the line (`bus_before`), reset pulse, sample twice
(`bus_after`, then `presence`, 1 when the line reads LOW), report. -/
def onewire_reset (env : Env) (module : Int) (s : Fw) : Nat × Fw :=
  let bus_before := if env.idr s.ow_n then 1 else 0
  let bus_after := if env.idr (s.ow_n + 1) then 1 else 0
  let presence := if env.idr (s.ow_n + 2) then 0 else 1
  let s := { s with ow_n := s.ow_n + 3, ow_log := s.ow_log ++ [OwEv.reset module] }
  (presence, s |> UART_SendString " [BUS:before=" |> UART_SendHex8 bus_before
    |> UART_SendString ",after=" |> UART_SendHex8 bus_after
    |> UART_SendString ",presence=" |> UART_SendHex8 presence |> UART_SendString "]")

/-- Source function `onewire_write_bit`: a short LOW pulse for 1, a long one for 0. -/
def onewire_write_bit (module : Int) (bit : Nat) (s : Fw) : Fw :=
  { s with ow_log := s.ow_log ++ [OwEv.write_bit module (if bit ≠ 0 then 1 else 0)] }

/-- Source function `onewire_read_bit`: short LOW pulse, release, one sample of the line. -/
def onewire_read_bit (env : Env) (module : Int) (s : Fw) : Nat × Fw :=
  (if env.idr s.ow_n then 1 else 0,
    { s with ow_n := s.ow_n + 1, ow_log := s.ow_log ++ [OwEv.read_bit module] })

/-- Source function `onewire_write_byte`: bits `(byte >> i) & 1` for `i = 0..7`. -/
def onewire_write_byte (module : Int) (byte : Nat) (s : Fw) : Fw :=
  (List.range 8).foldl (fun s i => onewire_write_bit module ((byte >>> i) &&& 0x01) s) s

/-- Source function `onewire_read_byte`: `byte |= 1 << i` for every bit `i = 0..7` read as 1. -/
def onewire_read_byte (env : Env) (module : Int) (s : Fw) : Nat × Fw :=
  (List.range 8).foldl (fun (p : Nat × Fw) i =>
    let b := onewire_read_bit env module p.2
    (if b.1 ≠ 0 then p.1 ||| (1 <<< i) else p.1, b.2)) (0, s)

/-- The loop `for (i = 0; i < n; i++) buf[i] = onewire_read_byte(module)`: first
argument is `n - i`, second is `i`. -/
def onewire_read_into (env : Env) (module : Int) : Nat → Nat → List Nat → Fw → List Nat × Fw
  | 0, _, buf, s => (buf, s)
  | k + 1, i, buf, s =>
    let b := onewire_read_byte env module s
    onewire_read_into env module k (i + 1) (buf.set i b.1) b.2

/-- The loop `for (i = 0; i < 8; i++) { UART_SendHex8(buf[i]); UART_SendString(" "); }`. -/
def UART_SendHexRow (buf : List Nat) (s : Fw) : Fw :=
  (List.range 8).foldl (fun s i => s |> UART_SendHex8 (buf.getD i 0) |> UART_SendString " ") s

/-- Source function `read_module_uid(module, uid)`: reset; without presence return 0; else READ
ROM (0x33), eight bytes into `uid`, CRC check.  The result carries the return
value and the buffer `uid` after the call. -/
def read_module_uid (env : Env) (module : Int) (uid : List Nat) (s : Fw) :
    (Nat × List Nat) × Fw :=
  let p := onewire_reset env module s
  let s := p.2 |> UART_SendString " [RESET:"
    |> UART_SendString (if p.1 ≠ 0 then "OK" else "NO_DEVICE") |> UART_SendString "]"
  if p.1 = 0 then ((0, uid), s)
  else
    let s := onewire_write_byte module 0x33 s
    let r := onewire_read_into env module 8 0 uid s
    let s := r.2 |> UART_SendString " RAW:" |> UART_SendHexRow r.1
    let crc := crc8 r.1 7
    let s := s |> UART_SendString "CRC:calc=" |> UART_SendHex8 crc
      |> UART_SendString " read=" |> UART_SendHex8 (r.1.getD 7 0)
    ((if uid_crc_ok r.1 then 1 else 0, r.1), s)

/-- Source function `read_module_memory(module, addr, data, len)`: reset; without presence return
0; else SKIP ROM (0xCC), READ MEMORY (0xF0), address low and high byte, `len`
bytes into `data`, reset.  The result carries the return value and the buffer. -/
def read_module_memory (env : Env) (module : Int) (addr : Nat) (data : List Nat) (len : Nat)
    (s : Fw) : (Nat × List Nat) × Fw :=
  let p := onewire_reset env module s
  if p.1 = 0 then ((0, data), p.2)
  else
    let s := p.2 |> onewire_write_byte module 0xCC |> onewire_write_byte module 0xF0
      |> onewire_write_byte module addr |> onewire_write_byte module 0x00
    let r := onewire_read_into env module len 0 data s
    ((1, r.1), (onewire_reset env module r.2).2)

/-! ## modul_algilama.c: classification and discovery scan -/

/-- Source function `get_module_type(hid, fid)`: the description string chosen from the first
characters of `fid`; letters are accepted in either case.  `hid` is not used. -/
def get_module_type (_hid fid : List Nat) : String :=
  let f := fun k => fid.getD k 0
  let is := fun (k : Nat) (lo up : Char) => f k = lo.toNat ∨ f k = up.toNat
  if is 0 'i' 'I' ∧ is 1 'o' 'O' ∧ f 2 = '1'.toNat ∧ f 3 = '6'.toNat then
    "IO16 - 16 Channel Digital I/O"
  else if is 0 'a' 'A' ∧ is 1 'i' 'I' ∧ is 2 'o' 'O' ∧ f 3 = '2'.toNat ∧ f 4 = '0'.toNat then
    "AIO20 - 20 Channel Analog I/O"
  else if is 0 'f' 'F' ∧ is 1 'p' 'P' ∧ is 2 'g' 'G' ∧ is 3 'a' 'A' then
    "FPGA - FPGA Extension Module"
  else if is 0 'i' 'I' ∧ f 1 = '8'.toNat then "I8 - 8 Channel Digital Input"
  else if is 0 'o' 'O' ∧ f 1 = '8'.toNat then "O8 - 8 Channel Digital Output"
  else if is 0 'a' 'A' ∧ is 1 'i' 'I' ∧ f 2 = '8'.toNat then "AI8 - 8 Channel Analog Input"
  else if is 0 'g' 'G' ∧ is 1 's' 'S' ∧ is 2 'm' 'M' then "GSM - GSM/GPRS Module"
  else if is 0 'c' 'C' ∧ is 1 'a' 'A' ∧ is 2 'n' 'N' then "CAN - CAN Bus Interface"
  else if is 0 'r' 'R' ∧ is 1 's' 'S' ∧ f 2 = '4'.toNat ∧ f 3 = '8'.toNat ∧ f 4 = '5'.toNat then
    "RS485 - RS485 Serial Interface"
  else if is 0 'r' 'R' ∧ is 1 's' 'S' ∧ f 2 = '2'.toNat ∧ f 3 = '3'.toNat ∧ f 4 = '2'.toNat then
    "RS232 - RS232 Serial Interface"
  else if is 0 'o' 'O' ∧ is 1 'n' 'N' ∧ is 2 'e' 'E' then "ONEWIRE - 1-Wire Interface"
  else if is 0 'c' 'C' ∧ is 1 'o' 'O' ∧ is 2 'u' 'U' ∧ is 3 'n' 'N' then
    "COUNTER8 - 8 Channel Counter"
  else if is 0 'g' 'G' ∧ is 1 'p' 'P' ∧ is 2 's' 'S' then "GPS - GPS/GNSS Module"
  else if is 0 'l' 'L' ∧ is 1 'o' 'O' ∧ is 2 'r' 'R' ∧ is 3 'a' 'A' then
    "LORA - LoRa Communication"
  else if is 0 'p' 'P' ∧ is 1 'w' 'W' ∧ is 2 'm' 'M' then "PWM - PWM Motor Controller"
  else if is 0 's' 'S' ∧ is 1 'l' 'L' ∧ is 2 'c' 'C' ∧ is 3 'd' 'D' then
    "SLCD - Segment LCD Display"
  else if is 0 'd' 'D' ∧ is 1 'e' 'E' ∧ is 2 'm' 'M' ∧ is 3 'o' 'O' then
    "DEMO - Demo/Test Module"
  else if f 0 = 0xAA ∨ f 0 = 0x55 ∨ f 0 = 0xFF ∨ f 0 = 0x00 then
    "EMPTY - No Module or Test Pattern"
  else "UNKNOWN - Unrecognized Module"

/-- The test `strncmp(a, b, n) == 0` of the C library on byte strings: the first
`n` characters agree, or the strings agree up to a common NUL before that. -/
def strncmp_eq : List Nat → List Nat → Nat → Bool
  | _, _, 0 => true
  | a, b, n + 1 =>
    if a.headD 0 ≠ b.headD 0 then false
    else if a.headD 0 = 0 then true
    else strncmp_eq a.tail b.tail n

/-- A C string literal as the bytes of its characters, NUL-terminated. -/
def c_str (lit : String) : List Nat :=
  lit.toList.map Char.toNat ++ [0]

/-- The three local buffers of `scan_modules`, which live across the slot loop. -/
structure ScanBufs where
  uid : List Nat
  hid : List Nat
  fid : List Nat
deriving DecidableEq, Repr

/-- Source function `USART_SendData(USART1, c)` for one byte. -/
def USART_SendData (c : Nat) (s : Fw) : Fw :=
  { s with uart := s.uart ++ [Char.ofNat c] }

/-- The NAME loop of `scan_modules`: printable bytes are sent, a NUL ends the
loop, other bytes are skipped. -/
def scan_name : List Nat → Fw → Fw
  | [], s => s
  | c :: cs, s =>
    if 0x20 ≤ c ∧ c ≤ 0x7E then scan_name cs (USART_SendData c s)
    else if c = 0x00 then s
    else scan_name cs s

/-- The HID_ASCII loop of `scan_modules`: printable bytes are sent, a NUL ends
the loop, other bytes give a dot. -/
def scan_hid_ascii : List Nat → Fw → Fw
  | [], s => s
  | c :: cs, s =>
    if 0x20 ≤ c ∧ c ≤ 0x7E then scan_hid_ascii cs (USART_SendData c s)
    else if c = 0x00 then s
    else scan_hid_ascii cs (UART_SendString "." s)

/-- The retry loop of `scan_modules`,
`while (init_status != 0 && tries < 100) { init_status = IO16_ChipInit(slot); tries++; }`.
The first argument bounds the number of passes; 100 is never exceeded. -/
def scan_init_retry (env : Env) (slot : Nat) : Nat → Int → Nat → Fw → (Int × Nat) × Fw
  | 0, init_status, tries, s => ((init_status, tries), s)
  | fuel + 1, init_status, tries, s =>
    if init_status ≠ 0 ∧ tries < 100 then
      let r := IO16_ChipInit env slot s
      scan_init_retry env slot fuel r.1 (tries + 1) r.2
    else ((init_status, tries), s)

/-- The part of the slot loop of `scan_modules` that registers the module with
its handler ("Register module to its handler"). -/
def scan_register (env : Env) (slot : Nat) (b : ScanBufs) (s : Fw) : Fw :=
  if strncmp_eq b.fid (c_str "io16") 4 ∨ strncmp_eq b.hid (c_str "io16") 4 then
    let s := IO16_Register slot s |> UART_SendString "  [REGISTERED] IO16 module at slot "
      |> UART_SendHex8 slot |> UART_SendString "\r\n"
      |> UART_SendString "  [INIT] Initializing IO678 chip (with retry)...\r\n"
    let r := scan_init_retry env slot 100 (-1) 0 s
    if r.1.1 = 0 then
      r.2 |> UART_SendString "  [SUCCESS] IO16 chip initialized after " |> UART_SendHex8 r.1.2
        |> UART_SendString " tries!\r\n"
    else
      UART_SendString "  [ERROR] IO16 chip initialization FAILED after 100 tries!\r\n" r.2
  else if strncmp_eq b.fid (c_str "aio20") 5 ∨ strncmp_eq b.hid (c_str "aio20") 5 then
    AIO20_Register slot s |> UART_SendString "  [REGISTERED] AIO20 module at slot "
      |> UART_SendHex8 slot |> UART_SendString "\r\n"
  else if strncmp_eq b.fid (c_str "fpga") 4 ∨ strncmp_eq b.hid (c_str "fpga") 4 then
    FPGA_Register slot s |> UART_SendString "  [REGISTERED] FPGA module at slot "
      |> UART_SendHex8 slot |> UART_SendString "\r\n"
  else s

/-- The part of the slot loop of `scan_modules` that runs when `read_module_uid`
has returned 1, up to the CON line: UID report, the two memory block reads
(hardware-id at 0x00 into `hid`, firmware-id at 0x08 into `fid`), TYPE, NAME,
HID_ASCII, CON. -/
def scan_identify (env : Env) (slot : Nat) (b : ScanBufs) (s : Fw) : ScanBufs × Fw :=
  let s := s |> UART_SendString " -> FOUND!\r\n" |> UART_SendString "  UID: "
    |> UART_SendHexRow b.uid |> UART_SendString "(Family: " |> UART_SendHex8 (b.uid.getD 0 0)
    |> UART_SendString (if b.uid.getD 0 0 = 0x2B then "=DS2431"
        else if b.uid.getD 0 0 = 0x0D then "=Unknown-0D" else "=Unknown")
    |> UART_SendString ")\r\n"
  let h := read_module_memory env slot 0x00 b.hid 8 s
  let s := if h.1.1 ≠ 0 then
      h.2 |> UART_SendString "  HID: " |> UART_SendHexRow h.1.2 |> UART_SendString "\r\n"
    else UART_SendString "  HID: Read FAILED\r\n" h.2
  let f := read_module_memory env slot 0x08 b.fid 8 s
  let s := if f.1.1 ≠ 0 then
      f.2 |> UART_SendString "  FID: " |> UART_SendHexRow f.1.2 |> UART_SendString "\r\n"
    else UART_SendString "  FID: Read FAILED\r\n" f.2
  let s := s |> UART_SendString "  TYPE: " |> UART_SendString (get_module_type h.1.2 f.1.2)
    |> UART_SendString "\r\n" |> UART_SendString "  NAME: " |> scan_name (f.1.2.take 8)
    |> UART_SendString "\r\n" |> UART_SendString "  HID_ASCII: "
    |> scan_hid_ascii (h.1.2.take 8) |> UART_SendString "\r\n"
    |> UART_SendString "  CON: CON" |> UART_SendHex8 slot |> UART_SendString " (Connector "
    |> UART_SendHex8 slot |> UART_SendString ")\r\n"
  (⟨b.uid, h.1.2, f.1.2⟩, s)

/-- The first lines of the slot loop of `scan_modules`: "Slot nn (PCx):". -/
def scan_slot_header (slot : Nat) (s : Fw) : Fw :=
  s |> UART_SendString "Slot " |> UART_SendHex8 slot |> UART_SendString " (PC"
    |> UART_SendString (if slot = 0 then "2" else if slot = 1 then "0"
        else if slot = 2 then "3" else "1")
    |> UART_SendString "):"

/-- One pass of the slot loop of `scan_modules`. -/
def scan_slot (env : Env) (slot : Nat) (p : ScanBufs × Fw) : ScanBufs × Fw :=
  let r := read_module_uid env slot p.1.uid (scan_slot_header slot p.2)
  if r.1.1 ≠ 0 then
    let i := scan_identify env slot ⟨r.1.2, p.1.hid, p.1.fid⟩ r.2
    (i.1, scan_register env slot i.1 i.2 |> UART_SendString "\r\n")
  else
    (⟨r.1.2, p.1.hid, p.1.fid⟩, UART_SendString " -> EMPTY\r\n\r\n" r.2)

/-- The banner of `scan_modules`, with the four bytes of the DWT control
register. -/
def scan_banner (env : Env) (s : Fw) : Fw :=
  s |> UART_SendString "\r\n========================================\r\n"
    |> UART_SendString "  BURJUVA MODULE DETECTION\r\n"
    |> UART_SendString "========================================\r\n"
    |> UART_SendString "Protocol: 1-Wire OVERDRIVE SPEED\r\n"
    |> UART_SendString "Reset Pulse: 70us (Overdrive)\r\n"
    |> UART_SendString "Slots: PC2(0), PC0(1), PC3(2), PC1(3)\r\n"
    |> UART_SendString "Clock: 72MHz (HSE + PLL)\r\n"
    |> UART_SendString "DWT: 72 cycles/us\r\n"
    |> UART_SendString "========================================\r\n\r\n"
    |> UART_SendString "DWT_CTRL: " |> UART_SendHex8 ((env.dwt_ctrl >>> 0) &&& 0xFF)
    |> UART_SendString " " |> UART_SendHex8 ((env.dwt_ctrl >>> 8) &&& 0xFF)
    |> UART_SendString " " |> UART_SendHex8 ((env.dwt_ctrl >>> 16) &&& 0xFF)
    |> UART_SendString " " |> UART_SendHex8 ((env.dwt_ctrl >>> 24) &&& 0xFF)
    |> UART_SendString "\r\n\r\n"

/-- Source function `scan_modules`: banner, the slot loop `for (slot = 0; slot < 4; slot++)`,
closing lines.  `bufs` is what the three uninitialised local buffers hold on
entry. -/
def scan_modules (env : Env) (bufs : ScanBufs) (s : Fw) : Fw :=
  (scan_slot env 3 (scan_slot env 2 (scan_slot env 1 (scan_slot env 0
      (bufs, scan_banner env s))))).2
    |> UART_SendString "========================================\r\n"
    |> UART_SendString "Scan Complete!\r\n"
    |> UART_SendString "========================================\r\n\r\n"

/-- Source function `Modul_Komut_Isle`: the handler of the command "modul-algila". -/
def Modul_Komut_Isle (env : Env) (bufs : ScanBufs) (s : Fw) : Fw :=
  scan_modules env bufs s |> UART_SendString "Komut tamamlandi: modul-algila\r\n\r\n"

/-- The line samples that make the firmware read `bytes`: eight per byte, least
significant bit first, HIGH for 1. -/
def ow_bits (bytes : List Nat) : List Bool :=
  bytes.flatMap (fun b => (List.range 8).map (fun i => b.testBit i))

/-- Line samples of one reset with a presence pulse: HIGH before the pulse, LOW
at both samples after it. -/
def ow_present : List Bool := [true, false, false]

/-- Line samples of a slot that answers with ROM code `uid`, hardware-id `hid`
and firmware-id `fid` during one pass of the slot loop: the reset of
`read_module_uid` and the ROM code, then for each memory block a reset, the
block and the closing reset. -/
def ow_module (uid hid fid : List Nat) : List Bool :=
  ow_present ++ ow_bits uid ++ ow_present ++ ow_bits hid ++ ow_present ++
    ow_present ++ ow_bits fid ++ ow_present

/-- The state with the record of sent characters erased: what a function did
apart from talking on the UART. -/
def no_uart (s : Fw) : Fw :=
  { s with uart := [] }

/-- The byte that `onewire_read_byte` assembles from the eight line samples
number `n`, `n + 1`, ..., `n + 7`. -/
def ow_byte_at (env : Env) (n : Nat) : Nat :=
  (List.range 8).foldl (fun b i => if env.idr (n + i) then b ||| (1 <<< i) else b) 0

/-- The `k` bytes read from line sample number `n` on. -/
def ow_bytes_at (env : Env) (n k : Nat) : List Nat :=
  (List.range k).map (fun j => ow_byte_at env (n + 8 * j))

/-- The three driver registries of a state. -/
def registries (s : Fw) : List IO16_Module × List AIO20_Module × List FPGA_Module :=
  (s.io16_modules, s.aio20_modules, s.fpga_modules)

/-! ## 16kanaldijital.c: pin functions -/

/-- The search loop of `IO16_GetModule`, `for (i = 0; i < io16_module_count; i++)`:
first argument is the part of the registry from index `i` on, second is `i`. -/
def IO16_GetModule_from : List IO16_Module → Nat → Nat → Option Nat
  | [], _, _ => none
  | md :: rest, i, slot => if md.slot = slot then some i else IO16_GetModule_from rest (i + 1) slot

/-- Source function `IO16_GetModule(slot)`: the first registry entry whose slot is `slot`.  The
pointer is the index of the entry; `none` is NULL. -/
def IO16_GetModule (slot : Nat) (s : Fw) : Option Nat :=
  IO16_GetModule_from s.io16_modules 0 slot

/-- The registry entry behind a module pointer: `*module`. -/
def io16_module (m : Nat) (s : Fw) : IO16_Module :=
  s.io16_modules.getD m ⟨0, 0, 0, 0⟩

/-- Assignment through a module pointer: entry `m` of the registry becomes `f` of
what it was. -/
def io16_store (m : Nat) (f : IO16_Module → IO16_Module) (s : Fw) : Fw :=
  { s with io16_modules := s.io16_modules.set m (f (io16_module m s)) }

/-- The cache loop of `IO16_SetDirection`, `for (i = 0; i < 4; i++)`, on the
entry of the module: `direction_mask |= (1 << block_pin)` for output,
`direction_mask &= ~(1 << block_pin)` for input, with `block_pin = block_start + i`.
The complement is taken in the 16 bits of `direction_mask`. -/
def IO16_SetDirection_cache (block_start direction : Nat) (md : IO16_Module) : IO16_Module :=
  (List.range 4).foldl (fun md i =>
    if direction ≠ 0 then
      { md with direction_mask := md.direction_mask ||| (1 <<< (block_start + i)) }
    else
      { md with direction_mask := md.direction_mask &&& ((1 <<< (block_start + i)) ^^^ 0xFFFF) })
    md

/-- The new value of the direction register in `IO16_SetDirection`:
`reg_value |= (1 << bit_pos)` for output, `reg_value &= ~(1 << bit_pos)` for
input; the complement is taken in the 8 bits of `reg_value`. -/
def IO16_SetDirection_value (bit_pos direction reg_value : Nat) : Nat :=
  if direction ≠ 0 then reg_value ||| (1 <<< bit_pos)
  else reg_value &&& ((1 <<< bit_pos) ^^^ 0xFF)

/-- Second half of `IO16_SetDirection`, after the direction register has been
read as `reg_value`: bit position and block, new register value, write, and on
success the cache loop. -/
def IO16_SetDirection_write (env : Env) (slot pin direction m reg reg_value : Nat) (s : Fw) :
    Int × Fw :=
  let s := s |> UART_SendString "[DIR] Current CONTROLWORD_2 value: 0x" |> UART_SendHex8 reg_value
    |> UART_SendString "\r\n"
  let bit_pos := if pin % 8 < 4 then 3 else 7
  let block_start := (pin / 4) * 4
  let s := s |> UART_SendString "[DIR] Control bit position: " |> UART_SendHex8 bit_pos
    |> UART_SendString " (controls pins " |> UART_SendHex8 block_start |> UART_SendString "-"
    |> UART_SendHex8 (block_start + 3) |> UART_SendString ")\r\n"
  let old_value := reg_value
  let reg_value := IO16_SetDirection_value bit_pos direction reg_value
  let s := s |> UART_SendString "[DIR] Old value: 0x" |> UART_SendHex8 old_value
    |> UART_SendString " \xe2\x86\x92 New value: 0x" |> UART_SendHex8 reg_value
    |> UART_SendString "\r\n"
  let s := if old_value = reg_value then
      s |> UART_SendString "[DIR] \xe2\x9a\xa0\xef\xb8\x8f  No change needed (already "
        |> UART_SendString (if direction ≠ 0 then "OUTPUT" else "INPUT")
        |> UART_SendString ")\r\n"
    else s
  let s := s |> UART_SendString "[DIR] Writing CONTROLWORD_2"
    |> UART_SendString (if pin < 8 then "A" else "B") |> UART_SendString "...\r\n"
  let w := IO16_WriteRegister env slot reg 1 [reg_value] s
  if w.1 ≠ 0 then (-1, UART_SendString "[DIR] \xe2\x9d\x8c Write FAILED!\r\n" w.2)
  else
    (0, io16_store m (IO16_SetDirection_cache block_start direction)
      (UART_SendString "[DIR] \xe2\x9c\x85 Direction register write SUCCESS!\r\n" w.2))

/-- Source function `IO16_SetDirection(slot, pin, direction)`: module lookup, banner, read of the
direction register (0x16 for pins 0..7, 0x17 for pins 8..15), then the second
half.  The local `reg_value` is uninitialised; it is only looked at after a
successful read has stored into it. -/
def IO16_SetDirection (env : Env) (slot pin direction : Nat) (s : Fw) : Int × Fw :=
  match IO16_GetModule slot s with
  | none => (-1, s)
  | some m =>
    if pin ≥ 16 then (-1, s)
    else
      let reg := if pin < 8 then 0x16 else 0x17
      let s := s |> UART_SendString "\r\n[DIR] ========================================\r\n"
        |> UART_SendString "[DIR] SETTING DIRECTION - Pin " |> UART_SendHex8 pin
        |> UART_SendString " \xe2\x86\x92 "
        |> UART_SendString (if direction ≠ 0 then "OUTPUT" else "INPUT")
        |> UART_SendString "\r\n[DIR] ========================================\r\n"
        |> UART_SendString "[DIR] Target register: CONTROLWORD_2"
        |> UART_SendString (if pin < 8 then "A" else "B") |> UART_SendString " (0x"
        |> UART_SendHex8 reg |> UART_SendString ")\r\n"
        |> UART_SendString "[DIR] Reading current direction register...\r\n"
      let r := IO16_ReadRegister env slot reg 1 [0] s
      if r.1.1 ≠ 0 then (-1, UART_SendString "[DIR] \xe2\x9d\x8c Read FAILED!\r\n" r.2)
      else IO16_SetDirection_write env slot pin direction m reg (r.1.2.getD 0 0) r.2

/-- The new value of the output register in `IO16_SetPin`: `reg_value |= bit_mask`
for a non-zero `state`, `reg_value &= ~bit_mask` for zero, with
`bit_mask = 1 << (pin % 8)`; the complement is taken in the 8 bits of `reg_value`. -/
def IO16_SetPin_value (pin state reg_value : Nat) : Nat :=
  if state ≠ 0 then reg_value ||| (1 <<< (pin % 8))
  else reg_value &&& ((1 <<< (pin % 8)) ^^^ 0xFF)

/-- The cache update of `IO16_SetPin`: `output_state |= (1 << pin)` for a
non-zero `state`, `output_state &= ~(1 << pin)` for zero; the complement is taken
in the 16 bits of `output_state`. -/
def IO16_SetPin_cache (pin state : Nat) (md : IO16_Module) : IO16_Module :=
  if state ≠ 0 then { md with output_state := md.output_state ||| (1 <<< pin) }
  else { md with output_state := md.output_state &&& ((1 <<< pin) ^^^ 0xFFFF) }

/-- Last part of `IO16_SetPin`, after the output register has been written with
`reg_value`: verification read-back (its outcome is only reported), cache update,
return 0. -/
def IO16_SetPin_verify (env : Env) (slot pin state m reg reg_value : Nat) (s : Fw) : Int × Fw :=
  let s := s |> UART_SendString "[SetPin] \xe2\x9c\x85 Write SUCCESS! (value=0x"
    |> UART_SendHex8 reg_value |> UART_SendString ")\r\n"
    |> UART_SendString
      "[SetPin] \xf0\x9f\x94\x8d VERIFICATION: Reading back OUTPUT register...\r\n"
  let v := IO16_ReadRegister env slot reg 1 [0] s
  let verify_value := v.1.2.getD 0 0
  let s := if v.1.1 = 0 then
      let s := v.2 |> UART_SendString "[SetPin] Readback value: 0x" |> UART_SendHex8 verify_value
      if verify_value = reg_value then UART_SendString " \xe2\x9c\x85 MATCH!\r\n" s
      else
        s |> UART_SendString " \xe2\x9d\x8c MISMATCH! Expected 0x" |> UART_SendHex8 reg_value
          |> UART_SendString "\r\n"
          |> UART_SendString ("[SetPin] \xe2\x9a\xa0\xef\xb8\x8f  WARNING: Register " ++
            "yaz\xc4\xb1ld\xc4\xb1 ama verify ba\xc5\x9far\xc4\xb1s\xc4\xb1z!\r\n")
    else UART_SendString "[SetPin] \xe2\x9a\xa0\xef\xb8\x8f  Readback FAILED!\r\n" v.2
  (0, io16_store m (IO16_SetPin_cache pin state) s)

/-- Middle part of `IO16_SetPin`, once the pin is an output: read the output
register (0x0C for pins 0..7, 0x0D for pins 8..15), change bit `pin % 8`, write
it back, then the last part. -/
def IO16_SetPin_output (env : Env) (slot pin state m : Nat) (s : Fw) : Int × Fw :=
  let s := s |> UART_SendString "[SetPin] \xf0\x9f\x93\x96 Reading OUTPUT register ("
    |> UART_SendString (if pin < 8 then "A" else "B") |> UART_SendString ")...\r\n"
  let reg := if pin < 8 then 0x0C else 0x0D
  let r := IO16_ReadRegister env slot reg 1 [0] s
  if r.1.1 ≠ 0 then (-1, UART_SendString "[SetPin] \xe2\x9d\x8c Read FAILED!\r\n" r.2)
  else
    let old_value := r.1.2.getD 0 0
    let reg_value := IO16_SetPin_value pin state old_value
    let s := r.2 |> UART_SendString "[SetPin] Current value: 0x" |> UART_SendHex8 old_value
      |> UART_SendString "\r\n" |> UART_SendString "[SetPin] New value: 0x"
      |> UART_SendHex8 reg_value |> UART_SendString " (bit " |> UART_SendHex8 (pin % 8)
      |> UART_SendString (if state ≠ 0 then " SET" else " CLR") |> UART_SendString ")\r\n"
    let s := if old_value = reg_value then
        UART_SendString "[SetPin] \xe2\x9a\xa0\xef\xb8\x8f  No change needed!\r\n" s
      else s
    let s := s |> UART_SendString "[SetPin] \xe2\x9c\x8d\xef\xb8\x8f  Writing OUTPUT register ("
      |> UART_SendString (if pin < 8 then "A" else "B") |> UART_SendString ")...\r\n"
    let w := IO16_WriteRegister env slot reg 1 [reg_value] s
    if w.1 ≠ 0 then (-1, UART_SendString "[SetPin] \xe2\x9d\x8c Write FAILED!\r\n" w.2)
    else IO16_SetPin_verify env slot pin state m reg reg_value w.2

/-- Source function `IO16_SetPin(slot, pin, state)`: module lookup, direction check with
automatic promotion of the pin's block to output, then the middle part. -/
def IO16_SetPin (env : Env) (slot pin state : Nat) (s : Fw) : Int × Fw :=
  match IO16_GetModule slot s with
  | none => (-1, s)
  | some m =>
    if pin ≥ 16 then (-1, s)
    else
      let s := s |> UART_SendString "[SetPin] Checking direction for pin " |> UART_SendHex8 pin
        |> UART_SendString "...\r\n" |> UART_SendString "[SetPin] Current direction_mask: 0x"
        |> UART_SendHex16 (io16_module m s).direction_mask |> UART_SendString "\r\n"
      if (io16_module m s).direction_mask &&& (1 <<< pin) = 0 then
        let s := s |> UART_SendString "[SetPin] \xe2\x9a\xa0\xef\xb8\x8f  Pin " |> UART_SendHex8 pin
          |> UART_SendString " is INPUT! Auto-setting to OUTPUT...\r\n"
        let d := IO16_SetDirection env slot pin 1 s
        if d.1 ≠ 0 then
          (-1, UART_SendString "[SetPin] \xe2\x9d\x8c Direction change FAILED!\r\n" d.2)
        else
          IO16_SetPin_output env slot pin state m
            (UART_SendString "[SetPin] \xe2\x9c\x85 Direction changed to OUTPUT\r\n" d.2)
      else
        IO16_SetPin_output env slot pin state m (s |> UART_SendString "[SetPin] \xe2\x9c\x93 Pin "
          |> UART_SendHex8 pin |> UART_SendString " is already OUTPUT\r\n")

/-- The cache update of `IO16_GetPin`: the byte read replaces the low half of
`input_state` for pins 0..7 and the high half for pins 8..15. -/
def IO16_GetPin_cache (pin reg_value : Nat) (md : IO16_Module) : IO16_Module :=
  if pin < 8 then { md with input_state := (md.input_state &&& 0xFF00) ||| reg_value }
  else { md with input_state := ((md.input_state &&& 0x00FF) ||| (reg_value <<< 8)) % 65536 }

/-- Source function `IO16_GetPin(slot, pin)`: the cached output bit for an output pin; for an
input pin a read of the input register (0x00 for pins 0..7, 0x01 for pins
8..15), whose byte also replaces its half of the cached `input_state`. -/
def IO16_GetPin (env : Env) (slot pin : Nat) (s : Fw) : Int × Fw :=
  match IO16_GetModule slot s with
  | none => (-1, s)
  | some m =>
    if pin ≥ 16 then (-1, s)
    else if (io16_module m s).direction_mask &&& (1 <<< pin) ≠ 0 then
      (if (io16_module m s).output_state &&& (1 <<< pin) ≠ 0 then 1 else 0, s)
    else
      let reg := if pin < 8 then 0x00 else 0x01
      let r := IO16_ReadRegister env slot reg 1 [0] s
      if r.1.1 ≠ 0 then (-1, r.2)
      else
        let reg_value := r.1.2.getD 0 0
        let state := if reg_value &&& (1 <<< (pin % 8)) ≠ 0 then 1 else 0
        (state, io16_store m (IO16_GetPin_cache pin reg_value) r.2)

/-- The cache update of `IO16_ReadAll`: `module->input_state = value`. -/
def IO16_ReadAll_cache (value : Nat) (md : IO16_Module) : IO16_Module :=
  { md with input_state := value }

/-- Source function `IO16_ReadAll(slot)`: both input registers; on success the 16-bit value is
cached and returned, on a failed read the cached value is returned. -/
def IO16_ReadAll (env : Env) (slot : Nat) (s : Fw) : Nat × Fw :=
  match IO16_GetModule slot s with
  | none => (0, s)
  | some m =>
    let ra := IO16_ReadRegister env slot 0x00 1 [0] s
    if ra.1.1 ≠ 0 then ((io16_module m ra.2).input_state, ra.2)
    else
      let rb := IO16_ReadRegister env slot 0x01 1 [0] ra.2
      if rb.1.1 ≠ 0 then ((io16_module m rb.2).input_state, rb.2)
      else
        let value := ((rb.1.2.getD 0 0 <<< 8) ||| ra.1.2.getD 0 0) % 65536
        (value, io16_store m (IO16_ReadAll_cache value) rb.2)

/-- The cache update of `IO16_WriteAll`:
`module->output_state = state & module->direction_mask`. -/
def IO16_WriteAll_cache (state : Nat) (md : IO16_Module) : IO16_Module :=
  { md with output_state := state &&& md.direction_mask }

/-- Source function `IO16_WriteAll(slot, state)`: low byte to OUTPUT_A (0x0C), high byte to
OUTPUT_B (0x0D), then `output_state = state & direction_mask`. -/
def IO16_WriteAll (env : Env) (slot state : Nat) (s : Fw) : Int × Fw :=
  match IO16_GetModule slot s with
  | none => (-1, s)
  | some m =>
    let wa := IO16_WriteRegister env slot 0x0C 1 [state &&& 0xFF] s
    if wa.1 ≠ 0 then (-1, wa.2)
    else
      let wb := IO16_WriteRegister env slot 0x0D 1 [(state >>> 8) &&& 0xFF] wa.2
      if wb.1 ≠ 0 then (-1, wb.2)
      else (0, io16_store m (IO16_WriteAll_cache state) wb.2)

/-- The table loop of `IO16_PrintStatus`, `for (i = 0; i < 16; i++)`: pin number
(`sprintf "%d"`), direction, and the output or input level. -/
def IO16_PrintStatus_table (direction output input : Nat) (s : Fw) : Fw :=
  (List.range 16).foldl (fun s i =>
    let s := if i < 10 then UART_SendString " " s else s
    let s := s |> UART_SendString (toString i) |> UART_SendString "   "
    let s := if direction &&& (1 <<< i) ≠ 0 then
        s |> UART_SendString "OUT  "
          |> UART_SendString (if output &&& (1 <<< i) ≠ 0 then "HIGH" else "LOW ")
      else
        s |> UART_SendString "IN   "
          |> UART_SendString (if input &&& (1 <<< i) ≠ 0 then "HIGH" else "LOW ")
    UART_SendString "\r\n" s) s

/-- The 16-bit direction mask that `IO16_PrintStatus` builds from the two
direction registers: bit 3 of a register stands for its low block of four pins,
bit 7 for its high block. -/
def IO16_PrintStatus_direction (dir_a dir_b : Nat) : Nat :=
  let direction := 0
  let direction := if dir_a &&& (1 <<< 3) ≠ 0 then direction ||| 0x000F else direction
  let direction := if dir_a &&& (1 <<< 7) ≠ 0 then direction ||| 0x00F0 else direction
  let direction := if dir_b &&& (1 <<< 3) ≠ 0 then direction ||| 0x0F00 else direction
  let direction := if dir_b &&& (1 <<< 7) ≠ 0 then direction ||| 0xF000 else direction
  direction

/-- The cache update of `IO16_PrintStatus`: `direction_mask`, `output_state` and
`input_state` of the module are overwritten. -/
def IO16_PrintStatus_cache (direction output input : Nat) (md : IO16_Module) : IO16_Module :=
  { md with direction_mask := direction, output_state := output, input_state := input }

/-- Last part of `IO16_PrintStatus`, after the six registers have been read:
the cache of the module is overwritten with what the chip reported, then the
report is printed. -/
def IO16_PrintStatus_report (m dir_a dir_b output_a output_b input_a input_b : Nat) (s : Fw) :
    Fw :=
  let direction := IO16_PrintStatus_direction dir_a dir_b
  let output := ((output_b <<< 8) ||| output_a) % 65536
  let input := ((input_b <<< 8) ||| input_a) % 65536
  let s := io16_store m (IO16_PrintStatus_cache direction output input) s
  s |> UART_SendString "\r\n" |> UART_SendString "====================================\r\n"
    |> UART_SendString " IO16 - 16 Kanal Dijital I/O\r\n"
    |> UART_SendString "====================================\r\n"
    |> UART_SendString "Slot: " |> UART_SendHex8 (io16_module m s).slot
    |> UART_SendString "\r\n\r\n" |> UART_SendString "Pin  Dir  Durum\r\n"
    |> UART_SendString "---  ---  -----\r\n"
    |> IO16_PrintStatus_table direction output input
    |> UART_SendString "\r\nDurum \xc3\x96zeti:\r\n" |> UART_SendString "  INPUT:  0x"
    |> UART_SendHex16 input |> UART_SendString "\r\n  OUTPUT: 0x" |> UART_SendHex16 output
    |> UART_SendString "\r\n  DIR:    0x" |> UART_SendHex16 direction
    |> UART_SendString " (1=OUT, 0=IN)\r\n"
    |> UART_SendString "====================================\r\n"

/-- The reads of the input registers 0x00 and 0x01 in `IO16_PrintStatus`. -/
def IO16_PrintStatus_inputs (env : Env) (slot m dir_a dir_b output_a output_b : Nat) (s : Fw) :
    Fw :=
  let ra := IO16_ReadRegister env slot 0x00 1 [0] s
  if ra.1.1 ≠ 0 then UART_SendString "Hata: Input A register okunamad\xc4\xb1\r\n" ra.2
  else
    let rb := IO16_ReadRegister env slot 0x01 1 [0] ra.2
    if rb.1.1 ≠ 0 then UART_SendString "Hata: Input B register okunamad\xc4\xb1\r\n" rb.2
    else
      IO16_PrintStatus_report m dir_a dir_b output_a output_b (ra.1.2.getD 0 0)
        (rb.1.2.getD 0 0) rb.2

/-- The reads of the output registers 0x0C and 0x0D in `IO16_PrintStatus`. -/
def IO16_PrintStatus_outputs (env : Env) (slot m dir_a dir_b : Nat) (s : Fw) : Fw :=
  let ra := IO16_ReadRegister env slot 0x0C 1 [0] s
  if ra.1.1 ≠ 0 then UART_SendString "Hata: Output A register okunamad\xc4\xb1\r\n" ra.2
  else
    let rb := IO16_ReadRegister env slot 0x0D 1 [0] ra.2
    if rb.1.1 ≠ 0 then UART_SendString "Hata: Output B register okunamad\xc4\xb1\r\n" rb.2
    else
      IO16_PrintStatus_inputs env slot m dir_a dir_b (ra.1.2.getD 0 0) (rb.1.2.getD 0 0) rb.2

/-- Source function `IO16_PrintStatus(slot)`: module lookup, reads of the direction registers
0x16 and 0x17, then the output registers, the input registers and the report.
The six local bytes are uninitialised; each is only looked at after a successful
read has stored into it. -/
def IO16_PrintStatus (env : Env) (slot : Nat) (s : Fw) : Fw :=
  match IO16_GetModule slot s with
  | none => UART_SendString "Hata: Mod\xc3\xbcl bulunamad\xc4\xb1\r\n" s
  | some m =>
    let ra := IO16_ReadRegister env slot 0x16 1 [0] s
    if ra.1.1 ≠ 0 then UART_SendString "Hata: Direction A register okunamad\xc4\xb1\r\n" ra.2
    else
      let rb := IO16_ReadRegister env slot 0x17 1 [0] ra.2
      if rb.1.1 ≠ 0 then UART_SendString "Hata: Direction B register okunamad\xc4\xb1\r\n" rb.2
      else IO16_PrintStatus_outputs env slot m (ra.1.2.getD 0 0) (rb.1.2.getD 0 0) rb.2

/-- One call of a pin function of the digital driver, with its arguments. -/
inductive IO16_Call where
  | SetPin (slot pin state : Nat)
  | SetDirection (slot pin direction : Nat)
  | GetPin (slot pin : Nat)
  | ReadAll (slot : Nat)
  | WriteAll (slot state : Nat)
  | PrintStatus (slot : Nat)
deriving DecidableEq, Repr

/-- The state after a call of a pin function. -/
def IO16_Call.run (env : Env) (c : IO16_Call) (s : Fw) : Fw :=
  match c with
  | .SetPin slot pin state => (IO16_SetPin env slot pin state s).2
  | .SetDirection slot pin direction => (IO16_SetDirection env slot pin direction s).2
  | .GetPin slot pin => (IO16_GetPin env slot pin s).2
  | .ReadAll slot => (IO16_ReadAll env slot s).2
  | .WriteAll slot state => (IO16_WriteAll env slot state s).2
  | .PrintStatus slot => IO16_PrintStatus env slot s

/-- The state after a sequence of calls of pin functions, first call first. -/
def IO16_run (env : Env) (calls : List IO16_Call) (s : Fw) : Fw :=
  calls.foldl (fun s c => c.run env s) s

/-- The calls that cannot take a direction bit away from under a cached output
bit: everything except `IO16_SetDirection` towards input and `IO16_PrintStatus`. -/
def IO16_Call.keeps_outputs : IO16_Call → Bool
  | .SetDirection _ _ direction => direction != 0
  | .PrintStatus _ => false
  | _ => true

/-- The value of the C expression `output_state & ~direction_mask` for a cached
module state, on 16 bits. -/
def io16_stray_outputs (md : IO16_Module) : Nat :=
  md.output_state &&& (md.direction_mask ^^^ 0xFFFF)

/-! ## 20kanalanalogio.c, aio20_afe.h: conversions -/

/-- Source type `AIO20_AFE_Type` (values 0, 1, 2, 3 and 0xFF). -/
inductive AIO20_AFE_Type where
  | AFE_TYPE_NONE
  | AFE_TYPE_0_10V
  | AFE_TYPE_4_20MA
  | AFE_TYPE_PT1000
  | AFE_TYPE_UNKNOWN
deriving DecidableEq, Repr

/-- Source function `AIO20_DetectAFE(adc_value)` with the thresholds
`AFE_DETECT_4_20MA_MIN = 4000`, `AFE_DETECT_0_10V_MIN = 980`,
`AFE_DETECT_0_10V_MAX = 1180`, `AFE_DETECT_PT1000_MIN = 2060`,
`AFE_DETECT_PT1000_MAX = 2260`. -/
def AIO20_DetectAFE (adc_value : Nat) : AIO20_AFE_Type :=
  if adc_value > 4000 then .AFE_TYPE_4_20MA
  else if adc_value > 980 ∧ adc_value < 1180 then .AFE_TYPE_0_10V
  else if adc_value > 2060 ∧ adc_value < 2260 then .AFE_TYPE_PT1000
  else .AFE_TYPE_NONE

/-- Source function `AIO20_ToVoltage(value)`: `(uint16_t)(((uint32_t)value * 10000) / 4095)`. -/
def AIO20_ToVoltage (value : Nat) : Nat :=
  ((value * 10000) % 4294967296 / 4095) % 65536

/-- Source function `AIO20_FromVoltage(voltage_mv)`: clamp to 10000, then
`(uint16_t)(((uint32_t)voltage_mv * 4095) / 10000)`. -/
def AIO20_FromVoltage (voltage_mv : Nat) : Nat :=
  let voltage_mv := if voltage_mv > 10000 then 10000 else voltage_mv
  ((voltage_mv * 4095) % 4294967296 / 10000) % 65536

/-! ## Concrete states and environments -/

/-- The state right after `SPI_Module_Init` on a freshly started firmware:
nothing claimed, all chip-select lines HIGH, nothing exchanged, empty registries. -/
def fw_boot : Fw :=
  { current_cs_slot := -1, cs_pins := [true, true, true, true, true], prescaler := 8,
    spi_n := 0, spi_log := [], uart := [], ow_n := 0, ow_log := [],
    io16_modules := [], aio20_modules := [], fpga_modules := [], reg_log := [] }

/-- A responsive environment: the SPI flags are set at the first poll and the
k-th exchange receives `answers[k]` (0xFF once the list is used up); the k-th
single-wire sample reads `lines[k]` (HIGH once the list is used up); the cycle
counter is enabled. -/
def env_of (answers : List Nat) (lines : List Bool) : Env :=
  { spi := fun k => ⟨0, 0, answers.getD k 0xFF⟩, idr := fun k => lines.getD k true,
    dwt_ctrl := 0x40000001 }

/-! ## 20kanalanalogio.c: register transactions -/

/-- Source function `AIO20_WriteRegister(slot, reg, data)`: claim, address byte
`MAX11300_SPI_WRITE(reg) = (reg << 1) | 0` as `uint8_t`, data MSB first, release.
The results of `SPI_SetCS` are not looked at. -/
def AIO20_WriteRegister (env : Env) (slot reg data : Nat) (s : Fw) : Int × Fw :=
  let s := (SPI_SetCS slot .CS_ENABLE s).2
  let addr_byte := ((reg <<< 1) ||| 0x00) % 256
  let s := (SPI_DataExchange env slot addr_byte s).2
  let s := (SPI_DataExchange env slot ((data >>> 8) &&& 0xFF) s).2
  let s := (SPI_DataExchange env slot (data &&& 0xFF) s).2
  let s := (SPI_SetCS slot .CS_DISABLE s).2
  (0, log_reg (.aio20_write slot reg data 0) s)

/-- Source function `AIO20_ReadRegister(slot, reg, data)`.  The pointer `data` is `none` for NULL
and `some v` for a variable holding `v`; the result carries the return code and
the variable after the call.  Address byte `MAX11300_SPI_READ(reg) =
(reg << 1) | 1` as `uint8_t`, then two zero bytes whose answers are MSB and LSB. -/
def AIO20_ReadRegister (env : Env) (slot reg : Nat) (data : Option Nat) (s : Fw) :
    (Int × Option Nat) × Fw :=
  match data with
  | none => ((-1, none), log_reg (.aio20_read slot reg (-1) none) s)
  | some _ =>
    let s := (SPI_SetCS slot .CS_ENABLE s).2
    let addr_byte := ((reg <<< 1) ||| 0x01) % 256
    let s := (SPI_DataExchange env slot addr_byte s).2
    let msb := SPI_DataExchange env slot 0x00 s
    let lsb := SPI_DataExchange env slot 0x00 msb.2
    let s := (SPI_SetCS slot .CS_DISABLE lsb.2).2
    ((0, some (((msb.1 <<< 8) ||| lsb.1) % 65536)),
      log_reg (.aio20_read slot reg 0 (some (((msb.1 <<< 8) ||| lsb.1) % 65536))) s)

/-- The state in which slot 0 holds the bus: `SPI_Module_Init`, then
`SPI_SetCS(0, CS_ENABLE)`. -/
def fw_slot0_claimed : Fw :=
  (SPI_SetCS 0 .CS_ENABLE (SPI_Module_Init fw_boot)).2

/-- The local buffers of `scan_modules` when the stack they are placed on holds
zeros. -/
def bufs_zero : ScanBufs :=
  ⟨List.replicate 8 0, List.replicate 8 0, List.replicate 8 0⟩

/-- A ROM code with a correct CRC byte (0x9F). -/
def rom_good : List Nat := [0x2D, 0x11, 0x22, 0x33, 0x44, 0x55, 0x66, 0x9F]

/-- The code `rom_good` with a wrong CRC byte. -/
def rom_bad : List Nat := [0x2D, 0x11, 0x22, 0x33, 0x44, 0x55, 0x66, 0x27]

/-- Backplane with one module, in slot 0, whose firmware-id block is `fid` and
whose hardware-id block is "HW-REV-A"; slots 1 to 3 are empty. -/
def env_slot0 (fid : String) : Env :=
  env_of [] (ow_module rom_good (c_str "HW-REV-A").dropLast (c_str fid).dropLast)

/-! ## Concrete chips -/

/-- What a chip answers during a successful single-byte read of register
`reg` that holds `v`: the address byte during the no-op exchange, `v` during the
count exchange, the control byte at the end. -/
def chip_read (reg v : Nat) : List Nat :=
  [0, get_address_byte reg 1, v, 0, CTRL_BYTE]

/-- What a chip answers during a successful single-byte write of `v` to
register `reg`: address byte, count byte, `v`, control byte. -/
def chip_write (reg v : Nat) : List Nat :=
  [0, get_address_byte reg 0, get_count_byte 1, v, CTRL_BYTE]

/-- The state after boot and registration of a digital module in slot 0. -/
def fw_io16_slot0 : Fw :=
  IO16_Register 0 fw_boot

/-- A chip in its reset state (all direction and output registers 0) during
`IO16_SetPin(0, 5, 1)`: direction register 0x16 read and written with 0x80,
output register 0x0C read, written with 0x20 and read back. -/
def env_set_pin_5 : Env :=
  env_of (chip_read 0x16 0x00 ++ chip_write 0x16 0x80 ++ chip_read 0x0C 0x00 ++
    chip_write 0x0C 0x20 ++ chip_read 0x0C 0x20) []

/-! ## C library: strings and formatted output -/

/-- The test `strcmp(a, b) == 0` of the C library on byte strings, for a
NUL-terminated literal `b`: the strings agree up to and including the NUL of
`b`.  The first argument is the memory from the pointer on; bytes behind its end
read as 0. -/
def strcmp_eq : List Nat → List Nat → Bool
  | a, [] => a.headD 0 == 0
  | a, c :: b =>
    if a.headD 0 ≠ c then false
    else if c = 0 then true
    else strcmp_eq a.tail b

/-- Source function `UART_SendString(str)` for a string held in memory: the bytes up to the
first NUL go to USART1. -/
def UART_SendBytes : List Nat → Fw → Fw
  | [], s => s
  | c :: cs, s => if c = 0 then s else UART_SendBytes cs (USART_SendData c s)

/-- A field of `sprintf`: `str` right-justified in width `w`, padded with blanks
(`%4d`, `%2d`). -/
def fmt_right (w : Nat) (str : String) : String :=
  String.mk (List.replicate (w - str.length) ' ') ++ str

/-- A field of `sprintf`: `str` left-justified in width `w`, padded with blanks
(`%-2d`). -/
def fmt_left (w : Nat) (str : String) : String :=
  str ++ String.mk (List.replicate (w - str.length) ' ')

/-- The `sprintf` conversion `%03d` and its like for a non-negative number:
padded with zeros to width `w`. -/
def fmt_zero (w n : Nat) : String :=
  String.mk (List.replicate (w - (toString n).length) '0') ++ toString n

/-- The `sprintf` conversion `%+d`: the sign is always written. -/
def fmt_sign (n : Int) : String :=
  if 0 ≤ n then "+" ++ toString n else toString n

/-- The digit loop `while (*cmd >= '0' && *cmd <= '9') { v = v * 10 + (*cmd - '0'); cmd++; }`
with `v` a `uint8_t`: the value, reduced modulo 256 at every step, and the
memory from where the loop stopped. -/
def parse_u8 : List Nat → Nat → Nat × List Nat
  | [], v => (v, [])
  | c :: cs, v =>
    if 48 ≤ c ∧ c ≤ 57 then parse_u8 cs ((v * 10 + (c - 48)) % 256) else (v, c :: cs)

/-- The same digit loop with `v` a `uint16_t`. -/
def parse_u16 : List Nat → Nat → Nat × List Nat
  | [], v => (v, [])
  | c :: cs, v =>
    if 48 ≤ c ∧ c ≤ 57 then parse_u16 cs ((v * 10 + (c - 48)) % 65536) else (v, c :: cs)

/-! ## 20kanalanalogio.c: driver functions -/

/-- The enum value of an `AIO20_AFE_Type`. -/
def AIO20_AFE_Type.val : AIO20_AFE_Type → Nat
  | .AFE_TYPE_NONE => 0
  | .AFE_TYPE_0_10V => 1
  | .AFE_TYPE_4_20MA => 2
  | .AFE_TYPE_PT1000 => 3
  | .AFE_TYPE_UNKNOWN => 0xFF

/-- Source function `AIO20_AFE_ToString(type)` on enum values. -/
def AIO20_AFE_ToString (type : Nat) : String :=
  if type = 1 then "0-10V"
  else if type = 2 then "4-20mA"
  else if type = 3 then "PT-1000"
  else if type = 0 then "none"
  else "unknown"

/-- The search loop of `AIO20_GetModule`, `for (i = 0; i < aio20_module_count; i++)`:
first argument is the part of the registry from index `i` on, second is `i`. -/
def AIO20_GetModule_from : List AIO20_Module → Nat → Nat → Option Nat
  | [], _, _ => none
  | md :: rest, i, slot =>
    if md.slot = slot then some i else AIO20_GetModule_from rest (i + 1) slot

/-- Source function `AIO20_GetModule(slot)`: the first registry entry whose slot is `slot`.
The pointer is the index of the entry; `none` is NULL. -/
def AIO20_GetModule (slot : Nat) (s : Fw) : Option Nat :=
  AIO20_GetModule_from s.aio20_modules 0 slot

/-- The registry entry behind a module pointer: `*module`. -/
def aio20_module (m : Nat) (s : Fw) : AIO20_Module :=
  s.aio20_modules.getD m ⟨0, [], [], [], []⟩

/-- Assignment through a module pointer: entry `m` of the registry becomes `f` of
what it was. -/
def aio20_store (m : Nat) (f : AIO20_Module → AIO20_Module) (s : Fw) : Fw :=
  { s with aio20_modules := s.aio20_modules.set m (f (aio20_module m s)) }

/-- Source function `AIO20_GetDeviceID(slot)`: read register 0x00 into `dev_id` (initially 0). -/
def AIO20_GetDeviceID (env : Env) (slot : Nat) (s : Fw) : Nat × Fw :=
  let r := AIO20_ReadRegister env slot 0x00 (some 0) s
  (r.1.2.getD 0, r.2)

/-- The port loop of `AIO20_ChipInit`, `for (port = 0; port < 20; port++)`: the
mode word 0x71e0 goes to register `0x20 + port`. -/
def AIO20_ChipInit_ports (env : Env) (slot : Nat) (s : Fw) : Fw :=
  (List.range 20).foldl (fun s port => (AIO20_WriteRegister env slot (0x20 + port) 0x71e0 s).2) s

/-- The cache loop of `AIO20_ChipInit`, `for (i = 0; i < 20; i++) module->port_modes[i] = 7`. -/
def AIO20_ChipInit_cache (md : AIO20_Module) : AIO20_Module :=
  { md with port_modes := (List.range 20).foldl (fun l i => l.set i 7) md.port_modes }

/-- Steps 1 and 2 of `AIO20_ChipInit` to its end, after the device id has been
accepted: device control register 0x10 gets `MAX11300_ADCCONV_CONTINUOUS`
(0x0003), the port loop, the cache loop if the slot is registered; returns 0. -/
def AIO20_ChipInit_configure (env : Env) (slot : Nat) (s : Fw) : Int × Fw :=
  let s := s |> UART_SendString "[MAX11300-INIT] Device ID OK!\r\n"
    |> UART_SendString "[MAX11300-INIT] Step 1: Configuring device control...\r\n"
  let s := (AIO20_WriteRegister env slot 0x10 0x0003 s).2
  let s := s |> UART_SendString "[MAX11300-INIT] Device control configured - OK!\r\n"
    |> UART_SendString
      "[MAX11300-INIT] Step 2: Configuring ALL 20 ports as ADC (MODE_7)...\r\n"
  let s := AIO20_ChipInit_ports env slot s
  let s := UART_SendString "[MAX11300-INIT] All 20 ports configured as ADC - OK!\r\n" s
  let s := match AIO20_GetModule slot s with
    | some m => aio20_store m AIO20_ChipInit_cache s
    | none => s
  (0, s |> UART_SendString "====================================\r\n"
    |> UART_SendString "[MAX11300-INIT] Chip ready for operation!\r\n"
    |> UART_SendString "====================================\r\n\r\n")

/-- Source function `AIO20_ChipInit(slot)`: banner, step 0 (device id, which must be
`MAX11300_DEVICE_ID = 0x0424`), then steps 1 and 2. -/
def AIO20_ChipInit (env : Env) (slot : Nat) (s : Fw) : Int × Fw :=
  let s := s |> UART_SendString "\r\n" |> UART_SendString "====================================\r\n"
    |> UART_SendString "[MAX11300-INIT] Slot " |> UART_SendHex8 slot
    |> UART_SendString " - Initializing PIXI chip...\r\n"
    |> UART_SendString "====================================\r\n"
    |> UART_SendString "[MAX11300-INIT] Step 0: Reading Device ID...\r\n"
  let d := AIO20_GetDeviceID env slot s
  let s := d.2 |> UART_SendString "[MAX11300-INIT] Device ID = 0x" |> UART_SendHex16 d.1
    |> UART_SendString "\r\n"
  if d.1 ≠ 0x0424 then
    (-1, UART_SendString "[MAX11300-INIT] ERROR: Invalid Device ID (expected 0x0424)!\r\n" s)
  else AIO20_ChipInit_configure env slot s

/-- The cache update of `AIO20_ReadADC`: `module->adc_values[port] = adc_data`. -/
def AIO20_ReadADC_cache (port adc_data : Nat) (md : AIO20_Module) : AIO20_Module :=
  { md with adc_values := md.adc_values.set port adc_data }

/-- Source function `AIO20_ReadADC(slot, port)`: ports from 20 on are refused; else the ADC data
register `0x40 + port` is read, its low 12 bits are cached if the slot is
registered, and returned. -/
def AIO20_ReadADC (env : Env) (slot port : Nat) (s : Fw) : Int × Fw :=
  if port ≥ 20 then (-1, s)
  else
    let r := AIO20_ReadRegister env slot (0x40 + port) (some 0) s
    if r.1.1 ≠ 0 then (-1, r.2)
    else
      let adc_data := r.1.2.getD 0 &&& 0x0FFF
      match AIO20_GetModule slot r.2 with
      | some m => ((adc_data : Int), aio20_store m (AIO20_ReadADC_cache port adc_data) r.2)
      | none => ((adc_data : Int), r.2)

/-- Source function `AIO20_WriteDAC(slot, port, value)`: disabled; an error line and -1. -/
def AIO20_WriteDAC (_slot _port _value : Nat) (s : Fw) : Int × Fw :=
  (-1, UART_SendString "ERROR: DAC not available (all ports in ADC mode)\r\n" s)

/-- The assignment `module->afe_types[afe_card] = type` of `AIO20_DetectAFECards`. -/
def AIO20_DetectAFECards_cache (afe_card type : Nat) (md : AIO20_Module) : AIO20_Module :=
  { md with afe_types := md.afe_types.set afe_card type }

/-- One pass of the card loop of `AIO20_DetectAFECards` for the module with
pointer `m`: the detection port of the card (4, 7, 12, 17) is read with
`AIO20_ReadADC`; a negative result stores `AFE_TYPE_UNKNOWN`, any other result
stores `AIO20_DetectAFE` of it as `uint16_t`. -/
def AIO20_DetectAFECards_card (env : Env) (slot m : Nat) (s : Fw) (afe_card : Nat) : Fw :=
  let detect_port := [4, 7, 12, 17].getD afe_card 0
  let physical_io := 16 + afe_card
  let a := AIO20_ReadADC env slot detect_port s
  let s := UART_SendString ("[AIO20-AFE] AFE" ++ toString afe_card ++ " (IO" ++
    toString physical_io ++ "\xe2\x86\x92Port" ++ toString detect_port ++
    "): Reading ADC...\r\n") a.2
  if a.1 < 0 then
    aio20_store m (AIO20_DetectAFECards_cache afe_card AIO20_AFE_Type.AFE_TYPE_UNKNOWN.val) s
      |> UART_SendString "[AIO20-AFE]   ERROR: ADC read failed!\r\n"
  else
    let s := aio20_store m (AIO20_DetectAFECards_cache afe_card
      (AIO20_DetectAFE (a.1.toNat % 65536)).val) s
    let start_ch := afe_card * 4
    let end_ch := start_ch + 3
    UART_SendString ("[AIO20-AFE]   AFE" ++ toString afe_card ++ " (CH" ++ toString start_ch ++
      "-" ++ toString end_ch ++ "): ADC=" ++ toString a.1 ++ " \xe2\x86\x92 " ++
      AIO20_AFE_ToString ((aio20_module m s).afe_types.getD afe_card 0) ++ "\r\n") s

/-- Source function `AIO20_DetectAFECards(slot)`: nothing without a registered module; else the
banner, the card loop `for (afe_card = 0; afe_card < 4; afe_card++)` and the
closing line. -/
def AIO20_DetectAFECards (env : Env) (slot : Nat) (s : Fw) : Fw :=
  match AIO20_GetModule slot s with
  | none => s
  | some m =>
    let s := s |> UART_SendString "\r\n" |> UART_SendString "====================================\r\n"
      |> UART_SendString "[AIO20-AFE] AFE Kart Alg\xc4\xb1lama\r\n"
      |> UART_SendString "[AIO20-AFE] Physical IO16-19 \xe2\x86\x92 Port 4,7,12,17\r\n"
      |> UART_SendString "====================================\r\n"
    let s := (List.range 4).foldl (AIO20_DetectAFECards_card env slot m) s
    UART_SendString "====================================\r\n\r\n" s

/-- One line of a channel table of `AIO20_PrintStatus` for a 0-10V card. -/
def AIO20_PrintStatus_volt (env : Env) (slot : Nat) (s : Fw) (ch : Nat) : Fw :=
  let a := AIO20_ReadADC env slot ch s
  let raw : Int := if a.1 < 0 then 0 else a.1
  let voltage := AIO20_ToVoltage (raw.toNat % 65536)
  UART_SendString ("   CH" ++ fmt_left 2 (toString ch) ++ "     " ++ fmt_right 4 (toString raw) ++
    "       " ++ fmt_right 2 (toString (voltage / 1000)) ++ "." ++ fmt_zero 3 (voltage % 1000) ++
    "V     " ++ (if raw > 100 then "AKTIF" else "D\xc3\xbc\xc5\x9f\xc3\xbck") ++ "\r\n") a.2

/-- One line of a channel table of `AIO20_PrintStatus` for a 4-20mA card. -/
def AIO20_PrintStatus_current (env : Env) (slot : Nat) (s : Fw) (ch : Nat) : Fw :=
  let a := AIO20_ReadADC env slot ch s
  let raw : Int := if a.1 < 0 then 0 else a.1
  let current_ma_x10 : Int := 40 + (if raw > 1638 then Int.tdiv ((raw - 1638) * 160) 2457 else 0)
  UART_SendString ("   CH" ++ fmt_left 2 (toString ch) ++ "     " ++ fmt_right 4 (toString raw) ++
    "       " ++ fmt_right 2 (toString (Int.tdiv current_ma_x10 10)) ++ "." ++
    toString (Int.tmod current_ma_x10 10) ++ "mA     " ++
    (if raw > 1638 then "AKTIF" else "A\xc3\xa7\xc4\xb1k") ++ "\r\n") a.2

/-- One line of a channel table of `AIO20_PrintStatus` for a PT-1000 card. -/
def AIO20_PrintStatus_temp (env : Env) (slot : Nat) (s : Fw) (ch : Nat) : Fw :=
  let a := AIO20_ReadADC env slot ch s
  let raw : Int := if a.1 < 0 then 0 else a.1
  let temp_x10 : Int := Int.tdiv ((raw - 2048) * 10) 100
  UART_SendString ("   CH" ++ fmt_left 2 (toString ch) ++ "     " ++ fmt_right 4 (toString raw) ++
    "       " ++ fmt_right 3 (fmt_sign (Int.tdiv temp_x10 10)) ++ "." ++
    toString (Int.tmod temp_x10 10).natAbs ++ "\xc2\xb0C     " ++
    (if raw > 1800 ∧ raw < 2400 then "Normal" else "Hata?") ++ "\r\n") a.2

/-- One pass of the card loop of `AIO20_PrintStatus` for the module with pointer
`m`: heading, description of the card type and, unless the card is empty or
unknown, the table of its four channels, each read with `AIO20_ReadADC`. -/
def AIO20_PrintStatus_card (env : Env) (slot m : Nat) (s : Fw) (afe : Nat) : Fw :=
  let start_ch := afe * 4
  let end_ch := start_ch + 3
  let afe_type := (aio20_module m s).afe_types.getD afe 0
  let s := s |> UART_SendString "\r\n"
    |> UART_SendString ("\xf0\x9f\x8e\xb4 AFE" ++ toString afe ++ " KARTI: " ++
      AIO20_AFE_ToString afe_type ++ "\r\n")
    |> UART_SendString ("   Kanallar: CH" ++ toString start_ch ++ " - CH" ++ toString end_ch ++
      " (Physical IO " ++ toString start_ch ++ " - IO " ++ toString end_ch ++ ")\r\n")
  if afe_type = 1 then
    let s := s |> UART_SendString "   Tip: Voltaj Giri\xc5\x9fi (0-10V Analog Input)\r\n"
      |> UART_SendString "   Kullan\xc4\xb1m: Sens\xc3\xb6r okuma, PLC sinyalleri\r\n"
      |> UART_SendString "   ----------------------------------------------------\r\n"
      |> UART_SendString "   Kanal    ADC Raw    Voltaj      Durum\r\n"
      |> UART_SendString "   -----    -------    -------     -----\r\n"
    (List.range' start_ch 4).foldl (AIO20_PrintStatus_volt env slot) s
  else if afe_type = 2 then
    let s := s |> UART_SendString "   Tip: Ak\xc4\xb1m Giri\xc5\x9fi (4-20mA Analog Input)\r\n"
      |> UART_SendString
        "   Kullan\xc4\xb1m: End\xc3\xbcstriyel sens\xc3\xb6rler, flow meter\r\n"
      |> UART_SendString "   ----------------------------------------------------\r\n"
      |> UART_SendString "   Kanal    ADC Raw    Ak\xc4\xb1m        Durum\r\n"
      |> UART_SendString "   -----    -------    -------     -----\r\n"
    (List.range' start_ch 4).foldl (AIO20_PrintStatus_current env slot) s
  else if afe_type = 3 then
    let s := s
      |> UART_SendString
        "   Tip: S\xc4\xb1cakl\xc4\xb1k Sens\xc3\xb6r\xc3\xbc (PT-1000 RTD Input)\r\n"
      |> UART_SendString ("   Kullan\xc4\xb1m: Hassas s\xc4\xb1cakl\xc4\xb1k " ++
        "\xc3\xb6l\xc3\xa7\xc3\xbcm\xc3\xbc\r\n")
      |> UART_SendString "   ----------------------------------------------------\r\n"
      |> UART_SendString "   Kanal    ADC Raw    S\xc4\xb1cakl\xc4\xb1k    Durum\r\n"
      |> UART_SendString "   -----    -------    --------    -----\r\n"
    (List.range' start_ch 4).foldl (AIO20_PrintStatus_temp env slot) s
  else
    s |> UART_SendString "   Tip: Bo\xc5\x9f (Kart tak\xc4\xb1l\xc4\xb1 de\xc4\x9fil)\r\n"
      |> UART_SendString "   Kanallar kullan\xc4\xb1labilir de\xc4\x9fil\r\n"

/-- Source function `AIO20_PrintStatus(slot)`: module lookup, heading, the card loop
`for (afe = 0; afe < 4; afe++)`, closing lines. -/
def AIO20_PrintStatus (env : Env) (slot : Nat) (s : Fw) : Fw :=
  match AIO20_GetModule slot s with
  | none => UART_SendString "Hata: Mod\xc3\xbcl bulunamad\xc4\xb1\r\n" s
  | some m =>
    let s := s |> UART_SendString "\r\n"
      |> UART_SendString ("==============================" ++
        "==============================\r\n")
      |> UART_SendString " AIO20 - MAX11300 PIXI (20-Channel Analog I/O)\r\n"
      |> UART_SendString ("==============================" ++
        "==============================\r\n")
      |> UART_SendString ("Slot: " ++ toString (aio20_module m s).slot ++ "\r\n")
      |> UART_SendString "------------------------------------------------------------\r\n"
    let s := (List.range 4).foldl (AIO20_PrintStatus_card env slot m) s
    s |> UART_SendString ("\r\n==============================" ++
        "==============================\r\n")
      |> UART_SendString ("\xf0\x9f\x92\xa1 \xc4\xb0pucu: \x27aio20:SLOT:read:KANAL\x27 ile " ++
        "tek kanal okuyabilirsin\r\n")
      |> UART_SendString ("==============================" ++
        "==============================\r\n")

/-- Source function `AIO20_PrintInfo(slot)`: the device id and whether it is 0x0424. -/
def AIO20_PrintInfo (env : Env) (slot : Nat) (s : Fw) : Fw :=
  let d := AIO20_GetDeviceID env slot s
  d.2 |> UART_SendString "\r\n" |> UART_SendString "====================================\r\n"
    |> UART_SendString " AIO20 - Chip Information\r\n"
    |> UART_SendString "====================================\r\n"
    |> UART_SendString "Slot: " |> UART_SendHex8 slot |> UART_SendString "\r\n"
    |> UART_SendString "Device ID: 0x" |> UART_SendHex16 d.1
    |> UART_SendString (if d.1 = 0x0424 then " (OK - MAX11300 PIXI)\r\n"
        else " (ERROR - Invalid ID!)\r\n")
    |> UART_SendString "Expected: 0x0424\r\n"
    |> UART_SendString "====================================\r\n"

/-! ## 20kanalanalogio.c: command handler -/

/-- The branch `read:PORT` of `AIO20_HandleCommand`; `cmd` is the memory behind
"read:".  The port number is parsed into a `uint8_t`. -/
def AIO20_HandleCommand_read (env : Env) (slot : Nat) (cmd : List Nat) (s : Fw) : Fw :=
  let port := (parse_u8 cmd 0).1
  if port ≥ 20 then UART_SendString "Hata: Ge\xc3\xa7ersiz port (0-19)\r\n" s
  else
    let a := AIO20_ReadADC env slot port s
    if a.1 ≥ 0 then
      let voltage := AIO20_ToVoltage (a.1.toNat % 65536)
      UART_SendString ("Port " ++ toString port ++ ": Raw=" ++ toString a.1 ++ ", Voltage=" ++
        toString (voltage / 1000) ++ "." ++ fmt_zero 3 (voltage % 1000) ++ "V\r\n") a.2
    else UART_SendString "Hata: ADC okuma ba\xc5\x9far\xc4\xb1s\xc4\xb1z\r\n" a.2

/-- The branch `write:PORT:VALUE` of `AIO20_HandleCommand`; `cmd` is the memory
behind "write:". -/
def AIO20_HandleCommand_write (slot : Nat) (cmd : List Nat) (s : Fw) : Fw :=
  let p := parse_u8 cmd 0
  let port := p.1
  if p.2.headD 0 ≠ 58 then UART_SendString "Hata: Format hatas\xc4\xb1\r\n" s
  else
    let value := (parse_u16 p.2.tail 0).1
    if port ≥ 20 ∨ value > 4095 then UART_SendString "Hata: Ge\xc3\xa7ersiz parametre\r\n" s
    else
      let w := AIO20_WriteDAC slot port value s
      if w.1 = 0 then
        let voltage := AIO20_ToVoltage value
        UART_SendString ("OK: Port " ++ toString port ++ " = " ++ toString value ++ " (Voltage=" ++
          toString (voltage / 1000) ++ "." ++ fmt_zero 3 (voltage % 1000) ++ "V)\r\n") w.2
      else UART_SendString "Hata: DAC yazma ba\xc5\x9far\xc4\xb1s\xc4\xb1z\r\n" w.2

/-- The branch `setvolt:PORT:VOLTAGE_MV` of `AIO20_HandleCommand`; `cmd` is the
memory behind "setvolt:". -/
def AIO20_HandleCommand_setvolt (slot : Nat) (cmd : List Nat) (s : Fw) : Fw :=
  let p := parse_u8 cmd 0
  let port := p.1
  if p.2.headD 0 ≠ 58 then UART_SendString "Hata: Format hatas\xc4\xb1\r\n" s
  else
    let voltage_mv := (parse_u16 p.2.tail 0).1
    if port ≥ 20 ∨ voltage_mv > 10000 then
      UART_SendString "Hata: Ge\xc3\xa7ersiz parametre\r\n" s
    else
      let value := AIO20_FromVoltage voltage_mv
      let w := AIO20_WriteDAC slot port value s
      if w.1 = 0 then
        UART_SendString ("OK: Port " ++ toString port ++ " = " ++ toString (voltage_mv / 1000) ++
          "." ++ fmt_zero 3 (voltage_mv % 1000) ++ "V (Raw=" ++ toString value ++ ")\r\n") w.2
      else UART_SendString "Hata: DAC yazma ba\xc5\x9far\xc4\xb1s\xc4\xb1z\r\n" w.2

/-- The branch `init` of `AIO20_HandleCommand`: chip initialisation and, if it
returned 0, detection of the AFE cards. -/
def AIO20_HandleCommand_init (env : Env) (slot : Nat) (s : Fw) : Fw :=
  let c := AIO20_ChipInit env slot s
  if c.1 = 0 then AIO20_DetectAFECards env slot (UART_SendString "OK: Chip initialized\r\n" c.2)
  else UART_SendString "Hata: Init failed\r\n" c.2

/-- The last branch of `AIO20_HandleCommand`: the usage text. -/
def AIO20_HandleCommand_usage (s : Fw) : Fw :=
  s |> UART_SendString "Hata: Bilinmeyen komut\r\n" |> UART_SendString "Kullan\xc4\xb1m:\r\n"
    |> UART_SendString "  aio20:SLOT:read:PORT\r\n"
    |> UART_SendString "  aio20:SLOT:write:PORT:VALUE\r\n"
    |> UART_SendString "  aio20:SLOT:setvolt:PORT:MV\r\n"
    |> UART_SendString "  aio20:SLOT:status\r\n" |> UART_SendString "  aio20:SLOT:info\r\n"
    |> UART_SendString "  aio20:SLOT:init\r\n" |> UART_SendString "  aio20:SLOT:detectafe\r\n"

/-- The command chain of `AIO20_HandleCommand` once the slot has been parsed;
`cmd` is the memory behind "SLOT:". -/
def AIO20_HandleCommand_dispatch (env : Env) (slot : Nat) (cmd : List Nat) (s : Fw) : Fw :=
  if strncmp_eq cmd (c_str "read:") 5 then AIO20_HandleCommand_read env slot (cmd.drop 5) s
  else if strncmp_eq cmd (c_str "write:") 6 then AIO20_HandleCommand_write slot (cmd.drop 6) s
  else if strncmp_eq cmd (c_str "setvolt:") 8 then
    AIO20_HandleCommand_setvolt slot (cmd.drop 8) s
  else if strcmp_eq cmd (c_str "status") then AIO20_PrintStatus env slot s
  else if strcmp_eq cmd (c_str "info") then AIO20_PrintInfo env slot s
  else if strcmp_eq cmd (c_str "init") then AIO20_HandleCommand_init env slot s
  else if strcmp_eq cmd (c_str "detectafe") then AIO20_DetectAFECards env slot s
  else AIO20_HandleCommand_usage s

/-- Source function `AIO20_HandleCommand(cmd)`; `cmd` is the memory from the pointer on, the
command text ending at the first NUL.  Acknowledgement, slot digit '0'..'3', a
colon, then the command chain.  The function prints no completion line. -/
def AIO20_HandleCommand (env : Env) (cmd : List Nat) (s : Fw) : Fw :=
  let s := s |> UART_SendString "[ACK:aio20:" |> UART_SendBytes cmd |> UART_SendString "]\r\n"
  if cmd.headD 0 < 48 ∨ cmd.headD 0 > 51 then
    UART_SendString "Hata: Ge\xc3\xa7ersiz slot (0-3)\r\n" s
  else if cmd.getD 1 0 ≠ 58 then UART_SendString "Hata: Format hatas\xc4\xb1\r\n" s
  else AIO20_HandleCommand_dispatch env (cmd.headD 0 - 48) (cmd.drop 2) s

/-! ## 16kanaldijital.c: command handler -/

/-- One entry of `IO16_DumpRegisters`: the label, a read of register `reg` into
the local `reg_value` (which keeps its old value if the read stores nothing),
the value in hex and the text behind it. -/
def IO16_DumpRegisters_line (env : Env) (slot : Nat) (p : Nat × Fw) (l : String × Nat × String) :
    Nat × Fw :=
  let r := IO16_ReadRegister env slot l.2.1 1 [p.1] (UART_SendString l.1 p.2)
  (r.1.2.getD 0 0, r.2 |> UART_SendHex8 (r.1.2.getD 0 0) |> UART_SendString l.2.2)

/-- Source function `IO16_DumpRegisters(slot)`: fourteen registers are read and printed.
`reg_value` is what the uninitialised local of that name holds on entry. -/
def IO16_DumpRegisters (env : Env) (slot reg_value : Nat) (s : Fw) : Fw :=
  let s := s |> UART_SendString "\r\n" |> UART_SendString "====================================\r\n"
    |> UART_SendString " iC-JX Register Dump - Slot " |> UART_SendHex8 slot
    |> UART_SendString "\r\n" |> UART_SendString "====================================\r\n"
  let p := [("INPUT_A (0x00):        0x", 0x00, "\r\n"),
      ("INPUT_B (0x01):        0x", 0x01, "\r\n"),
      ("OUTPUT_A (0x0C):       0x", 0x0C, "\r\n"),
      ("OUTPUT_B (0x0D):       0x", 0x0D, "\r\n"),
      ("CONTROLWORD_1A (0x14): 0x", 0x14, " (Filter)\r\n"),
      ("CONTROLWORD_1B (0x15): 0x", 0x15, " (Filter)\r\n"),
      ("CONTROLWORD_2A (0x16): 0x", 0x16, " (Direction)\r\n"),
      ("CONTROLWORD_2B (0x17): 0x", 0x17, " (Direction)\r\n"),
      ("CONTROLWORD_3A (0x18): 0x", 0x18, " (Clock/Current)\r\n"),
      ("CONTROLWORD_3B (0x19): 0x", 0x19, " (Clock/Current)\r\n"),
      ("CONTROLWORD_4 (0x1A):  0x", 0x1A, " (IRQ)\r\n"),
      ("OVERCURRENT_STS_A (0x08): 0x", 0x08, "\r\n"),
      ("OVERCURRENT_STS_B (0x09): 0x", 0x09, "\r\n"),
      ("INFO (0x1D):           0x", 0x1D, " (Chip ID)\r\n")].foldl
    (IO16_DumpRegisters_line env slot) (reg_value, s)
  UART_SendString "====================================\r\n\r\n" p.2

/-- Steps 3 and 4 of `IO16_InitChip`: filter bypass of port B (0x15 gets 0x88),
reset of the interrupt (0x1A gets 0x80). -/
def IO16_InitChip_step3 (env : Env) (slot : Nat) (s : Fw) : Int × Fw :=
  let s := UART_SendString "[INIT] Step 3: Bypass IO filter Port B (CW1B=0x88)...\r\n" s
  let w := IO16_WriteRegister env slot 0x15 1 [0x88] s
  if w.1 ≠ 0 then
    (-1, UART_SendString "[INIT] \xe2\x9d\x8c FAILED: Filter bypass Port B\r\n" w.2)
  else
    let s := w.2 |> UART_SendString "[INIT] \xe2\x9c\x85 Filter bypass Port B\r\n"
      |> UART_SendString "[INIT] Step 4: Reset EOI (CW4=0x80)...\r\n"
    let w := IO16_WriteRegister env slot 0x1A 1 [0x80] s
    if w.1 ≠ 0 then (-1, UART_SendString "[INIT] \xe2\x9d\x8c FAILED: Reset EOI\r\n" w.2)
    else
      (0, w.2 |> UART_SendString "[INIT] \xe2\x9c\x85 EOI reset complete\r\n"
        |> UART_SendString "\r\n[INIT] \xf0\x9f\x8e\x89 iC-JX INITIALIZATION COMPLETE!\r\n"
        |> UART_SendString "========================================\r\n\r\n")

/-- Source function `IO16_InitChip(slot)`: clock register 0x19 gets 0x85, filter register 0x14
gets 0x88, then steps 3 and 4; the first failed write ends the function with -1. -/
def IO16_InitChip (env : Env) (slot : Nat) (s : Fw) : Int × Fw :=
  let s := s |> UART_SendString "\r\n========================================\r\n"
    |> UART_SendString "iC-JX CHIP INITIALIZATION - Slot " |> UART_SendHex8 slot
    |> UART_SendString "\r\n========================================\r\n"
    |> UART_SendString
      "[INIT] Step 1: Enable internal clock + OUTPUT drivers (CW3B=0x85)...\r\n"
  let w := IO16_WriteRegister env slot 0x19 1 [0x85] s
  if w.1 ≠ 0 then
    (-1, UART_SendString "[INIT] \xe2\x9d\x8c FAILED: Internal clock enable\r\n" w.2)
  else
    let s := w.2
      |> UART_SendString "[INIT] \xe2\x9c\x85 Internal clock + OUTPUT drivers enabled (0x85)\r\n"
      |> UART_SendString "[INIT] Step 2: Bypass IO filter Port A (CW1A=0x88)...\r\n"
    let w := IO16_WriteRegister env slot 0x14 1 [0x88] s
    if w.1 ≠ 0 then
      (-1, UART_SendString "[INIT] \xe2\x9d\x8c FAILED: Filter bypass Port A\r\n" w.2)
    else
      IO16_InitChip_step3 env slot
        (UART_SendString "[INIT] \xe2\x9c\x85 Filter bypass Port A\r\n" w.2)

/-- The pin number parsed by the `set:`, `get:` and `testcs:` branches of
`IO16_HandleCommand`: `pin = cmd[0] - '0'` and, if `cmd[1]` is a digit,
`pin = pin * 10 + (cmd[1] - '0')`, all in `uint8_t`. -/
def IO16_HandleCommand_pin (cmd : List Nat) : Nat :=
  let pin := (cmd.getD 0 0 + 256 - 48) % 256
  if 48 ≤ cmd.getD 1 0 ∧ cmd.getD 1 0 ≤ 57 then (pin * 10 + (cmd.getD 1 0 - 48)) % 256 else pin

/-- The branch `set:PIN:STATE` of `IO16_HandleCommand`; `cmd` is the memory
behind "set:".  The flag of the result tells whether control reaches the end of
`IO16_HandleCommand` (`false`: the branch has left it with `return`). -/
def IO16_HandleCommand_set (env : Env) (slot : Nat) (cmd : List Nat) (s : Fw) : Bool × Fw :=
  let pin := IO16_HandleCommand_pin cmd
  let cmd := if 48 ≤ cmd.getD 1 0 ∧ cmd.getD 1 0 ≤ 57 then cmd.drop 2 else cmd.drop 1
  if cmd.getD 0 0 ≠ 58 then (false, UART_SendString "Hata: Format hatas\xc4\xb1\r\n" s)
  else
    let cmd := cmd.drop 1
    let state := if strncmp_eq cmd (c_str "high") 4 then 1 else 0
    let r := IO16_SetPin env slot pin state s
    if r.1 = 0 then
      (true, r.2 |> UART_SendString "OK: Pin " |> UART_SendHex8 pin |> UART_SendString " = "
        |> UART_SendString (if state ≠ 0 then "HIGH" else "LOW") |> UART_SendString "\r\n")
    else (true, UART_SendString "Hata: Pin ayarlanamad\xc4\xb1\r\n" r.2)

/-- The branch `get:PIN` of `IO16_HandleCommand`; `cmd` is the memory behind
"get:". -/
def IO16_HandleCommand_get (env : Env) (slot : Nat) (cmd : List Nat) (s : Fw) : Bool × Fw :=
  let pin := IO16_HandleCommand_pin cmd
  let r := IO16_GetPin env slot pin s
  if r.1 ≥ 0 then
    (true, r.2 |> UART_SendString "Pin " |> UART_SendHex8 pin |> UART_SendString " = "
      |> UART_SendString (if r.1 ≠ 0 then "HIGH" else "LOW") |> UART_SendString "\r\n")
  else (true, UART_SendString "Hata: Pin okunamad\xc4\xb1\r\n" r.2)

/-- Second half of the branch `dirgroup:` of `IO16_HandleCommand`, for a group
0..3 and a direction: the direction register of the group (0x16 for groups 0
and 1, 0x17 for groups 2 and 3) is read, bit 3 (even group) or bit 7 (odd group)
is set or cleared, and the register is written back.  The local `reg_value` is
uninitialised; it is only looked at after a successful read has stored into it.
The cached state of the module is not touched. -/
def IO16_HandleCommand_dirgroup_write (env : Env) (slot group direction : Nat) (s : Fw) :
    Bool × Fw :=
  let reg := if group < 2 then 0x16 else 0x17
  let bit_pos := if group % 2 = 0 then 3 else 7
  let r := IO16_ReadRegister env slot reg 1 [0] s
  if r.1.1 ≠ 0 then (false, UART_SendString "Hata: Register okunamad\xc4\xb1\r\n" r.2)
  else
    let reg_value := IO16_SetDirection_value bit_pos direction (r.1.2.getD 0 0)
    let w := IO16_WriteRegister env slot reg 1 [reg_value] r.2
    if w.1 ≠ 0 then
      (false, UART_SendString "Hata: Register yaz\xc4\xb1lamad\xc4\xb1\r\n" w.2)
    else
      (true, w.2 |> UART_SendString "OK: Group " |> UART_SendHex8 group
        |> UART_SendString " (Pins " |> UART_SendHex8 (group * 4) |> UART_SendString "-"
        |> UART_SendHex8 (group * 4 + 3) |> UART_SendString ") = "
        |> UART_SendString (if direction ≠ 0 then "OUTPUT" else "INPUT")
        |> UART_SendString "\r\n")

/-- The branch `dirgroup:GROUP:DIRECTION` of `IO16_HandleCommand`; `cmd` is the
memory behind "dirgroup:". -/
def IO16_HandleCommand_dirgroup (env : Env) (slot : Nat) (cmd : List Nat) (s : Fw) : Bool × Fw :=
  let group := (cmd.getD 0 0 + 256 - 48) % 256
  if group > 3 then
    (false, s |> UART_SendString "Hata: Ge\xc3\xa7ersiz grup (0-3)\r\n"
      |> UART_SendString "  Grup 0: Pins 0-3\r\n" |> UART_SendString "  Grup 1: Pins 4-7\r\n"
      |> UART_SendString "  Grup 2: Pins 8-11\r\n" |> UART_SendString "  Grup 3: Pins 12-15\r\n")
  else if cmd.getD 1 0 ≠ 58 then (false, UART_SendString "Hata: Format hatas\xc4\xb1\r\n" s)
  else
    IO16_HandleCommand_dirgroup_write env slot group
      (if strncmp_eq (cmd.drop 2) (c_str "out") 3 then 1 else 0) s

/-- The hexadecimal loop of the branch `writeall:`: digits in either case are
shifted into the `uint16_t` value until a NUL or another character. -/
def IO16_HandleCommand_hex : List Nat → Nat → Nat
  | [], value => value
  | c :: cs, value =>
    if c = 0 then value
    else if 48 ≤ c ∧ c ≤ 57 then IO16_HandleCommand_hex cs (((value <<< 4) ||| (c - 48)) % 65536)
    else if 65 ≤ c ∧ c ≤ 70 then
      IO16_HandleCommand_hex cs (((value <<< 4) ||| (c - 65 + 10)) % 65536)
    else if 97 ≤ c ∧ c ≤ 102 then
      IO16_HandleCommand_hex cs (((value <<< 4) ||| (c - 97 + 10)) % 65536)
    else value

/-- The branch `writeall:VALUE` of `IO16_HandleCommand`; `cmd` is the memory
behind "writeall:".  A value starting with "0x" or "0X" is hexadecimal, any
other is decimal. -/
def IO16_HandleCommand_writeall (env : Env) (slot : Nat) (cmd : List Nat) (s : Fw) : Bool × Fw :=
  let value := if cmd.getD 0 0 = 48 ∧ (cmd.getD 1 0 = 120 ∨ cmd.getD 1 0 = 88) then
      IO16_HandleCommand_hex (cmd.drop 2) 0
    else (parse_u16 cmd 0).1
  let w := IO16_WriteAll env slot value s
  if w.1 = 0 then
    (true, w.2 |> UART_SendString "OK: T\xc3\xbcm pinler yaz\xc4\xb1ld\xc4\xb1 = 0x"
      |> UART_SendHex16 value |> UART_SendString "\r\n")
  else (true, UART_SendString "Hata: Yazma ba\xc5\x9far\xc4\xb1s\xc4\xb1z\r\n" w.2)

/-- The branch `info` of `IO16_HandleCommand`: the INFO register, and for a
value other than 0x00 and 0xFF a run of `IO16_InitChip`. -/
def IO16_HandleCommand_info (env : Env) (slot : Nat) (s : Fw) : Bool × Fw :=
  let i := IO16_GetChipInfo env slot s
  let s := i.2 |> UART_SendString "iC-JX Chip INFO: 0x" |> UART_SendHex8 i.1
    |> UART_SendString "\r\n"
  if i.1 ≠ 0x00 ∧ i.1 ≠ 0xFF then
    let c := IO16_InitChip env slot
      (UART_SendString "\r\n\xf0\x9f\x92\xa1 Chip detected! Auto-initializing...\r\n" s)
    if c.1 = 0 then
      (true, c.2 |> UART_SendString "\xe2\x9c\x85 Chip initialization SUCCESS!\r\n"
        |> UART_SendString ("\xf0\x9f\x93\x9d TIP: Now run \x27io16:0:status\x27 to verify " ++
          "settings\r\n\r\n"))
    else (true, UART_SendString "\xe2\x9d\x8c Chip initialization FAILED!\r\n\r\n" c.2)
  else (true, s)

/-- The chip-select line that is wired to pin `pin` of GPIO port number `gpio`
(0 = GPIOA, 2 = GPIOC), from the table `cs_pins` of `spisurucu.c`: PC13, PA0,
PA1, PA2, PA3. -/
def cs_line_of (gpio pin : Nat) : Option Nat :=
  if gpio = 2 ∧ pin = 13 then some 0
  else if gpio = 0 ∧ pin = 0 then some 1
  else if gpio = 0 ∧ pin = 1 then some 2
  else if gpio = 0 ∧ pin = 2 then some 3
  else if gpio = 0 ∧ pin = 3 then some 4
  else none

/-- The library calls `GPIO_SetBits` (`level = true`) and `GPIO_ResetBits` on one
pin of a port.  Of the port pins only the five chip-select lines are part of the
state; a write to any other pin leaves it as it is. -/
def GPIO_WriteLine (gpio pin : Nat) (level : Bool) (s : Fw) : Fw :=
  match cs_line_of gpio pin with
  | some i => { s with cs_pins := s.cs_pins.set i level }
  | none => s

/-- Second half of the branch `testcs:` of `IO16_HandleCommand`, for a port
number 0..3 and a pin 0..15: the pin is driven HIGH, then LOW, the INFO register
is read with `IO16_GetChipInfo`, and the pin is driven HIGH again. -/
def IO16_HandleCommand_testcs_run (env : Env) (slot gpio pin : Nat) (s : Fw) : Bool × Fw :=
  let s := s |> UART_SendString "\r\n[TEST-CS] Testing GPIO" |> UART_SendHex8 gpio
    |> UART_SendString " Pin " |> UART_SendHex8 pin |> UART_SendString " as CS\r\n"
    |> UART_SendString (if gpio = 0 then "[TEST-CS] GPIO = GPIOA\r\n"
        else if gpio = 1 then "[TEST-CS] GPIO = GPIOB\r\n"
        else if gpio = 2 then "[TEST-CS] GPIO = GPIOC\r\n" else "[TEST-CS] GPIO = GPIOD\r\n")
    |> UART_SendString "[TEST-CS] Pin mask = 0x" |> UART_SendHex16 ((1 <<< pin) % 65536)
    |> UART_SendString "\r\n"
    |> GPIO_WriteLine gpio pin true |> UART_SendString "[TEST-CS] CS set HIGH (inactive)\r\n"
    |> GPIO_WriteLine gpio pin false |> UART_SendString "[TEST-CS] CS set LOW (active)\r\n"
  let i := IO16_GetChipInfo env slot s
  let s := i.2 |> UART_SendString "[CHIP-INFO] INFO Register = 0x" |> UART_SendHex8 i.1
    |> UART_SendString "\r\n"
  let s := if i.1 ≠ 0x00 ∧ i.1 ≠ 0xFF then
      s |> UART_SendString "[CHIP-INFO] \xe2\x9c\x93 iC-JX chip detected and responding!\r\n"
        |> UART_SendString "[SUCCESS] This pin is the correct CS: GPIO" |> UART_SendHex8 gpio
        |> UART_SendString " Pin " |> UART_SendHex8 pin |> UART_SendString "\r\n"
    else
      s |> UART_SendString "[CHIP-INFO] \xe2\x9c\x97 No valid chip response (0x00 or 0xFF)\r\n"
        |> UART_SendString "[FAIL] This pin is NOT the CS pin\r\n"
  (true, s |> GPIO_WriteLine gpio pin true
    |> UART_SendString "[TEST-CS] CS set HIGH (inactive) - Test complete\r\n")

/-- The branch `testcs:GPIO:PIN` of `IO16_HandleCommand`; `cmd` is the memory
behind "testcs:". -/
def IO16_HandleCommand_testcs (env : Env) (slot : Nat) (cmd : List Nat) (s : Fw) : Bool × Fw :=
  let gpio := (cmd.getD 0 0 + 256 - 48) % 256
  if cmd.getD 1 0 ≠ 58 then
    (false, UART_SendString "Hata: Format hatas\xc4\xb1 (beklenen: testcs:GPIO:PIN)\r\n" s)
  else
    let pin := IO16_HandleCommand_pin (cmd.drop 2)
    if gpio > 3 then (false, UART_SendString "Hata: GPIO ge\xc3\xa7ersiz (0-3)\r\n" s)
    else if pin > 15 then (false, UART_SendString "Hata: Pin ge\xc3\xa7ersiz (0-15)\r\n" s)
    else IO16_HandleCommand_testcs_run env slot gpio pin s

/-- The last branch of `IO16_HandleCommand`: the usage text. -/
def IO16_HandleCommand_usage (s : Fw) : Fw :=
  s |> UART_SendString "Hata: Bilinmeyen komut\r\n" |> UART_SendString "Kullan\xc4\xb1m:\r\n"
    |> UART_SendString "  io16:SLOT:set:PIN:high/low\r\n"
    |> UART_SendString "  io16:SLOT:get:PIN\r\n"
    |> UART_SendString "  io16:SLOT:dir:PIN:in/out\r\n"
    |> UART_SendString "  io16:SLOT:status\r\n" |> UART_SendString "  io16:SLOT:readall\r\n"
    |> UART_SendString "  io16:SLOT:info         - Read chip INFO register\r\n"
    |> UART_SendString "  io16:SLOT:overcurrent  - Check overcurrent status\r\n"
    |> UART_SendString "  io16:SLOT:regdump      - Dump all registers\r\n"
    |> UART_SendString "  io16:SLOT:writeall:VAL - Write all 16 pins (hex or decimal)\r\n"
    |> UART_SendString "  io16:testcs:GPIO:PIN   - Test pin as CS (SAFE - READ ONLY!)\r\n"

/-- The command chain of `IO16_HandleCommand` once the slot has been parsed;
`cmd` is the memory behind "SLOT:", `reg_value` what the uninitialised local of
`IO16_DumpRegisters` holds.  The flag of the result tells whether control
reaches the end of `IO16_HandleCommand`. -/
def IO16_HandleCommand_dispatch (env : Env) (reg_value slot : Nat) (cmd : List Nat) (s : Fw) :
    Bool × Fw :=
  if strncmp_eq cmd (c_str "set:") 4 then IO16_HandleCommand_set env slot (cmd.drop 4) s
  else if strncmp_eq cmd (c_str "get:") 4 then IO16_HandleCommand_get env slot (cmd.drop 4) s
  else if strncmp_eq cmd (c_str "dirgroup:") 9 then
    IO16_HandleCommand_dirgroup env slot (cmd.drop 9) s
  else if strcmp_eq cmd (c_str "status") then (true, IO16_PrintStatus env slot s)
  else if strcmp_eq cmd (c_str "readall") then
    let r := IO16_ReadAll env slot s
    (true, r.2 |> UART_SendString "T\xc3\xbcm pinler: 0x" |> UART_SendHex16 r.1
      |> UART_SendString "\r\n")
  else if strncmp_eq cmd (c_str "writeall:") 9 then
    IO16_HandleCommand_writeall env slot (cmd.drop 9) s
  else if strcmp_eq cmd (c_str "info") then IO16_HandleCommand_info env slot s
  else if strcmp_eq cmd (c_str "overcurrent") then
    let o := IO16_CheckOvercurrent env slot s
    (true, if o.1 = 0 then UART_SendString "No overcurrent detected\r\n" o.2 else o.2)
  else if strcmp_eq cmd (c_str "regdump") then (true, IO16_DumpRegisters env slot reg_value s)
  else if strncmp_eq cmd (c_str "testcs:") 7 then IO16_HandleCommand_testcs env slot (cmd.drop 7) s
  else (true, IO16_HandleCommand_usage s)

/-- Source function `IO16_HandleCommand(cmd)`; `cmd` is the memory from the pointer on, the
command text ending at the first NUL.  Acknowledgement, slot digit '0'..'3', a
colon, the command chain, and at the end of the function the completion line;
the `return` statements of the error paths leave before it. -/
def IO16_HandleCommand (env : Env) (reg_value : Nat) (cmd : List Nat) (s : Fw) : Fw :=
  let s := s |> UART_SendString "[ACK:io16:" |> UART_SendBytes cmd |> UART_SendString "]\r\n"
  if cmd.headD 0 < 48 ∨ cmd.headD 0 > 51 then
    UART_SendString "Hata: Ge\xc3\xa7ersiz slot (0-3)\r\n" s
  else if cmd.getD 1 0 ≠ 58 then UART_SendString "Hata: Format hatas\xc4\xb1\r\n" s
  else
    let r := IO16_HandleCommand_dispatch env reg_value (cmd.headD 0 - 48) (cmd.drop 2) s
    if r.1 then UART_SendString "\r\nKomut tamamlandi: io16\r\n" r.2 else r.2

/-! ## main.c: command dispatch -/

/-- Source function `Send_ACK(cmd)` for a string literal `cmd`. -/
def Send_ACK (cmd : String) (s : Fw) : Fw :=
  s |> UART_SendString "\r\n[ACK] Komut alindi: " |> UART_SendString cmd |> UART_SendString "\r\n"

/-- The copy loop of `Process_Command`, `while (cmd[i] && i < 63)`: the command
up to its NUL, at most 63 characters, upper-case letters made lower-case. -/
def Process_Command_lower (cmd : List Nat) : List Nat :=
  ((cmd.takeWhile (fun c => c ≠ 0)).take 63).map
    (fun c => if 65 ≤ c ∧ c ≤ 90 then c + 32 else c)

/-- The local array `lowerCmd[64]` of `Process_Command` after the copy loop: the
lower-case command, its NUL, and behind it what the array held before
(`stale`, the uninitialised content of the array from that position on). -/
def Process_Command_buffer (stale cmd : List Nat) : List Nat :=
  Process_Command_lower cmd ++ [0] ++ stale.take (63 - (Process_Command_lower cmd).length)

/-- Source function `Process_Command(cmd)`.  `fpga` stands for `FPGA_HandleCommand` of `fpga.c`,
which is not part of this development; `bufs`, `reg_value` and `stale` are what
uninitialised locals hold (the buffers of `scan_modules`, the local of
`IO16_DumpRegisters`, the array `lowerCmd`). -/
def Process_Command (fpga : List Nat → Fw → Fw) (env : Env) (bufs : ScanBufs)
    (reg_value : Nat) (stale cmd : List Nat) (s : Fw) : Fw :=
  let lowerCmd := Process_Command_buffer stale cmd
  if strcmp_eq lowerCmd (c_str "modul-algila") then
    Modul_Komut_Isle env bufs (Send_ACK "modul-algila" s)
  else if strncmp_eq lowerCmd (c_str "io16:") 5 then
    IO16_HandleCommand env reg_value (lowerCmd.drop 5) (Send_ACK "io16" s)
  else if strncmp_eq lowerCmd (c_str "aio20:") 6 then
    AIO20_HandleCommand env (lowerCmd.drop 6) (Send_ACK "aio20" s)
  else if strncmp_eq lowerCmd (c_str "fpga:") 5 then fpga (lowerCmd.drop 5) (Send_ACK "fpga" s)
  else if strcmp_eq lowerCmd (c_str "help") ∨ strcmp_eq lowerCmd (c_str "yardim") then
    Send_ACK "help" s |> UART_SendString ("\r\nMevcut Komutlar:\r\n" ++
      "  modul-algila              -> Bagli modulleri tara\r\n" ++
      "  io16:SLOT:KOMUT           -> IO16 modul kontrolu\r\n" ++
      "  aio20:SLOT:KOMUT          -> AIO20 modul kontrolu\r\n" ++
      "  fpga:SLOT:KOMUT           -> FPGA modul kontrolu\r\n" ++
      "  help                      -> Bu yardim mesaji\r\n" ++
      "\r\n" ++
      "Ornek:\r\n" ++
      "  io16:0:set:5:high         -> Slot 0, Pin 5 = HIGH\r\n" ++
      "  aio20:1:readin:3          -> Slot 1, AI3 oku\r\n" ++
      "  fpga:2:status             -> Slot 2 durumu\r\n" ++
      "\r\n")
  else UART_SendString "\r\nBilinmeyen komut! \x27help\x27 yazin.\r\n\r\n" s

/-! ## Concrete peripherals, modules and scans -/

/-- The state after boot and registration of an analog module in slot 0. -/
def fw_aio20_slot0 : Fw :=
  AIO20_Register 0 fw_boot

/-- A MAX11300 that answers the device-id read with 0x0424, the 21 writes of the
initialisation with zeros, and the reads of the detection ports 4, 7, 12, 17
with the ADC values 1080, 4095, 2160 and 0. -/
def env_init_detect : Env :=
  env_of ([0, 0x04, 0x24] ++ List.replicate 63 0 ++
    [0, 0x04, 0x38, 0, 0x0F, 0xFF, 0, 0x08, 0x70, 0, 0, 0]) []

/-- A chip whose direction register 0x16 holds 0x00, that accepts the write of
0x80 to it and then answers a read of the input register 0x00 with 0x00. -/
def env_dirgroup_1 : Env :=
  env_of (chip_read 0x16 0x00 ++ chip_write 0x16 0x80 ++ chip_read 0x00 0x00) []

/-- An SPI peripheral whose TXE flag stays RESET for 100001 polls, one more than
the polling budget of `SPI_DataExchange`; its data register holds 0x5A. -/
def env_txe_stuck : Env :=
  { spi := fun _ => ⟨100001, 0, 0x5A⟩, idr := fun _ => true, dwt_ctrl := 0x40000001 }

/-- An SPI peripheral whose RXNE flag stays RESET for 100001 polls; its data
register holds 0x5A. -/
def env_rxne_stuck : Env :=
  { spi := fun _ => ⟨0, 100001, 0x5A⟩, idr := fun _ => true, dwt_ctrl := 0x40000001 }

/-- An SPI peripheral whose TXE flag reads RESET 100000 times and SET at the
next poll; its data register holds 0x5A. -/
def env_txe_late : Env :=
  { spi := fun _ => ⟨100000, 0, 0x5A⟩, idr := fun _ => true, dwt_ctrl := 0x40000001 }

/-- Line samples of a slot whose module answers the ROM read with `rom_good` and
then gives no presence pulse any more: both memory block reads fail. -/
def ow_uid_only : List Bool :=
  ow_present ++ ow_bits rom_good ++ List.replicate 6 true

/-- Line samples of a scan in which slot 0 holds an analog module (firmware-id
"aio20-v1") and slot 1 answers with `ow_uid_only`; slots 2 and 3 are empty. -/
def ow_stale_after_aio20 : List Bool :=
  ow_module rom_good (c_str "HW-REV-A").dropLast (c_str "aio20-v1").dropLast ++ ow_uid_only

/-- Line samples of a scan in which slot 0 is empty and slot 1 answers with
`ow_uid_only`; slots 2 and 3 are empty. -/
def ow_stale_after_empty : List Bool :=
  List.replicate 3 true ++ ow_uid_only

/-! ## Arbiter: reachable states -/

/-- States of the arbiter reachable from `SPI_Module_Init` (run on any state)
through calls of `SPI_SetCS` with arbitrary arguments. -/
inductive ArbiterReachable : Fw → Prop where
  | init (s0 : Fw) : ArbiterReachable (SPI_Module_Init s0)
  | step (s : Fw) (slot : Int) (cs : chip_select_t) :
      ArbiterReachable s → ArbiterReachable (SPI_SetCS slot cs s).2

/-- Indices of the chip-select lines that are driven LOW (asserted). -/
def asserted_lines (s : Fw) : List Nat :=
  (List.range 5).filter (fun i => s.cs_pins.getD i true == false)

/-- Arbiter invariant: either no slot is claimed and all five lines are HIGH, or
slot `k` is claimed and line `k` is the only LOW line. -/
def ArbiterInv (s : Fw) : Prop :=
  (s.current_cs_slot = -1 ∧ s.cs_pins = [true, true, true, true, true]) ∨
  ∃ k : Nat, k < 5 ∧ s.current_cs_slot = (k : Int) ∧
    s.cs_pins = [true, true, true, true, true].set k false

/-- State `t` is reached from `s` by handing `bytes`, in this order, to
`SPI_DataExchange`, and in `t` no slot is claimed; the arbiter invariant is
carried over. -/
def Released (s t : Fw) (bytes : List Nat) : Prop :=
  t.current_cs_slot = -1 ∧ t.spi_n = s.spi_n + bytes.length ∧
    mosi_bytes t = mosi_bytes s ++ bytes ∧ (ArbiterInv s → ArbiterInv t)

/-- State `t` is reached from `s` by handing `bytes`, in this order, to
`SPI_DataExchange`, with the chip-select state untouched. -/
def Kept (s t : Fw) (bytes : List Nat) : Prop :=
  t.current_cs_slot = s.current_cs_slot ∧ t.cs_pins = s.cs_pins ∧
    t.spi_n = s.spi_n + bytes.length ∧ mosi_bytes t = mosi_bytes s ++ bytes

/-! ## Vocabulary of the frame theorems -/

/-- The state with everything erased that belongs to the SPI peripheral, the
arbiter and the UART: what is left are the single-wire record, the driver
registries and the record of register-transaction calls. -/
def off_spi (s : Fw) : Fw :=
  { s with current_cs_slot := 0, cs_pins := [], prescaler := 0, spi_n := 0, spi_log := [],
           uart := [] }

/-- Abstract state `b` is `a` with further register-transaction calls recorded,
each of which satisfies `P`. -/
def Appends (P : RegOp → Prop) (a b : Fw) : Prop :=
  ∃ ops : List RegOp, b = ops.foldl (fun s op => log_reg op s) a ∧ ∀ op ∈ ops, P op

/-- The register accesses of `IO16_ChipInit(slot)`: single-byte writes to the
interrupt-enable registers 0x10..0x13, the clock register 0x19, the filter
registers 0x14 and 0x15, the interrupt-reset register 0x1A and the overcurrent
status registers 0x08 and 0x09; single-byte reads of 0x1D, 0x00, 0x01, 0x08 and
0x09. -/
def IO16_ChipInit_access (slot : Nat) : RegOp → Prop
  | .io16_write sl reg count _ _ =>
    sl = slot ∧ count = 1 ∧ reg ∈ [0x10, 0x11, 0x12, 0x13, 0x19, 0x14, 0x15, 0x1A, 0x08, 0x09]
  | .io16_read sl reg count _ _ => sl = slot ∧ count = 1 ∧ reg ∈ [0x1D, 0x00, 0x01, 0x08, 0x09]
  | _ => False

/-- The abstract state `y` with the calls `ops` recorded after it, first call
first. -/
def logs (ops : List RegOp) (y : Fw) : Fw :=
  ops.foldl (fun s op => log_reg op s) y

/-- Outcomes of `IO16_SetDirection(slot, pin, d)` on a state whose abstract part
is `y`, as return code and abstract part of the state after the call: rejected
(no module, or pin out of range), the read of the direction register failed,
the write failed, or success, where the cache loop has run. -/
def IO16_SetDirection_outcome (slot pin d : Nat) (y : Fw) (ret : Int) (y' : Fw) : Prop :=
  ((IO16_GetModule slot y = none ∨ 16 ≤ pin) ∧ ret = -1 ∧ y' = y) ∨
  (∃ (m : Nat) (rc : Int) (buf : List Nat), IO16_GetModule slot y = some m ∧ pin < 16 ∧ rc ≠ 0 ∧
    ret = -1 ∧ y' = log_reg (.io16_read slot (if pin < 8 then 0x16 else 0x17) 1 rc buf) y) ∨
  (∃ (m : Nat) (buf : List Nat) (rc : Int), IO16_GetModule slot y = some m ∧ pin < 16 ∧ rc ≠ 0 ∧
    ret = -1 ∧
    y' = log_reg (.io16_write slot (if pin < 8 then 0x16 else 0x17) 1
        [IO16_SetDirection_value (if pin % 8 < 4 then 3 else 7) d (buf.getD 0 0)] rc)
      (log_reg (.io16_read slot (if pin < 8 then 0x16 else 0x17) 1 0 buf) y)) ∨
  (∃ (m : Nat) (buf : List Nat), IO16_GetModule slot y = some m ∧ pin < 16 ∧ ret = 0 ∧
    y' = io16_store m (IO16_SetDirection_cache ((pin / 4) * 4) d)
      (log_reg (.io16_write slot (if pin < 8 then 0x16 else 0x17) 1
        [IO16_SetDirection_value (if pin % 8 < 4 then 3 else 7) d (buf.getD 0 0)] 0)
      (log_reg (.io16_read slot (if pin < 8 then 0x16 else 0x17) 1 0 buf) y)))

/-- Outcomes of the part of `IO16_SetPin(slot, pin, st)` that follows the
direction check, for the module with pointer `m`: the read of the output
register failed, the write failed, or success, where the cached output bit has
been updated after the verification read. -/
def IO16_SetPin_output_outcome (slot pin st m : Nat) (y : Fw) (ret : Int) (y' : Fw) : Prop :=
  (∃ (rc : Int) (buf : List Nat), rc ≠ 0 ∧ ret = -1 ∧
    y' = log_reg (.io16_read slot (if pin < 8 then 0x0C else 0x0D) 1 rc buf) y) ∨
  (∃ (buf : List Nat) (rc : Int), rc ≠ 0 ∧ ret = -1 ∧
    y' = log_reg (.io16_write slot (if pin < 8 then 0x0C else 0x0D) 1
        [IO16_SetPin_value pin st (buf.getD 0 0)] rc)
      (log_reg (.io16_read slot (if pin < 8 then 0x0C else 0x0D) 1 0 buf) y)) ∨
  (∃ (buf : List Nat) (rc' : Int) (buf' : List Nat), ret = 0 ∧
    y' = io16_store m (IO16_SetPin_cache pin st)
      (log_reg (.io16_read slot (if pin < 8 then 0x0C else 0x0D) 1 rc' buf')
      (log_reg (.io16_write slot (if pin < 8 then 0x0C else 0x0D) 1
        [IO16_SetPin_value pin st (buf.getD 0 0)] 0)
      (log_reg (.io16_read slot (if pin < 8 then 0x0C else 0x0D) 1 0 buf) y))))

/-- Outcomes of `IO16_SetPin(slot, pin, st)` on a state whose abstract part is
`y`: rejected; pin already an output, then the outcomes of the remaining part;
pin an input, then `IO16_SetDirection(slot, pin, 1)` runs and either fails, which
ends the call, or succeeds and the remaining part follows. -/
def IO16_SetPin_outcome (slot pin st : Nat) (y : Fw) (ret : Int) (y' : Fw) : Prop :=
  ((IO16_GetModule slot y = none ∨ 16 ≤ pin) ∧ ret = -1 ∧ y' = y) ∨
  ∃ m : Nat, IO16_GetModule slot y = some m ∧ pin < 16 ∧
    (((io16_module m y).direction_mask &&& (1 <<< pin) ≠ 0 ∧
        IO16_SetPin_output_outcome slot pin st m y ret y') ∨
     ((io16_module m y).direction_mask &&& (1 <<< pin) = 0 ∧
        ∃ (rd : Int) (yd : Fw), IO16_SetDirection_outcome slot pin 1 y rd yd ∧
          ((rd ≠ 0 ∧ ret = -1 ∧ y' = yd) ∨
           (rd = 0 ∧ IO16_SetPin_output_outcome slot pin st m yd ret y'))))

/-- Outcomes of `IO16_GetPin(slot, pin)` on a state whose abstract part is `y`:
rejected; output pin, answered from the cache; input pin with a failed read;
input pin with a successful read, whose byte goes into the cache. -/
def IO16_GetPin_outcome (slot pin : Nat) (y : Fw) (ret : Int) (y' : Fw) : Prop :=
  ((IO16_GetModule slot y = none ∨ 16 ≤ pin) ∧ ret = -1 ∧ y' = y) ∨
  ∃ m : Nat, IO16_GetModule slot y = some m ∧ pin < 16 ∧
    (((io16_module m y).direction_mask &&& (1 <<< pin) ≠ 0 ∧
        ret = (if (io16_module m y).output_state &&& (1 <<< pin) ≠ 0 then 1 else 0) ∧ y' = y) ∨
     ((io16_module m y).direction_mask &&& (1 <<< pin) = 0 ∧
        ∃ (rc : Int) (buf : List Nat), rc ≠ 0 ∧ ret = -1 ∧
          y' = log_reg (.io16_read slot (if pin < 8 then 0x00 else 0x01) 1 rc buf) y) ∨
     ((io16_module m y).direction_mask &&& (1 <<< pin) = 0 ∧
        ∃ buf : List Nat,
          ret = (if buf.getD 0 0 &&& (1 <<< (pin % 8)) ≠ 0 then 1 else 0) ∧
          y' = io16_store m (IO16_GetPin_cache pin (buf.getD 0 0))
            (log_reg (.io16_read slot (if pin < 8 then 0x00 else 0x01) 1 0 buf) y)))

/-- Outcomes of `IO16_ReadAll(slot)` on a state whose abstract part is `y`. -/
def IO16_ReadAll_outcome (slot : Nat) (y : Fw) (ret : Nat) (y' : Fw) : Prop :=
  (IO16_GetModule slot y = none ∧ ret = 0 ∧ y' = y) ∨
  ∃ m : Nat, IO16_GetModule slot y = some m ∧
    ((∃ (rc : Int) (buf : List Nat), rc ≠ 0 ∧ ret = (io16_module m y).input_state ∧
        y' = log_reg (.io16_read slot 0x00 1 rc buf) y) ∨
     (∃ (buf : List Nat) (rc : Int) (buf' : List Nat), rc ≠ 0 ∧
        ret = (io16_module m y).input_state ∧
        y' = log_reg (.io16_read slot 0x01 1 rc buf') (log_reg (.io16_read slot 0x00 1 0 buf) y)) ∨
     (∃ (buf buf' : List Nat),
        ret = ((buf'.getD 0 0 <<< 8) ||| buf.getD 0 0) % 65536 ∧
        y' = io16_store m (IO16_ReadAll_cache (((buf'.getD 0 0 <<< 8) ||| buf.getD 0 0) % 65536))
          (log_reg (.io16_read slot 0x01 1 0 buf') (log_reg (.io16_read slot 0x00 1 0 buf) y))))

/-- Outcomes of `IO16_WriteAll(slot, state)` on a state whose abstract part is
`y`. -/
def IO16_WriteAll_outcome (slot state : Nat) (y : Fw) (ret : Int) (y' : Fw) : Prop :=
  (IO16_GetModule slot y = none ∧ ret = -1 ∧ y' = y) ∨
  ∃ m : Nat, IO16_GetModule slot y = some m ∧
    ((∃ rc : Int, rc ≠ 0 ∧ ret = -1 ∧
        y' = log_reg (.io16_write slot 0x0C 1 [state &&& 0xFF] rc) y) ∨
     (∃ rc : Int, rc ≠ 0 ∧ ret = -1 ∧
        y' = log_reg (.io16_write slot 0x0D 1 [(state >>> 8) &&& 0xFF] rc)
          (log_reg (.io16_write slot 0x0C 1 [state &&& 0xFF] 0) y)) ∨
     (ret = 0 ∧
        y' = io16_store m (IO16_WriteAll_cache state)
          (log_reg (.io16_write slot 0x0D 1 [(state >>> 8) &&& 0xFF] 0)
          (log_reg (.io16_write slot 0x0C 1 [state &&& 0xFF] 0) y))))

/-- Outcomes of `IO16_PrintStatus(slot)` on a state whose abstract part is `y`:
some reads are recorded, and if all six succeeded the cache of the module holds
what they returned. -/
def IO16_PrintStatus_outcome (slot : Nat) (y y' : Fw) : Prop :=
  ∃ ops : List RegOp, y' = logs ops y ∨
    ∃ m dir_a dir_b output_a output_b input_a input_b : Nat,
      IO16_GetModule slot y = some m ∧
      y' = io16_store m (IO16_PrintStatus_cache (IO16_PrintStatus_direction dir_a dir_b)
        (((output_b <<< 8) ||| output_a) % 65536) (((input_b <<< 8) ||| input_a) % 65536))
        (logs ops y)

/-- Cache invariant of one module: the direction mask fits in 16 bits and no
cached output bit lies outside it. -/
def io16_masked (md : IO16_Module) : Prop :=
  md.direction_mask < 65536 ∧ io16_stray_outputs md = 0

/-- The direction mask of a cached module state fits in 16 bits. -/
def io16_narrow (md : IO16_Module) : Prop :=
  md.direction_mask < 65536

/-- A chip that follows the calls `IO16_SetPin(0, 0, 1)`,
`IO16_SetDirection(0, 0, 0)`, `IO16_SetPin(0, 4, 1)`, starting from its reset
state: every register holds what was last written to it. -/
def env_stray_direction : Env :=
  env_of (chip_read 0x16 0x00 ++ chip_write 0x16 0x08 ++ chip_read 0x0C 0x00 ++
    chip_write 0x0C 0x01 ++ chip_read 0x0C 0x01 ++ chip_read 0x16 0x08 ++ chip_write 0x16 0x00 ++
    chip_read 0x16 0x00 ++ chip_write 0x16 0x80 ++ chip_read 0x0C 0x01 ++ chip_write 0x0C 0x11 ++
    chip_read 0x0C 0x11) []

/-- A chip that follows the calls `IO16_WriteAll(0, 0x00FF)`,
`IO16_PrintStatus(0)`, `IO16_SetPin(0, 8, 1)`, starting from its reset state:
every register holds what was last written to it. -/
def env_stray_status : Env :=
  env_of (chip_write 0x0C 0xFF ++ chip_write 0x0D 0x00 ++
    chip_read 0x16 0x00 ++ chip_read 0x17 0x00 ++ chip_read 0x0C 0xFF ++ chip_read 0x0D 0x00 ++
    chip_read 0x00 0x00 ++ chip_read 0x01 0x00 ++
    chip_read 0x17 0x00 ++ chip_write 0x17 0x08 ++ chip_read 0x0D 0x00 ++ chip_write 0x0D 0x01 ++
    chip_read 0x0D 0x01) []

/-- The single-wire line (slot) an operation works on. -/
def OwEv.line : OwEv → Int
  | .reset module => module
  | .write_bit module _ => module
  | .read_bit module => module

/-- State `b` is reached from `a` by single-wire operations on line `k` only. -/
def OwVisit (k : Int) (a b : Fw) : Prop :=
  ∃ l : List OwEv, b.ow_log = a.ow_log ++ l ∧ ∀ ev ∈ l, ev.line = k

/-- State `b` holds every digital and analog registry entry of `a`, unchanged and at
the same index. -/
def RegKeeps (a b : Fw) : Prop :=
  a.io16_modules <+: b.io16_modules ∧ a.aio20_modules <+: b.aio20_modules

/-- What a chip answers during one run of `IO16_ChipInit` when it takes part in
every transaction: the information register 0x1D holds 0x20, the input and
overcurrent registers hold 0. -/
def chip_init : List Nat :=
  chip_read 0x1D 0x20 ++ chip_write 0x10 0x00 ++ chip_write 0x11 0x00 ++ chip_write 0x12 0x00 ++
    chip_write 0x13 0x00 ++ chip_write 0x19 0x05 ++ chip_write 0x14 0x88 ++
    chip_write 0x15 0x88 ++ chip_write 0x1A 0x80 ++ chip_write 0x10 0xFF ++
    chip_write 0x11 0xFF ++ chip_read 0x00 0x00 ++ chip_read 0x01 0x00 ++
    chip_read 0x08 0x00 ++ chip_read 0x09 0x00

/-- Line samples of one scan of a backplane with one module in slot 0 whose
firmware-id block is `fid`; slots 1 to 3 are empty (presence sample HIGH). -/
def ow_scan_slot0 (fid : String) : List Bool :=
  ow_module rom_good (c_str "HW-REV-A").dropLast (c_str fid).dropLast ++ List.replicate 9 true

/-- A digital module in slot 0 during two scans, with the chip answering every
transaction of `IO16_ChipInit` and of an `IO16_SetDirection(0, 13, 1)` call
between the scans; from the third scan on the backplane is empty. -/
def env_rescan_io16 : Env :=
  env_of (chip_init ++ chip_read 0x17 0x00 ++ chip_write 0x17 0x80 ++ chip_init)
    (ow_scan_slot0 "io16-v01" ++ ow_scan_slot0 "io16-v01")

/-- An analog module in slot 0 during two scans. -/
def env_rescan_aio20 : Env :=
  env_of [] (ow_scan_slot0 "aio20-v1" ++ ow_scan_slot0 "aio20-v1")

/-! ## Vocabulary of the analog driver and of the polling loops -/

/-- The number of polls of the flag in the busy-wait
`while (flag == RESET && timeout--);`, with the arguments of `spi_wait`. -/
def spi_polls : Nat → Nat → Nat
  | 0, _ => 1
  | _ + 1, 0 => 1
  | w + 1, timeout + 1 => spi_polls w timeout + 1

/-- The 16-bit word that `AIO20_ReadRegister` assembles when it is called in a
state with `n` exchanges behind it: the answers to the second and third
exchange of the transaction, MSB first. -/
def aio20_word (env : Env) (n : Nat) : Nat :=
  ((miso_of (env.spi (n + 1)) <<< 8) ||| miso_of (env.spi (n + 2))) % 65536

/-- The cache update at the end of a successful `AIO20_ChipInit(slot)` on a
state: the port modes of the module registered for the slot, if there is one. -/
def AIO20_ChipInit_store (slot : Nat) (y : Fw) : Fw :=
  match AIO20_GetModule slot y with
  | some m => aio20_store m AIO20_ChipInit_cache y
  | none => y

/-- The register writes of a successful `AIO20_ChipInit(slot)`: device control,
then the mode word 0x71e0 to the port configuration registers 0x20..0x33. -/
def AIO20_ChipInit_writes (slot : Nat) : List RegOp :=
  .aio20_write slot 0x10 0x0003 0 ::
    (List.range 20).map (fun port => .aio20_write slot (0x20 + port) 0x71e0 0)

/-- The per-card cached AFE types of all registered analog modules. -/
def afe_types_of (s : Fw) : List (List Nat) :=
  s.aio20_modules.map AIO20_Module.afe_types

/-- State `x` holds the same cached AFE types as `a`. -/
def AfeKeeps (a x : Fw) : Prop :=
  afe_types_of x = afe_types_of a

/-! ## Theorems: arbiter -/

theorem SPI_SetCS_enable_conflict (s : Fw) (b : Int) (hb0 : 0 ≤ b) (hb4 : b ≤ 4)
    (hclaimed : s.current_cs_slot ≠ -1) (hne : s.current_cs_slot ≠ b) :
    SPI_SetCS b .CS_ENABLE s = (-1, s) := by
  have h1 : ¬ (b < 0 ∨ b > 4) := by omega
  simp [SPI_SetCS, h1, hclaimed, hne]

theorem SPI_SetCS_disable_other (s : Fw) (b : Int) (hne : s.current_cs_slot ≠ b) :
    SPI_SetCS b .CS_DISABLE s = (if 0 ≤ b ∧ b ≤ 4 ∧ s.current_cs_slot = -1 then 0 else -1, s) := by
  unfold SPI_SetCS
  by_cases h1 : b < 0 ∨ b > 4
  · have h2 : ¬ (0 ≤ b ∧ b ≤ 4 ∧ s.current_cs_slot = -1) := by omega
    rw [if_pos h1, if_neg h2]
  · rw [if_neg h1]
    by_cases h4 : s.current_cs_slot = -1
    · have h2 : 0 ≤ b ∧ b ≤ 4 ∧ s.current_cs_slot = -1 := by omega
      simp only [if_neg hne, if_pos h4, if_pos h2]
    · have h2 : ¬ (0 ≤ b ∧ b ≤ 4 ∧ s.current_cs_slot = -1) := by omega
      simp only [if_neg hne, if_neg h4, if_neg h2]

theorem SPI_SetCS_enable_free (s : Fw) (b : Int) (hb0 : 0 ≤ b) (hb4 : b ≤ 4)
    (hfree : s.current_cs_slot = -1) :
    SPI_SetCS b .CS_ENABLE s =
      (0, { SPI_SetPrescalerForSlot b (cs_all_high s) with
              cs_pins := (cs_all_high s).cs_pins.set b.toNat false, current_cs_slot := b }) := by
  have h1 : ¬ (b < 0 ∨ b > 4) := by omega
  unfold SPI_SetCS
  rw [if_neg h1]
  simp only [if_pos hfree]
  rfl

theorem SPI_SetCS_enable_same (s : Fw) (b : Int) (hb0 : 0 ≤ b) (hb4 : b ≤ 4)
    (hsame : s.current_cs_slot = b) :
    SPI_SetCS b .CS_ENABLE s = (0, s) := by
  have h1 : ¬ (b < 0 ∨ b > 4) := by omega
  have h2 : ¬ (s.current_cs_slot = -1) := by omega
  unfold SPI_SetCS
  rw [if_neg h1]
  simp only [if_neg h2, if_pos hsame]

theorem SPI_SetCS_disable_same (s : Fw) (b : Int) (hb0 : 0 ≤ b) (hb4 : b ≤ 4)
    (hsame : s.current_cs_slot = b) :
    SPI_SetCS b .CS_DISABLE s =
      (0, { s with cs_pins := s.cs_pins.set b.toNat true, current_cs_slot := -1 }) := by
  have h1 : ¬ (b < 0 ∨ b > 4) := by omega
  unfold SPI_SetCS
  rw [if_neg h1]
  simp only [if_pos hsame]

theorem SPI_SetCS_invalid (s : Fw) (b : Int) (cs : chip_select_t) (h : b < 0 ∨ b > 4) :
    SPI_SetCS b cs s = (-1, s) := by
  unfold SPI_SetCS
  rw [if_pos h]

theorem ArbiterInv_init (s0 : Fw) : ArbiterInv (SPI_Module_Init s0) := by
  left
  simp [SPI_Module_Init]

theorem ArbiterInv_step (s : Fw) (slot : Int) (cs : chip_select_t) (h : ArbiterInv s) :
    ArbiterInv (SPI_SetCS slot cs s).2 := by
  by_cases h1 : slot < 0 ∨ slot > 4
  · rw [SPI_SetCS_invalid s slot cs h1]
    exact h
  · have h3 : 0 ≤ slot ∧ slot ≤ 4 := by omega
    by_cases hsame : s.current_cs_slot = slot
    · cases cs
      · rw [SPI_SetCS_enable_same s slot h3.1 h3.2 hsame]
        exact h
      · rw [SPI_SetCS_disable_same s slot h3.1 h3.2 hsame]
        left
        refine ⟨rfl, ?_⟩
        rcases h with ⟨hc, _⟩ | ⟨k, hk, hc, hp⟩
        · omega
        · have hk2 : slot.toNat = k := by omega
          simp only [hp, hk2]
          interval_cases k <;> rfl
    · cases cs
      · by_cases hfree : s.current_cs_slot = -1
        · rw [SPI_SetCS_enable_free s slot h3.1 h3.2 hfree]
          right
          refine ⟨slot.toNat, by omega, by simp; omega, ?_⟩
          rcases h with ⟨_, hp⟩ | ⟨k, _, hc, _⟩
          · simp only [cs_all_high, hp]
            have : slot.toNat < 5 := by omega
            interval_cases slot.toNat <;> rfl
          · omega
        · rw [SPI_SetCS_enable_conflict s slot h3.1 h3.2 hfree hsame]
          exact h
      · rw [SPI_SetCS_disable_other s slot hsame]
        exact h

theorem ArbiterInv_reachable (s : Fw) (h : ArbiterReachable s) : ArbiterInv s := by
  induction h with
  | init s0 => exact ArbiterInv_init s0
  | step s slot cs _ ih => exact ArbiterInv_step s slot cs ih

theorem ArbiterInv_asserted (s : Fw) (h : ArbiterInv s) :
    asserted_lines s = (if s.current_cs_slot = -1 then [] else [s.current_cs_slot.toNat]) := by
  rcases h with ⟨hc, hp⟩ | ⟨k, hk, hc, hp⟩
  · simp [asserted_lines, hc, hp]
    decide
  · have hk1 : ¬ ((k : Int) = -1) := by omega
    simp only [asserted_lines, hc, hp, hk1, if_false, Int.toNat_ofNat]
    interval_cases k <;> decide

/-! ## Frame lemmas: what each primitive leaves untouched -/

@[simp] theorem UART_SendString_current (str : String) (s : Fw) :
    (UART_SendString str s).current_cs_slot = s.current_cs_slot := rfl
@[simp] theorem UART_SendString_cs_pins (str : String) (s : Fw) :
    (UART_SendString str s).cs_pins = s.cs_pins := rfl
@[simp] theorem UART_SendString_spi_n (str : String) (s : Fw) :
    (UART_SendString str s).spi_n = s.spi_n := rfl
@[simp] theorem UART_SendString_spi_log (str : String) (s : Fw) :
    (UART_SendString str s).spi_log = s.spi_log := rfl
@[simp] theorem UART_SendHex8_current (d : Nat) (s : Fw) :
    (UART_SendHex8 d s).current_cs_slot = s.current_cs_slot := rfl
@[simp] theorem UART_SendHex8_cs_pins (d : Nat) (s : Fw) :
    (UART_SendHex8 d s).cs_pins = s.cs_pins := rfl
@[simp] theorem UART_SendHex8_spi_n (d : Nat) (s : Fw) :
    (UART_SendHex8 d s).spi_n = s.spi_n := rfl
@[simp] theorem UART_SendHex8_spi_log (d : Nat) (s : Fw) :
    (UART_SendHex8 d s).spi_log = s.spi_log := rfl
@[simp] theorem UART_SendHex16_current (d : Nat) (s : Fw) :
    (UART_SendHex16 d s).current_cs_slot = s.current_cs_slot := rfl
@[simp] theorem UART_SendHex16_cs_pins (d : Nat) (s : Fw) :
    (UART_SendHex16 d s).cs_pins = s.cs_pins := rfl
@[simp] theorem UART_SendHex16_spi_n (d : Nat) (s : Fw) :
    (UART_SendHex16 d s).spi_n = s.spi_n := rfl
@[simp] theorem UART_SendHex16_spi_log (d : Nat) (s : Fw) :
    (UART_SendHex16 d s).spi_log = s.spi_log := rfl

theorem SPI_DataExchange_eq (env : Env) (slot : Int) (m : Nat) (s : Fw) :
    SPI_DataExchange env slot m s =
      (miso_of (env.spi s.spi_n),
        { s with spi_n := s.spi_n + 1,
                 spi_log := s.spi_log ++
                   [⟨m, wired_of (env.spi s.spi_n), miso_of (env.spi s.spi_n)⟩] }) := by
  by_cases h1 : spi_wait (env.spi s.spi_n).txe 100000 = 0
  · simp [SPI_DataExchange, miso_of, wired_of, h1]
  · by_cases h2 : spi_wait (env.spi s.spi_n).rxne 100000 = 0
    · simp [SPI_DataExchange, miso_of, wired_of, h1, h2]
    · simp [SPI_DataExchange, miso_of, wired_of, h1, h2]

@[simp] theorem SPI_DataExchange_fst (env : Env) (slot : Int) (m : Nat) (s : Fw) :
    (SPI_DataExchange env slot m s).1 = miso_of (env.spi s.spi_n) := by
  rw [SPI_DataExchange_eq]

@[simp] theorem SPI_DataExchange_current (env : Env) (slot : Int) (m : Nat) (s : Fw) :
    (SPI_DataExchange env slot m s).2.current_cs_slot = s.current_cs_slot := by
  rw [SPI_DataExchange_eq]

@[simp] theorem SPI_DataExchange_cs_pins (env : Env) (slot : Int) (m : Nat) (s : Fw) :
    (SPI_DataExchange env slot m s).2.cs_pins = s.cs_pins := by
  rw [SPI_DataExchange_eq]

@[simp] theorem SPI_DataExchange_spi_n (env : Env) (slot : Int) (m : Nat) (s : Fw) :
    (SPI_DataExchange env slot m s).2.spi_n = s.spi_n + 1 := by
  rw [SPI_DataExchange_eq]

@[simp] theorem SPI_DataExchange_spi_log (env : Env) (slot : Int) (m : Nat) (s : Fw) :
    (SPI_DataExchange env slot m s).2.spi_log =
      s.spi_log ++ [⟨m, wired_of (env.spi s.spi_n), miso_of (env.spi s.spi_n)⟩] := by
  rw [SPI_DataExchange_eq]

theorem SPI_SetCS_snd_cases (slot : Int) (cs : chip_select_t) (s : Fw) :
    (SPI_SetCS slot cs s).2 = s ∨
    (SPI_SetCS slot cs s).2 =
      { s with cs_pins := s.cs_pins.set slot.toNat true, current_cs_slot := -1 } ∨
    (SPI_SetCS slot cs s).2 =
      { SPI_SetPrescalerForSlot slot (cs_all_high s) with
          cs_pins := (cs_all_high s).cs_pins.set slot.toNat false, current_cs_slot := slot } := by
  by_cases h1 : slot < 0 ∨ slot > 4
  · rw [SPI_SetCS_invalid s slot cs h1]
    exact Or.inl rfl
  · by_cases hsame : s.current_cs_slot = slot
    · cases cs
      · rw [SPI_SetCS_enable_same s slot (by omega) (by omega) hsame]
        exact Or.inl rfl
      · rw [SPI_SetCS_disable_same s slot (by omega) (by omega) hsame]
        exact Or.inr (Or.inl rfl)
    · cases cs
      · by_cases hfree : s.current_cs_slot = -1
        · rw [SPI_SetCS_enable_free s slot (by omega) (by omega) hfree]
          exact Or.inr (Or.inr rfl)
        · rw [SPI_SetCS_enable_conflict s slot (by omega) (by omega) hfree hsame]
          exact Or.inl rfl
      · rw [SPI_SetCS_disable_other s slot hsame]
        exact Or.inl rfl

@[simp] theorem SPI_SetCS_spi_n (slot : Int) (cs : chip_select_t) (s : Fw) :
    (SPI_SetCS slot cs s).2.spi_n = s.spi_n := by
  rcases SPI_SetCS_snd_cases slot cs s with h | h | h <;> (rw [h]; try rfl)

@[simp] theorem SPI_SetCS_spi_log (slot : Int) (cs : chip_select_t) (s : Fw) :
    (SPI_SetCS slot cs s).2.spi_log = s.spi_log := by
  rcases SPI_SetCS_snd_cases slot cs s with h | h | h <;> (rw [h]; try rfl)

theorem ArbiterInv_congr (s t : Fw) (hc : t.current_cs_slot = s.current_cs_slot)
    (hp : t.cs_pins = s.cs_pins) (h : ArbiterInv s) : ArbiterInv t := by
  unfold ArbiterInv at *
  rw [hc, hp]
  exact h

/-- After a release attempt for `slot` no slot is claimed, provided the bus was
free or claimed by `slot` itself. -/
theorem SPI_SetCS_disable_current (slot : Nat) (s : Fw) (hslot : slot ≤ 4)
    (h : s.current_cs_slot = -1 ∨ s.current_cs_slot = (slot : Int)) :
    (SPI_SetCS slot .CS_DISABLE s).2.current_cs_slot = -1 := by
  by_cases hsame : s.current_cs_slot = (slot : Int)
  · rw [SPI_SetCS_disable_same s slot (by omega) (by omega) hsame]
  · rw [SPI_SetCS_disable_other s slot hsame]
    rcases h with h | h
    · exact h
    · exact absurd h hsame

/-- A successful claim of `slot` leaves `slot` claimed. -/
theorem SPI_SetCS_enable_ok (slot : Nat) (s : Fw)
    (h : (SPI_SetCS slot .CS_ENABLE s).1 = 0) :
    (SPI_SetCS slot .CS_ENABLE s).2.current_cs_slot = (slot : Int) ∧ slot ≤ 4 := by
  by_cases h1 : (slot : Int) < 0 ∨ (slot : Int) > 4
  · rw [SPI_SetCS_invalid s slot _ h1] at h
    simp at h
  · by_cases hfree : s.current_cs_slot = -1
    · rw [SPI_SetCS_enable_free s slot (by omega) (by omega) hfree]
      exact ⟨rfl, by omega⟩
    · by_cases hsame : s.current_cs_slot = (slot : Int)
      · rw [SPI_SetCS_enable_same s slot (by omega) (by omega) hsame]
        exact ⟨hsame, by omega⟩
      · rw [SPI_SetCS_enable_conflict s slot (by omega) (by omega) hfree hsame] at h
        simp at h

/-! ## The write transaction -/

theorem SPI_SetCS_enable_fst (slot : Nat) (s : Fw) (hslot : slot ≤ 4)
    (h : s.current_cs_slot = -1 ∨ s.current_cs_slot = (slot : Int)) :
    (SPI_SetCS slot .CS_ENABLE s).1 = 0 := by
  by_cases hsame : s.current_cs_slot = (slot : Int)
  · rw [SPI_SetCS_enable_same s slot (by omega) (by omega) hsame]
  · have hfree : s.current_cs_slot = -1 := by
      rcases h with h | h
      · exact h
      · exact absurd h hsame
    rw [SPI_SetCS_enable_free s slot (by omega) (by omega) hfree]

theorem IO16_WriteRegister_data_tail (env : Env) (slot : Nat) (value : List Nat) (cb : Nat) :
    ∀ (k i : Nat) (s : Fw), 0 < i →
      (IO16_WriteRegister_data env slot value cb k i s).1 = true ∧
      (IO16_WriteRegister_data env slot value cb k i s).2.spi_n = s.spi_n + k ∧
      (IO16_WriteRegister_data env slot value cb k i s).2.current_cs_slot = s.current_cs_slot ∧
      (IO16_WriteRegister_data env slot value cb k i s).2.cs_pins = s.cs_pins ∧
      mosi_bytes (IO16_WriteRegister_data env slot value cb k i s).2 =
        mosi_bytes s ++ (List.range k).map (fun j => value.getD (i + j) 0) := by
  intro k
  induction k with
  | zero =>
    intro i s _
    simp [IO16_WriteRegister_data]
  | succ k ih =>
    intro i s hi
    have hi0 : ¬ (i = 0 ∧ (SPI_DataExchange env (slot : Int) (value.getD i 0) s).1 ≠ cb) := by
      omega
    simp only [IO16_WriteRegister_data]
    rw [if_neg hi0]
    obtain ⟨h1, h2, h3, h4, h5⟩ := ih (i + 1)
      (UART_SendString "\r\n" (UART_SendHex8 (SPI_DataExchange env (slot : Int) (value.getD i 0) s).1
        (UART_SendString " Got=0x" (UART_SendHex8 (value.getD i 0)
        (UART_SendString "]=0x" (UART_SendHex8 i (UART_SendString "[SPI-WR] Data["
        (SPI_DataExchange env (slot : Int) (value.getD i 0) s).2))))))) (by omega)
    refine ⟨h1, ?_, ?_, ?_, ?_⟩
    · rw [h2]
      simp
      omega
    · rw [h3]
      simp
    · rw [h4]
      simp
    · rw [h5]
      simp [mosi_bytes, List.range_succ_eq_map, Function.comp_def]
      intro a _
      rw [show i + 1 + a = i + (a + 1) by omega]

theorem Released_of_disable (slot : Nat) (s t : Fw) (bytes : List Nat) (hslot : slot ≤ 4)
    (hcur : s.current_cs_slot = (slot : Int))
    (h1 : t.current_cs_slot = s.current_cs_slot) (h2 : t.cs_pins = s.cs_pins)
    (h3 : t.spi_n = s.spi_n + bytes.length) (h4 : mosi_bytes t = mosi_bytes s ++ bytes) :
    Released s (SPI_SetCS slot .CS_DISABLE t).2 bytes := by
  refine ⟨SPI_SetCS_disable_current slot t hslot (Or.inr (h1.trans hcur)), ?_, ?_, ?_⟩
  · rw [SPI_SetCS_spi_n, h3]
  · rw [mosi_bytes, SPI_SetCS_spi_log]
    exact h4
  · intro hinv
    exact ArbiterInv_step t slot _ (ArbiterInv_congr s t h1 h2 hinv)

theorem IO16_WriteRegister_data_fail (env : Env) (slot : Nat) (value : List Nat) (cb k : Nat)
    (s : Fw) (hslot : slot ≤ 4) (hcur : s.current_cs_slot = (slot : Int))
    (h : miso_of (env.spi s.spi_n) ≠ cb) :
    (IO16_WriteRegister_data env slot value cb (k + 1) 0 s).1 = false ∧
    Released s (IO16_WriteRegister_data env slot value cb (k + 1) 0 s).2 [value.getD 0 0] := by
  have hc : (True ∧ (SPI_DataExchange env (slot : Int) (value.getD 0 0) s).1 ≠ cb) := by
    simpa using h
  simp only [IO16_WriteRegister_data]
  rw [if_pos hc]
  refine ⟨rfl, ?_⟩
  apply Released_of_disable slot s _ _ hslot hcur
  · simp
  · simp
  · simp
  · simp [mosi_bytes]

theorem IO16_WriteRegister_data_ok (env : Env) (slot : Nat) (value : List Nat) (cb k : Nat)
    (s : Fw) (h : miso_of (env.spi s.spi_n) = cb) :
    (IO16_WriteRegister_data env slot value cb (k + 1) 0 s).1 = true ∧
    (IO16_WriteRegister_data env slot value cb (k + 1) 0 s).2.spi_n = s.spi_n + (k + 1) ∧
    (IO16_WriteRegister_data env slot value cb (k + 1) 0 s).2.current_cs_slot =
      s.current_cs_slot ∧
    (IO16_WriteRegister_data env slot value cb (k + 1) 0 s).2.cs_pins = s.cs_pins ∧
    mosi_bytes (IO16_WriteRegister_data env slot value cb (k + 1) 0 s).2 =
      mosi_bytes s ++ (List.range (k + 1)).map (fun j => value.getD j 0) := by
  have hc : ¬ (True ∧ (SPI_DataExchange env (slot : Int) (value.getD 0 0) s).1 ≠ cb) := by
    simpa using h
  simp only [IO16_WriteRegister_data]
  rw [if_neg hc]
  obtain ⟨h1, h2, h3, h4, h5⟩ := IO16_WriteRegister_data_tail env slot value cb k (0 + 1)
    (UART_SendString "\r\n" (UART_SendHex8 (SPI_DataExchange env (slot : Int) (value.getD 0 0) s).1
      (UART_SendString " Got=0x" (UART_SendHex8 (value.getD 0 0)
      (UART_SendString "]=0x" (UART_SendHex8 0 (UART_SendString "[SPI-WR] Data["
      (SPI_DataExchange env (slot : Int) (value.getD 0 0) s).2))))))) (by omega)
  refine ⟨h1, ?_, ?_, ?_, ?_⟩
  · rw [h2]
    simp
    omega
  · rw [h3]
    simp
  · rw [h4]
    simp
  · rw [h5]
    simp [mosi_bytes, List.range_succ_eq_map, Function.comp_def]
    intro a _
    rw [show 1 + a = a + 1 by omega]


theorem IO16_WriteRegister_ctrl_spec (env : Env) (slot : Nat) (s : Fw) (hslot : slot ≤ 4)
    (hcur : s.current_cs_slot = (slot : Int)) :
    Released s (IO16_WriteRegister_ctrl env slot s).2 [CTRL_BYTE] ∧
    (IO16_WriteRegister_ctrl env slot s).1 =
      (if miso_of (env.spi s.spi_n) = CTRL_BYTE then 0 else -1) := by
  by_cases h : miso_of (env.spi s.spi_n) = CTRL_BYTE
  · simp only [IO16_WriteRegister_ctrl, SPI_DataExchange_fst, h, ne_eq, not_true_eq_false,
      if_false, if_true, and_true]
    apply Released_of_disable slot s _ _ hslot hcur <;> simp [mosi_bytes]
  · simp only [IO16_WriteRegister_ctrl, SPI_DataExchange_fst, h, ne_eq, not_false_eq_true,
      if_false, if_true, and_true]
    apply Released_of_disable slot s _ _ hslot hcur <;> simp [mosi_bytes]

theorem Released_extend (s t r : Fw) (b1 b2 : List Nat) (hk : Kept s t b1)
    (hr : Released t r b2) : Released s r (b1 ++ b2) := by
  obtain ⟨k1, k2, k3, k4⟩ := hk
  obtain ⟨r1, r2, r3, r4⟩ := hr
  refine ⟨r1, ?_, ?_, ?_⟩
  · rw [r2, k3, List.length_append]
    omega
  · rw [r3, k4, List.append_assoc]
  · intro hinv
    exact r4 (ArbiterInv_congr s t k1 k2 hinv)

theorem Released_of_kept (slot : Nat) (s t : Fw) (bytes : List Nat) (hslot : slot ≤ 4)
    (hcur : s.current_cs_slot = (slot : Int)) (hk : Kept s t bytes) :
    Released s (SPI_SetCS slot .CS_DISABLE t).2 bytes :=
  Released_of_disable slot s t bytes hslot hcur hk.1 hk.2.1 hk.2.2.1 hk.2.2.2

theorem IO16_WriteRegister_data_kept (env : Env) (slot : Nat) (value : List Nat) (cb k : Nat)
    (s : Fw) (h : miso_of (env.spi s.spi_n) = cb) :
    (IO16_WriteRegister_data env slot value cb (k + 1) 0 s).1 = true ∧
    Kept s (IO16_WriteRegister_data env slot value cb (k + 1) 0 s).2
      ((List.range (k + 1)).map (fun j => value.getD j 0)) := by
  obtain ⟨h1, h2, h3, h4, h5⟩ := IO16_WriteRegister_data_ok env slot value cb k s h
  refine ⟨h1, h3, h4, ?_, h5⟩
  rw [h2]
  simp

theorem IO16_WriteRegister_end_spec (env : Env) (slot reg n : Nat) (value : List Nat) (s : Fw)
    (hslot : slot ≤ 4) (hcur : s.current_cs_slot = (slot : Int)) :
    (miso_of (env.spi s.spi_n) ≠ value.getD (n - 1) 0 →
      (IO16_WriteRegister_end env slot reg n value s).1 = -1 ∧
      Released s (IO16_WriteRegister_end env slot reg n value s).2
        [get_address_byte ((reg + n + 255) % 256) 0]) ∧
    (miso_of (env.spi s.spi_n) = value.getD (n - 1) 0 →
      (IO16_WriteRegister_end env slot reg n value s).1 =
        (if miso_of (env.spi (s.spi_n + 1)) = CTRL_BYTE then 0 else -1) ∧
      Released s (IO16_WriteRegister_end env slot reg n value s).2
        [get_address_byte ((reg + n + 255) % 256) 0, CTRL_BYTE]) := by
  constructor
  · intro h
    simp only [IO16_WriteRegister_end, SPI_DataExchange_fst, h, ne_eq, not_false_eq_true,
      if_true, true_and]
    apply Released_of_disable slot s _ _ hslot hcur <;> simp [mosi_bytes]
  · intro h
    simp only [IO16_WriteRegister_end, SPI_DataExchange_fst, h, ne_eq, not_true_eq_false,
      if_false]
    have hk : Kept s (UART_SendString " OK\r\n" (UART_SendHex8 (value.getD (n - 1) 0)
        (UART_SendString " Got=0x" (UART_SendHex8 (get_address_byte ((reg + n + 255) % 256) 0)
        (UART_SendString "[SPI-WR] End_addr=0x"
        (SPI_DataExchange env (slot : Int) (get_address_byte ((reg + n + 255) % 256) 0) s).2)))))
        [get_address_byte ((reg + n + 255) % 256) 0] := by
      refine ⟨?_, ?_, ?_, ?_⟩ <;> simp [mosi_bytes]
    obtain ⟨c1, c2⟩ := IO16_WriteRegister_ctrl_spec env slot _ hslot (hk.1.trans hcur)
    refine ⟨?_, Released_extend s _ _ _ _ hk c1⟩
    rw [c2, hk.2.2.1]
    simp

theorem Kept_trans (s t u : Fw) (b1 b2 : List Nat) (h1 : Kept s t b1) (h2 : Kept t u b2) :
    Kept s u (b1 ++ b2) := by
  obtain ⟨a1, a2, a3, a4⟩ := h1
  obtain ⟨c1, c2, c3, c4⟩ := h2
  refine ⟨c1.trans a1, c2.trans a2, ?_, ?_⟩
  · rw [c3, a3, List.length_append]
    omega
  · rw [c4, a4, List.append_assoc]

theorem IO16_WriteRegister_count_spec (env : Env) (slot reg k : Nat) (value : List Nat) (s : Fw)
    (hslot : slot ≤ 4) (hcur : s.current_cs_slot = (slot : Int)) :
    (miso_of (env.spi s.spi_n) ≠ get_address_byte reg 0 →
      (IO16_WriteRegister_count env slot reg (k + 1) value s).1 = -1 ∧
      Released s (IO16_WriteRegister_count env slot reg (k + 1) value s).2
        [get_count_byte (k + 1)]) ∧
    (miso_of (env.spi s.spi_n) = get_address_byte reg 0 →
      miso_of (env.spi (s.spi_n + 1)) ≠ get_count_byte (k + 1) →
      (IO16_WriteRegister_count env slot reg (k + 1) value s).1 = -1 ∧
      Released s (IO16_WriteRegister_count env slot reg (k + 1) value s).2
        ([get_count_byte (k + 1)] ++ [value.getD 0 0])) ∧
    (miso_of (env.spi s.spi_n) = get_address_byte reg 0 →
      miso_of (env.spi (s.spi_n + 1)) = get_count_byte (k + 1) →
      miso_of (env.spi (s.spi_n + (k + 2))) ≠ value.getD k 0 →
      (IO16_WriteRegister_count env slot reg (k + 1) value s).1 = -1 ∧
      Released s (IO16_WriteRegister_count env slot reg (k + 1) value s).2
        (([get_count_byte (k + 1)] ++ (List.range (k + 1)).map (fun j => value.getD j 0)) ++
          [get_address_byte ((reg + (k + 1) + 255) % 256) 0])) ∧
    (miso_of (env.spi s.spi_n) = get_address_byte reg 0 →
      miso_of (env.spi (s.spi_n + 1)) = get_count_byte (k + 1) →
      miso_of (env.spi (s.spi_n + (k + 2))) = value.getD k 0 →
      (IO16_WriteRegister_count env slot reg (k + 1) value s).1 =
        (if miso_of (env.spi (s.spi_n + (k + 3))) = CTRL_BYTE then 0 else -1) ∧
      Released s (IO16_WriteRegister_count env slot reg (k + 1) value s).2
        (([get_count_byte (k + 1)] ++ (List.range (k + 1)).map (fun j => value.getD j 0)) ++
          [get_address_byte ((reg + (k + 1) + 255) % 256) 0, CTRL_BYTE])) := by
  have hA : miso_of (env.spi s.spi_n) ≠ get_address_byte reg 0 →
      (IO16_WriteRegister_count env slot reg (k + 1) value s).1 = -1 ∧
      Released s (IO16_WriteRegister_count env slot reg (k + 1) value s).2
        [get_count_byte (k + 1)] := by
    intro h
    simp only [IO16_WriteRegister_count, SPI_DataExchange_fst, h, ne_eq, not_false_eq_true,
      if_true, true_and]
    apply Released_of_disable slot s _ _ hslot hcur <;> simp [mosi_bytes]
  refine ⟨hA, ?_, ?_, ?_⟩
  all_goals
    intro h
    simp only [IO16_WriteRegister_count, SPI_DataExchange_fst, h, ne_eq, not_true_eq_false,
      if_false]
    have hk : Kept s (UART_SendString " OK\r\n" (UART_SendHex8 (get_address_byte reg 0)
        (UART_SendString " Got=0x" (UART_SendHex8 (get_count_byte (k + 1))
        (UART_SendString "[SPI-WR] Sent count=0x"
        (SPI_DataExchange env (slot : Int) (get_count_byte (k + 1)) s).2)))))
        [get_count_byte (k + 1)] := by
      refine ⟨?_, ?_, ?_, ?_⟩ <;> simp [mosi_bytes]
    have hn : (UART_SendString " OK\r\n" (UART_SendHex8 (get_address_byte reg 0)
        (UART_SendString " Got=0x" (UART_SendHex8 (get_count_byte (k + 1))
        (UART_SendString "[SPI-WR] Sent count=0x"
        (SPI_DataExchange env (slot : Int) (get_count_byte (k + 1)) s).2))))).spi_n =
        s.spi_n + 1 := by simp
    generalize (UART_SendString " OK\r\n" (UART_SendHex8 (get_address_byte reg 0)
        (UART_SendString " Got=0x" (UART_SendHex8 (get_count_byte (k + 1))
        (UART_SendString "[SPI-WR] Sent count=0x"
        (SPI_DataExchange env (slot : Int) (get_count_byte (k + 1)) s).2))))) = T at hk hn ⊢
  · intro h2
    obtain ⟨d1, d2⟩ := IO16_WriteRegister_data_fail env slot value (get_count_byte (k + 1)) k T
      hslot (hk.1.trans hcur) (by rw [hn]; exact h2)
    rw [d1]
    exact ⟨rfl, Released_extend s T _ _ _ hk d2⟩
  · intro h2 h3
    obtain ⟨d1, d2⟩ := IO16_WriteRegister_data_kept env slot value (get_count_byte (k + 1)) k T
      (by rw [hn]; exact h2)
    rw [d1]
    have hk2 := Kept_trans s T _ _ _ hk d2
    have hn2 := hk2.2.2.1
    simp only [List.length_append, List.length_map, List.length_range, List.length_singleton]
      at hn2
    obtain ⟨e1, _⟩ := IO16_WriteRegister_end_spec env slot reg (k + 1) value _ hslot
      (hk2.1.trans hcur)
    obtain ⟨f1, f2⟩ := e1 (by
      rw [hn2, show s.spi_n + (1 + (k + 1)) = s.spi_n + (k + 2) by omega]
      simpa using h3)
    exact ⟨by simpa using f1, Released_extend s _ _ _ _ hk2 f2⟩
  · intro h2 h3
    obtain ⟨d1, d2⟩ := IO16_WriteRegister_data_kept env slot value (get_count_byte (k + 1)) k T
      (by rw [hn]; exact h2)
    rw [d1]
    have hk2 := Kept_trans s T _ _ _ hk d2
    have hn2 := hk2.2.2.1
    simp only [List.length_append, List.length_map, List.length_range, List.length_singleton]
      at hn2
    obtain ⟨_, e2⟩ := IO16_WriteRegister_end_spec env slot reg (k + 1) value _ hslot
      (hk2.1.trans hcur)
    obtain ⟨f1, f2⟩ := e2 (by
      rw [hn2, show s.spi_n + (1 + (k + 1)) = s.spi_n + (k + 2) by omega]
      simpa using h3)
    refine ⟨?_, Released_extend s _ _ _ _ hk2 f2⟩
    simp only [Bool.true_eq_false, if_false]
    rw [f1, hn2, show s.spi_n + (1 + (k + 1)) + 1 = s.spi_n + (k + 3) by omega]

theorem Released_of_enable (s t r : Fw) (bytes : List Nat) (hn : t.spi_n = s.spi_n)
    (hm : mosi_bytes t = mosi_bytes s) (hinv : ArbiterInv s → ArbiterInv t)
    (hr : Released t r bytes) : Released s r bytes := by
  obtain ⟨r1, r2, r3, r4⟩ := hr
  exact ⟨r1, by rw [r2, hn], by rw [r3, hm], fun h => r4 (hinv h)⟩

@[simp] theorem log_reg_current (op : RegOp) (s : Fw) :
    (log_reg op s).current_cs_slot = s.current_cs_slot := rfl
@[simp] theorem log_reg_cs_pins (op : RegOp) (s : Fw) :
    (log_reg op s).cs_pins = s.cs_pins := rfl
@[simp] theorem log_reg_spi_n (op : RegOp) (s : Fw) :
    (log_reg op s).spi_n = s.spi_n := rfl
@[simp] theorem log_reg_spi_log (op : RegOp) (s : Fw) :
    (log_reg op s).spi_log = s.spi_log := rfl

theorem Released_log_reg (s t : Fw) (op : RegOp) (bytes : List Nat) :
    Released s (log_reg op t) bytes ↔ Released s t bytes := Iff.rfl

theorem IO16_WriteRegister_fst (env : Env) (slot reg count : Nat) (value : List Nat) (s : Fw) :
    (IO16_WriteRegister env slot reg count value s).1 =
      (IO16_WriteRegister_addr env slot reg count value s).1 := rfl

theorem IO16_WriteRegister_snd (env : Env) (slot reg count : Nat) (value : List Nat) (s : Fw) :
    (IO16_WriteRegister env slot reg count value s).2 =
      log_reg (.io16_write slot reg count (value.take count)
        (IO16_WriteRegister_addr env slot reg count value s).1)
        (IO16_WriteRegister_addr env slot reg count value s).2 := rfl

theorem IO16_ReadRegister_fst (env : Env) (slot reg count : Nat) (value : List Nat) (s : Fw) :
    (IO16_ReadRegister env slot reg count value s).1 =
      (IO16_ReadRegister_addr env slot reg count value s).1 := rfl

theorem IO16_ReadRegister_snd (env : Env) (slot reg count : Nat) (value : List Nat) (s : Fw) :
    (IO16_ReadRegister env slot reg count value s).2 =
      log_reg (.io16_read slot reg count (IO16_ReadRegister_addr env slot reg count value s).1.1
        (IO16_ReadRegister_addr env slot reg count value s).1.2)
        (IO16_ReadRegister_addr env slot reg count value s).2 := rfl

/-- Outcome of the body of a write transaction of `k + 1` data bytes whose chip-select claim
succeeds, by the first echo check that fails.  The i-th exchange of the
transaction (counted from 0) returns `miso_of (env.spi (s.spi_n + i))`. -/
theorem IO16_WriteRegister_addr_outcome (env : Env) (slot reg k : Nat) (value : List Nat) (s : Fw)
    (hslot : slot ≤ 4) (hbus : s.current_cs_slot = -1 ∨ s.current_cs_slot = (slot : Int)) :
    (miso_of (env.spi (s.spi_n + 1)) ≠ get_address_byte reg 0 →
      (IO16_WriteRegister_addr env slot reg (k + 1) value s).1 = -1 ∧
      Released s (IO16_WriteRegister_addr env slot reg (k + 1) value s).2
        [get_address_byte reg 0, get_count_byte (k + 1)]) ∧
    (miso_of (env.spi (s.spi_n + 1)) = get_address_byte reg 0 →
      miso_of (env.spi (s.spi_n + 2)) ≠ get_count_byte (k + 1) →
      (IO16_WriteRegister_addr env slot reg (k + 1) value s).1 = -1 ∧
      Released s (IO16_WriteRegister_addr env slot reg (k + 1) value s).2
        [get_address_byte reg 0, get_count_byte (k + 1), value.getD 0 0]) ∧
    (miso_of (env.spi (s.spi_n + 1)) = get_address_byte reg 0 →
      miso_of (env.spi (s.spi_n + 2)) = get_count_byte (k + 1) →
      miso_of (env.spi (s.spi_n + (k + 3))) ≠ value.getD k 0 →
      (IO16_WriteRegister_addr env slot reg (k + 1) value s).1 = -1 ∧
      Released s (IO16_WriteRegister_addr env slot reg (k + 1) value s).2
        (get_address_byte reg 0 :: get_count_byte (k + 1) ::
          ((List.range (k + 1)).map (fun j => value.getD j 0) ++
            [get_address_byte ((reg + (k + 1) + 255) % 256) 0]))) ∧
    (miso_of (env.spi (s.spi_n + 1)) = get_address_byte reg 0 →
      miso_of (env.spi (s.spi_n + 2)) = get_count_byte (k + 1) →
      miso_of (env.spi (s.spi_n + (k + 3))) = value.getD k 0 →
      (IO16_WriteRegister_addr env slot reg (k + 1) value s).1 =
        (if miso_of (env.spi (s.spi_n + (k + 4))) = CTRL_BYTE then 0 else -1) ∧
      Released s (IO16_WriteRegister_addr env slot reg (k + 1) value s).2
        (get_address_byte reg 0 :: get_count_byte (k + 1) ::
          ((List.range (k + 1)).map (fun j => value.getD j 0) ++
            [get_address_byte ((reg + (k + 1) + 255) % 256) 0, CTRL_BYTE]))) := by
  have hE0 := SPI_SetCS_enable_fst slot
    (UART_SendString "\r\n" (UART_SendHex8 (k + 1) (UART_SendString " Count="
      (UART_SendHex8 reg (UART_SendString " Reg=0x" (UART_SendHex8 slot
      (UART_SendString "[SPI-WR] Slot=" s))))))) hslot (by simpa using hbus)
  have hE1 := (SPI_SetCS_enable_ok slot _ hE0).1
  have hinv : ArbiterInv s → ArbiterInv (SPI_SetCS slot .CS_ENABLE
      (UART_SendString "\r\n" (UART_SendHex8 (k + 1) (UART_SendString " Count="
      (UART_SendHex8 reg (UART_SendString " Reg=0x" (UART_SendHex8 slot
      (UART_SendString "[SPI-WR] Slot=" s)))))))).2 := by
    intro h
    apply ArbiterInv_step
    exact ArbiterInv_congr s _ (by simp) (by simp) h
  have hn0 : (SPI_SetCS slot .CS_ENABLE
      (UART_SendString "\r\n" (UART_SendHex8 (k + 1) (UART_SendString " Count="
      (UART_SendHex8 reg (UART_SendString " Reg=0x" (UART_SendHex8 slot
      (UART_SendString "[SPI-WR] Slot=" s)))))))).2.spi_n = s.spi_n := by simp
  have hm0 : mosi_bytes (SPI_SetCS slot .CS_ENABLE
      (UART_SendString "\r\n" (UART_SendHex8 (k + 1) (UART_SendString " Count="
      (UART_SendHex8 reg (UART_SendString " Reg=0x" (UART_SendHex8 slot
      (UART_SendString "[SPI-WR] Slot=" s)))))))).2 = mosi_bytes s := by simp [mosi_bytes]
  have hunf : IO16_WriteRegister_addr env slot reg (k + 1) value s =
      IO16_WriteRegister_count env slot reg (k + 1) value
        (UART_SendString "\r\n" (UART_SendHex8
          (SPI_DataExchange env (slot : Int) (get_address_byte reg 0) (SPI_SetCS slot .CS_ENABLE
            (UART_SendString "\r\n" (UART_SendHex8 (k + 1) (UART_SendString " Count="
            (UART_SendHex8 reg (UART_SendString " Reg=0x" (UART_SendHex8 slot
            (UART_SendString "[SPI-WR] Slot=" s))))))) ).2).1
          (UART_SendString " Got=0x" (UART_SendHex8 (get_address_byte reg 0)
          (UART_SendString "[SPI-WR] Sent addr=0x"
          (SPI_DataExchange env (slot : Int) (get_address_byte reg 0) (SPI_SetCS slot .CS_ENABLE
            (UART_SendString "\r\n" (UART_SendHex8 (k + 1) (UART_SendString " Count="
            (UART_SendHex8 reg (UART_SendString " Reg=0x" (UART_SendHex8 slot
            (UART_SendString "[SPI-WR] Slot=" s))))))) ).2).2))))) := by
    simp only [IO16_WriteRegister_addr, hE0, ne_eq, not_true_eq_false, if_false]
  rw [hunf]
  generalize (SPI_SetCS slot .CS_ENABLE
      (UART_SendString "\r\n" (UART_SendHex8 (k + 1) (UART_SendString " Count="
      (UART_SendHex8 reg (UART_SendString " Reg=0x" (UART_SendHex8 slot
      (UART_SendString "[SPI-WR] Slot=" s)))))))).2 = T0 at hE1 hinv hn0 hm0 ⊢
  have hk : Kept T0 (UART_SendString "\r\n" (UART_SendHex8
      (SPI_DataExchange env (slot : Int) (get_address_byte reg 0) T0).1
      (UART_SendString " Got=0x" (UART_SendHex8 (get_address_byte reg 0)
      (UART_SendString "[SPI-WR] Sent addr=0x"
      (SPI_DataExchange env (slot : Int) (get_address_byte reg 0) T0).2)))))
      [get_address_byte reg 0] := by
    refine ⟨?_, ?_, ?_, ?_⟩ <;> simp [mosi_bytes]
  generalize (UART_SendString "\r\n" (UART_SendHex8
      (SPI_DataExchange env (slot : Int) (get_address_byte reg 0) T0).1
      (UART_SendString " Got=0x" (UART_SendHex8 (get_address_byte reg 0)
      (UART_SendString "[SPI-WR] Sent addr=0x"
      (SPI_DataExchange env (slot : Int) (get_address_byte reg 0) T0).2))))) = T1 at hk ⊢
  have hn1 : T1.spi_n = s.spi_n + 1 := by
    rw [hk.2.2.1, hn0]
    rfl
  obtain ⟨c1, c2, c3, c4⟩ := IO16_WriteRegister_count_spec env slot reg k value T1 hslot
    (hk.1.trans hE1)
  rw [hn1] at c1 c2 c3 c4
  rw [show s.spi_n + 1 + 1 = s.spi_n + 2 by omega] at c2 c3 c4
  rw [show s.spi_n + 1 + (k + 2) = s.spi_n + (k + 3) by omega] at c3 c4
  rw [show s.spi_n + 1 + (k + 3) = s.spi_n + (k + 4) by omega] at c4
  have hfin : ∀ (r : Fw) (b : List Nat), Released T1 r b →
      Released s r (get_address_byte reg 0 :: b) := by
    intro r b hr
    exact Released_of_enable s T0 r _ hn0 hm0 hinv (Released_extend T0 T1 r _ _ hk hr)
  refine ⟨?_, ?_, ?_, ?_⟩
  · intro h1
    obtain ⟨a1, a2⟩ := c1 h1
    exact ⟨a1, hfin _ _ a2⟩
  · intro h1 h2
    obtain ⟨a1, a2⟩ := c2 h1 h2
    exact ⟨a1, hfin _ _ a2⟩
  · intro h1 h2 h3
    obtain ⟨a1, a2⟩ := c3 h1 h2 h3
    refine ⟨a1, ?_⟩
    have := hfin _ _ a2
    simpa using this
  · intro h1 h2 h3
    obtain ⟨a1, a2⟩ := c4 h1 h2 h3
    refine ⟨a1, ?_⟩
    have := hfin _ _ a2
    simpa using this

/-- Outcome of a write transaction of `k + 1` data bytes whose chip-select claim
succeeds, by the first echo check that fails.  The i-th exchange of the
transaction (counted from 0) returns `miso_of (env.spi (s.spi_n + i))`. -/
theorem IO16_WriteRegister_outcome (env : Env) (slot reg k : Nat) (value : List Nat) (s : Fw)
    (hslot : slot ≤ 4) (hbus : s.current_cs_slot = -1 ∨ s.current_cs_slot = (slot : Int)) :
    (miso_of (env.spi (s.spi_n + 1)) ≠ get_address_byte reg 0 →
      (IO16_WriteRegister env slot reg (k + 1) value s).1 = -1 ∧
      Released s (IO16_WriteRegister env slot reg (k + 1) value s).2
        [get_address_byte reg 0, get_count_byte (k + 1)]) ∧
    (miso_of (env.spi (s.spi_n + 1)) = get_address_byte reg 0 →
      miso_of (env.spi (s.spi_n + 2)) ≠ get_count_byte (k + 1) →
      (IO16_WriteRegister env slot reg (k + 1) value s).1 = -1 ∧
      Released s (IO16_WriteRegister env slot reg (k + 1) value s).2
        [get_address_byte reg 0, get_count_byte (k + 1), value.getD 0 0]) ∧
    (miso_of (env.spi (s.spi_n + 1)) = get_address_byte reg 0 →
      miso_of (env.spi (s.spi_n + 2)) = get_count_byte (k + 1) →
      miso_of (env.spi (s.spi_n + (k + 3))) ≠ value.getD k 0 →
      (IO16_WriteRegister env slot reg (k + 1) value s).1 = -1 ∧
      Released s (IO16_WriteRegister env slot reg (k + 1) value s).2
        (get_address_byte reg 0 :: get_count_byte (k + 1) ::
          ((List.range (k + 1)).map (fun j => value.getD j 0) ++
            [get_address_byte ((reg + (k + 1) + 255) % 256) 0]))) ∧
    (miso_of (env.spi (s.spi_n + 1)) = get_address_byte reg 0 →
      miso_of (env.spi (s.spi_n + 2)) = get_count_byte (k + 1) →
      miso_of (env.spi (s.spi_n + (k + 3))) = value.getD k 0 →
      (IO16_WriteRegister env slot reg (k + 1) value s).1 =
        (if miso_of (env.spi (s.spi_n + (k + 4))) = CTRL_BYTE then 0 else -1) ∧
      Released s (IO16_WriteRegister env slot reg (k + 1) value s).2
        (get_address_byte reg 0 :: get_count_byte (k + 1) ::
          ((List.range (k + 1)).map (fun j => value.getD j 0) ++
            [get_address_byte ((reg + (k + 1) + 255) % 256) 0, CTRL_BYTE]))) := by
  have h := IO16_WriteRegister_addr_outcome env slot reg k value s hslot hbus
  simpa only [IO16_WriteRegister_fst, IO16_WriteRegister_snd, Released_log_reg] using h

theorem get_address_byte_write (reg : Nat) (h : reg < 128) :
    get_address_byte reg 0 = (reg <<< 1) ||| 0 := by
  unfold get_address_byte
  simp [Nat.shiftLeft_eq]
  omega

theorem range_map_getD (data : List Nat) :
    (List.range data.length).map (fun j => data.getD j 0) = data := by
  apply List.ext_getElem
  · simp
  · intro i h1 h2
    simp at h1
    simp [h2]

/-! ## C1: framing of a write transaction -/

/-- C1.  On a free bus, `IO16_WriteRegister(slot, reg, n, data)` with `reg` in
0..31, `n` in 1..16 and `reg + n ≤ 32` hands to `SPI_DataExchange`, in this
order, a leading part `sent` of the frame: address byte `(reg<<1)|0`, count byte,
`data[0..n-1]`, end-address byte `((reg+n-1)<<1)|0`, control byte 0x59.  It
returns 0 exactly when the byte received with the count byte is the address
byte, the byte received with `data[0]` is the count byte, the byte received with
the end-address byte is `data[n-1]` and the byte received with the control byte
is 0x59; and when it returns 0 the whole frame has been sent.  (The byte received
with the i-th byte of the frame is `miso_of (env.spi (s.spi_n + i))`.) -/
theorem IO16_WriteRegister_frame (env : Env) (s : Fw) (slot reg n : Nat) (data : List Nat)
    (hfree : s.current_cs_slot = -1) (hslot : slot ≤ 3) (hreg : reg ≤ 31)
    (hn1 : 1 ≤ n) (hn16 : n ≤ 16) (hrn : reg + n ≤ 32) (hlen : data.length = n) :
    ∃ sent : List Nat,
      mosi_bytes (IO16_WriteRegister env slot reg n data s).2 = mosi_bytes s ++ sent ∧
      sent <+: ([(reg <<< 1) ||| 0, get_count_byte n] ++ data ++
        [((reg + n - 1) <<< 1) ||| 0, 0x59]) ∧
      ((IO16_WriteRegister env slot reg n data s).1 = 0 →
        sent = [(reg <<< 1) ||| 0, get_count_byte n] ++ data ++
          [((reg + n - 1) <<< 1) ||| 0, 0x59]) ∧
      ((IO16_WriteRegister env slot reg n data s).1 = 0 ↔
        miso_of (env.spi (s.spi_n + 1)) = (reg <<< 1) ||| 0 ∧
        miso_of (env.spi (s.spi_n + 2)) = get_count_byte n ∧
        miso_of (env.spi (s.spi_n + (n + 2))) = data.getD (n - 1) 0 ∧
        miso_of (env.spi (s.spi_n + (n + 3))) = 0x59) := by
  obtain ⟨k, rfl⟩ : ∃ k, n = k + 1 := ⟨n - 1, by omega⟩
  have ha : get_address_byte reg 0 = (reg <<< 1) ||| 0 := get_address_byte_write reg (by omega)
  have he : get_address_byte ((reg + (k + 1) + 255) % 256) 0 = ((reg + (k + 1) - 1) <<< 1) ||| 0 := by
    rw [show (reg + (k + 1) + 255) % 256 = reg + (k + 1) - 1 by omega]
    exact get_address_byte_write _ (by omega)
  have hd : (List.range (k + 1)).map (fun j => data.getD j 0) = data := by
    rw [← hlen]
    exact range_map_getD data
  obtain ⟨c1, c2, c3, c4⟩ := IO16_WriteRegister_outcome env slot reg k data s (by omega)
    (Or.inl hfree)
  simp only [ha, he, hd] at c1 c2 c3 c4
  rw [show s.spi_n + (k + 1 + 2) = s.spi_n + (k + 3) by omega,
    show s.spi_n + (k + 1 + 3) = s.spi_n + (k + 4) by omega, show k + 1 - 1 = k by omega]
  have hv0 : [data.getD 0 0] <+: data := by
    cases data with
    | nil => simp at hlen
    | cons x xs => simp
  by_cases h1 : miso_of (env.spi (s.spi_n + 1)) = (reg <<< 1) ||| 0
  · by_cases h2 : miso_of (env.spi (s.spi_n + 2)) = get_count_byte (k + 1)
    · by_cases h3 : miso_of (env.spi (s.spi_n + (k + 3))) = data.getD k 0
      · obtain ⟨r1, r2⟩ := c4 h1 h2 h3
        refine ⟨_, r2.2.2.1, ?_, ?_, ?_⟩
        · simp [CTRL_BYTE]
        · intro _
          simp [CTRL_BYTE]
        · rw [r1]
          by_cases h4 : miso_of (env.spi (s.spi_n + (k + 4))) = CTRL_BYTE
          · rw [if_pos h4]
            exact ⟨fun _ => ⟨h1, h2, h3, h4⟩, fun _ => rfl⟩
          · rw [if_neg h4]
            exact ⟨fun h => absurd h (by decide), fun h => absurd h.2.2.2 h4⟩
      · obtain ⟨r1, r2⟩ := c3 h1 h2 h3
        refine ⟨_, r2.2.2.1, ?_, ?_, ?_⟩
        · refine ⟨[0x59], ?_⟩
          simp
        · intro h
          rw [r1] at h
          exact absurd h (by decide)
        · rw [r1]
          exact ⟨fun h => absurd h (by decide), fun h => absurd h.2.2.1 h3⟩
    · obtain ⟨r1, r2⟩ := c2 h1 h2
      refine ⟨_, r2.2.2.1, ?_, ?_, ?_⟩
      · obtain ⟨t, ht⟩ := hv0
        refine ⟨t ++ [((reg + (k + 1) - 1) <<< 1) ||| 0, 0x59], ?_⟩
        rw [← ht]
        simp
      · intro h
        rw [r1] at h
        exact absurd h (by decide)
      · rw [r1]
        exact ⟨fun h => absurd h (by decide), fun h => absurd h.2.1 h2⟩
  · obtain ⟨r1, r2⟩ := c1 h1
    refine ⟨_, r2.2.2.1, ?_, ?_, ?_⟩
    · refine ⟨data ++ [((reg + (k + 1) - 1) <<< 1) ||| 0, 0x59], ?_⟩
      simp
    · intro h
      rw [r1] at h
      exact absurd h (by decide)
    · rw [r1]
      exact ⟨fun h => absurd h (by decide), fun h => absurd h.1 h1⟩


/-- Witness for C1: slot 0, register 0x0C, one data byte 0xA5, on the boot state
with a chip that echoes correctly. -/
theorem IO16_WriteRegister_frame_witness :
    ∃ sent : List Nat,
      mosi_bytes (IO16_WriteRegister (env_of [0, 0x18, 0x0F, 0xA5, 0x59] []) 0 12 1 [0xA5]
        fw_boot).2 = mosi_bytes fw_boot ++ sent ∧
      sent <+: ([(12 <<< 1) ||| 0, get_count_byte 1] ++ [0xA5] ++
        [((12 + 1 - 1) <<< 1) ||| 0, 0x59]) ∧
      ((IO16_WriteRegister (env_of [0, 0x18, 0x0F, 0xA5, 0x59] []) 0 12 1 [0xA5] fw_boot).1 = 0 →
        sent = [(12 <<< 1) ||| 0, get_count_byte 1] ++ [0xA5] ++
          [((12 + 1 - 1) <<< 1) ||| 0, 0x59]) ∧
      ((IO16_WriteRegister (env_of [0, 0x18, 0x0F, 0xA5, 0x59] []) 0 12 1 [0xA5] fw_boot).1 = 0 ↔
        miso_of ((env_of [0, 0x18, 0x0F, 0xA5, 0x59] []).spi (fw_boot.spi_n + 1)) =
          (12 <<< 1) ||| 0 ∧
        miso_of ((env_of [0, 0x18, 0x0F, 0xA5, 0x59] []).spi (fw_boot.spi_n + 2)) =
          get_count_byte 1 ∧
        miso_of ((env_of [0, 0x18, 0x0F, 0xA5, 0x59] []).spi (fw_boot.spi_n + (1 + 2))) =
          [0xA5].getD (1 - 1) 0 ∧
        miso_of ((env_of [0, 0x18, 0x0F, 0xA5, 0x59] []).spi (fw_boot.spi_n + (1 + 3))) = 0x59) :=
  IO16_WriteRegister_frame (env_of [0, 0x18, 0x0F, 0xA5, 0x59] []) fw_boot 0 12 1 [0xA5]
    rfl (by decide) (by decide) (by decide) (by decide) (by decide) rfl

/-! ## C2: echo mismatches in a write transaction -/

/-- C2 fails as stated.  First run (one data byte): every echo is right except
the one received with the control byte (0x58 instead of 0x59); the call returns
-1, but the control byte 0x59 has been sent as fifth byte.  Second and third run
(two data bytes 0xA5, 0xA6): the byte received with `data[1]`, where the chip
echoes `data[0] = 0xA5`, is 0x00 respectively 0x77; the call returns 0. -/
theorem IO16_WriteRegister_mismatch_counterexample :
    ((IO16_WriteRegister (env_of [0, 0x18, 0x0F, 0xA5, 0x58] []) 0 12 1 [0xA5] fw_boot).1 = -1 ∧
      mosi_bytes (IO16_WriteRegister (env_of [0, 0x18, 0x0F, 0xA5, 0x58] []) 0 12 1 [0xA5]
        fw_boot).2 = [0x18, 0x0F, 0xA5, 0x18, 0x59]) ∧
    (IO16_WriteRegister (env_of [0, 0x18, 0x1E, 0x00, 0xA6, 0x59] []) 0 12 2 [0xA5, 0xA6]
      fw_boot).1 = 0 ∧
    (IO16_WriteRegister (env_of [0, 0x18, 0x1E, 0x77, 0xA6, 0x59] []) 0 12 2 [0xA5, 0xA6]
      fw_boot).1 = 0 := by
  decide

/-- C2, amended.  In a write transaction of `n` data bytes (1 ≤ n ≤ 16) started
on a free bus in a reachable arbiter state: if one of the four verified echoes
is wrong (the byte received with the count byte is not the address byte, the
byte received with `data[0]` is not the count byte, the byte received with the
end-address byte is not `data[n-1]`, or the byte received with the control byte
is not 0x59), `IO16_WriteRegister` returns -1 and leaves no slot claimed and
every chip-select line HIGH; and if one of the first three is wrong, what was
sent is a leading part of address, count, data, end-address, so the control
byte has not been sent. -/
theorem IO16_WriteRegister_echo_mismatch (env : Env) (s : Fw) (slot reg n : Nat)
    (data : List Nat) (hinv : ArbiterInv s) (hfree : s.current_cs_slot = -1)
    (hslot : slot ≤ 3) (hn1 : 1 ≤ n) (hn16 : n ≤ 16) (hlen : data.length = n)
    (hbad : miso_of (env.spi (s.spi_n + 1)) ≠ get_address_byte reg 0 ∨
      miso_of (env.spi (s.spi_n + 2)) ≠ get_count_byte n ∨
      miso_of (env.spi (s.spi_n + (n + 2))) ≠ data.getD (n - 1) 0 ∨
      miso_of (env.spi (s.spi_n + (n + 3))) ≠ 0x59) :
    (IO16_WriteRegister env slot reg n data s).1 = -1 ∧
    (IO16_WriteRegister env slot reg n data s).2.current_cs_slot = -1 ∧
    asserted_lines (IO16_WriteRegister env slot reg n data s).2 = [] ∧
    ((miso_of (env.spi (s.spi_n + 1)) ≠ get_address_byte reg 0 ∨
      miso_of (env.spi (s.spi_n + 2)) ≠ get_count_byte n ∨
      miso_of (env.spi (s.spi_n + (n + 2))) ≠ data.getD (n - 1) 0) →
      ∃ sent : List Nat,
        mosi_bytes (IO16_WriteRegister env slot reg n data s).2 = mosi_bytes s ++ sent ∧
        sent <+: ([get_address_byte reg 0, get_count_byte n] ++ data ++
          [get_address_byte ((reg + n + 255) % 256) 0])) := by
  obtain ⟨k, rfl⟩ : ∃ k, n = k + 1 := ⟨n - 1, by omega⟩
  have hd : (List.range (k + 1)).map (fun j => data.getD j 0) = data := by
    rw [← hlen]
    exact range_map_getD data
  obtain ⟨c1, c2, c3, c4⟩ := IO16_WriteRegister_outcome env slot reg k data s (by omega)
    (Or.inl hfree)
  simp only [hd] at c3 c4
  rw [show s.spi_n + (k + 1 + 2) = s.spi_n + (k + 3) by omega,
    show s.spi_n + (k + 1 + 3) = s.spi_n + (k + 4) by omega, show k + 1 - 1 = k by omega] at *
  have hv0 : [data.getD 0 0] <+: data := by
    cases data with
    | nil => simp at hlen
    | cons x xs => simp
  have hrel : ∀ (r : Fw) (b : List Nat), Released s r b →
      r.current_cs_slot = -1 ∧ asserted_lines r = [] := by
    intro r b hr
    refine ⟨hr.1, ?_⟩
    rw [ArbiterInv_asserted r (hr.2.2.2 hinv), if_pos hr.1]
  by_cases h1 : miso_of (env.spi (s.spi_n + 1)) = get_address_byte reg 0
  · by_cases h2 : miso_of (env.spi (s.spi_n + 2)) = get_count_byte (k + 1)
    · by_cases h3 : miso_of (env.spi (s.spi_n + (k + 3))) = data.getD k 0
      · have h4 : miso_of (env.spi (s.spi_n + (k + 4))) ≠ CTRL_BYTE := by
          rcases hbad with h | h | h | h
          · exact absurd h1 h
          · exact absurd h2 h
          · exact absurd h3 h
          · exact h
        obtain ⟨r1, r2⟩ := c4 h1 h2 h3
        rw [if_neg h4] at r1
        refine ⟨r1, (hrel _ _ r2).1, (hrel _ _ r2).2, ?_⟩
        intro h
        rcases h with h | h | h
        · exact absurd h1 h
        · exact absurd h2 h
        · exact absurd h3 h
      · obtain ⟨r1, r2⟩ := c3 h1 h2 h3
        refine ⟨r1, (hrel _ _ r2).1, (hrel _ _ r2).2, fun _ => ⟨_, r2.2.2.1, ?_⟩⟩
        simp
    · obtain ⟨r1, r2⟩ := c2 h1 h2
      refine ⟨r1, (hrel _ _ r2).1, (hrel _ _ r2).2, fun _ => ⟨_, r2.2.2.1, ?_⟩⟩
      obtain ⟨t, ht⟩ := hv0
      refine ⟨t ++ [get_address_byte ((reg + (k + 1) + 255) % 256) 0], ?_⟩
      rw [← ht]
      simp
  · obtain ⟨r1, r2⟩ := c1 h1
    refine ⟨r1, (hrel _ _ r2).1, (hrel _ _ r2).2, fun _ => ⟨_, r2.2.2.1, ?_⟩⟩
    refine ⟨data ++ [get_address_byte ((reg + (k + 1) + 255) % 256) 0], ?_⟩
    simp

/-- Witness for the amended C2: slot 0, register 0x0C, one data byte 0xA5, on
the boot state; the byte received with `data[0]` is 0x0E instead of the count
byte 0x0F. -/
theorem IO16_WriteRegister_echo_mismatch_witness :
    (ArbiterInv fw_boot ∧ fw_boot.current_cs_slot = -1 ∧
      miso_of ((env_of [0, 0x18, 0x0E, 0xA5, 0x59] []).spi (fw_boot.spi_n + 2)) ≠
        get_count_byte 1) ∧
    (IO16_WriteRegister (env_of [0, 0x18, 0x0E, 0xA5, 0x59] []) 0 12 1 [0xA5] fw_boot).1 = -1 ∧
    (IO16_WriteRegister (env_of [0, 0x18, 0x0E, 0xA5, 0x59] []) 0 12 1 [0xA5]
      fw_boot).2.current_cs_slot = -1 ∧
    asserted_lines (IO16_WriteRegister (env_of [0, 0x18, 0x0E, 0xA5, 0x59] []) 0 12 1 [0xA5]
      fw_boot).2 = [] ∧
    ∃ sent : List Nat,
      mosi_bytes (IO16_WriteRegister (env_of [0, 0x18, 0x0E, 0xA5, 0x59] []) 0 12 1 [0xA5]
        fw_boot).2 = mosi_bytes fw_boot ++ sent ∧
      sent <+: ([get_address_byte 12 0, get_count_byte 1] ++ [0xA5] ++
        [get_address_byte ((12 + 1 + 255) % 256) 0]) :=
  have h := IO16_WriteRegister_echo_mismatch (env_of [0, 0x18, 0x0E, 0xA5, 0x59] []) fw_boot
    0 12 1 [0xA5] (Or.inl ⟨rfl, rfl⟩) rfl (by decide) (by decide) (by decide) rfl
    (Or.inr (Or.inl (by decide)))
  ⟨⟨Or.inl ⟨rfl, rfl⟩, rfl, by decide⟩, h.1, h.2.1, h.2.2.1,
    h.2.2.2 (Or.inr (Or.inl (by decide)))⟩

/-! ## The read transaction -/

theorem read_bytes_length (env : Env) : ∀ (k m b : Nat), (read_bytes env k m b).length = k := by
  intro k
  induction k with
  | zero => intro m b; rfl
  | succ k ih => intro m b; simp [read_bytes, ih]

theorem IO16_ReadRegister_data_spec (env : Env) (slot : Nat) :
    ∀ (k i m : Nat) (value : List Nat) (s : Fw), i + k ≤ value.length →
      Kept s (IO16_ReadRegister_data env slot k i m value s).2 (read_bytes env k m s.spi_n) ∧
      (IO16_ReadRegister_data env slot k i m value s).1.2 =
        value.take i ++ read_bytes env k m s.spi_n ++ value.drop (i + k) := by
  intro k
  induction k with
  | zero =>
    intro i m value s _
    refine ⟨⟨rfl, rfl, rfl, ?_⟩, ?_⟩
    · simp [IO16_ReadRegister_data, read_bytes]
    · simp [IO16_ReadRegister_data, read_bytes]
  | succ k ih =>
    intro i m value s hlen
    simp only [IO16_ReadRegister_data, read_bytes]
    have hk : Kept s (UART_SendString "\r\n" (UART_SendHex8
        (SPI_DataExchange env (slot : Int) m (UART_SendHex8 ((value.set i m).getD i 0)
          (UART_SendString "]=0x" (UART_SendHex8 i (UART_SendString "[SPI-RD] Data[" s))))).1
        (UART_SendString " Echo got=0x"
        (SPI_DataExchange env (slot : Int) m (UART_SendHex8 ((value.set i m).getD i 0)
          (UART_SendString "]=0x" (UART_SendHex8 i (UART_SendString "[SPI-RD] Data[" s))))).2)))
        [m] := by
      refine ⟨?_, ?_, ?_, ?_⟩ <;> simp [mosi_bytes]
    obtain ⟨h1, h2⟩ := ih (i + 1) (SPI_DataExchange env (slot : Int) m
        (UART_SendHex8 ((value.set i m).getD i 0)
          (UART_SendString "]=0x" (UART_SendHex8 i (UART_SendString "[SPI-RD] Data[" s))))).1
        (value.set i m) _ (by simp; omega)
    have hn := hk.2.2.1
    simp only [List.length_singleton] at hn
    rw [hn] at h1 h2
    simp only [SPI_DataExchange_fst, UART_SendHex8_spi_n, UART_SendString_spi_n] at h1 h2 ⊢
    refine ⟨?_, ?_⟩
    · have := Kept_trans s _ _ _ _ hk h1
      simpa using this
    · rw [h2]
      have hi : i < value.length := by omega
      rw [List.take_succ, List.drop_set_of_lt _ _ (by omega)]
      simp [List.getElem?_set, hi, show i + 1 + k = i + (k + 1) by omega]
      rw [List.set_take, List.set_eq_of_length_le (by simp)]


theorem IO16_ReadRegister_ctrl_spec (env : Env) (slot : Nat) (value : List Nat) (s : Fw)
    (hslot : slot ≤ 4) (hcur : s.current_cs_slot = (slot : Int)) :
    Released s (IO16_ReadRegister_ctrl env slot value s).2 [CTRL_BYTE] ∧
    (IO16_ReadRegister_ctrl env slot value s).1 =
      (if miso_of (env.spi s.spi_n) = CTRL_BYTE then 0 else -1, value) := by
  by_cases h : miso_of (env.spi s.spi_n) = CTRL_BYTE
  · simp only [IO16_ReadRegister_ctrl, SPI_DataExchange_fst, h, ne_eq, not_true_eq_false,
      if_false, if_true, and_true]
    apply Released_of_disable slot s _ _ hslot hcur <;> simp [mosi_bytes]
  · simp only [IO16_ReadRegister_ctrl, SPI_DataExchange_fst, h, ne_eq, not_false_eq_true,
      if_false, if_true, and_true]
    apply Released_of_disable slot s _ _ hslot hcur <;> simp [mosi_bytes]

theorem IO16_ReadRegister_count_spec (env : Env) (slot n : Nat) (value : List Nat) (s : Fw)
    (hslot : slot ≤ 4) (hcur : s.current_cs_slot = (slot : Int)) (hlen : value.length = n) :
    Released s (IO16_ReadRegister_count env slot n value s).2
      (get_count_byte n :: (read_bytes env n (miso_of (env.spi s.spi_n)) (s.spi_n + 1) ++
        [CTRL_BYTE])) ∧
    (IO16_ReadRegister_count env slot n value s).1 =
      (if miso_of (env.spi (s.spi_n + (n + 1))) = CTRL_BYTE then 0 else -1,
        read_bytes env n (miso_of (env.spi s.spi_n)) (s.spi_n + 1)) := by
  simp only [IO16_ReadRegister_count, SPI_DataExchange_fst]
  have hk : Kept s (UART_SendString "\r\n" (UART_SendHex8 (miso_of (env.spi s.spi_n))
      (UART_SendString " Got=0x" (UART_SendHex8 (get_count_byte n)
      (UART_SendString "[SPI-RD] Sent count=0x"
      (SPI_DataExchange env (slot : Int) (get_count_byte n) s).2)))))
      [get_count_byte n] := by
    refine ⟨?_, ?_, ?_, ?_⟩ <;> simp [mosi_bytes]
  have hn : (UART_SendString "\r\n" (UART_SendHex8 (miso_of (env.spi s.spi_n))
      (UART_SendString " Got=0x" (UART_SendHex8 (get_count_byte n)
      (UART_SendString "[SPI-RD] Sent count=0x"
      (SPI_DataExchange env (slot : Int) (get_count_byte n) s).2))))).spi_n = s.spi_n + 1 := by
    simp
  generalize (UART_SendString "\r\n" (UART_SendHex8 (miso_of (env.spi s.spi_n))
      (UART_SendString " Got=0x" (UART_SendHex8 (get_count_byte n)
      (UART_SendString "[SPI-RD] Sent count=0x"
      (SPI_DataExchange env (slot : Int) (get_count_byte n) s).2))))) = T at hk hn ⊢
  obtain ⟨d1, d2⟩ := IO16_ReadRegister_data_spec env slot n 0 (miso_of (env.spi s.spi_n)) value T
    (by omega)
  rw [hn] at d1 d2
  have hd2 : (IO16_ReadRegister_data env slot n 0 (miso_of (env.spi s.spi_n)) value T).1.2 =
      read_bytes env n (miso_of (env.spi s.spi_n)) (s.spi_n + 1) := by
    rw [d2]
    simp [← hlen]
  have hk2 := Kept_trans s T _ _ _ hk d1
  have hn2 := hk2.2.2.1
  simp only [List.length_append, List.length_singleton, read_bytes_length] at hn2
  obtain ⟨c1, c2⟩ := IO16_ReadRegister_ctrl_spec env slot
    (IO16_ReadRegister_data env slot n 0 (miso_of (env.spi s.spi_n)) value T).1.2
    (IO16_ReadRegister_data env slot n 0 (miso_of (env.spi s.spi_n)) value T).2 hslot
    (hk2.1.trans hcur)
  refine ⟨?_, ?_⟩
  · have := Released_extend s _ _ _ _ hk2 c1
    simpa using this
  · rw [c2, hn2, hd2, show s.spi_n + (1 + n) = s.spi_n + (n + 1) by omega]


theorem IO16_ReadRegister_nop_spec (env : Env) (slot reg n : Nat) (value : List Nat) (s : Fw)
    (hslot : slot ≤ 4) (hcur : s.current_cs_slot = (slot : Int)) (hlen : value.length = n) :
    (miso_of (env.spi s.spi_n) ≠ get_address_byte reg 1 →
      (IO16_ReadRegister_nop env slot reg n value s).1 = (-1, value) ∧
      Released s (IO16_ReadRegister_nop env slot reg n value s).2 [NOP_BYTE]) ∧
    (miso_of (env.spi s.spi_n) = get_address_byte reg 1 →
      (IO16_ReadRegister_nop env slot reg n value s).1 =
        (if miso_of (env.spi (s.spi_n + (n + 2))) = CTRL_BYTE then 0 else -1,
          read_bytes env n (miso_of (env.spi (s.spi_n + 1))) (s.spi_n + 2)) ∧
      Released s (IO16_ReadRegister_nop env slot reg n value s).2
        (NOP_BYTE :: get_count_byte n ::
          (read_bytes env n (miso_of (env.spi (s.spi_n + 1))) (s.spi_n + 2) ++ [CTRL_BYTE]))) := by
  constructor
  · intro h
    simp only [IO16_ReadRegister_nop, SPI_DataExchange_fst, h, ne_eq, not_false_eq_true,
      if_true, true_and]
    apply Released_of_disable slot s _ _ hslot hcur <;> simp [mosi_bytes]
  · intro h
    simp only [IO16_ReadRegister_nop, SPI_DataExchange_fst, h, ne_eq, not_true_eq_false,
      if_false]
    have hk : Kept s (UART_SendString " OK\r\n" (UART_SendHex8 (get_address_byte reg 1)
        (UART_SendString "[SPI-RD] Sent NOP=0x0F Got=0x"
        (SPI_DataExchange env (slot : Int) NOP_BYTE s).2))) [NOP_BYTE] := by
      refine ⟨?_, ?_, ?_, ?_⟩ <;> simp [mosi_bytes]
    have hn : (UART_SendString " OK\r\n" (UART_SendHex8 (get_address_byte reg 1)
        (UART_SendString "[SPI-RD] Sent NOP=0x0F Got=0x"
        (SPI_DataExchange env (slot : Int) NOP_BYTE s).2))).spi_n = s.spi_n + 1 := by simp
    generalize (UART_SendString " OK\r\n" (UART_SendHex8 (get_address_byte reg 1)
        (UART_SendString "[SPI-RD] Sent NOP=0x0F Got=0x"
        (SPI_DataExchange env (slot : Int) NOP_BYTE s).2))) = T at hk hn ⊢
    obtain ⟨c1, c2⟩ := IO16_ReadRegister_count_spec env slot n value T hslot (hk.1.trans hcur) hlen
    rw [hn] at c1 c2
    rw [show s.spi_n + 1 + 1 = s.spi_n + 2 by omega] at c1 c2
    rw [show s.spi_n + 1 + (n + 1) = s.spi_n + (n + 2) by omega] at c2
    exact ⟨c2, Released_extend s T _ _ _ hk c1⟩

/-- Outcome of the body of a read transaction of `n` data bytes whose chip-select claim
succeeds.  The i-th exchange of the transaction (counted from 0) returns
`miso_of (env.spi (s.spi_n + i))`. -/
theorem IO16_ReadRegister_addr_outcome (env : Env) (slot reg n : Nat) (value : List Nat) (s : Fw)
    (hslot : slot ≤ 4) (hbus : s.current_cs_slot = -1 ∨ s.current_cs_slot = (slot : Int))
    (hlen : value.length = n) :
    (miso_of (env.spi (s.spi_n + 1)) ≠ get_address_byte reg 1 →
      (IO16_ReadRegister_addr env slot reg n value s).1 = (-1, value) ∧
      Released s (IO16_ReadRegister_addr env slot reg n value s).2
        [get_address_byte reg 1, NOP_BYTE]) ∧
    (miso_of (env.spi (s.spi_n + 1)) = get_address_byte reg 1 →
      (IO16_ReadRegister_addr env slot reg n value s).1 =
        (if miso_of (env.spi (s.spi_n + (n + 3))) = CTRL_BYTE then 0 else -1,
          read_bytes env n (miso_of (env.spi (s.spi_n + 2))) (s.spi_n + 3)) ∧
      Released s (IO16_ReadRegister_addr env slot reg n value s).2
        (get_address_byte reg 1 :: NOP_BYTE :: get_count_byte n ::
          (read_bytes env n (miso_of (env.spi (s.spi_n + 2))) (s.spi_n + 3) ++ [CTRL_BYTE]))) := by
  have hE0 := SPI_SetCS_enable_fst slot
    (UART_SendString "\r\n" (UART_SendHex8 n (UART_SendString " Count="
      (UART_SendHex8 reg (UART_SendString " Reg=0x" (UART_SendHex8 slot
      (UART_SendString "[SPI-RD] Slot=" s))))))) hslot (by simpa using hbus)
  have hE1 := (SPI_SetCS_enable_ok slot _ hE0).1
  have hinv : ArbiterInv s → ArbiterInv (SPI_SetCS slot .CS_ENABLE
      (UART_SendString "\r\n" (UART_SendHex8 n (UART_SendString " Count="
      (UART_SendHex8 reg (UART_SendString " Reg=0x" (UART_SendHex8 slot
      (UART_SendString "[SPI-RD] Slot=" s)))))))).2 := by
    intro h
    apply ArbiterInv_step
    exact ArbiterInv_congr s _ (by simp) (by simp) h
  have hn0 : (SPI_SetCS slot .CS_ENABLE
      (UART_SendString "\r\n" (UART_SendHex8 n (UART_SendString " Count="
      (UART_SendHex8 reg (UART_SendString " Reg=0x" (UART_SendHex8 slot
      (UART_SendString "[SPI-RD] Slot=" s)))))))).2.spi_n = s.spi_n := by simp
  have hm0 : mosi_bytes (SPI_SetCS slot .CS_ENABLE
      (UART_SendString "\r\n" (UART_SendHex8 n (UART_SendString " Count="
      (UART_SendHex8 reg (UART_SendString " Reg=0x" (UART_SendHex8 slot
      (UART_SendString "[SPI-RD] Slot=" s)))))))).2 = mosi_bytes s := by simp [mosi_bytes]
  have hunf : IO16_ReadRegister_addr env slot reg n value s =
      IO16_ReadRegister_nop env slot reg n value
        (UART_SendString "\r\n" (UART_SendHex8
          (SPI_DataExchange env (slot : Int) (get_address_byte reg 1) (SPI_SetCS slot .CS_ENABLE
            (UART_SendString "\r\n" (UART_SendHex8 n (UART_SendString " Count="
            (UART_SendHex8 reg (UART_SendString " Reg=0x" (UART_SendHex8 slot
            (UART_SendString "[SPI-RD] Slot=" s))))))) ).2).1
          (UART_SendString " Got=0x" (UART_SendHex8 (get_address_byte reg 1)
          (UART_SendString "[SPI-RD] Sent addr=0x"
          (SPI_DataExchange env (slot : Int) (get_address_byte reg 1) (SPI_SetCS slot .CS_ENABLE
            (UART_SendString "\r\n" (UART_SendHex8 n (UART_SendString " Count="
            (UART_SendHex8 reg (UART_SendString " Reg=0x" (UART_SendHex8 slot
            (UART_SendString "[SPI-RD] Slot=" s))))))) ).2).2))))) := by
    simp only [IO16_ReadRegister_addr, hE0, ne_eq, not_true_eq_false, if_false]
  rw [hunf]
  generalize (SPI_SetCS slot .CS_ENABLE
      (UART_SendString "\r\n" (UART_SendHex8 n (UART_SendString " Count="
      (UART_SendHex8 reg (UART_SendString " Reg=0x" (UART_SendHex8 slot
      (UART_SendString "[SPI-RD] Slot=" s)))))))).2 = T0 at hE1 hinv hn0 hm0 ⊢
  have hk : Kept T0 (UART_SendString "\r\n" (UART_SendHex8
      (SPI_DataExchange env (slot : Int) (get_address_byte reg 1) T0).1
      (UART_SendString " Got=0x" (UART_SendHex8 (get_address_byte reg 1)
      (UART_SendString "[SPI-RD] Sent addr=0x"
      (SPI_DataExchange env (slot : Int) (get_address_byte reg 1) T0).2)))))
      [get_address_byte reg 1] := by
    refine ⟨?_, ?_, ?_, ?_⟩ <;> simp [mosi_bytes]
  generalize (UART_SendString "\r\n" (UART_SendHex8
      (SPI_DataExchange env (slot : Int) (get_address_byte reg 1) T0).1
      (UART_SendString " Got=0x" (UART_SendHex8 (get_address_byte reg 1)
      (UART_SendString "[SPI-RD] Sent addr=0x"
      (SPI_DataExchange env (slot : Int) (get_address_byte reg 1) T0).2))))) = T1 at hk ⊢
  have hn1 : T1.spi_n = s.spi_n + 1 := by
    rw [hk.2.2.1, hn0]
    rfl
  obtain ⟨c1, c2⟩ := IO16_ReadRegister_nop_spec env slot reg n value T1 hslot
    (hk.1.trans hE1) hlen
  rw [hn1] at c1 c2
  rw [show s.spi_n + 1 + 1 = s.spi_n + 2 by omega,
    show s.spi_n + 1 + 2 = s.spi_n + 3 by omega,
    show s.spi_n + 1 + (n + 2) = s.spi_n + (n + 3) by omega] at c2
  have hfin : ∀ (r : Fw) (b : List Nat), Released T1 r b →
      Released s r (get_address_byte reg 1 :: b) := by
    intro r b hr
    exact Released_of_enable s T0 r _ hn0 hm0 hinv (Released_extend T0 T1 r _ _ hk hr)
  refine ⟨?_, ?_⟩
  · intro h1
    obtain ⟨a1, a2⟩ := c1 h1
    exact ⟨a1, hfin _ _ a2⟩
  · intro h1
    obtain ⟨a1, a2⟩ := c2 h1
    exact ⟨a1, hfin _ _ a2⟩

/-- Outcome of a read transaction of `n` data bytes whose chip-select claim
succeeds.  The i-th exchange of the transaction (counted from 0) returns
`miso_of (env.spi (s.spi_n + i))`. -/
theorem IO16_ReadRegister_outcome (env : Env) (slot reg n : Nat) (value : List Nat) (s : Fw)
    (hslot : slot ≤ 4) (hbus : s.current_cs_slot = -1 ∨ s.current_cs_slot = (slot : Int))
    (hlen : value.length = n) :
    (miso_of (env.spi (s.spi_n + 1)) ≠ get_address_byte reg 1 →
      (IO16_ReadRegister env slot reg n value s).1 = (-1, value) ∧
      Released s (IO16_ReadRegister env slot reg n value s).2
        [get_address_byte reg 1, NOP_BYTE]) ∧
    (miso_of (env.spi (s.spi_n + 1)) = get_address_byte reg 1 →
      (IO16_ReadRegister env slot reg n value s).1 =
        (if miso_of (env.spi (s.spi_n + (n + 3))) = CTRL_BYTE then 0 else -1,
          read_bytes env n (miso_of (env.spi (s.spi_n + 2))) (s.spi_n + 3)) ∧
      Released s (IO16_ReadRegister env slot reg n value s).2
        (get_address_byte reg 1 :: NOP_BYTE :: get_count_byte n ::
          (read_bytes env n (miso_of (env.spi (s.spi_n + 2))) (s.spi_n + 3) ++ [CTRL_BYTE]))) := by
  have h := IO16_ReadRegister_addr_outcome env slot reg n value s hslot hbus hlen
  simpa only [IO16_ReadRegister_fst, IO16_ReadRegister_snd, Released_log_reg] using h

theorem get_address_byte_read (reg : Nat) (h : reg < 128) :
    get_address_byte reg 1 = (reg <<< 1) ||| 1 := by
  unfold get_address_byte
  have h1 : reg <<< 1 < 2 ^ 8 := by
    rw [Nat.shiftLeft_eq]
    omega
  have h2 : (reg <<< 1) ||| 1 < 2 ^ 8 := Nat.or_lt_two_pow h1 (by decide)
  simp only [Nat.zero_shiftLeft, Nat.zero_or, Nat.and_self]
  exact Nat.mod_eq_of_lt h2

/-! ## C3: framing of a read transaction -/

/-- C3 fails as stated for more than one data byte: a read of two bytes from
register 0x0C sends address 0x19, then the no-op byte 0x0F, then the count byte
0x1E (not address, count, no-op), then the two echoes and the control byte. -/
theorem IO16_ReadRegister_order_counterexample :
    mosi_bytes (IO16_ReadRegister (env_of [0, 0x19, 0x33, 0x44, 0, 0x59] []) 0 12 2 [0, 0]
      fw_boot).2 = [0x19, 0x0F, 0x1E, 0x33, 0x44, 0x59] ∧
    (IO16_ReadRegister (env_of [0, 0x19, 0x33, 0x44, 0, 0x59] []) 0 12 2 [0, 0] fw_boot).1 =
      (0, [0x33, 0x44]) ∧
    get_count_byte 2 = 0x1E ∧
    mosi_bytes (IO16_ReadRegister (env_of [0, 0x19, 0x33, 0x44, 0, 0x59] []) 0 12 2 [0, 0]
      fw_boot).2 ≠ [(12 <<< 1) ||| 1, get_count_byte 2, 0x0F, 0x33, 0x44, 0x59] := by
  decide

/-- C3, amended.  On a free bus, `IO16_ReadRegister(slot, reg, n, out)` with
`reg` in 0..31 and a buffer of `n` bytes sends either just the address byte `(reg<<1)|1`
and the no-op byte 0x0F (the address echo was wrong: it returns -1 and `out` is
untouched), or, in this order, the address byte, the no-op byte 0x0F, the count
byte, one echo byte per data byte, and the control byte 0x59, where the echo
bytes are exactly the `n` data bytes stored in `out`.  It returns 0 exactly when
the byte received with the no-op byte is the address byte and the byte received
with the control byte is 0x59. -/
theorem IO16_ReadRegister_frame (env : Env) (s : Fw) (slot reg n : Nat) (out : List Nat)
    (hfree : s.current_cs_slot = -1) (hslot : slot ≤ 3) (hreg : reg ≤ 31)
    (hlen : out.length = n) :
    ∃ sent : List Nat,
      mosi_bytes (IO16_ReadRegister env slot reg n out s).2 = mosi_bytes s ++ sent ∧
      ((sent = [(reg <<< 1) ||| 1, 0x0F] ∧
          (IO16_ReadRegister env slot reg n out s).1 = (-1, out)) ∨
        (sent = [(reg <<< 1) ||| 1, 0x0F, get_count_byte n] ++
            (IO16_ReadRegister env slot reg n out s).1.2 ++ [0x59] ∧
          (IO16_ReadRegister env slot reg n out s).1.2.length = n)) ∧
      ((IO16_ReadRegister env slot reg n out s).1.1 = 0 ↔
        miso_of (env.spi (s.spi_n + 1)) = (reg <<< 1) ||| 1 ∧
        miso_of (env.spi (s.spi_n + (n + 3))) = 0x59) := by
  have ha : get_address_byte reg 1 = (reg <<< 1) ||| 1 := get_address_byte_read reg (by omega)
  obtain ⟨c1, c2⟩ := IO16_ReadRegister_outcome env slot reg n out s (by omega) (Or.inl hfree)
    hlen
  rw [ha] at c1 c2
  by_cases h1 : miso_of (env.spi (s.spi_n + 1)) = (reg <<< 1) ||| 1
  · obtain ⟨r1, r2⟩ := c2 h1
    refine ⟨_, r2.2.2.1, Or.inr ⟨?_, ?_⟩, ?_⟩
    · rw [r1]
      simp [NOP_BYTE, CTRL_BYTE]
    · rw [r1]
      exact read_bytes_length env _ _ _
    · rw [r1]
      by_cases h4 : miso_of (env.spi (s.spi_n + (n + 3))) = CTRL_BYTE
      · rw [if_pos h4]
        exact ⟨fun _ => ⟨h1, h4⟩, fun _ => rfl⟩
      · rw [if_neg h4]
        exact ⟨fun h => absurd h (by simp), fun h => absurd h.2 h4⟩
  · obtain ⟨r1, r2⟩ := c1 h1
    refine ⟨_, r2.2.2.1, Or.inl ⟨rfl, r1⟩, ?_⟩
    rw [r1]
    exact ⟨fun h => absurd h (by simp), fun h => absurd h.1 h1⟩

/-- Witness for the amended C3: slot 0, register 0x0C, one data byte, on the
boot state. -/
theorem IO16_ReadRegister_frame_witness :
    ∃ sent : List Nat,
      mosi_bytes (IO16_ReadRegister (env_of [0, 0x19, 0x33, 0, 0x59] []) 0 12 1 [0]
        fw_boot).2 = mosi_bytes fw_boot ++ sent ∧
      ((sent = [(12 <<< 1) ||| 1, 0x0F] ∧
          (IO16_ReadRegister (env_of [0, 0x19, 0x33, 0, 0x59] []) 0 12 1 [0] fw_boot).1 =
            (-1, [0])) ∨
        (sent = [(12 <<< 1) ||| 1, 0x0F, get_count_byte 1] ++
            (IO16_ReadRegister (env_of [0, 0x19, 0x33, 0, 0x59] []) 0 12 1 [0] fw_boot).1.2 ++
            [0x59] ∧
          (IO16_ReadRegister (env_of [0, 0x19, 0x33, 0, 0x59] []) 0 12 1 [0]
            fw_boot).1.2.length = 1)) ∧
      ((IO16_ReadRegister (env_of [0, 0x19, 0x33, 0, 0x59] []) 0 12 1 [0] fw_boot).1.1 = 0 ↔
        miso_of ((env_of [0, 0x19, 0x33, 0, 0x59] []).spi (fw_boot.spi_n + 1)) =
          (12 <<< 1) ||| 1 ∧
        miso_of ((env_of [0, 0x19, 0x33, 0, 0x59] []).spi (fw_boot.spi_n + (1 + 3))) = 0x59) :=
  IO16_ReadRegister_frame (env_of [0, 0x19, 0x33, 0, 0x59] []) fw_boot 0 12 1 [0]
    rfl (by decide) (by decide) rfl


/-! ## C4, C5: the chip-select arbiter -/

/-- C4.  If slot `a` (0..3) is the claimed slot and `b` (0..3) is a different
slot, `SPI_SetCS(b, CS_ENABLE)` returns -1 and changes nothing, so `a` is still
the claimed slot; and in every state `t` reachable from `SPI_Module_Init` through
`SPI_SetCS` calls at most one chip-select line is asserted, namely the line of
the claimed slot if there is one. -/
theorem SPI_SetCS_exclusive (s : Fw) (a b : Int) (ha : s.current_cs_slot = a)
    (ha0 : 0 ≤ a) (ha3 : a ≤ 3) (hb0 : 0 ≤ b) (hb3 : b ≤ 3) (hne : b ≠ a)
    (t : Fw) (ht : ArbiterReachable t) :
    (SPI_SetCS b .CS_ENABLE s).1 = -1 ∧
    (SPI_SetCS b .CS_ENABLE s).2 = s ∧
    (SPI_SetCS b .CS_ENABLE s).2.current_cs_slot = a ∧
    (asserted_lines t).length ≤ 1 ∧
    asserted_lines t = (if t.current_cs_slot = -1 then [] else [t.current_cs_slot.toNat]) := by
  have h := SPI_SetCS_enable_conflict s b hb0 (by omega) (by omega) (by omega)
  have hinv := ArbiterInv_asserted t (ArbiterInv_reachable t ht)
  refine ⟨by rw [h], by rw [h], by rw [h]; exact ha, ?_, hinv⟩
  rw [hinv]
  split <;> simp

/-- Witness for C4: slot 0 claimed after initialisation, then slot 2 asks for
the bus. -/
theorem SPI_SetCS_exclusive_witness :
    (SPI_SetCS 2 .CS_ENABLE fw_slot0_claimed).1 = -1 ∧
    (SPI_SetCS 2 .CS_ENABLE fw_slot0_claimed).2 = fw_slot0_claimed ∧
    (SPI_SetCS 2 .CS_ENABLE fw_slot0_claimed).2.current_cs_slot = 0 ∧
    (asserted_lines fw_slot0_claimed).length ≤ 1 ∧
    asserted_lines fw_slot0_claimed =
      (if fw_slot0_claimed.current_cs_slot = -1 then []
        else [fw_slot0_claimed.current_cs_slot.toNat]) :=
  SPI_SetCS_exclusive fw_slot0_claimed 0 2 rfl (by decide) (by decide) (by decide) (by decide)
    (by decide) fw_slot0_claimed
    (ArbiterReachable.step _ 0 .CS_ENABLE (ArbiterReachable.init fw_boot))

/-- C5 fails as stated: with slot 0 claimed, releasing the valid, unclaimed
slot 2 returns -1, not 0. -/
theorem SPI_SetCS_disable_counterexample :
    fw_slot0_claimed.current_cs_slot = 0 ∧
    (SPI_SetCS 2 .CS_DISABLE fw_slot0_claimed).1 = -1 := by
  decide

/-- C5, amended.  For every arbiter state and every valid slot that is not the
currently claimed slot, `SPI_SetCS(slot, CS_DISABLE)` leaves the state unchanged;
it returns 0 when no slot is claimed and -1 when a different slot is claimed. -/
theorem SPI_SetCS_disable_unclaimed (s : Fw) (slot : Int) (h0 : 0 ≤ slot) (h3 : slot ≤ 3)
    (hne : s.current_cs_slot ≠ slot) :
    (SPI_SetCS slot .CS_DISABLE s).2 = s ∧
    (s.current_cs_slot = -1 → (SPI_SetCS slot .CS_DISABLE s).1 = 0) ∧
    (s.current_cs_slot ≠ -1 → (SPI_SetCS slot .CS_DISABLE s).1 = -1) := by
  rw [SPI_SetCS_disable_other s slot hne]
  refine ⟨rfl, ?_, ?_⟩
  · intro h
    have : 0 ≤ slot ∧ slot ≤ 4 ∧ s.current_cs_slot = -1 := ⟨h0, by omega, h⟩
    simp only [if_pos this]
  · intro h
    have : ¬ (0 ≤ slot ∧ slot ≤ 4 ∧ s.current_cs_slot = -1) := fun hh => h hh.2.2
    simp only [if_neg this]

/-- Witness for the amended C5: releasing slot 2 on the boot state, where no
slot is claimed. -/
theorem SPI_SetCS_disable_unclaimed_witness :
    fw_boot.current_cs_slot ≠ 2 ∧
    (SPI_SetCS 2 .CS_DISABLE fw_boot).2 = fw_boot ∧
    (fw_boot.current_cs_slot = -1 → (SPI_SetCS 2 .CS_DISABLE fw_boot).1 = 0) ∧
    (fw_boot.current_cs_slot ≠ -1 → (SPI_SetCS 2 .CS_DISABLE fw_boot).1 = -1) :=
  ⟨by decide, SPI_SetCS_disable_unclaimed fw_boot 2 (by decide) (by decide) (by decide)⟩

/-! ## C6: arbitration conflict in the analog driver -/

/-- C6, the code at the failing input.  Slot 0 holds the bus; the analog driver
is called for slot 1.  `AIO20_WriteRegister(1, 0x20, 0x71E0)` returns 0 and
exchanges the three bytes 0x40, 0x71, 0xE0, each written to the data register;
`AIO20_ReadRegister(1, 0x00, &v)` returns 0 and exchanges 0x01, 0x00, 0x00.
Slot 0 is still claimed afterwards and its chip-select line is the asserted one. -/
theorem AIO20_conflict_exchanges :
    fw_slot0_claimed.current_cs_slot = 0 ∧
    (AIO20_WriteRegister (env_of [] []) 1 0x20 0x71E0 fw_slot0_claimed).1 = 0 ∧
    (AIO20_WriteRegister (env_of [] []) 1 0x20 0x71E0 fw_slot0_claimed).2.spi_log =
      [⟨0x40, true, 0xFF⟩, ⟨0x71, true, 0xFF⟩, ⟨0xE0, true, 0xFF⟩] ∧
    (AIO20_WriteRegister (env_of [] []) 1 0x20 0x71E0 fw_slot0_claimed).2.current_cs_slot = 0 ∧
    asserted_lines (AIO20_WriteRegister (env_of [] []) 1 0x20 0x71E0 fw_slot0_claimed).2 = [0] ∧
    (AIO20_ReadRegister (env_of [0, 0x04, 0x24] []) 1 0x00 (some 0) fw_slot0_claimed).1 =
      (0, some 0x0424) ∧
    (AIO20_ReadRegister (env_of [0, 0x04, 0x24] []) 1 0x00 (some 0) fw_slot0_claimed).2.spi_log =
      [⟨0x01, true, 0x00⟩, ⟨0x00, true, 0x04⟩, ⟨0x00, true, 0x24⟩] ∧
    (AIO20_ReadRegister (env_of [0, 0x04, 0x24] []) 1 0x00 (some 0)
      fw_slot0_claimed).2.current_cs_slot = 0 := by
  decide

/-! ## CRC8: the shift register is a bijection on bytes -/

set_option maxRecDepth 100000 in
theorem crc8_shift_lt : ∀ x < 256, crc8_shift x < 256 := by decide

set_option maxRecDepth 100000 in
theorem crc8_unshift_shift : ∀ x < 256, crc8_unshift (crc8_shift x) = x := by decide

theorem shiftRight_xor (a b k : Nat) : (a ^^^ b) >>> k = (a >>> k) ^^^ (b >>> k) := by
  apply Nat.eq_of_testBit_eq
  intro i
  simp

theorem crc8_bit_spec (p : Nat × Nat) :
    (crc8_bit p).1 ^^^ (crc8_bit p).2 = crc8_shift (p.1 ^^^ p.2) ∧ (crc8_bit p).2 = p.2 >>> 1 := by
  refine ⟨?_, rfl⟩
  unfold crc8_bit crc8_shift
  simp only []
  split
  · rw [shiftRight_xor, Nat.xor_assoc, Nat.xor_comm 0x8C, ← Nat.xor_assoc]
  · rw [shiftRight_xor, Nat.xor_zero]

theorem crc8_bit_iterate (k : Nat) : ∀ p : Nat × Nat,
    (crc8_bit^[k] p).1 ^^^ (crc8_bit^[k] p).2 = crc8_shift^[k] (p.1 ^^^ p.2) ∧
    (crc8_bit^[k] p).2 = p.2 >>> k := by
  induction k with
  | zero => intro p; simp
  | succ k ih =>
    intro p
    rw [Function.iterate_succ_apply, Function.iterate_succ_apply]
    obtain ⟨h1, h2⟩ := ih (crc8_bit p)
    obtain ⟨g1, g2⟩ := crc8_bit_spec p
    rw [h1, h2, g1, g2]
    refine ⟨rfl, ?_⟩
    rw [← Nat.shiftRight_add, Nat.add_comm]

theorem crc8_byte_eq (c b : Nat) (hb : b < 256) :
    crc8_byte c b = crc8_shift^[8] (c ^^^ b) := by
  obtain ⟨h1, h2⟩ := crc8_bit_iterate 8 (c, b)
  have hz : b >>> 8 = 0 := by
    rw [Nat.shiftRight_eq_div_pow]
    exact Nat.div_eq_of_lt hb
  unfold crc8_byte
  rw [h2] at h1
  simp only [hz, Nat.xor_zero] at h1
  exact h1

theorem crc8_shift_iterate_lt (k : Nat) : ∀ x < 256, crc8_shift^[k] x < 256 := by
  induction k with
  | zero => intro x hx; simpa using hx
  | succ k ih =>
    intro x hx
    rw [Function.iterate_succ_apply]
    exact ih _ (crc8_shift_lt x hx)

theorem crc8_shift_iterate_inj (k : Nat) :
    ∀ x < 256, ∀ y < 256, crc8_shift^[k] x = crc8_shift^[k] y → x = y := by
  induction k with
  | zero => intro x _ y _ h; simpa using h
  | succ k ih =>
    intro x hx y hy h
    rw [Function.iterate_succ_apply, Function.iterate_succ_apply] at h
    have h1 := ih _ (crc8_shift_lt x hx) _ (crc8_shift_lt y hy) h
    rw [← crc8_unshift_shift x hx, ← crc8_unshift_shift y hy, h1]

theorem crc8_byte_lt (c b : Nat) (hc : c < 256) (hb : b < 256) : crc8_byte c b < 256 := by
  rw [crc8_byte_eq c b hb]
  exact crc8_shift_iterate_lt 8 _ (Nat.xor_lt_two_pow (n := 8) hc hb)

theorem crc8_byte_inj_left (c c' b : Nat) (hc : c < 256) (hc' : c' < 256) (hb : b < 256)
    (h : crc8_byte c b = crc8_byte c' b) : c = c' := by
  rw [crc8_byte_eq c b hb, crc8_byte_eq c' b hb] at h
  have := crc8_shift_iterate_inj 8 _ (Nat.xor_lt_two_pow (n := 8) hc hb) _
    (Nat.xor_lt_two_pow (n := 8) hc' hb) h
  exact Nat.xor_left_inj.mp this

theorem crc8_byte_inj_right (c b b' : Nat) (hc : c < 256) (hb : b < 256) (hb' : b' < 256)
    (h : crc8_byte c b = crc8_byte c b') : b = b' := by
  rw [crc8_byte_eq c b hb, crc8_byte_eq c b' hb'] at h
  have := crc8_shift_iterate_inj 8 _ (Nat.xor_lt_two_pow (n := 8) hc hb) _
    (Nat.xor_lt_two_pow (n := 8) hc hb') h
  exact Nat.xor_right_inj.mp this

theorem crc8_foldl_lt (l : List Nat) : ∀ c < 256, (∀ x ∈ l, x < 256) →
    l.foldl crc8_byte c < 256 := by
  induction l with
  | nil => intro c hc _; simpa using hc
  | cons x xs ih =>
    intro c hc hl
    rw [List.foldl_cons]
    exact ih _ (crc8_byte_lt c x hc (hl x (by simp))) (fun y hy => hl y (by simp [hy]))

theorem crc8_foldl_ne (l : List Nat) : ∀ c < 256, ∀ c' < 256, (∀ x ∈ l, x < 256) → c ≠ c' →
    l.foldl crc8_byte c ≠ l.foldl crc8_byte c' := by
  induction l with
  | nil => intro c _ c' _ _ h; simpa using h
  | cons x xs ih =>
    intro c hc c' hc' hl hne
    rw [List.foldl_cons, List.foldl_cons]
    have hx : x < 256 := hl x (by simp)
    apply ih _ (crc8_byte_lt c x hc hx) _ (crc8_byte_lt c' x hc' hx)
      (fun y hy => hl y (by simp [hy]))
    intro h
    exact hne (crc8_byte_inj_left c c' x hc hc' hx h)


theorem crc8_body (b : List Nat) (hlen : b.length = 7) (c : Nat) :
    crc8 (b ++ [c]) 7 = crc8 b 7 ∧ crc8 b 7 = b.foldl crc8_byte 0 ∧ (b ++ [c]).getD 7 0 = c := by
  refine ⟨?_, ?_, ?_⟩
  · unfold crc8
    rw [List.take_left' hlen, List.take_of_length_le (by omega)]
  · unfold crc8
    rw [List.take_of_length_le (by omega)]
  · rw [List.getD_append_right _ _ _ _ (by omega), hlen]
    rfl

/-! ## C7: CRC8 of the ROM code -/

/-- C7.  For every 7-byte ROM body `b`, the 8-byte code `b` followed by
`crc8(b, 7)` passes the CRC check of `read_module_uid`; and for every bit
position `i` in 0..55 the body with bit `i` flipped has a different `crc8`, so
the corrupted body followed by the original CRC byte fails the check. -/
theorem crc8_single_bit (b : List Nat) (hlen : b.length = 7) (hb : ∀ x ∈ b, x < 256) :
    uid_crc_ok (b ++ [crc8 b 7]) = true ∧
    ∀ i, i < 56 →
      crc8 (flip_bit b i) 7 ≠ crc8 b 7 ∧
      uid_crc_ok (flip_bit b i ++ [crc8 b 7]) = false := by
  constructor
  · obtain ⟨h1, _, h3⟩ := crc8_body b hlen (crc8 b 7)
    unfold uid_crc_ok
    rw [h1, h3]
    simp
  · intro i hi
    have hj : i / 8 < b.length := by omega
    have hflen : (flip_bit b i).length = 7 := by simp [flip_bit, hlen]
    have hx : b.getD (i / 8) 0 < 256 := by
      rw [List.getD_eq_getElem _ _ hj]
      exact hb _ (List.getElem_mem _)
    have hm : (1 <<< (i % 8)) < 2 ^ 8 := by
      rw [Nat.one_shiftLeft]
      exact Nat.pow_lt_pow_right (by decide) (by omega)
    have hx' : b.getD (i / 8) 0 ^^^ (1 <<< (i % 8)) < 256 :=
      Nat.xor_lt_two_pow (n := 8) hx hm
    have hne : b.getD (i / 8) 0 ≠ b.getD (i / 8) 0 ^^^ (1 <<< (i % 8)) := by
      intro h
      have h0 : b.getD (i / 8) 0 ^^^ 0 = b.getD (i / 8) 0 ^^^ (1 <<< (i % 8)) := by
        rw [Nat.xor_zero]
        exact h
      have h1 := Nat.xor_right_inj.mp h0
      rw [Nat.one_shiftLeft] at h1
      exact absurd h1.symm (by positivity)
    have hsplit : b = b.take (i / 8) ++ b.getD (i / 8) 0 :: b.drop (i / 8 + 1) := by
      rw [List.getD_eq_getElem _ _ hj, ← List.drop_eq_getElem_cons hj, List.take_append_drop]
    have hfsplit : flip_bit b i =
        b.take (i / 8) ++ (b.getD (i / 8) 0 ^^^ (1 <<< (i % 8))) :: b.drop (i / 8 + 1) := by
      unfold flip_bit
      rw [List.set_eq_take_append_cons_drop, if_pos hj]
    have hpre : ∀ x ∈ b.take (i / 8), x < 256 := fun x h => hb x (List.mem_of_mem_take h)
    have hpost : ∀ x ∈ b.drop (i / 8 + 1), x < 256 := fun x h => hb x (List.mem_of_mem_drop h)
    have hc0 := crc8_foldl_lt (b.take (i / 8)) 0 (by decide) hpre
    have hcrc : crc8 (flip_bit b i) 7 ≠ crc8 b 7 := by
      rw [(crc8_body b hlen 0).2.1, (crc8_body (flip_bit b i) hflen 0).2.1, hfsplit]
      conv => rhs; rhs; rw [hsplit]
      rw [List.foldl_append, List.foldl_append, List.foldl_cons, List.foldl_cons]
      apply crc8_foldl_ne _ _ (crc8_byte_lt _ _ hc0 hx') _ (crc8_byte_lt _ _ hc0 hx) hpost
      intro h
      exact hne (crc8_byte_inj_right _ _ _ hc0 hx' hx h).symm
    refine ⟨hcrc, ?_⟩
    obtain ⟨h1, _, h3⟩ := crc8_body (flip_bit b i) hflen (crc8 b 7)
    unfold uid_crc_ok
    rw [h1, h3]
    simpa using hcrc

/-- Witness for C7: the body of a DS2431 ROM code. -/
theorem crc8_single_bit_witness :
    uid_crc_ok ([0x2D, 0x11, 0x22, 0x33, 0x44, 0x55, 0x66] ++
      [crc8 [0x2D, 0x11, 0x22, 0x33, 0x44, 0x55, 0x66] 7]) = true ∧
    ∀ i, i < 56 →
      crc8 (flip_bit [0x2D, 0x11, 0x22, 0x33, 0x44, 0x55, 0x66] i) 7 ≠
        crc8 [0x2D, 0x11, 0x22, 0x33, 0x44, 0x55, 0x66] 7 ∧
      uid_crc_ok (flip_bit [0x2D, 0x11, 0x22, 0x33, 0x44, 0x55, 0x66] i ++
        [crc8 [0x2D, 0x11, 0x22, 0x33, 0x44, 0x55, 0x66] 7]) = false :=
  crc8_single_bit [0x2D, 0x11, 0x22, 0x33, 0x44, 0x55, 0x66] rfl (by decide)


/-! ## Single-wire bus and discovery: frame lemmas -/

@[simp] theorem no_uart_UART_SendString (str : String) (s : Fw) :
    no_uart (UART_SendString str s) = no_uart s := rfl
@[simp] theorem no_uart_UART_SendHex8 (d : Nat) (s : Fw) :
    no_uart (UART_SendHex8 d s) = no_uart s := rfl
@[simp] theorem no_uart_USART_SendData (c : Nat) (s : Fw) :
    no_uart (USART_SendData c s) = no_uart s := rfl
@[simp] theorem UART_SendString_uart (str : String) (s : Fw) :
    (UART_SendString str s).uart = s.uart ++ str.toList := rfl

theorem onewire_reset_fst (env : Env) (module : Int) (s : Fw) :
    (onewire_reset env module s).1 = (if env.idr (s.ow_n + 2) then 0 else 1) := rfl

theorem onewire_reset_no_uart (env : Env) (module : Int) (s : Fw) :
    no_uart (onewire_reset env module s).2 =
      no_uart { s with ow_n := s.ow_n + 3, ow_log := s.ow_log ++ [OwEv.reset module] } := by
  simp only [onewire_reset, no_uart_UART_SendString, no_uart_UART_SendHex8]

theorem read_module_uid_absent (env : Env) (module : Int) (uid : List Nat) (s : Fw)
    (h : env.idr (s.ow_n + 2) = true) :
    (read_module_uid env module uid s).1 = (0, uid) ∧
    no_uart (read_module_uid env module uid s).2 =
      no_uart { s with ow_n := s.ow_n + 3, ow_log := s.ow_log ++ [OwEv.reset module] } := by
  have hp : (onewire_reset env module s).1 = 0 := by
    rw [onewire_reset_fst, if_pos h]
  simp only [read_module_uid, hp, if_true, true_and]
  simp only [no_uart_UART_SendString, onewire_reset_no_uart]

theorem scan_slot_absent (env : Env) (slot : Nat) (p : ScanBufs × Fw)
    (h : env.idr (p.2.ow_n + 2) = true) :
    (scan_slot env slot p).1 = p.1 ∧
    no_uart (scan_slot env slot p).2 =
      no_uart { p.2 with ow_n := p.2.ow_n + 3, ow_log := p.2.ow_log ++ [OwEv.reset slot] } ∧
    " -> EMPTY\r\n\r\n".toList <:+ (scan_slot env slot p).2.uart := by
  obtain ⟨h1, h2⟩ := read_module_uid_absent env slot p.1.uid (scan_slot_header slot p.2) h
  have h3 : (read_module_uid env slot p.1.uid (scan_slot_header slot p.2)).1.1 = 0 := by
    rw [h1]
  have h4 : (read_module_uid env slot p.1.uid (scan_slot_header slot p.2)).1.2 = p.1.uid := by
    rw [h1]
  simp only [scan_slot, h3, ne_eq, not_true_eq_false, if_false, h4,
    no_uart_UART_SendString, h2, UART_SendString_uart]
  refine ⟨trivial, ?_, List.suffix_append _ _⟩
  simp only [scan_slot_header, no_uart, UART_SendString, UART_SendHex8]


theorem onewire_write_fold (module : Int) (byte : Nat) (l : List Nat) : ∀ s : Fw,
    (l.foldl (fun s i => onewire_write_bit module ((byte >>> i) &&& 0x01) s) s).ow_n = s.ow_n ∧
    (l.foldl (fun s i => onewire_write_bit module ((byte >>> i) &&& 0x01) s) s).uart = s.uart := by
  induction l with
  | nil => intro s; exact ⟨rfl, rfl⟩
  | cons x xs ih =>
    intro s
    rw [List.foldl_cons]
    exact ih _

theorem onewire_write_byte_ow_n (module : Int) (byte : Nat) (s : Fw) :
    (onewire_write_byte module byte s).ow_n = s.ow_n :=
  (onewire_write_fold module byte _ s).1

theorem onewire_read_fold (env : Env) (module : Int) (s : Fw) (n : Nat) :
    (List.range n).foldl (fun (p : Nat × Fw) i =>
      ((if (onewire_read_bit env module p.2).1 ≠ 0 then p.1 ||| (1 <<< i) else p.1),
        (onewire_read_bit env module p.2).2)) (0, s) =
    ((List.range n).foldl (fun b i => if env.idr (s.ow_n + i) then b ||| (1 <<< i) else b) 0,
      { s with ow_n := s.ow_n + n,
               ow_log := s.ow_log ++ List.replicate n (OwEv.read_bit module) }) := by
  induction n with
  | zero => simp
  | succ n ih =>
    rw [List.range_succ, List.foldl_append, List.foldl_append, ih]
    simp only [List.foldl_cons, List.foldl_nil, onewire_read_bit]
    cases h : env.idr (s.ow_n + n) <;>
      simp [List.replicate_succ', Nat.add_assoc]

theorem onewire_read_byte_eq (env : Env) (module : Int) (s : Fw) :
    onewire_read_byte env module s =
      (ow_byte_at env s.ow_n,
        { s with ow_n := s.ow_n + 8,
                 ow_log := s.ow_log ++ List.replicate 8 (OwEv.read_bit module) }) :=
  onewire_read_fold env module s 8

theorem onewire_read_into_spec (env : Env) (module : Int) :
    ∀ (k i : Nat) (buf : List Nat) (s : Fw), i + k ≤ buf.length →
      (onewire_read_into env module k i buf s).1 =
        buf.take i ++ ow_bytes_at env s.ow_n k ++ buf.drop (i + k) ∧
      (onewire_read_into env module k i buf s).2.ow_n = s.ow_n + 8 * k ∧
      (onewire_read_into env module k i buf s).2.uart = s.uart := by
  intro k
  induction k with
  | zero =>
    intro i buf s _
    simp [onewire_read_into, ow_bytes_at]
  | succ k ih =>
    intro i buf s hlen
    simp only [onewire_read_into, onewire_read_byte_eq]
    obtain ⟨h1, h2, h3⟩ := ih (i + 1) (buf.set i (ow_byte_at env s.ow_n))
      { s with ow_n := s.ow_n + 8,
               ow_log := s.ow_log ++ List.replicate 8 (OwEv.read_bit module) }
      (by simp; omega)
    refine ⟨?_, ?_, ?_⟩
    · rw [h1]
      have hi : i < buf.length := by omega
      rw [List.take_succ, List.drop_set_of_lt _ _ (by omega), List.set_take,
        List.set_eq_of_length_le (by simp)]
      simp [List.getElem?_set, hi, show i + 1 + k = i + (k + 1) by omega, ow_bytes_at,
        List.range_succ_eq_map, Function.comp_def, Nat.mul_add, Nat.add_assoc]
      intro a _
      rw [Nat.add_comm 8]
    · rw [h2]
      simp only []
      omega
    · rw [h3]


@[simp] theorem registries_UART_SendString (str : String) (s : Fw) :
    registries (UART_SendString str s) = registries s := rfl
@[simp] theorem registries_UART_SendHex8 (d : Nat) (s : Fw) :
    registries (UART_SendHex8 d s) = registries s := rfl

theorem registries_UART_SendHexRow (buf : List Nat) (s : Fw) :
    registries (UART_SendHexRow buf s) = registries s := by
  unfold UART_SendHexRow
  generalize List.range 8 = l
  induction l generalizing s with
  | nil => rfl
  | cons x xs ih =>
    rw [List.foldl_cons, ih]
    rfl

theorem registries_onewire_reset (env : Env) (module : Int) (s : Fw) :
    registries (onewire_reset env module s).2 = registries s := by
  simp only [onewire_reset, registries_UART_SendString, registries_UART_SendHex8]
  rfl

theorem registries_onewire_write_byte (module : Int) (byte : Nat) (s : Fw) :
    registries (onewire_write_byte module byte s) = registries s := by
  unfold onewire_write_byte
  generalize List.range 8 = l
  induction l generalizing s with
  | nil => rfl
  | cons x xs ih =>
    rw [List.foldl_cons, ih]
    rfl

theorem registries_onewire_read_into (env : Env) (module : Int) :
    ∀ (k i : Nat) (buf : List Nat) (s : Fw),
      registries (onewire_read_into env module k i buf s).2 = registries s := by
  intro k
  induction k with
  | zero => intro i buf s; rfl
  | succ k ih =>
    intro i buf s
    simp only [onewire_read_into, onewire_read_byte_eq]
    rw [ih]
    rfl

theorem registries_read_module_uid (env : Env) (module : Int) (uid : List Nat) (s : Fw) :
    registries (read_module_uid env module uid s).2 = registries s := by
  unfold read_module_uid
  simp only []
  split
  · simp only [registries_UART_SendString, registries_onewire_reset]
  · simp only [registries_UART_SendString, registries_UART_SendHex8,
      registries_UART_SendHexRow, registries_onewire_read_into, registries_onewire_write_byte,
      registries_onewire_reset]

theorem read_module_uid_result (env : Env) (module : Int) (uid : List Nat) (s : Fw)
    (hlen : uid.length = 8) :
    (env.idr (s.ow_n + 2) = true → (read_module_uid env module uid s).1 = (0, uid)) ∧
    (env.idr (s.ow_n + 2) = false →
      (read_module_uid env module uid s).1 =
        (if uid_crc_ok (ow_bytes_at env (s.ow_n + 3) 8) then 1 else 0,
          ow_bytes_at env (s.ow_n + 3) 8)) := by
  refine ⟨fun h => (read_module_uid_absent env module uid s h).1, ?_⟩
  intro h
  have hp : (onewire_reset env module s).1 = 1 := by
    rw [onewire_reset_fst, h]
    rfl
  have hn : (onewire_write_byte module 0x33
      (UART_SendString "]" (UART_SendString (if (onewire_reset env module s).1 ≠ 0 then "OK"
        else "NO_DEVICE") (UART_SendString " [RESET:" (onewire_reset env module s).2)))).ow_n =
      s.ow_n + 3 := by
    rw [onewire_write_byte_ow_n]
    rfl
  obtain ⟨h1, _, _⟩ := onewire_read_into_spec env module 8 0 uid _ (by omega :
    0 + 8 ≤ uid.length)
  rw [hn] at h1
  have h2 : uid.drop (0 + 8) = [] := List.drop_eq_nil_of_le (by omega)
  rw [h2] at h1
  simp only [List.take_zero, List.nil_append, List.append_nil] at h1
  unfold read_module_uid
  simp only [hp, one_ne_zero, if_false] at h1 ⊢
  rw [h1]


/-! ## C9: a slot without presence pulse -/

/-- C9.  When the presence sample of the reset reads HIGH (no presence pulse),
`read_module_uid` returns 0 and leaves `uid` alone, and apart from its debug
text all it has done is the reset with its three samples: no READ ROM command
is written, no bit is read.  The pass of the slot loop of `scan_modules` for
that slot then does nothing more on the single-wire line (no memory-block
read), leaves the three registries and the buffers as they were, and its last
output is the line " -> EMPTY". -/
theorem scan_absent_slot (env : Env) (slot : Nat) (bufs : ScanBufs) (s : Fw)
    (h : env.idr (s.ow_n + 2) = true) :
    (read_module_uid env slot bufs.uid s).1 = (0, bufs.uid) ∧
    no_uart (read_module_uid env slot bufs.uid s).2 =
      no_uart { s with ow_n := s.ow_n + 3, ow_log := s.ow_log ++ [OwEv.reset slot] } ∧
    (scan_slot env slot (bufs, s)).1 = bufs ∧
    no_uart (scan_slot env slot (bufs, s)).2 =
      no_uart { s with ow_n := s.ow_n + 3, ow_log := s.ow_log ++ [OwEv.reset slot] } ∧
    (scan_slot env slot (bufs, s)).2.ow_log = s.ow_log ++ [OwEv.reset slot] ∧
    registries (scan_slot env slot (bufs, s)).2 = registries s ∧
    " -> EMPTY\r\n\r\n".toList <:+ (scan_slot env slot (bufs, s)).2.uart := by
  obtain ⟨a1, a2⟩ := read_module_uid_absent env slot bufs.uid s h
  obtain ⟨b1, b2, b3⟩ := scan_slot_absent env slot (bufs, s) h
  refine ⟨a1, a2, b1, b2, ?_, ?_, b3⟩
  · have := congrArg Fw.ow_log b2
    exact this
  · have := congrArg registries b2
    exact this

/-- Witness for C9: slot 0 of a backplane whose single-wire lines stay HIGH. -/
theorem scan_absent_slot_witness :
    (env_of [] []).idr (fw_boot.ow_n + 2) = true ∧
    (read_module_uid (env_of [] []) 0 bufs_zero.uid fw_boot).1 = (0, bufs_zero.uid) ∧
    (scan_slot (env_of [] []) 0 (bufs_zero, fw_boot)).1 = bufs_zero ∧
    (scan_slot (env_of [] []) 0 (bufs_zero, fw_boot)).2.ow_log =
      fw_boot.ow_log ++ [OwEv.reset 0] ∧
    registries (scan_slot (env_of [] []) 0 (bufs_zero, fw_boot)).2 = registries fw_boot ∧
    " -> EMPTY\r\n\r\n".toList <:+ (scan_slot (env_of [] []) 0 (bufs_zero, fw_boot)).2.uart :=
  have h := scan_absent_slot (env_of [] []) 0 bufs_zero fw_boot rfl
  ⟨rfl, h.1, h.2.2.1, h.2.2.2.2.1, h.2.2.2.2.2.1, h.2.2.2.2.2.2⟩

/-! ## C8: CRC check of the ROM code -/

/-- C8.  `read_module_uid` (called with an 8-byte buffer) returns 1 exactly when
the presence sample of the reset reads LOW and `crc8` over the first 7 bytes
read from the line equals the 8th byte read.  Otherwise, be it for a missing
presence pulse or for a CRC mismatch, it returns 0, and the pass of the slot
loop of `scan_modules` then does nothing beyond what `read_module_uid` did on
the single-wire line, leaves the registries and the `hid` and `fid` buffers as
they were, and ends with the line " -> EMPTY".  `scan_modules` runs the pass for
slots 0, 1, 2, 3 one after the other, each from the state the previous left. -/
theorem read_module_uid_crc (env : Env) (slot : Nat) (bufs : ScanBufs) (s : Fw)
    (hlen : bufs.uid.length = 8) :
    ((read_module_uid env slot bufs.uid s).1.1 = 1 ↔
      env.idr (s.ow_n + 2) = false ∧
      crc8 (ow_bytes_at env (s.ow_n + 3) 8) 7 = (ow_bytes_at env (s.ow_n + 3) 8).getD 7 0) ∧
    (¬ (env.idr (s.ow_n + 2) = false ∧
        crc8 (ow_bytes_at env (s.ow_n + 3) 8) 7 = (ow_bytes_at env (s.ow_n + 3) 8).getD 7 0) →
      (read_module_uid env slot bufs.uid s).1.1 = 0 ∧
      (scan_slot env slot (bufs, s)).1.hid = bufs.hid ∧
      (scan_slot env slot (bufs, s)).1.fid = bufs.fid ∧
      no_uart (scan_slot env slot (bufs, s)).2 =
        no_uart (read_module_uid env slot bufs.uid (scan_slot_header slot s)).2 ∧
      registries (scan_slot env slot (bufs, s)).2 = registries s ∧
      " -> EMPTY\r\n\r\n".toList <:+ (scan_slot env slot (bufs, s)).2.uart) ∧
    scan_modules env bufs s =
      UART_SendString "========================================\r\n\r\n"
        (UART_SendString "Scan Complete!\r\n"
          (UART_SendString "========================================\r\n"
            (scan_slot env 3 (scan_slot env 2 (scan_slot env 1 (scan_slot env 0
              (bufs, scan_banner env s))))).2)) := by
  obtain ⟨r1, r2⟩ := read_module_uid_result env slot bufs.uid s hlen
  have hval : ∀ t : Fw, t.ow_n = s.ow_n →
      (read_module_uid env slot bufs.uid t).1.1 =
        (if env.idr (s.ow_n + 2) = false ∧ uid_crc_ok (ow_bytes_at env (s.ow_n + 3) 8) = true
          then 1 else 0) := by
    intro t ht
    obtain ⟨q1, q2⟩ := read_module_uid_result env slot bufs.uid t hlen
    rw [ht] at q1 q2
    cases hp : env.idr (s.ow_n + 2)
    · rw [q2 hp]
      cases hc : uid_crc_ok (ow_bytes_at env (s.ow_n + 3) 8) <;> simp
    · rw [q1 hp]
      simp
  have hcrc : uid_crc_ok (ow_bytes_at env (s.ow_n + 3) 8) = true ↔
      crc8 (ow_bytes_at env (s.ow_n + 3) 8) 7 = (ow_bytes_at env (s.ow_n + 3) 8).getD 7 0 := by
    unfold uid_crc_ok
    exact beq_iff_eq
  refine ⟨?_, ?_, rfl⟩
  · rw [hval s rfl, ← hcrc]
    split <;> simp_all
  · intro hneg
    rw [← hcrc] at hneg
    have h0 : (read_module_uid env slot bufs.uid s).1.1 = 0 := by
      rw [hval s rfl, if_neg hneg]
    have h1 : (read_module_uid env slot bufs.uid (scan_slot_header slot s)).1.1 = 0 := by
      rw [hval (scan_slot_header slot s) rfl, if_neg hneg]
    refine ⟨h0, ?_, ?_, ?_, ?_, ?_⟩
    · simp only [scan_slot, h1, ne_eq, not_true_eq_false, if_false]
    · simp only [scan_slot, h1, ne_eq, not_true_eq_false, if_false]
    · simp only [scan_slot, h1, ne_eq, not_true_eq_false, if_false, no_uart_UART_SendString]
    · simp only [scan_slot, h1, ne_eq, not_true_eq_false, if_false, registries_UART_SendString,
        registries_read_module_uid]
      rfl
    · simp only [scan_slot, h1, ne_eq, not_true_eq_false, if_false, UART_SendString_uart]
      exact List.suffix_append _ _

set_option maxRecDepth 100000 in
/-- Witness for C8: slot 0 answers the reset and sends a ROM code whose CRC byte
is wrong (0x27 instead of 0x9F). -/
theorem read_module_uid_crc_witness :
    (read_module_uid (env_of [] (ow_present ++ ow_bits rom_bad)) 0 bufs_zero.uid
      fw_boot).1.1 = 0 ∧
    registries (scan_slot (env_of [] (ow_present ++ ow_bits rom_bad)) 0
      (bufs_zero, fw_boot)).2 = registries fw_boot ∧
    " -> EMPTY\r\n\r\n".toList <:+
      (scan_slot (env_of [] (ow_present ++ ow_bits rom_bad)) 0 (bufs_zero, fw_boot)).2.uart :=
  have h := (read_module_uid_crc (env_of [] (ow_present ++ ow_bits rom_bad)) 0 bufs_zero
    fw_boot rfl).2.1 (by decide)
  ⟨h.1, h.2.2.2.2.1, h.2.2.2.2.2⟩

/-! ## C10: classification and registration -/

set_option maxRecDepth 100000 in
/-- C10, the code at the failing input.  Slot 0 holds a module whose firmware-id
block is "IO16   !" (hardware-id "HW-REV-A"): `get_module_type` reports the IO16
type, and after the scan the three registries are empty.  The same for
"AIO20  e" and "FPGA   0".  With the lower-case firmware-id "aio20  e" the slot
is registered with the analog driver. -/
theorem scan_uppercase_not_registered :
    get_module_type (c_str "HW-REV-A").dropLast (c_str "IO16   !").dropLast =
      "IO16 - 16 Channel Digital I/O" ∧
    registries (scan_modules (env_slot0 "IO16   !") bufs_zero fw_boot) = ([], [], []) ∧
    get_module_type (c_str "HW-REV-A").dropLast (c_str "AIO20  e").dropLast =
      "AIO20 - 20 Channel Analog I/O" ∧
    registries (scan_modules (env_slot0 "AIO20  e") bufs_zero fw_boot) = ([], [], []) ∧
    get_module_type (c_str "HW-REV-A").dropLast (c_str "FPGA   0").dropLast =
      "FPGA - FPGA Extension Module" ∧
    registries (scan_modules (env_slot0 "FPGA   0") bufs_zero fw_boot) = ([], [], []) ∧
    (scan_modules (env_slot0 "aio20  e") bufs_zero fw_boot).aio20_modules.map
      AIO20_Module.slot = [0] := by
  decide

/-! ## C17, C18: address byte and count byte -/

set_option maxRecDepth 100000 in
/-- The address byte of every register 0..31 with either direction flag, with
its decoding. -/
theorem get_address_byte_table : ∀ reg < 32, ∀ rw < 2,
    get_address_byte reg rw = (reg <<< 1) ||| rw ∧ get_address_byte reg rw &&& 0xC0 = 0 ∧
    get_address_byte reg rw >>> 1 = reg ∧ get_address_byte reg rw &&& 0x01 = rw := by
  decide

set_option maxRecDepth 100000 in
/-- The count byte of every transfer length 1..16, with its decoding. -/
theorem get_count_byte_table : ∀ n < 17, 1 ≤ n →
    get_count_byte n >>> 4 = n - 1 ∧ get_count_byte n &&& 0x0F = (n - 1) ^^^ 0x0F ∧
    (get_count_byte n >>> 4) ^^^ (get_count_byte n &&& 0x0F) = 0x0F ∧
    (get_count_byte n >>> 4) + 1 = n := by
  decide

/-- C17: for every register number 0..31 and direction flag 0 or 1 the address
byte is `(reg << 1) | rw`, its two top bits are 0, the byte shifted right by one
is `reg`, its lowest bit is `rw`, and a pair with the same address byte is the
same pair. -/
theorem get_address_byte_roundtrip (reg rw : Nat) (hreg : reg ≤ 31) (hrw : rw ≤ 1) :
    get_address_byte reg rw = (reg <<< 1) ||| rw ∧
    get_address_byte reg rw &&& 0xC0 = 0 ∧
    get_address_byte reg rw >>> 1 = reg ∧
    get_address_byte reg rw &&& 0x01 = rw ∧
    ∀ reg' rw' : Nat, reg' ≤ 31 → rw' ≤ 1 →
      get_address_byte reg rw = get_address_byte reg' rw' → reg = reg' ∧ rw = rw' := by
  obtain ⟨h1, h2, h3, h4⟩ := get_address_byte_table reg (by omega) rw (by omega)
  refine ⟨h1, h2, h3, h4, ?_⟩
  intro reg' rw' hreg' hrw' heq
  obtain ⟨-, -, g3, g4⟩ := get_address_byte_table reg' (by omega) rw' (by omega)
  rw [← heq] at g3 g4
  exact ⟨h3.symm.trans g3, h4.symm.trans g4⟩

/-- C17 at the read address of the direction register 0x16, compared with the
write address of the same register. -/
theorem get_address_byte_roundtrip_witness :
    (0x16 ≤ 31 ∧ 1 ≤ 1) ∧
    get_address_byte 0x16 1 = 0x2D ∧
    get_address_byte 0x16 1 &&& 0xC0 = 0 ∧
    get_address_byte 0x16 1 >>> 1 = 0x16 ∧
    get_address_byte 0x16 1 &&& 0x01 = 1 ∧
    (get_address_byte 0x16 1 = get_address_byte 0x16 0 → 0x16 = 0x16 ∧ 1 = 0) := by
  have h := get_address_byte_roundtrip 0x16 1 (by decide) (by decide)
  exact ⟨by decide, h.1, h.2.1, h.2.2.1, h.2.2.2.1,
    h.2.2.2.2 0x16 0 (by decide) (by decide)⟩

/-- C18: for every transfer length 1..16 the high nibble of the count byte is
`n - 1`, the low nibble is the 4-bit complement of the high nibble (their XOR is
0xF), `n` is the high nibble plus one, and a length with the same count byte is
the same length. -/
theorem get_count_byte_roundtrip (n : Nat) (h1 : 1 ≤ n) (h16 : n ≤ 16) :
    get_count_byte n >>> 4 = n - 1 ∧
    get_count_byte n &&& 0x0F = (n - 1) ^^^ 0x0F ∧
    (get_count_byte n >>> 4) ^^^ (get_count_byte n &&& 0x0F) = 0x0F ∧
    (get_count_byte n >>> 4) + 1 = n ∧
    ∀ n' : Nat, 1 ≤ n' → n' ≤ 16 → get_count_byte n = get_count_byte n' → n = n' := by
  obtain ⟨a1, a2, a3, a4⟩ := get_count_byte_table n (by omega) h1
  refine ⟨a1, a2, a3, a4, ?_⟩
  intro n' h1' h16' heq
  obtain ⟨-, -, -, b4⟩ := get_count_byte_table n' (by omega) h1'
  rw [← heq] at b4
  exact a4.symm.trans b4

/-- C18 at the length 1 that every call site uses, compared with length 16. -/
theorem get_count_byte_roundtrip_witness :
    (1 ≤ 1 ∧ 1 ≤ 16) ∧
    get_count_byte 1 = 0x0F ∧
    get_count_byte 1 >>> 4 = 1 - 1 ∧
    get_count_byte 1 &&& 0x0F = (1 - 1) ^^^ 0x0F ∧
    (get_count_byte 1 >>> 4) ^^^ (get_count_byte 1 &&& 0x0F) = 0x0F ∧
    (get_count_byte 1 >>> 4) + 1 = 1 ∧
    (get_count_byte 1 = get_count_byte 16 → 1 = 16) := by
  have h := get_count_byte_roundtrip 1 (by decide) (by decide)
  exact ⟨by decide, by decide, h.1, h.2.1, h.2.2.1, h.2.2.2.1,
    h.2.2.2.2 16 (by decide) (by decide)⟩

/-! ## C19: voltage conversion -/

theorem AIO20_ToVoltage_eq (x : Nat) (hx : x ≤ 4095) :
    AIO20_ToVoltage x = x * 10000 / 4095 := by
  unfold AIO20_ToVoltage
  have h1 : x * 10000 % 4294967296 = x * 10000 := Nat.mod_eq_of_lt (by omega)
  have h2 : x * 10000 / 4095 ≤ 10000 := Nat.div_le_of_le_mul (by omega)
  rw [h1]
  exact Nat.mod_eq_of_lt (by omega)

theorem AIO20_FromVoltage_eq (v : Nat) (hv : v ≤ 10000) :
    AIO20_FromVoltage v = v * 4095 / 10000 := by
  unfold AIO20_FromVoltage
  have h0 : ¬ v > 10000 := by omega
  simp only [if_neg h0]
  have h1 : v * 4095 % 4294967296 = v * 4095 := Nat.mod_eq_of_lt (by omega)
  have h2 : v * 4095 / 10000 ≤ 4095 := Nat.div_le_of_le_mul (by omega)
  rw [h1]
  exact Nat.mod_eq_of_lt (by omega)

/-- C19: for every 12-bit value `x`, `AIO20_ToVoltage x` is the integer quotient
`x * 10000 / 4095`, converting it back with `AIO20_FromVoltage` gives `x` or
`x - 1`, and the end points are `AIO20_ToVoltage 4095 = 10000` and
`AIO20_ToVoltage 0 = 0`. -/
theorem AIO20_voltage_roundtrip (x : Nat) (hx : x ≤ 4095) :
    AIO20_ToVoltage x = x * 10000 / 4095 ∧
    AIO20_FromVoltage (AIO20_ToVoltage x) ≤ x ∧
    x ≤ AIO20_FromVoltage (AIO20_ToVoltage x) + 1 ∧
    AIO20_ToVoltage 4095 = 10000 ∧ AIO20_ToVoltage 0 = 0 := by
  have h1 := AIO20_ToVoltage_eq x hx
  have hv : x * 10000 / 4095 ≤ 10000 := Nat.div_le_of_le_mul (by omega)
  have h2 := AIO20_FromVoltage_eq (x * 10000 / 4095) hv
  have a1 := Nat.div_add_mod (x * 10000) 4095
  have a2 := Nat.mod_lt (x * 10000) (show 4095 > 0 by decide)
  have b1 := Nat.div_add_mod (x * 10000 / 4095 * 4095) 10000
  have b2 := Nat.mod_lt (x * 10000 / 4095 * 4095) (show 10000 > 0 by decide)
  rw [h1, h2]
  generalize x * 10000 / 4095 * 4095 / 10000 = r at *
  generalize x * 10000 / 4095 * 4095 % 10000 = r' at *
  generalize hvv : x * 10000 / 4095 = v at *
  generalize x * 10000 % 4095 = v' at *
  refine ⟨rfl, by omega, by omega, by decide, by decide⟩

/-- C19 at `x = 1`, where the value that comes back is `x - 1 = 0`
(`AIO20_ToVoltage 1 = 2`, `AIO20_FromVoltage 2 = 0`). -/
theorem AIO20_voltage_roundtrip_witness :
    1 ≤ 4095 ∧ AIO20_ToVoltage 1 = 2 ∧ AIO20_FromVoltage (AIO20_ToVoltage 1) = 0 ∧
    AIO20_ToVoltage 1 = 1 * 10000 / 4095 ∧
    AIO20_FromVoltage (AIO20_ToVoltage 1) ≤ 1 ∧
    1 ≤ AIO20_FromVoltage (AIO20_ToVoltage 1) + 1 ∧
    AIO20_ToVoltage 4095 = 10000 ∧ AIO20_ToVoltage 0 = 0 :=
  ⟨by decide, by decide, by decide, AIO20_voltage_roundtrip 1 (by decide)⟩

/-! ## C20: classification of the detection value -/

/-- C20: the four sample values 4500, 1080, 2160 and 500 are classified as
4-20mA, 0-10V, PT-1000 and none; for every value the three ranges that
`AIO20_DetectAFE` tests (above 4000; strictly between 980 and 1180; strictly
between 2060 and 2260) are pairwise disjoint, a value in a range gets the type
of that range, and a value in no range gets `AFE_TYPE_NONE`. -/
theorem AIO20_DetectAFE_ranges :
    AIO20_DetectAFE 4500 = .AFE_TYPE_4_20MA ∧ AIO20_DetectAFE 1080 = .AFE_TYPE_0_10V ∧
    AIO20_DetectAFE 2160 = .AFE_TYPE_PT1000 ∧ AIO20_DetectAFE 500 = .AFE_TYPE_NONE ∧
    ∀ v : Nat,
      ¬ (4000 < v ∧ (980 < v ∧ v < 1180)) ∧ ¬ (4000 < v ∧ (2060 < v ∧ v < 2260)) ∧
      ¬ ((980 < v ∧ v < 1180) ∧ (2060 < v ∧ v < 2260)) ∧
      (4000 < v → AIO20_DetectAFE v = .AFE_TYPE_4_20MA) ∧
      (980 < v ∧ v < 1180 → AIO20_DetectAFE v = .AFE_TYPE_0_10V) ∧
      (2060 < v ∧ v < 2260 → AIO20_DetectAFE v = .AFE_TYPE_PT1000) ∧
      (¬ 4000 < v → ¬ (980 < v ∧ v < 1180) → ¬ (2060 < v ∧ v < 2260) →
        AIO20_DetectAFE v = .AFE_TYPE_NONE) := by
  refine ⟨by decide, by decide, by decide, by decide, ?_⟩
  intro v
  refine ⟨by omega, by omega, by omega, ?_, ?_, ?_, ?_⟩
  · intro h
    unfold AIO20_DetectAFE
    rw [if_pos h]
  · intro h
    have h1 : ¬ v > 4000 := by omega
    unfold AIO20_DetectAFE
    rw [if_neg h1, if_pos h]
  · intro h
    have h1 : ¬ v > 4000 := by omega
    have h2 : ¬ (v > 980 ∧ v < 1180) := by omega
    unfold AIO20_DetectAFE
    rw [if_neg h1, if_neg h2, if_pos h]
  · intro h1 h2 h3
    unfold AIO20_DetectAFE
    rw [if_neg h1, if_neg h2, if_neg h3]

/-! ## Frame of the register transactions -/

@[simp] theorem off_spi_UART_SendString (str : String) (s : Fw) :
    off_spi (UART_SendString str s) = off_spi s := rfl

@[simp] theorem off_spi_UART_SendHex8 (d : Nat) (s : Fw) :
    off_spi (UART_SendHex8 d s) = off_spi s := rfl

@[simp] theorem off_spi_UART_SendHex16 (d : Nat) (s : Fw) :
    off_spi (UART_SendHex16 d s) = off_spi s := rfl

@[simp] theorem off_spi_SPI_DataExchange (env : Env) (slot : Int) (m : Nat) (s : Fw) :
    off_spi (SPI_DataExchange env slot m s).2 = off_spi s := by
  rw [SPI_DataExchange_eq]
  rfl

@[simp] theorem off_spi_SPI_SetCS (slot : Int) (cs : chip_select_t) (s : Fw) :
    off_spi (SPI_SetCS slot cs s).2 = off_spi s := by
  rcases SPI_SetCS_snd_cases slot cs s with h | h | h <;> (rw [h]; try rfl)

@[simp] theorem off_spi_log_reg (op : RegOp) (s : Fw) :
    off_spi (log_reg op s) = log_reg op (off_spi s) := rfl

@[simp] theorem off_spi_io16_modules (s : Fw) : (off_spi s).io16_modules = s.io16_modules := rfl

@[simp] theorem off_spi_reg_log (s : Fw) : (off_spi s).reg_log = s.reg_log := rfl

@[simp] theorem off_spi_ow_log (s : Fw) : (off_spi s).ow_log = s.ow_log := rfl

@[simp] theorem off_spi_ow_n (s : Fw) : (off_spi s).ow_n = s.ow_n := rfl

@[simp] theorem off_spi_off_spi (s : Fw) : off_spi (off_spi s) = off_spi s := rfl

theorem off_spi_IO16_WriteRegister_data (env : Env) (slot : Nat) (value : List Nat) (cb : Nat) :
    ∀ (k i : Nat) (s : Fw),
      off_spi (IO16_WriteRegister_data env slot value cb k i s).2 = off_spi s := by
  intro k
  induction k with
  | zero => intro i s; rfl
  | succ k ih =>
    intro i s
    simp only [IO16_WriteRegister_data]
    split
    · simp
    · rw [ih]; simp

theorem off_spi_IO16_WriteRegister_ctrl (env : Env) (slot : Nat) (s : Fw) :
    off_spi (IO16_WriteRegister_ctrl env slot s).2 = off_spi s := by
  simp only [IO16_WriteRegister_ctrl]
  split <;> simp

theorem off_spi_IO16_WriteRegister_end (env : Env) (slot reg count : Nat) (value : List Nat)
    (s : Fw) : off_spi (IO16_WriteRegister_end env slot reg count value s).2 = off_spi s := by
  simp only [IO16_WriteRegister_end]
  split
  · simp
  · rw [off_spi_IO16_WriteRegister_ctrl]; simp

theorem off_spi_IO16_WriteRegister_count (env : Env) (slot reg count : Nat) (value : List Nat)
    (s : Fw) : off_spi (IO16_WriteRegister_count env slot reg count value s).2 = off_spi s := by
  simp only [IO16_WriteRegister_count]
  split
  · simp
  · split
    · rw [off_spi_IO16_WriteRegister_data]; simp
    · rw [off_spi_IO16_WriteRegister_end, off_spi_IO16_WriteRegister_data]; simp

theorem off_spi_IO16_WriteRegister_addr (env : Env) (slot reg count : Nat) (value : List Nat)
    (s : Fw) : off_spi (IO16_WriteRegister_addr env slot reg count value s).2 = off_spi s := by
  simp only [IO16_WriteRegister_addr]
  split
  · simp
  · rw [off_spi_IO16_WriteRegister_count]; simp

theorem off_spi_IO16_WriteRegister (env : Env) (slot reg count : Nat) (value : List Nat)
    (s : Fw) : off_spi (IO16_WriteRegister env slot reg count value s).2 =
      log_reg (.io16_write slot reg count (value.take count)
        (IO16_WriteRegister env slot reg count value s).1) (off_spi s) := by
  rw [IO16_WriteRegister_snd, off_spi_log_reg, off_spi_IO16_WriteRegister_addr,
    IO16_WriteRegister_fst]

theorem off_spi_IO16_ReadRegister_data (env : Env) (slot : Nat) :
    ∀ (k i miso : Nat) (value : List Nat) (s : Fw),
      off_spi (IO16_ReadRegister_data env slot k i miso value s).2 = off_spi s := by
  intro k
  induction k with
  | zero => intro i miso value s; rfl
  | succ k ih =>
    intro i miso value s
    simp only [IO16_ReadRegister_data]
    rw [ih]; simp

theorem off_spi_IO16_ReadRegister_ctrl (env : Env) (slot : Nat) (value : List Nat) (s : Fw) :
    off_spi (IO16_ReadRegister_ctrl env slot value s).2 = off_spi s := by
  simp only [IO16_ReadRegister_ctrl]
  split <;> simp

theorem off_spi_IO16_ReadRegister_count (env : Env) (slot count : Nat) (value : List Nat)
    (s : Fw) : off_spi (IO16_ReadRegister_count env slot count value s).2 = off_spi s := by
  simp only [IO16_ReadRegister_count]
  rw [off_spi_IO16_ReadRegister_ctrl, off_spi_IO16_ReadRegister_data]; simp

theorem off_spi_IO16_ReadRegister_nop (env : Env) (slot reg count : Nat) (value : List Nat)
    (s : Fw) : off_spi (IO16_ReadRegister_nop env slot reg count value s).2 = off_spi s := by
  simp only [IO16_ReadRegister_nop]
  split
  · simp
  · rw [off_spi_IO16_ReadRegister_count]; simp

theorem off_spi_IO16_ReadRegister_addr (env : Env) (slot reg count : Nat) (value : List Nat)
    (s : Fw) : off_spi (IO16_ReadRegister_addr env slot reg count value s).2 = off_spi s := by
  simp only [IO16_ReadRegister_addr]
  split
  · simp
  · rw [off_spi_IO16_ReadRegister_nop]; simp

theorem off_spi_IO16_ReadRegister (env : Env) (slot reg count : Nat) (value : List Nat)
    (s : Fw) : off_spi (IO16_ReadRegister env slot reg count value s).2 =
      log_reg (.io16_read slot reg count (IO16_ReadRegister env slot reg count value s).1.1
        (IO16_ReadRegister env slot reg count value s).1.2) (off_spi s) := by
  rw [IO16_ReadRegister_snd, off_spi_log_reg, off_spi_IO16_ReadRegister_addr,
    IO16_ReadRegister_fst]

/-! ## C16: what chip initialisation touches -/

theorem Appends_refl (P : RegOp → Prop) (a : Fw) : Appends P a a :=
  ⟨[], rfl, by simp⟩

theorem Appends_trans {P : RegOp → Prop} {a b c : Fw} (h1 : Appends P a b) (h2 : Appends P b c) :
    Appends P a c := by
  obtain ⟨o1, e1, p1⟩ := h1
  obtain ⟨o2, e2, p2⟩ := h2
  refine ⟨o1 ++ o2, ?_, ?_⟩
  · rw [List.foldl_append, ← e1, e2]
  · intro op hop
    rcases List.mem_append.1 hop with h | h
    · exact p1 op h
    · exact p2 op h

theorem Appends_log {P : RegOp → Prop} {a b : Fw} (op : RegOp) (h : Appends P a b) (hp : P op) :
    Appends P a (log_reg op b) :=
  Appends_trans h ⟨[op], rfl, by simpa using hp⟩

theorem log_reg_foldl_reg_log (ops : List RegOp) : ∀ a : Fw,
    (ops.foldl (fun s op => log_reg op s) a).reg_log = a.reg_log ++ ops ∧
    (ops.foldl (fun s op => log_reg op s) a).io16_modules = a.io16_modules := by
  induction ops with
  | nil => intro a; simp
  | cons op ops ih =>
    intro a
    rw [List.foldl_cons]
    obtain ⟨h1, h2⟩ := ih (log_reg op a)
    rw [h1, h2]
    simp [log_reg]

theorem Appends_uart {P : RegOp → Prop} {a x : Fw} (str : String)
    (h : Appends P a (off_spi x)) : Appends P a (off_spi (UART_SendString str x)) := h

theorem Appends_hex8 {P : RegOp → Prop} {a x : Fw} (d : Nat)
    (h : Appends P a (off_spi x)) : Appends P a (off_spi (UART_SendHex8 d x)) := h

theorem Appends_hex16 {P : RegOp → Prop} {a x : Fw} (d : Nat)
    (h : Appends P a (off_spi x)) : Appends P a (off_spi (UART_SendHex16 d x)) := h

theorem Appends_ite {P : RegOp → Prop} {a x y : Fw} {c : Prop} [Decidable c]
    (hx : Appends P a (off_spi x)) (hy : Appends P a (off_spi y)) :
    Appends P a (off_spi (if c then x else y)) := by
  split
  · exact hx
  · exact hy

theorem Appends_write {P : RegOp → Prop} {a : Fw} (env : Env) (slot reg count : Nat)
    (value : List Nat) (s : Fw)
    (hP : ∀ ret, P (.io16_write slot reg count (value.take count) ret))
    (h : Appends P a (off_spi s)) :
    Appends P a (off_spi (IO16_WriteRegister env slot reg count value s).2) := by
  rw [off_spi_IO16_WriteRegister]
  exact Appends_log _ h (hP _)

theorem Appends_read {P : RegOp → Prop} {a : Fw} (env : Env) (slot reg count : Nat)
    (value : List Nat) (s : Fw) (hP : ∀ ret v, P (.io16_read slot reg count ret v))
    (h : Appends P a (off_spi s)) :
    Appends P a (off_spi (IO16_ReadRegister env slot reg count value s).2) := by
  rw [off_spi_IO16_ReadRegister]
  exact Appends_log _ h (hP _ _)

theorem Appends_ci_read {a : Fw} (env : Env) (slot reg : Nat)
    (hreg : reg ∈ [0x1D, 0x00, 0x01, 0x08, 0x09]) (v : List Nat) (t : Fw)
    (h : Appends (IO16_ChipInit_access slot) a (off_spi t)) :
    Appends (IO16_ChipInit_access slot) a (off_spi (IO16_ReadRegister env slot reg 1 v t).2) :=
  Appends_read env slot reg 1 v t (fun _ _ => ⟨rfl, rfl, hreg⟩) h

theorem Appends_ci_write {a : Fw} (env : Env) (slot reg : Nat)
    (hreg : reg ∈ [0x10, 0x11, 0x12, 0x13, 0x19, 0x14, 0x15, 0x1A, 0x08, 0x09]) (v : List Nat)
    (t : Fw) (h : Appends (IO16_ChipInit_access slot) a (off_spi t)) :
    Appends (IO16_ChipInit_access slot) a (off_spi (IO16_WriteRegister env slot reg 1 v t).2) :=
  Appends_write env slot reg 1 v t (fun _ => ⟨rfl, rfl, hreg⟩) h

theorem off_spi_IO16_CheckOvercurrent_pins (overcurrent : Nat) (s : Fw) :
    off_spi (IO16_CheckOvercurrent_pins overcurrent s) = off_spi s := by
  unfold IO16_CheckOvercurrent_pins
  generalize List.range 16 = l
  induction l generalizing s with
  | nil => rfl
  | cons i l ih =>
    rw [List.foldl_cons, ih]
    split <;> rfl

theorem Appends_pins {P : RegOp → Prop} {a x : Fw} (overcurrent : Nat)
    (h : Appends P a (off_spi x)) :
    Appends P a (off_spi (IO16_CheckOvercurrent_pins overcurrent x)) := by
  rw [off_spi_IO16_CheckOvercurrent_pins]
  exact h

theorem IO16_GetChipInfo_appends {a : Fw} (env : Env) (slot : Nat) (s : Fw)
    (h : Appends (IO16_ChipInit_access slot) a (off_spi s)) :
    Appends (IO16_ChipInit_access slot) a (off_spi (IO16_GetChipInfo env slot s).2) := by
  have hr := Appends_ci_read env slot 0x1D (by decide) [0xFF] s h
  simp only [IO16_GetChipInfo]
  split
  · split
    · exact Appends_uart _ (Appends_uart _ (Appends_hex8 _ (Appends_uart _ hr)))
    · split
      · exact Appends_uart _ (Appends_uart _ (Appends_hex8 _ (Appends_uart _ hr)))
      · exact Appends_uart _ (Appends_uart _ (Appends_hex8 _ (Appends_uart _ hr)))
  · exact Appends_uart _ hr

theorem IO16_CheckOvercurrent_appends {a : Fw} (env : Env) (slot : Nat) (s : Fw)
    (h : Appends (IO16_ChipInit_access slot) a (off_spi s)) :
    Appends (IO16_ChipInit_access slot) a (off_spi (IO16_CheckOvercurrent env slot s).2) := by
  have h2 := Appends_ci_read env slot 0x09 (by decide) [0] _
    (Appends_ci_read env slot 0x08 (by decide) [0] s h)
  simp only [IO16_CheckOvercurrent]
  split
  · refine Appends_uart _ (Appends_ci_write env slot 0x09 (by decide) _ _
      (Appends_ci_write env slot 0x08 (by decide) _ _ ?_))
    exact Appends_pins _ (Appends_uart _ (Appends_hex16 _ (Appends_uart _ h2)))
  · exact Appends_uart _ h2

theorem IO16_ChipInit_step9_appends {a : Fw} (env : Env) (slot : Nat) (s : Fw)
    (h : Appends (IO16_ChipInit_access slot) a (off_spi s)) :
    Appends (IO16_ChipInit_access slot) a (off_spi (IO16_ChipInit_step9 env slot s).2) := by
  simp only [IO16_ChipInit_step9]
  exact Appends_uart _ (Appends_uart _ (Appends_uart _
    (IO16_CheckOvercurrent_appends env slot _ (Appends_uart _ h))))

theorem IO16_ChipInit_step8_appends {a : Fw} (env : Env) (slot : Nat) (s : Fw)
    (h : Appends (IO16_ChipInit_access slot) a (off_spi s)) :
    Appends (IO16_ChipInit_access slot) a (off_spi (IO16_ChipInit_step8 env slot s).2) := by
  simp only [IO16_ChipInit_step8]
  refine IO16_ChipInit_step9_appends env slot _ ?_
  refine Appends_ite (Appends_uart _ (Appends_hex8 _ (Appends_uart _ ?_))) ?_ <;>
  refine Appends_ci_read env slot 0x01 (by decide) _ _ ?_ <;>
  refine Appends_ite (Appends_uart _ (Appends_hex8 _ (Appends_uart _ ?_))) ?_ <;>
  exact Appends_ci_read env slot 0x00 (by decide) _ _ (Appends_uart _ (Appends_uart _ h))

theorem IO16_ChipInit_step5_appends {a : Fw} (env : Env) (slot : Nat) (s : Fw)
    (h : Appends (IO16_ChipInit_access slot) a (off_spi s)) :
    Appends (IO16_ChipInit_access slot) a (off_spi (IO16_ChipInit_step5 env slot s).2) := by
  simp only [IO16_ChipInit_step5]
  refine IO16_ChipInit_step8_appends env slot _ ?_
  refine Appends_ite (Appends_uart _ ?_) (Appends_uart _ ?_) <;>
  exact Appends_ci_write env slot 0x11 (by decide) _ _
    (Appends_ci_write env slot 0x10 (by decide) _ _ (Appends_uart _ h))

theorem IO16_ChipInit_step4_appends {a : Fw} (env : Env) (slot : Nat) (s : Fw)
    (h : Appends (IO16_ChipInit_access slot) a (off_spi s)) :
    Appends (IO16_ChipInit_access slot) a (off_spi (IO16_ChipInit_step4 env slot s).2) := by
  simp only [IO16_ChipInit_step4]
  refine IO16_ChipInit_step5_appends env slot _ ?_
  refine Appends_ite (Appends_uart _ ?_) (Appends_uart _ ?_) <;>
  exact Appends_ci_write env slot 0x1A (by decide) _ _ (Appends_uart _ h)

theorem IO16_ChipInit_step3_appends {a : Fw} (env : Env) (slot : Nat) (s : Fw)
    (h : Appends (IO16_ChipInit_access slot) a (off_spi s)) :
    Appends (IO16_ChipInit_access slot) a (off_spi (IO16_ChipInit_step3 env slot s).2) := by
  simp only [IO16_ChipInit_step3]
  refine IO16_ChipInit_step4_appends env slot _ ?_
  refine Appends_ite (Appends_uart _ ?_) (Appends_uart _ ?_) <;>
  refine Appends_ci_write env slot 0x15 (by decide) _ _ ?_ <;>
  refine Appends_ite (Appends_uart _ ?_) ?_ <;>
  exact Appends_ci_write env slot 0x14 (by decide) _ _ (Appends_uart _ (Appends_uart _ h))

theorem Appends_ite_snd {P : RegOp → Prop} {α : Type} {a : Fw} {x y : α × Fw} {c : Prop}
    [Decidable c] (hx : Appends P a (off_spi x.2)) (hy : Appends P a (off_spi y.2)) :
    Appends P a (off_spi (if c then x else y).2) := by
  split
  · exact hx
  · exact hy

theorem IO16_ChipInit_appends {a : Fw} (env : Env) (slot : Nat) (s : Fw)
    (h : Appends (IO16_ChipInit_access slot) a (off_spi s)) :
    Appends (IO16_ChipInit_access slot) a (off_spi (IO16_ChipInit env slot s).2) := by
  simp only [IO16_ChipInit]
  refine Appends_ite_snd (Appends_uart _ ?_) (IO16_ChipInit_step3_appends env slot _ ?_) <;>
  refine Appends_ci_write env slot 0x19 (by decide) _ _ (Appends_uart _ (Appends_uart _ ?_)) <;>
  refine Appends_ci_write env slot 0x13 (by decide) _ _ ?_ <;>
  refine Appends_ci_write env slot 0x12 (by decide) _ _ ?_ <;>
  refine Appends_ci_write env slot 0x11 (by decide) _ _ ?_ <;>
  refine Appends_ci_write env slot 0x10 (by decide) _ _ (Appends_uart _ ?_) <;>
  refine Appends_ite (Appends_uart _ (Appends_uart _ ?_)) ?_ <;>
  exact IO16_GetChipInfo_appends env slot _ (Appends_uart _ (Appends_uart _ (Appends_uart _
    (Appends_hex8 _ (Appends_uart _ (Appends_uart _ (Appends_uart _ h)))))))

/-- C16: whatever the chip answers, `IO16_ChipInit` leaves the registry of the
digital driver (and with it every cached `direction_mask` and `output_state`)
as it was, and every register transaction it performs is one of its own
accesses; in particular none of them is a write to the direction registers 0x16
and 0x17 or to the output registers 0x0C and 0x0D. -/
theorem IO16_ChipInit_frame (env : Env) (slot : Nat) (s : Fw) :
    (IO16_ChipInit env slot s).2.io16_modules = s.io16_modules ∧
    ∃ ops : List RegOp,
      (IO16_ChipInit env slot s).2.reg_log = s.reg_log ++ ops ∧
      (∀ op ∈ ops, IO16_ChipInit_access slot op) ∧
      ∀ op ∈ ops, ∀ (sl reg count : Nat) (value : List Nat) (ret : Int),
        op = .io16_write sl reg count value ret →
          reg ≠ 0x16 ∧ reg ≠ 0x17 ∧ reg ≠ 0x0C ∧ reg ≠ 0x0D := by
  obtain ⟨ops, e, hp⟩ := IO16_ChipInit_appends env slot s (Appends_refl _ _)
  obtain ⟨h1, h2⟩ := log_reg_foldl_reg_log ops (off_spi s)
  rw [← e] at h1 h2
  refine ⟨h2, ops, h1, hp, ?_⟩
  intro op hop sl reg count value ret heq
  have h := hp op hop
  rw [heq] at h
  obtain ⟨-, -, hreg⟩ := h
  simp only [List.mem_cons, List.mem_singleton, List.not_mem_nil, or_false] at hreg
  omega

/-! ## Pin functions: outcomes -/

theorem OffEq_uart {x y : Fw} (str : String) (h : off_spi x = y) :
    off_spi (UART_SendString str x) = y := h

theorem OffEq_hex8 {x y : Fw} (d : Nat) (h : off_spi x = y) :
    off_spi (UART_SendHex8 d x) = y := h

theorem OffEq_hex16 {x y : Fw} (d : Nat) (h : off_spi x = y) :
    off_spi (UART_SendHex16 d x) = y := h

theorem OffEq_ite {x x' y : Fw} {c : Prop} [Decidable c] (h : off_spi x = y)
    (h' : off_spi x' = y) : off_spi (if c then x else x') = y := by
  split
  · exact h
  · exact h'

theorem OffEq_write {x y : Fw} (env : Env) (slot reg count : Nat) (value : List Nat)
    (h : off_spi x = y) :
    off_spi (IO16_WriteRegister env slot reg count value x).2 =
      log_reg (.io16_write slot reg count (value.take count)
        (IO16_WriteRegister env slot reg count value x).1) y := by
  rw [off_spi_IO16_WriteRegister, h]

theorem OffEq_read {x y : Fw} (env : Env) (slot reg count : Nat) (value : List Nat)
    (h : off_spi x = y) :
    off_spi (IO16_ReadRegister env slot reg count value x).2 =
      log_reg (.io16_read slot reg count (IO16_ReadRegister env slot reg count value x).1.1
        (IO16_ReadRegister env slot reg count value x).1.2) y := by
  rw [off_spi_IO16_ReadRegister, h]

theorem OffEq_store {x y : Fw} (m : Nat) (f : IO16_Module → IO16_Module) (h : off_spi x = y) :
    off_spi (io16_store m f x) = io16_store m f y := by
  rw [← h]
  rfl

theorem IO16_GetModule_off_spi (slot : Nat) (s : Fw) :
    IO16_GetModule slot (off_spi s) = IO16_GetModule slot s := rfl

theorem io16_module_off_spi (m : Nat) (s : Fw) : io16_module m (off_spi s) = io16_module m s := rfl

theorem io16_module_UART_SendString (m : Nat) (str : String) (s : Fw) :
    io16_module m (UART_SendString str s) = io16_module m s := rfl

theorem io16_module_UART_SendHex8 (m d : Nat) (s : Fw) :
    io16_module m (UART_SendHex8 d s) = io16_module m s := rfl

theorem io16_module_UART_SendHex16 (m d : Nat) (s : Fw) :
    io16_module m (UART_SendHex16 d s) = io16_module m s := rfl

/-- Outcome of the second half of `IO16_SetDirection`. -/
theorem IO16_SetDirection_write_spec (env : Env) (slot pin d m reg v : Nat) (s y : Fw)
    (h : off_spi s = y) :
    (∃ ret : Int, ret ≠ 0 ∧ (IO16_SetDirection_write env slot pin d m reg v s).1 = -1 ∧
      off_spi (IO16_SetDirection_write env slot pin d m reg v s).2 =
        log_reg (.io16_write slot reg 1
          [IO16_SetDirection_value (if pin % 8 < 4 then 3 else 7) d v] ret) y) ∨
    ((IO16_SetDirection_write env slot pin d m reg v s).1 = 0 ∧
      off_spi (IO16_SetDirection_write env slot pin d m reg v s).2 =
        io16_store m (IO16_SetDirection_cache ((pin / 4) * 4) d)
          (log_reg (.io16_write slot reg 1
            [IO16_SetDirection_value (if pin % 8 < 4 then 3 else 7) d v] 0) y)) := by
  simp only [IO16_SetDirection_write]
  generalize hW : IO16_WriteRegister env slot reg 1 _ _ = W
  have e : off_spi W.2 = log_reg (.io16_write slot reg 1
      [IO16_SetDirection_value (if pin % 8 < 4 then 3 else 7) d v] W.1) y := by
    subst hW
    refine OffEq_write env slot reg 1 _ ?_
    refine OffEq_uart _ (OffEq_uart _ (OffEq_uart _ (OffEq_ite ?_ ?_)))
    · refine OffEq_uart _ (OffEq_uart _ (OffEq_uart _ ?_))
      refine OffEq_uart _ (OffEq_hex8 _ (OffEq_uart _ (OffEq_hex8 _ (OffEq_uart _ ?_))))
      refine OffEq_uart _ (OffEq_hex8 _ (OffEq_uart _ (OffEq_hex8 _ (OffEq_uart _ (OffEq_hex8 _
        (OffEq_uart _ ?_))))))
      exact OffEq_uart _ (OffEq_hex8 _ (OffEq_uart _ h))
    · refine OffEq_uart _ (OffEq_hex8 _ (OffEq_uart _ (OffEq_hex8 _ (OffEq_uart _ ?_))))
      refine OffEq_uart _ (OffEq_hex8 _ (OffEq_uart _ (OffEq_hex8 _ (OffEq_uart _ (OffEq_hex8 _
        (OffEq_uart _ ?_))))))
      exact OffEq_uart _ (OffEq_hex8 _ (OffEq_uart _ h))
  by_cases hw : W.1 = 0
  · refine Or.inr ?_
    rw [if_neg (not_not.2 hw)]
    refine ⟨rfl, OffEq_store _ _ (OffEq_uart _ ?_)⟩
    rw [e, hw]
  · refine Or.inl ⟨W.1, hw, ?_⟩
    rw [if_pos hw]
    exact ⟨rfl, OffEq_uart _ e⟩

theorem IO16_SetDirection_spec (env : Env) (slot pin d : Nat) (s y : Fw) (h : off_spi s = y) :
    IO16_SetDirection_outcome slot pin d y (IO16_SetDirection env slot pin d s).1
      (off_spi (IO16_SetDirection env slot pin d s).2) := by
  subst h
  unfold IO16_SetDirection
  cases hG : IO16_GetModule slot s with
  | none => exact Or.inl ⟨Or.inl hG, rfl, rfl⟩
  | some m =>
    simp only []
    by_cases hp : pin ≥ 16
    · rw [if_pos hp]
      exact Or.inl ⟨Or.inr hp, rfl, rfl⟩
    · rw [if_neg hp]
      generalize hR : IO16_ReadRegister env slot (if pin < 8 then 0x16 else 0x17) 1 [0] _ = R
      have e : off_spi R.2 =
          log_reg (.io16_read slot (if pin < 8 then 0x16 else 0x17) 1 R.1.1 R.1.2) (off_spi s) := by
        subst hR
        refine OffEq_read env slot _ 1 _ ?_
        refine OffEq_uart _ (OffEq_uart _ (OffEq_hex8 _ (OffEq_uart _ (OffEq_uart _ ?_))))
        exact OffEq_uart _ (OffEq_uart _ (OffEq_uart _ (OffEq_uart _ (OffEq_hex8 _
          (OffEq_uart _ (OffEq_uart _ rfl))))))
      by_cases hr : R.1.1 = 0
      · rw [if_neg (not_not.2 hr)]
        rw [hr] at e
        rcases IO16_SetDirection_write_spec env slot pin d m (if pin < 8 then 0x16 else 0x17)
          (R.1.2.getD 0 0) R.2 _ e with ⟨rc, h1, h2, h3⟩ | ⟨h2, h3⟩
        · exact Or.inr (Or.inr (Or.inl ⟨m, R.1.2, rc, hG, by omega, h1, h2, h3⟩))
        · exact Or.inr (Or.inr (Or.inr ⟨m, R.1.2, hG, by omega, h2, h3⟩))
      · rw [if_pos hr]
        exact Or.inr (Or.inl ⟨m, R.1.1, R.1.2, hG, by omega, hr, rfl, OffEq_uart _ e⟩)

theorem IO16_SetPin_verify_spec (env : Env) (slot pin st m reg v : Nat) (s y : Fw)
    (h : off_spi s = y) :
    (IO16_SetPin_verify env slot pin st m reg v s).1 = 0 ∧
    ∃ (rc : Int) (buf : List Nat),
      off_spi (IO16_SetPin_verify env slot pin st m reg v s).2 =
        io16_store m (IO16_SetPin_cache pin st) (log_reg (.io16_read slot reg 1 rc buf) y) := by
  simp only [IO16_SetPin_verify]
  generalize hV : IO16_ReadRegister env slot reg 1 [0] _ = V
  have e : off_spi V.2 = log_reg (.io16_read slot reg 1 V.1.1 V.1.2) y := by
    subst hV
    exact OffEq_read env slot reg 1 _ (OffEq_uart _ (OffEq_uart _ (OffEq_hex8 _
      (OffEq_uart _ h))))
  refine ⟨trivial, V.1.1, V.1.2, OffEq_store _ _ (OffEq_ite (OffEq_ite ?_ ?_) (OffEq_uart _ e))⟩
  · exact OffEq_uart _ (OffEq_hex8 _ (OffEq_uart _ e))
  · exact OffEq_uart _ (OffEq_uart _ (OffEq_hex8 _ (OffEq_uart _ (OffEq_hex8 _
      (OffEq_uart _ e)))))

theorem IO16_SetPin_output_spec (env : Env) (slot pin st m : Nat) (s y : Fw)
    (h : off_spi s = y) :
    IO16_SetPin_output_outcome slot pin st m y (IO16_SetPin_output env slot pin st m s).1
      (off_spi (IO16_SetPin_output env slot pin st m s).2) := by
  simp only [IO16_SetPin_output]
  generalize hR : IO16_ReadRegister env slot (if pin < 8 then 0x0C else 0x0D) 1 [0] _ = R
  have e : off_spi R.2 =
      log_reg (.io16_read slot (if pin < 8 then 0x0C else 0x0D) 1 R.1.1 R.1.2) y := by
    subst hR
    exact OffEq_read env slot _ 1 _ (OffEq_uart _ (OffEq_uart _ (OffEq_uart _ h)))
  by_cases hr : R.1.1 = 0
  · rw [if_neg (not_not.2 hr)]
    rw [hr] at e
    generalize hW : IO16_WriteRegister env slot (if pin < 8 then 0x0C else 0x0D) 1 _ _ = W
    have e2 : off_spi W.2 = log_reg (.io16_write slot (if pin < 8 then 0x0C else 0x0D) 1
        [IO16_SetPin_value pin st (R.1.2.getD 0 0)] W.1)
        (log_reg (.io16_read slot (if pin < 8 then 0x0C else 0x0D) 1 0 R.1.2) y) := by
      subst hW
      refine OffEq_write env slot _ 1 _ (OffEq_uart _ (OffEq_uart _ (OffEq_uart _
        (OffEq_ite (OffEq_uart _ ?_) ?_)))) <;>
      exact OffEq_uart _ (OffEq_uart _ (OffEq_hex8 _ (OffEq_uart _ (OffEq_hex8 _
        (OffEq_uart _ (OffEq_uart _ (OffEq_hex8 _ (OffEq_uart _ e))))))))
    by_cases hw : W.1 = 0
    · rw [if_neg (not_not.2 hw)]
      rw [hw] at e2
      obtain ⟨v1, rc, buf, v2⟩ := IO16_SetPin_verify_spec env slot pin st m
        (if pin < 8 then 0x0C else 0x0D) (IO16_SetPin_value pin st (R.1.2.getD 0 0)) W.2 _ e2
      exact Or.inr (Or.inr ⟨R.1.2, rc, buf, v1, v2⟩)
    · rw [if_pos hw]
      exact Or.inr (Or.inl ⟨R.1.2, W.1, hw, rfl, OffEq_uart _ e2⟩)
  · rw [if_pos hr]
    exact Or.inl ⟨R.1.1, R.1.2, hr, rfl, OffEq_uart _ e⟩

theorem IO16_SetPin_spec (env : Env) (slot pin st : Nat) (s y : Fw) (h : off_spi s = y) :
    IO16_SetPin_outcome slot pin st y (IO16_SetPin env slot pin st s).1
      (off_spi (IO16_SetPin env slot pin st s).2) := by
  subst h
  unfold IO16_SetPin
  cases hG : IO16_GetModule slot s with
  | none => exact Or.inl ⟨Or.inl hG, rfl, rfl⟩
  | some m =>
    simp only []
    by_cases hp : pin ≥ 16
    · rw [if_pos hp]
      exact Or.inl ⟨Or.inr hp, rfl, rfl⟩
    · rw [if_neg hp]
      refine Or.inr ⟨m, hG, by omega, ?_⟩
      have ed : io16_module m (UART_SendString "\r\n" (UART_SendHex16
          (io16_module m s).direction_mask (UART_SendString
          "[SetPin] Current direction_mask: 0x" (UART_SendString "...\r\n" (UART_SendHex8 pin
          (UART_SendString "[SetPin] Checking direction for pin " s)))))) = io16_module m s := by
        simp only [io16_module_UART_SendString, io16_module_UART_SendHex8,
          io16_module_UART_SendHex16]
      rw [ed]
      by_cases hd : (io16_module m s).direction_mask &&& (1 <<< pin) = 0
      · rw [if_pos hd]
        refine Or.inr ⟨hd, ?_⟩
        generalize hD : IO16_SetDirection env slot pin 1 _ = D
        have e : IO16_SetDirection_outcome slot pin 1 (off_spi s) D.1 (off_spi D.2) := by
          subst hD
          exact IO16_SetDirection_spec env slot pin 1 _ _ (OffEq_uart _ (OffEq_hex8 _
            (OffEq_uart _ (OffEq_uart _ (OffEq_hex16 _ (OffEq_uart _ (OffEq_uart _ (OffEq_hex8 _
            (OffEq_uart _ rfl)))))))))
        refine ⟨D.1, off_spi D.2, e, ?_⟩
        by_cases h0 : D.1 = 0
        · rw [if_neg (not_not.2 h0)]
          exact Or.inr ⟨h0, IO16_SetPin_output_spec env slot pin st m _ _ (OffEq_uart _ rfl)⟩
        · rw [if_pos h0]
          exact Or.inl ⟨h0, rfl, OffEq_uart _ rfl⟩
      · rw [if_neg hd]
        exact Or.inl ⟨hd, IO16_SetPin_output_spec env slot pin st m _ _
          (OffEq_uart _ (OffEq_hex8 _ (OffEq_uart _ (OffEq_uart _ (OffEq_hex16 _
            (OffEq_uart _ (OffEq_uart _ (OffEq_hex8 _ (OffEq_uart _ rfl)))))))))⟩

theorem io16_module_of_off_spi (m : Nat) (x y : Fw) (h : off_spi x = y) :
    io16_module m x = io16_module m y := by
  rw [← h]
  rfl

theorem IO16_GetPin_spec (env : Env) (slot pin : Nat) (s y : Fw) (h : off_spi s = y) :
    IO16_GetPin_outcome slot pin y (IO16_GetPin env slot pin s).1
      (off_spi (IO16_GetPin env slot pin s).2) := by
  subst h
  unfold IO16_GetPin
  cases hG : IO16_GetModule slot s with
  | none => exact Or.inl ⟨Or.inl hG, rfl, rfl⟩
  | some m =>
    simp only []
    by_cases hp : pin ≥ 16
    · rw [if_pos hp]
      exact Or.inl ⟨Or.inr hp, rfl, rfl⟩
    · rw [if_neg hp]
      refine Or.inr ⟨m, hG, by omega, ?_⟩
      by_cases hd : (io16_module m s).direction_mask &&& (1 <<< pin) = 0
      · rw [if_neg (not_not.2 hd)]
        generalize hR : IO16_ReadRegister env slot (if pin < 8 then 0x00 else 0x01) 1 [0] _ = R
        have e : off_spi R.2 =
            log_reg (.io16_read slot (if pin < 8 then 0x00 else 0x01) 1 R.1.1 R.1.2)
              (off_spi s) := by
          subst hR
          exact OffEq_read env slot _ 1 _ rfl
        by_cases hr : R.1.1 = 0
        · rw [if_neg (not_not.2 hr)]
          rw [hr] at e
          exact Or.inr (Or.inr ⟨hd, R.1.2, rfl, OffEq_store _ _ e⟩)
        · rw [if_pos hr]
          exact Or.inr (Or.inl ⟨hd, R.1.1, R.1.2, hr, rfl, e⟩)
      · rw [if_pos hd]
        exact Or.inl ⟨hd, rfl, rfl⟩

theorem io16_module_log_reg (m : Nat) (op : RegOp) (y : Fw) :
    io16_module m (log_reg op y) = io16_module m y := rfl

theorem IO16_ReadAll_spec (env : Env) (slot : Nat) (s y : Fw) (h : off_spi s = y) :
    IO16_ReadAll_outcome slot y (IO16_ReadAll env slot s).1
      (off_spi (IO16_ReadAll env slot s).2) := by
  subst h
  unfold IO16_ReadAll
  cases hG : IO16_GetModule slot s with
  | none => exact Or.inl ⟨hG, rfl, rfl⟩
  | some m =>
    simp only []
    refine Or.inr ⟨m, hG, ?_⟩
    generalize hA : IO16_ReadRegister env slot 0x00 1 [0] _ = A
    have ea : off_spi A.2 = log_reg (.io16_read slot 0x00 1 A.1.1 A.1.2) (off_spi s) := by
      subst hA
      exact OffEq_read env slot _ 1 _ rfl
    by_cases ha : A.1.1 = 0
    · rw [if_neg (not_not.2 ha)]
      rw [ha] at ea
      generalize hB : IO16_ReadRegister env slot 0x01 1 [0] _ = B
      have eb : off_spi B.2 = log_reg (.io16_read slot 0x01 1 B.1.1 B.1.2)
          (log_reg (.io16_read slot 0x00 1 0 A.1.2) (off_spi s)) := by
        subst hB
        exact OffEq_read env slot _ 1 _ ea
      by_cases hb : B.1.1 = 0
      · rw [if_neg (not_not.2 hb)]
        rw [hb] at eb
        exact Or.inr (Or.inr ⟨A.1.2, B.1.2, rfl, OffEq_store _ _ eb⟩)
      · rw [if_pos hb]
        refine Or.inr (Or.inl ⟨A.1.2, B.1.1, B.1.2, hb, ?_, eb⟩)
        show (io16_module m B.2).input_state = _
        rw [io16_module_of_off_spi m _ _ eb]
        rfl
    · rw [if_pos ha]
      refine Or.inl ⟨A.1.1, A.1.2, ha, ?_, ea⟩
      show (io16_module m A.2).input_state = _
      rw [io16_module_of_off_spi m _ _ ea]
      rfl

theorem IO16_WriteAll_spec (env : Env) (slot state : Nat) (s y : Fw) (h : off_spi s = y) :
    IO16_WriteAll_outcome slot state y (IO16_WriteAll env slot state s).1
      (off_spi (IO16_WriteAll env slot state s).2) := by
  subst h
  unfold IO16_WriteAll
  cases hG : IO16_GetModule slot s with
  | none => exact Or.inl ⟨hG, rfl, rfl⟩
  | some m =>
    simp only []
    refine Or.inr ⟨m, hG, ?_⟩
    generalize hA : IO16_WriteRegister env slot 0x0C 1 _ _ = A
    have ea : off_spi A.2 = log_reg (.io16_write slot 0x0C 1 [state &&& 0xFF] A.1)
        (off_spi s) := by
      subst hA
      exact OffEq_write env slot _ 1 _ rfl
    by_cases ha : A.1 = 0
    · rw [if_neg (not_not.2 ha)]
      rw [ha] at ea
      generalize hB : IO16_WriteRegister env slot 0x0D 1 _ _ = B
      have eb : off_spi B.2 = log_reg (.io16_write slot 0x0D 1 [(state >>> 8) &&& 0xFF] B.1)
          (log_reg (.io16_write slot 0x0C 1 [state &&& 0xFF] 0) (off_spi s)) := by
        subst hB
        exact OffEq_write env slot _ 1 _ ea
      by_cases hb : B.1 = 0
      · rw [if_neg (not_not.2 hb)]
        rw [hb] at eb
        exact Or.inr (Or.inr ⟨rfl, OffEq_store _ _ eb⟩)
      · rw [if_pos hb]
        exact Or.inr (Or.inl ⟨B.1, hb, rfl, eb⟩)
    · rw [if_pos ha]
      exact Or.inl ⟨A.1, ha, rfl, ea⟩

theorem OffEq_read_logs {x y : Fw} {ops : List RegOp} (env : Env) (slot reg count : Nat)
    (value : List Nat) (h : off_spi x = logs ops y) :
    off_spi (IO16_ReadRegister env slot reg count value x).2 =
      logs (ops ++ [.io16_read slot reg count (IO16_ReadRegister env slot reg count value x).1.1
        (IO16_ReadRegister env slot reg count value x).1.2]) y := by
  rw [off_spi_IO16_ReadRegister, h]
  simp [logs, List.foldl_append]

theorem off_spi_IO16_PrintStatus_table (direction output input : Nat) (s : Fw) :
    off_spi (IO16_PrintStatus_table direction output input s) = off_spi s := by
  unfold IO16_PrintStatus_table
  generalize List.range 16 = l
  induction l generalizing s with
  | nil => rfl
  | cons i l ih =>
    rw [List.foldl_cons, ih]
    refine OffEq_uart _ (OffEq_ite (OffEq_uart _ (OffEq_uart _ ?_))
      (OffEq_uart _ (OffEq_uart _ ?_))) <;>
    exact OffEq_uart _ (OffEq_uart _ (OffEq_ite (OffEq_uart _ rfl) rfl))

theorem OffEq_table {x y : Fw} (direction output input : Nat) (h : off_spi x = y) :
    off_spi (IO16_PrintStatus_table direction output input x) = y := by
  rw [off_spi_IO16_PrintStatus_table, h]

theorem IO16_PrintStatus_report_spec (m dir_a dir_b output_a output_b input_a input_b : Nat)
    (s y : Fw) (h : off_spi s = y) :
    off_spi (IO16_PrintStatus_report m dir_a dir_b output_a output_b input_a input_b s) =
      io16_store m (IO16_PrintStatus_cache (IO16_PrintStatus_direction dir_a dir_b)
        (((output_b <<< 8) ||| output_a) % 65536) (((input_b <<< 8) ||| input_a) % 65536)) y := by
  simp only [IO16_PrintStatus_report]
  refine OffEq_uart _ (OffEq_uart _ (OffEq_hex16 _ (OffEq_uart _ (OffEq_hex16 _ (OffEq_uart _
    (OffEq_hex16 _ (OffEq_uart _ (OffEq_uart _ (OffEq_table _ _ _ ?_)))))))))
  exact OffEq_uart _ (OffEq_uart _ (OffEq_uart _ (OffEq_hex8 _ (OffEq_uart _ (OffEq_uart _
    (OffEq_uart _ (OffEq_uart _ (OffEq_uart _ (OffEq_store _ _ h)))))))))

theorem IO16_PrintStatus_inputs_spec (env : Env) (slot m dir_a dir_b output_a output_b : Nat)
    (s y : Fw) (ops : List RegOp) (h : off_spi s = logs ops y) :
    ∃ ops' : List RegOp,
      off_spi (IO16_PrintStatus_inputs env slot m dir_a dir_b output_a output_b s) =
        logs ops' y ∨
      ∃ input_a input_b : Nat,
        off_spi (IO16_PrintStatus_inputs env slot m dir_a dir_b output_a output_b s) =
          io16_store m (IO16_PrintStatus_cache (IO16_PrintStatus_direction dir_a dir_b)
            (((output_b <<< 8) ||| output_a) % 65536) (((input_b <<< 8) ||| input_a) % 65536))
            (logs ops' y) := by
  simp only [IO16_PrintStatus_inputs]
  generalize hA : IO16_ReadRegister env slot 0x00 1 [0] _ = A
  have ea : off_spi A.2 = logs (ops ++ [.io16_read slot 0x00 1 A.1.1 A.1.2]) y := by
    subst hA
    exact OffEq_read_logs env slot _ 1 _ h
  by_cases ha : A.1.1 = 0
  · rw [if_neg (not_not.2 ha)]
    generalize hB : IO16_ReadRegister env slot 0x01 1 [0] _ = B
    have eb : off_spi B.2 = logs (ops ++ [.io16_read slot 0x00 1 A.1.1 A.1.2] ++
        [.io16_read slot 0x01 1 B.1.1 B.1.2]) y := by
      subst hB
      exact OffEq_read_logs env slot _ 1 _ ea
    by_cases hb : B.1.1 = 0
    · rw [if_neg (not_not.2 hb)]
      exact ⟨_, Or.inr ⟨_, _, IO16_PrintStatus_report_spec m _ _ _ _ _ _ _ _ eb⟩⟩
    · rw [if_pos hb]
      exact ⟨_, Or.inl (OffEq_uart _ eb)⟩
  · rw [if_pos ha]
    exact ⟨_, Or.inl (OffEq_uart _ ea)⟩

theorem IO16_PrintStatus_outputs_spec (env : Env) (slot m dir_a dir_b : Nat)
    (s y : Fw) (ops : List RegOp) (h : off_spi s = logs ops y) :
    ∃ ops' : List RegOp,
      off_spi (IO16_PrintStatus_outputs env slot m dir_a dir_b s) = logs ops' y ∨
      ∃ output_a output_b input_a input_b : Nat,
        off_spi (IO16_PrintStatus_outputs env slot m dir_a dir_b s) =
          io16_store m (IO16_PrintStatus_cache (IO16_PrintStatus_direction dir_a dir_b)
            (((output_b <<< 8) ||| output_a) % 65536) (((input_b <<< 8) ||| input_a) % 65536))
            (logs ops' y) := by
  simp only [IO16_PrintStatus_outputs]
  generalize hA : IO16_ReadRegister env slot 0x0C 1 [0] _ = A
  have ea : off_spi A.2 = logs (ops ++ [.io16_read slot 0x0C 1 A.1.1 A.1.2]) y := by
    subst hA
    exact OffEq_read_logs env slot _ 1 _ h
  by_cases ha : A.1.1 = 0
  · rw [if_neg (not_not.2 ha)]
    generalize hB : IO16_ReadRegister env slot 0x0D 1 [0] _ = B
    have eb : off_spi B.2 = logs (ops ++ [.io16_read slot 0x0C 1 A.1.1 A.1.2] ++
        [.io16_read slot 0x0D 1 B.1.1 B.1.2]) y := by
      subst hB
      exact OffEq_read_logs env slot _ 1 _ ea
    by_cases hb : B.1.1 = 0
    · rw [if_neg (not_not.2 hb)]
      obtain ⟨ops', h' | ⟨ia, ib, h'⟩⟩ := IO16_PrintStatus_inputs_spec env slot m dir_a dir_b
        (A.1.2.getD 0 0) (B.1.2.getD 0 0) B.2 y _ eb
      · exact ⟨ops', Or.inl h'⟩
      · exact ⟨ops', Or.inr ⟨_, _, ia, ib, h'⟩⟩
    · rw [if_pos hb]
      exact ⟨_, Or.inl (OffEq_uart _ eb)⟩
  · rw [if_pos ha]
    exact ⟨_, Or.inl (OffEq_uart _ ea)⟩

theorem IO16_PrintStatus_spec (env : Env) (slot : Nat) (s y : Fw) (h : off_spi s = y) :
    IO16_PrintStatus_outcome slot y (off_spi (IO16_PrintStatus env slot s)) := by
  subst h
  unfold IO16_PrintStatus
  cases hG : IO16_GetModule slot s with
  | none => exact ⟨[], Or.inl (OffEq_uart _ rfl)⟩
  | some m =>
    simp only []
    generalize hA : IO16_ReadRegister env slot 0x16 1 [0] _ = A
    have ea : off_spi A.2 = logs ([] ++ [.io16_read slot 0x16 1 A.1.1 A.1.2]) (off_spi s) := by
      subst hA
      exact OffEq_read_logs env slot _ 1 _ rfl
    by_cases ha : A.1.1 = 0
    · rw [if_neg (not_not.2 ha)]
      generalize hB : IO16_ReadRegister env slot 0x17 1 [0] _ = B
      have eb : off_spi B.2 = logs ([] ++ [.io16_read slot 0x16 1 A.1.1 A.1.2] ++
          [.io16_read slot 0x17 1 B.1.1 B.1.2]) (off_spi s) := by
        subst hB
        exact OffEq_read_logs env slot _ 1 _ ea
      by_cases hb : B.1.1 = 0
      · rw [if_neg (not_not.2 hb)]
        obtain ⟨ops', h' | ⟨oa, ob, ia, ib, h'⟩⟩ := IO16_PrintStatus_outputs_spec env slot m
          (A.1.2.getD 0 0) (B.1.2.getD 0 0) B.2 (off_spi s) _ eb
        · exact ⟨ops', Or.inl h'⟩
        · exact ⟨ops', Or.inr ⟨m, _, _, oa, ob, ia, ib, hG, h'⟩⟩
      · rw [if_pos hb]
        exact ⟨_, Or.inl (OffEq_uart _ eb)⟩
    · rw [if_pos ha]
      exact ⟨_, Or.inl (OffEq_uart _ ea)⟩

theorem testBit_one_shiftLeft (k i : Nat) : (1 <<< k).testBit i = decide (k = i) := by
  rw [Nat.one_shiftLeft, Nat.testBit_two_pow]

theorem testBit_FFFF (i : Nat) : (0xFFFF : Nat).testBit i = decide (i < 16) := by
  have : (0xFFFF : Nat) = 2 ^ 16 - 1 := by norm_num
  rw [this, Nat.testBit_two_pow_sub_one]

theorem and_one_shiftLeft_ne_zero (x p : Nat) : x &&& (1 <<< p) ≠ 0 ↔ x.testBit p = true := by
  rw [Nat.one_shiftLeft, Nat.and_two_pow]
  cases h : x.testBit p <;> simp [Nat.pos_iff_ne_zero]

theorem IO16_SetDirection_cache_bits (bs d : Nat) (md : IO16_Module) (i : Nat) (hi : i < 16) :
    (IO16_SetDirection_cache bs d md).direction_mask.testBit i =
      (if bs ≤ i ∧ i < bs + 4 then decide (d ≠ 0) else md.direction_mask.testBit i) ∧
    (IO16_SetDirection_cache bs d md).slot = md.slot ∧
    (IO16_SetDirection_cache bs d md).input_state = md.input_state ∧
    (IO16_SetDirection_cache bs d md).output_state = md.output_state := by
  have hr : List.range 4 = [0, 1, 2, 3] := rfl
  unfold IO16_SetDirection_cache
  rw [hr]
  by_cases hd : d ≠ 0
  · simp only [List.foldl_cons, List.foldl_nil, if_pos hd, Nat.testBit_or, testBit_one_shiftLeft,
      and_self, and_true, decide_eq_true hd]
    split
    · have : bs + 0 = i ∨ bs + 1 = i ∨ bs + 2 = i ∨ bs + 3 = i := by omega
      rcases this with h | h | h | h <;> simp [h]
    · have h0 : ¬ bs = i := by omega
      have h1 : ¬ bs + 1 = i := by omega
      have h2 : ¬ bs + 2 = i := by omega
      have h3 : ¬ bs + 3 = i := by omega
      simp [h0, h1, h2, h3]
  · simp only [List.foldl_cons, List.foldl_nil, if_neg hd, Nat.testBit_and, Nat.testBit_xor,
      testBit_one_shiftLeft, testBit_FFFF, and_self, and_true, decide_eq_false hd, hi,
      decide_True]
    split
    · have : bs + 0 = i ∨ bs + 1 = i ∨ bs + 2 = i ∨ bs + 3 = i := by omega
      rcases this with h | h | h | h <;> simp [h]
    · have h0 : ¬ bs = i := by omega
      have h1 : ¬ bs + 1 = i := by omega
      have h2 : ¬ bs + 2 = i := by omega
      have h3 : ¬ bs + 3 = i := by omega
      simp [h0, h1, h2, h3]

theorem IO16_GetModule_from_some (slot : Nat) : ∀ (mods : List IO16_Module) (i m : Nat),
    IO16_GetModule_from mods i slot = some m →
      i ≤ m ∧ m - i < mods.length ∧ (mods.getD (m - i) ⟨0, 0, 0, 0⟩).slot = slot := by
  intro mods
  induction mods with
  | nil => intro i m h; simp [IO16_GetModule_from] at h
  | cons md rest ih =>
    intro i m h
    simp only [IO16_GetModule_from] at h
    split at h
    · rename_i hs
      have : i = m := by simpa using h
      subst this
      simp [hs]
    · obtain ⟨h1, h2, h3⟩ := ih (i + 1) m h
      have e : m - i = (m - (i + 1)) + 1 := by omega
      refine ⟨by omega, ?_, ?_⟩
      · rw [e]; simp; omega
      · rw [e]; simpa using h3

theorem IO16_GetModule_some (slot m : Nat) (s : Fw) (h : IO16_GetModule slot s = some m) :
    m < s.io16_modules.length ∧ (io16_module m s).slot = slot := by
  obtain ⟨-, h2, h3⟩ := IO16_GetModule_from_some slot s.io16_modules 0 m h
  exact ⟨h2, h3⟩

theorem IO16_GetModule_from_set (slot : Nat) : ∀ (mods : List IO16_Module) (i m : Nat)
    (md' : IO16_Module), md'.slot = (mods.getD m ⟨0, 0, 0, 0⟩).slot → m < mods.length →
    IO16_GetModule_from (mods.set m md') i slot = IO16_GetModule_from mods i slot := by
  intro mods
  induction mods with
  | nil => intro i m md' _ hm; simp at hm
  | cons md rest ih =>
    intro i m md' hs hm
    cases m with
    | zero =>
      simp only [List.set_cons_zero, IO16_GetModule_from]
      have : md'.slot = md.slot := by simpa using hs
      rw [this]
    | succ m =>
      simp only [List.set_cons_succ, IO16_GetModule_from]
      rw [ih (i + 1) m md' (by simpa using hs) (by simpa using hm)]

theorem IO16_GetModule_store (slot m : Nat) (f : IO16_Module → IO16_Module) (y : Fw)
    (hf : (f (io16_module m y)).slot = (io16_module m y).slot) :
    IO16_GetModule slot (io16_store m f y) = IO16_GetModule slot y := by
  by_cases hm : m < y.io16_modules.length
  · exact IO16_GetModule_from_set slot y.io16_modules 0 m _ hf hm
  · show IO16_GetModule_from (y.io16_modules.set m _) 0 slot = _
    rw [List.set_eq_of_length_le (by omega)]
    rfl

theorem io16_module_store (m : Nat) (f : IO16_Module → IO16_Module) (y : Fw)
    (hm : m < y.io16_modules.length) :
    io16_module m (io16_store m f y) = f (io16_module m y) := by
  simp [io16_module, io16_store, List.getD_eq_getElem?_getD, hm]

theorem io16_store_modules (m : Nat) (f : IO16_Module → IO16_Module) (y : Fw) :
    (io16_store m f y).io16_modules = y.io16_modules.set m (f (io16_module m y)) := rfl

theorem log_reg_reg_log (op : RegOp) (y : Fw) : (log_reg op y).reg_log = y.reg_log ++ [op] := rfl

theorem log_reg_io16_modules (op : RegOp) (y : Fw) :
    (log_reg op y).io16_modules = y.io16_modules := rfl

theorem IO16_GetModule_log_reg (slot : Nat) (op : RegOp) (y : Fw) :
    IO16_GetModule slot (log_reg op y) = IO16_GetModule slot y := rfl

theorem IO16_SetDirection_cache_slot (bs d : Nat) (md : IO16_Module) :
    (IO16_SetDirection_cache bs d md).slot = md.slot ∧
    (IO16_SetDirection_cache bs d md).input_state = md.input_state ∧
    (IO16_SetDirection_cache bs d md).output_state = md.output_state := by
  have hr : List.range 4 = [0, 1, 2, 3] := rfl
  unfold IO16_SetDirection_cache
  rw [hr]
  by_cases hd : d ≠ 0
  · simp only [List.foldl_cons, List.foldl_nil, if_pos hd, and_self]
  · simp only [List.foldl_cons, List.foldl_nil, if_neg hd, and_self]

theorem IO16_GetPin_cached (env : Env) (slot pin m : Nat) (s : Fw)
    (hG : IO16_GetModule slot s = some m) (hp : pin < 16)
    (hd : (io16_module m s).direction_mask.testBit pin = true) :
    IO16_GetPin env slot pin s =
      (if (io16_module m s).output_state.testBit pin = true then 1 else 0, s) := by
  have hd' := (and_one_shiftLeft_ne_zero _ _).2 hd
  unfold IO16_GetPin
  rw [hG]
  simp only []
  rw [if_neg (by omega), if_pos hd']
  by_cases ho : (io16_module m s).output_state.testBit pin = true
  · rw [if_pos ho, if_pos ((and_one_shiftLeft_ne_zero _ _).2 ho)]
  · rw [if_neg ho, if_neg (fun h => ho ((and_one_shiftLeft_ne_zero _ _).1 h))]

theorem IO16_SetPin_cache_bits (pin st : Nat) (md : IO16_Module) (hp : pin < 16) :
    (IO16_SetPin_cache pin st md).output_state.testBit pin = decide (st ≠ 0) ∧
    (∀ i, i ≠ pin → i < 16 →
      (IO16_SetPin_cache pin st md).output_state.testBit i = md.output_state.testBit i) ∧
    (IO16_SetPin_cache pin st md).direction_mask = md.direction_mask ∧
    (IO16_SetPin_cache pin st md).slot = md.slot ∧
    (IO16_SetPin_cache pin st md).input_state = md.input_state := by
  unfold IO16_SetPin_cache
  by_cases hs : st ≠ 0
  · simp only [if_pos hs, Nat.testBit_or, testBit_one_shiftLeft, decide_eq_true hs, and_true,
      decide_True, Bool.or_true, true_and]
    intro i hi _
    have : ¬ pin = i := fun e => hi e.symm
    simp [this]
  · simp only [if_neg hs, Nat.testBit_and, Nat.testBit_xor, testBit_one_shiftLeft, testBit_FFFF,
      decide_eq_false hs, and_true, hp, decide_True, Bool.xor_true, Bool.not_true,
      Bool.and_false, true_and]
    intro i hi hi16
    have : ¬ pin = i := fun e => hi e.symm
    simp [this, hi16]

theorem IO16_SetPin_store_facts (slot pin st m : Nat) (Y : Fw)
    (hG : IO16_GetModule slot Y = some m) (hp : pin < 16)
    (hd : (io16_module m Y).direction_mask.testBit pin = true) :
    IO16_GetModule slot (io16_store m (IO16_SetPin_cache pin st) Y) = some m ∧
    (io16_module m (io16_store m (IO16_SetPin_cache pin st) Y)).direction_mask.testBit pin =
      true ∧
    (io16_module m (io16_store m (IO16_SetPin_cache pin st) Y)).output_state.testBit pin =
      decide (st ≠ 0) := by
  obtain ⟨hm, -⟩ := IO16_GetModule_some slot m Y hG
  obtain ⟨b1, -, b3, b4, -⟩ := IO16_SetPin_cache_bits pin st (io16_module m Y) hp
  refine ⟨?_, ?_, ?_⟩
  · rw [IO16_GetModule_store _ _ _ _ b4]
    exact hG
  · rw [io16_module_store _ _ _ hm, b3]
    exact hd
  · rw [io16_module_store _ _ _ hm]
    exact b1

theorem IO16_SetDirection_store_facts (slot pin m : Nat) (Y : Fw)
    (hG : IO16_GetModule slot Y = some m) (hp : pin < 16) :
    IO16_GetModule slot (io16_store m (IO16_SetDirection_cache ((pin / 4) * 4) 1) Y) = some m ∧
    (io16_module m (io16_store m (IO16_SetDirection_cache ((pin / 4) * 4) 1)
      Y)).direction_mask.testBit pin = true := by
  obtain ⟨hm, -⟩ := IO16_GetModule_some slot m Y hG
  obtain ⟨c1, -, -⟩ := IO16_SetDirection_cache_slot ((pin / 4) * 4) 1 (io16_module m Y)
  refine ⟨?_, ?_⟩
  · rw [IO16_GetModule_store _ _ _ _ c1]
    exact hG
  · rw [io16_module_store _ _ _ hm,
      (IO16_SetDirection_cache_bits ((pin / 4) * 4) 1 (io16_module m Y) pin hp).1,
      if_pos (by omega)]
    decide

/-- The state facts behind a successful `IO16_SetPin`: the module is still found
under the same pointer, its direction bit `pin` is set and its cached output bit
`pin` is `st != 0`. -/
theorem IO16_SetPin_ok (env : Env) (slot pin st : Nat) (s : Fw)
    (hok : (IO16_SetPin env slot pin st s).1 = 0) :
    ∃ m : Nat, IO16_GetModule slot s = some m ∧ pin < 16 ∧
      IO16_GetModule slot (IO16_SetPin env slot pin st s).2 = some m ∧
      (io16_module m (IO16_SetPin env slot pin st s).2).direction_mask.testBit pin = true ∧
      (io16_module m (IO16_SetPin env slot pin st s).2).output_state.testBit pin =
        decide (st ≠ 0) := by
  have hbad : ∀ {P : Prop}, (IO16_SetPin env slot pin st s).1 = -1 → P := by
    intro P h
    rw [hok] at h
    exact absurd h (by decide)
  have key : ∀ (m : Nat) (y y' : Fw), IO16_GetModule slot y = some m → pin < 16 →
      (io16_module m y).direction_mask.testBit pin = true →
      IO16_SetPin_output_outcome slot pin st m y (IO16_SetPin env slot pin st s).1 y' →
      IO16_GetModule slot y' = some m ∧ (io16_module m y').direction_mask.testBit pin = true ∧
      (io16_module m y').output_state.testBit pin = decide (st ≠ 0) := by
    intro m y y' hG hp hd ho
    rcases ho with ⟨_, _, -, h, -⟩ | ⟨_, _, -, h, -⟩ | ⟨buf, rc', buf', -, e⟩
    · exact hbad h
    · exact hbad h
    · subst e
      exact IO16_SetPin_store_facts slot pin st m _ hG hp hd
  have fin : ∀ (m : Nat), (IO16_GetModule slot (off_spi (IO16_SetPin env slot pin st s).2) =
        some m ∧
      (io16_module m (off_spi (IO16_SetPin env slot pin st s).2)).direction_mask.testBit pin =
        true ∧
      (io16_module m (off_spi (IO16_SetPin env slot pin st s).2)).output_state.testBit pin =
        decide (st ≠ 0)) →
      IO16_GetModule slot (IO16_SetPin env slot pin st s).2 = some m ∧
      (io16_module m (IO16_SetPin env slot pin st s).2).direction_mask.testBit pin = true ∧
      (io16_module m (IO16_SetPin env slot pin st s).2).output_state.testBit pin =
        decide (st ≠ 0) := fun _ h => h
  rcases IO16_SetPin_spec env slot pin st s _ rfl with ⟨-, h, -⟩ | ⟨m, hG, hp, h⟩
  · exact hbad h
  · refine ⟨m, hG, hp, fin m ?_⟩
    rcases h with ⟨hd, ho⟩ | ⟨hd, rd, yd, hdir, h⟩
    · exact key m _ _ hG hp ((and_one_shiftLeft_ne_zero _ _).1 hd) ho
    · rcases h with ⟨-, h, -⟩ | ⟨h0, ho⟩
      · exact hbad h
      · subst h0
        rcases hdir with ⟨-, h, -⟩ | ⟨_, _, _, -, -, -, h, -⟩ | ⟨_, _, _, -, -, -, h, -⟩ |
          ⟨m', buf, hG', -, -, e⟩
        · exact absurd h (by decide)
        · exact absurd h (by decide)
        · exact absurd h (by decide)
        · have hmm : m' = m := by
            have := hG'.symm.trans hG
            exact Option.some.inj this
          subst hmm
          subst e
          obtain ⟨d1, d2⟩ := IO16_SetDirection_store_facts slot pin m'
            (log_reg (.io16_write slot (if pin < 8 then 0x16 else 0x17) 1
              [IO16_SetDirection_value (if pin % 8 < 4 then 3 else 7) 1 (buf.getD 0 0)] 0)
            (log_reg (.io16_read slot (if pin < 8 then 0x16 else 0x17) 1 0 buf) (off_spi s)))
            hG hp
          exact key m' _ _ d1 hp d2 ho

/-- C13: when `IO16_SetPin(slot, pin, st)` returns 0 the module is registered,
`pin` is below 16, bit `pin` of the cached `direction_mask` is set, bit `pin` of
the cached `output_state` is `st != 0`, and an immediately following
`IO16_GetPin(slot, pin)` returns 1 for `st != 0` and 0 for `st = 0` without
changing the state. -/
theorem IO16_SetPin_GetPin (env : Env) (slot pin st : Nat) (s : Fw)
    (hok : (IO16_SetPin env slot pin st s).1 = 0) :
    ∃ m : Nat, IO16_GetModule slot s = some m ∧ pin < 16 ∧
      IO16_GetModule slot (IO16_SetPin env slot pin st s).2 = some m ∧
      (io16_module m (IO16_SetPin env slot pin st s).2).direction_mask.testBit pin = true ∧
      (io16_module m (IO16_SetPin env slot pin st s).2).output_state.testBit pin =
        decide (st ≠ 0) ∧
      IO16_GetPin env slot pin (IO16_SetPin env slot pin st s).2 =
        (if st ≠ 0 then 1 else 0, (IO16_SetPin env slot pin st s).2) := by
  obtain ⟨m, hG, hp, hG', hd, ho⟩ := IO16_SetPin_ok env slot pin st s hok
  refine ⟨m, hG, hp, hG', hd, ho, ?_⟩
  rw [IO16_GetPin_cached env slot pin m _ hG' hp hd, ho]
  by_cases hs : st ≠ 0
  · simp [hs]
  · simp [hs]

/-! ## C13, C14: witnesses -/

set_option maxRecDepth 100000 in
/-- C13 on a module in slot 0 whose pins are all inputs: `IO16_SetPin(0, 5, 1)`
succeeds, the cache holds direction 0x00F0 and output 0x0020, and
`IO16_GetPin(0, 5)` returns 1. -/
theorem IO16_SetPin_GetPin_witness :
    (IO16_SetPin env_set_pin_5 0 5 1 fw_io16_slot0).1 = 0 ∧
    (IO16_SetPin env_set_pin_5 0 5 1 fw_io16_slot0).2.io16_modules = [⟨0, 0, 0x0020, 0x00F0⟩] ∧
    (IO16_GetPin env_set_pin_5 0 5 (IO16_SetPin env_set_pin_5 0 5 1 fw_io16_slot0).2).1 = 1 ∧
    ∃ m : Nat, IO16_GetModule 0 fw_io16_slot0 = some m ∧ 5 < 16 ∧
      IO16_GetModule 0 (IO16_SetPin env_set_pin_5 0 5 1 fw_io16_slot0).2 = some m ∧
      (io16_module m (IO16_SetPin env_set_pin_5 0 5 1
        fw_io16_slot0).2).direction_mask.testBit 5 = true ∧
      (io16_module m (IO16_SetPin env_set_pin_5 0 5 1
        fw_io16_slot0).2).output_state.testBit 5 = decide (1 ≠ 0) ∧
      IO16_GetPin env_set_pin_5 0 5 (IO16_SetPin env_set_pin_5 0 5 1 fw_io16_slot0).2 =
        (if 1 ≠ 0 then 1 else 0, (IO16_SetPin env_set_pin_5 0 5 1 fw_io16_slot0).2) :=
  ⟨by decide, by decide, by decide,
    IO16_SetPin_GetPin env_set_pin_5 0 5 1 fw_io16_slot0 (by decide)⟩

/-! ## C15: cached outputs and the direction mask -/

theorem io16_store_forall (P : IO16_Module → Prop) (m : Nat) (f : IO16_Module → IO16_Module)
    (y : Fw) (hy : ∀ md ∈ y.io16_modules, P md)
    (hf : P (io16_module m y) → P (f (io16_module m y))) :
    ∀ md ∈ (io16_store m f y).io16_modules, P md := by
  intro md hmd
  rw [io16_store_modules] at hmd
  by_cases hm : m < y.io16_modules.length
  · rcases List.mem_or_eq_of_mem_set hmd with h | h
    · exact hy _ h
    · rw [h]
      apply hf
      apply hy
      unfold io16_module
      rw [List.getD_eq_getElem _ _ hm]
      exact List.getElem_mem _
  · rw [List.set_eq_of_length_le (by omega)] at hmd
    exact hy _ hmd

theorem stray_zero_iff (md : IO16_Module) :
    io16_stray_outputs md = 0 ↔
      ∀ i, md.output_state.testBit i = true → md.direction_mask.testBit i = decide (i < 16) := by
  unfold io16_stray_outputs
  constructor
  · intro h i hi
    have := congrArg (fun x => Nat.testBit x i) h
    simp only [Nat.testBit_and, Nat.testBit_xor, testBit_FFFF, Nat.zero_testBit, hi,
      Bool.true_and] at this
    cases hd : md.direction_mask.testBit i <;> cases hl : decide (i < 16) <;>
      simp [hd, hl] at this ⊢
  · intro h
    apply Nat.eq_of_testBit_eq
    intro i
    simp only [Nat.testBit_and, Nat.testBit_xor, testBit_FFFF, Nat.zero_testBit]
    cases ho : md.output_state.testBit i
    · simp
    · rw [h i ho]
      simp

theorem testBit_of_narrow (x i : Nat) (hx : x < 65536) (hi : 16 ≤ i) : x.testBit i = false := by
  apply Nat.testBit_lt_two_pow
  calc x < 2 ^ 16 := hx
    _ ≤ 2 ^ i := Nat.pow_le_pow_right (by decide) hi

theorem IO16_SetDirection_cache_bits_set (bs d : Nat) (md : IO16_Module) (i : Nat)
    (hd : d ≠ 0) :
    (IO16_SetDirection_cache bs d md).direction_mask.testBit i =
      (if bs ≤ i ∧ i < bs + 4 then true else md.direction_mask.testBit i) := by
  have hr : List.range 4 = [0, 1, 2, 3] := rfl
  unfold IO16_SetDirection_cache
  rw [hr]
  simp only [List.foldl_cons, List.foldl_nil, if_pos hd, Nat.testBit_or, testBit_one_shiftLeft]
  split
  · have : bs + 0 = i ∨ bs + 1 = i ∨ bs + 2 = i ∨ bs + 3 = i := by omega
    rcases this with h | h | h | h <;> simp [h]
  · have h0 : ¬ bs = i := by omega
    have h1 : ¬ bs + 1 = i := by omega
    have h2 : ¬ bs + 2 = i := by omega
    have h3 : ¬ bs + 3 = i := by omega
    simp [h0, h1, h2, h3]

theorem one_shiftLeft_lt (k : Nat) (hk : k < 16) : 1 <<< k < 2 ^ 16 := by
  rw [Nat.one_shiftLeft]
  exact Nat.pow_lt_pow_right (by decide) hk

theorem IO16_SetDirection_cache_narrow (bs d : Nat) (md : IO16_Module) (hbs : bs + 4 ≤ 16)
    (h : io16_narrow md) : io16_narrow (IO16_SetDirection_cache bs d md) := by
  have hr : List.range 4 = [0, 1, 2, 3] := rfl
  unfold io16_narrow at *
  unfold IO16_SetDirection_cache
  rw [hr]
  by_cases hd : d ≠ 0
  · simp only [List.foldl_cons, List.foldl_nil, if_pos hd]
    exact Nat.or_lt_two_pow (Nat.or_lt_two_pow (Nat.or_lt_two_pow (Nat.or_lt_two_pow h
      (one_shiftLeft_lt _ (by omega))) (one_shiftLeft_lt _ (by omega)))
      (one_shiftLeft_lt _ (by omega))) (one_shiftLeft_lt _ (by omega))
  · simp only [List.foldl_cons, List.foldl_nil, if_neg hd]
    exact lt_of_le_of_lt (Nat.and_le_left.trans (Nat.and_le_left.trans
      (Nat.and_le_left.trans Nat.and_le_left))) h

theorem IO16_SetDirection_cache_masked (bs d : Nat) (md : IO16_Module) (hbs : bs + 4 ≤ 16)
    (hd : d ≠ 0) (h : io16_masked md) : io16_masked (IO16_SetDirection_cache bs d md) := by
  obtain ⟨hw, hs⟩ := h
  refine ⟨IO16_SetDirection_cache_narrow bs d md hbs hw, ?_⟩
  rw [stray_zero_iff] at hs ⊢
  intro i hi
  rw [(IO16_SetDirection_cache_slot bs d md).2.2] at hi
  rw [IO16_SetDirection_cache_bits_set bs d md i hd]
  split
  · have : i < 16 := by omega
    simp [this]
  · exact hs i hi

theorem IO16_SetPin_cache_masked (pin st : Nat) (md : IO16_Module) (hp : pin < 16)
    (hd : md.direction_mask.testBit pin = true) (h : io16_masked md) :
    io16_masked (IO16_SetPin_cache pin st md) := by
  obtain ⟨hw, hs⟩ := h
  have hdm := (IO16_SetPin_cache_bits pin st md hp).2.2.1
  refine ⟨by rw [hdm]; exact hw, ?_⟩
  rw [stray_zero_iff] at hs ⊢
  intro i hi
  rw [hdm]
  by_cases hip : i = pin
  · rw [hip, hd]
    simp [hp]
  · apply hs
    unfold IO16_SetPin_cache at hi
    by_cases hst : st ≠ 0
    · rw [if_pos hst] at hi
      simp only [Nat.testBit_or, testBit_one_shiftLeft, Bool.or_eq_true,
        decide_eq_true_eq] at hi
      rcases hi with hi | hi
      · exact hi
      · exact absurd hi.symm hip
    · rw [if_neg hst] at hi
      simp only [Nat.testBit_and, Bool.and_eq_true] at hi
      exact hi.1

theorem IO16_SetPin_cache_narrow (pin st : Nat) (md : IO16_Module) (h : io16_narrow md) :
    io16_narrow (IO16_SetPin_cache pin st md) := by
  unfold io16_narrow IO16_SetPin_cache at *
  split <;> exact h

theorem IO16_GetPin_cache_keeps (pin v : Nat) (md : IO16_Module) :
    (IO16_GetPin_cache pin v md).direction_mask = md.direction_mask ∧
    (IO16_GetPin_cache pin v md).output_state = md.output_state := by
  unfold IO16_GetPin_cache
  split <;> exact ⟨rfl, rfl⟩

theorem IO16_WriteAll_cache_masked (state : Nat) (md : IO16_Module) (h : io16_narrow md) :
    io16_masked (IO16_WriteAll_cache state md) := by
  refine ⟨h, ?_⟩
  rw [stray_zero_iff]
  intro i hi
  have hi' : (state &&& md.direction_mask).testBit i = true := hi
  rw [Nat.testBit_and, Bool.and_eq_true] at hi'
  show md.direction_mask.testBit i = _
  by_cases h16 : i < 16
  · rw [hi'.2]
    simp [h16]
  · have := testBit_of_narrow _ i h (by omega)
    rw [this] at hi'
    exact absurd hi'.2 (by decide)

theorem IO16_PrintStatus_direction_lt (dir_a dir_b : Nat) :
    IO16_PrintStatus_direction dir_a dir_b < 65536 := by
  simp only [IO16_PrintStatus_direction]
  split_ifs <;> decide

theorem IO16_SetDirection_outcome_forall (P : IO16_Module → Prop) (slot pin d : Nat)
    (y y' : Fw) (ret : Int) (h : IO16_SetDirection_outcome slot pin d y ret y')
    (hy : ∀ md ∈ y.io16_modules, P md)
    (hf : ∀ md, pin < 16 → P md → P (IO16_SetDirection_cache ((pin / 4) * 4) d md)) :
    ∀ md ∈ y'.io16_modules, P md := by
  rcases h with ⟨-, -, e⟩ | ⟨_, _, _, -, -, -, -, e⟩ | ⟨_, _, _, -, -, -, -, e⟩ |
    ⟨m, buf, -, hp, -, e⟩
  · subst e; exact hy
  · subst e; exact hy
  · subst e; exact hy
  · subst e
    exact io16_store_forall P m _ _ hy (hf _ hp)

theorem IO16_SetPin_output_outcome_forall (P : IO16_Module → Prop) (slot pin st m : Nat)
    (y y' : Fw) (ret : Int) (h : IO16_SetPin_output_outcome slot pin st m y ret y')
    (hy : ∀ md ∈ y.io16_modules, P md)
    (hf : P (io16_module m y) → P (IO16_SetPin_cache pin st (io16_module m y))) :
    ∀ md ∈ y'.io16_modules, P md := by
  rcases h with ⟨_, _, -, -, e⟩ | ⟨_, _, -, -, e⟩ | ⟨_, _, _, -, e⟩
  · subst e; exact hy
  · subst e; exact hy
  · subst e
    exact io16_store_forall P m _ _ hy hf

theorem IO16_SetPin_outcome_forall (P : IO16_Module → Prop) (slot pin st : Nat)
    (y y' : Fw) (ret : Int) (h : IO16_SetPin_outcome slot pin st y ret y')
    (hy : ∀ md ∈ y.io16_modules, P md)
    (hdir : ∀ md, pin < 16 → P md → P (IO16_SetDirection_cache ((pin / 4) * 4) 1 md))
    (hpin : ∀ md, pin < 16 → md.direction_mask.testBit pin = true → P md →
      P (IO16_SetPin_cache pin st md)) :
    ∀ md ∈ y'.io16_modules, P md := by
  rcases h with ⟨-, -, e⟩ | ⟨m, hG, hp, h⟩
  · subst e; exact hy
  · rcases h with ⟨hd, ho⟩ | ⟨-, rd, yd, hdo, h⟩
    · exact IO16_SetPin_output_outcome_forall P slot pin st m y y' ret ho hy
        (hpin _ hp ((and_one_shiftLeft_ne_zero _ _).1 hd))
    · have hyd := IO16_SetDirection_outcome_forall P slot pin 1 y yd rd hdo hy hdir
      rcases h with ⟨-, -, e⟩ | ⟨h0, ho⟩
      · subst e; exact hyd
      · refine IO16_SetPin_output_outcome_forall P slot pin st m yd y' ret ho hyd (hpin _ hp ?_)
        subst h0
        rcases hdo with ⟨-, h, -⟩ | ⟨_, _, _, -, -, -, h, -⟩ | ⟨_, _, _, -, -, -, h, -⟩ |
          ⟨m', buf, hG', -, -, e⟩
        · exact absurd h (by decide)
        · exact absurd h (by decide)
        · exact absurd h (by decide)
        · have hmm : m' = m := Option.some.inj (hG'.symm.trans hG)
          subst hmm
          subst e
          exact (IO16_SetDirection_store_facts slot pin m'
            (log_reg (.io16_write slot (if pin < 8 then 0x16 else 0x17) 1
              [IO16_SetDirection_value (if pin % 8 < 4 then 3 else 7) 1 (buf.getD 0 0)] 0)
            (log_reg (.io16_read slot (if pin < 8 then 0x16 else 0x17) 1 0 buf) y)) hG hp).2

theorem IO16_GetPin_outcome_forall (P : IO16_Module → Prop) (slot pin : Nat)
    (y y' : Fw) (ret : Int) (h : IO16_GetPin_outcome slot pin y ret y')
    (hy : ∀ md ∈ y.io16_modules, P md)
    (hf : ∀ md v, P md → P (IO16_GetPin_cache pin v md)) :
    ∀ md ∈ y'.io16_modules, P md := by
  rcases h with ⟨-, -, e⟩ | ⟨m, -, -, ⟨-, -, e⟩ | ⟨-, _, _, -, -, e⟩ | ⟨-, _, -, e⟩⟩
  · subst e; exact hy
  · subst e; exact hy
  · subst e; exact hy
  · subst e
    exact io16_store_forall P m _ _ hy (hf _ _)

theorem IO16_ReadAll_outcome_forall (P : IO16_Module → Prop) (slot : Nat)
    (y y' : Fw) (ret : Nat) (h : IO16_ReadAll_outcome slot y ret y')
    (hy : ∀ md ∈ y.io16_modules, P md)
    (hf : ∀ md v, P md → P (IO16_ReadAll_cache v md)) :
    ∀ md ∈ y'.io16_modules, P md := by
  rcases h with ⟨-, -, e⟩ | ⟨m, -, ⟨_, _, -, -, e⟩ | ⟨_, _, _, -, -, e⟩ | ⟨_, _, -, e⟩⟩
  · subst e; exact hy
  · subst e; exact hy
  · subst e; exact hy
  · subst e
    exact io16_store_forall P m _ _ hy (hf _ _)

theorem IO16_WriteAll_outcome_forall (P : IO16_Module → Prop) (slot state : Nat)
    (y y' : Fw) (ret : Int) (h : IO16_WriteAll_outcome slot state y ret y')
    (hy : ∀ md ∈ y.io16_modules, P md)
    (hf : ∀ md, P md → P (IO16_WriteAll_cache state md)) :
    ∀ md ∈ y'.io16_modules, P md := by
  rcases h with ⟨-, -, e⟩ | ⟨m, -, ⟨_, -, -, e⟩ | ⟨_, -, -, e⟩ | ⟨-, e⟩⟩
  · subst e; exact hy
  · subst e; exact hy
  · subst e; exact hy
  · subst e
    exact io16_store_forall P m _ _ hy (hf _)

theorem logs_io16_modules (ops : List RegOp) (y : Fw) :
    (logs ops y).io16_modules = y.io16_modules :=
  (log_reg_foldl_reg_log ops y).2

theorem IO16_PrintStatus_outcome_forall (P : IO16_Module → Prop) (slot : Nat)
    (y y' : Fw) (h : IO16_PrintStatus_outcome slot y y')
    (hy : ∀ md ∈ y.io16_modules, P md)
    (hf : ∀ md direction output input, direction < 65536 → P md →
      P (IO16_PrintStatus_cache direction output input md)) :
    ∀ md ∈ y'.io16_modules, P md := by
  obtain ⟨ops, e | ⟨m, da, db, oa, ob, ia, ib, -, e⟩⟩ := h
  · subst e
    rw [logs_io16_modules]
    exact hy
  · subst e
    refine io16_store_forall P m _ _ ?_ (hf _ _ _ _ (IO16_PrintStatus_direction_lt da db))
    rw [logs_io16_modules]
    exact hy

theorem IO16_Call_run_forall (P : IO16_Module → Prop) (env : Env) (c : IO16_Call) (s : Fw)
    (h : ∀ md ∈ s.io16_modules, P md)
    (hdir : ∀ md pin d, pin < 16 → (c.keeps_outputs = true → d ≠ 0) → P md →
      P (IO16_SetDirection_cache ((pin / 4) * 4) d md))
    (hpin : ∀ md pin st, pin < 16 → md.direction_mask.testBit pin = true → P md →
      P (IO16_SetPin_cache pin st md))
    (hget : ∀ md pin v, P md → P (IO16_GetPin_cache pin v md))
    (hread : ∀ md v, P md → P (IO16_ReadAll_cache v md))
    (hwrite : ∀ md state, P md → P (IO16_WriteAll_cache state md))
    (hstatus : ∀ md direction output input, c.keeps_outputs = false → direction < 65536 → P md →
      P (IO16_PrintStatus_cache direction output input md)) :
    ∀ md ∈ (c.run env s).io16_modules, P md := by
  cases c with
  | SetPin slot pin st =>
    have key := IO16_SetPin_outcome_forall P slot pin st (off_spi s)
      (off_spi (IO16_SetPin env slot pin st s).2) _
      (IO16_SetPin_spec env slot pin st s _ rfl) h
      (fun md hp hmd => hdir md pin 1 hp (fun _ => by decide) hmd)
      (fun md hp hd hmd => hpin md pin st hp hd hmd)
    rw [off_spi_io16_modules] at key
    exact key
  | SetDirection slot pin d =>
    have key := IO16_SetDirection_outcome_forall P slot pin d (off_spi s)
      (off_spi (IO16_SetDirection env slot pin d s).2) _
      (IO16_SetDirection_spec env slot pin d s _ rfl) h
      (fun md hp hmd => hdir md pin d hp
        (fun hk => by simpa [IO16_Call.keeps_outputs] using hk) hmd)
    rw [off_spi_io16_modules] at key
    exact key
  | GetPin slot pin =>
    have key := IO16_GetPin_outcome_forall P slot pin (off_spi s)
      (off_spi (IO16_GetPin env slot pin s).2) _
      (IO16_GetPin_spec env slot pin s _ rfl) h (fun md v hmd => hget md pin v hmd)
    rw [off_spi_io16_modules] at key
    exact key
  | ReadAll slot =>
    have key := IO16_ReadAll_outcome_forall P slot (off_spi s)
      (off_spi (IO16_ReadAll env slot s).2) _
      (IO16_ReadAll_spec env slot s _ rfl) h (fun md v hmd => hread md v hmd)
    rw [off_spi_io16_modules] at key
    exact key
  | WriteAll slot state =>
    have key := IO16_WriteAll_outcome_forall P slot state (off_spi s)
      (off_spi (IO16_WriteAll env slot state s).2) _
      (IO16_WriteAll_spec env slot state s _ rfl) h (fun md hmd => hwrite md state hmd)
    rw [off_spi_io16_modules] at key
    exact key
  | PrintStatus slot =>
    have key := IO16_PrintStatus_outcome_forall P slot (off_spi s)
      (off_spi (IO16_PrintStatus env slot s))
      (IO16_PrintStatus_spec env slot s _ rfl) h
      (fun md d o i hd hmd => hstatus md d o i rfl hd hmd)
    rw [off_spi_io16_modules] at key
    exact key

/-- Every call of a pin function keeps all cached direction masks within 16
bits. -/
theorem IO16_Call_run_narrow (env : Env) (c : IO16_Call) (s : Fw)
    (h : ∀ md ∈ s.io16_modules, io16_narrow md) :
    ∀ md ∈ (c.run env s).io16_modules, io16_narrow md := by
  refine IO16_Call_run_forall io16_narrow env c s h ?_ ?_ ?_ ?_ ?_ ?_
  · exact fun md pin d hp _ hmd => IO16_SetDirection_cache_narrow _ d md (by omega) hmd
  · exact fun md pin st _ _ hmd => IO16_SetPin_cache_narrow pin st md hmd
  · intro md pin v hmd
    unfold io16_narrow
    rw [(IO16_GetPin_cache_keeps pin v md).1]
    exact hmd
  · exact fun md v hmd => hmd
  · exact fun md state hmd => hmd
  · exact fun md d o i _ hd _ => hd

/-- Every call of a pin function other than `IO16_SetDirection` towards input
and `IO16_PrintStatus` keeps the cache invariant of every module. -/
theorem IO16_Call_run_masked (env : Env) (c : IO16_Call) (s : Fw)
    (hc : c.keeps_outputs = true) (h : ∀ md ∈ s.io16_modules, io16_masked md) :
    ∀ md ∈ (c.run env s).io16_modules, io16_masked md := by
  refine IO16_Call_run_forall io16_masked env c s h ?_ ?_ ?_ ?_ ?_ ?_
  · exact fun md pin d hp hd hmd =>
      IO16_SetDirection_cache_masked _ d md (by omega) (hd hc) hmd
  · exact fun md pin st hp hd hmd => IO16_SetPin_cache_masked pin st md hp hd hmd
  · intro md pin v hmd
    unfold io16_masked io16_stray_outputs
    rw [(IO16_GetPin_cache_keeps pin v md).1, (IO16_GetPin_cache_keeps pin v md).2]
    exact hmd
  · exact fun md v hmd => hmd
  · exact fun md state hmd => IO16_WriteAll_cache_masked state md hmd.1
  · intro md d o i hk
    rw [hc] at hk
    exact absurd hk (by decide)

theorem IO16_run_narrow (env : Env) (calls : List IO16_Call) : ∀ s : Fw,
    (∀ md ∈ s.io16_modules, io16_narrow md) →
    ∀ md ∈ (IO16_run env calls s).io16_modules, io16_narrow md := by
  induction calls with
  | nil => intro s h; exact h
  | cons c calls ih =>
    intro s h
    exact ih _ (IO16_Call_run_narrow env c s h)

theorem IO16_run_masked (env : Env) (calls : List IO16_Call) : ∀ s : Fw,
    (∀ c ∈ calls, c.keeps_outputs = true) → (∀ md ∈ s.io16_modules, io16_masked md) →
    ∀ md ∈ (IO16_run env calls s).io16_modules, io16_masked md := by
  induction calls with
  | nil => intro s _ h; exact h
  | cons c calls ih =>
    intro s hc h
    exact ih _ (fun c' hc' => hc c' (List.mem_cons_of_mem _ hc'))
      (IO16_Call_run_masked env c s (hc c (List.mem_cons_self _ _)) h)

theorem IO16_Register_masked (slot : Nat) (s0 : Fw) (h0 : s0.io16_modules = []) :
    ∀ md ∈ (IO16_Register slot s0).io16_modules, io16_masked md := by
  intro md hmd
  unfold IO16_Register at hmd
  split at hmd
  · rw [h0] at hmd
    have : md = ⟨slot, 0, 0, 0⟩ := by simpa using hmd
    rw [this]
    exact ⟨by show (0 : Nat) < 65536; decide, by show (0 &&& (0 ^^^ 0xFFFF) : Nat) = 0; decide⟩
  · rw [h0] at hmd
    simp at hmd

set_option maxRecDepth 100000 in
/-- C15, counterexample: two call sequences after which `IO16_SetPin` returns 0
and the cache holds an output bit outside the direction mask.  First:
`IO16_SetPin(0, 0, 1)`, `IO16_SetDirection(0, 0, 0)`, `IO16_SetPin(0, 4, 1)` leave
`output_state = 0x0011`, `direction_mask = 0x00F0`.  Second:
`IO16_WriteAll(0, 0x00FF)`, `IO16_PrintStatus(0)`, `IO16_SetPin(0, 8, 1)` leave
`output_state = 0x01FF`, `direction_mask = 0x0F00`. -/
theorem IO16_SetPin_stray_counterexample :
    ((IO16_SetPin env_stray_direction 0 4 1 (IO16_run env_stray_direction
        [.SetPin 0 0 1, .SetDirection 0 0 0] fw_io16_slot0)).1 = 0 ∧
      (IO16_SetPin env_stray_direction 0 4 1 (IO16_run env_stray_direction
        [.SetPin 0 0 1, .SetDirection 0 0 0] fw_io16_slot0)).2.io16_modules =
        [⟨0, 0, 0x0011, 0x00F0⟩] ∧
      io16_stray_outputs ⟨0, 0, 0x0011, 0x00F0⟩ = 0x0001) ∧
    ((IO16_SetPin env_stray_status 0 8 1 (IO16_run env_stray_status
        [.WriteAll 0 0x00FF, .PrintStatus 0] fw_io16_slot0)).1 = 0 ∧
      (IO16_SetPin env_stray_status 0 8 1 (IO16_run env_stray_status
        [.WriteAll 0 0x00FF, .PrintStatus 0] fw_io16_slot0)).2.io16_modules =
        [⟨0, 0, 0x01FF, 0x0F00⟩] ∧
      io16_stray_outputs ⟨0, 0, 0x01FF, 0x0F00⟩ = 0x00FF) := by
  decide

/-- C15, amended: in every state reached from `IO16_Register` on an empty
registry through any sequence of the six pin functions, (1) after an
`IO16_WriteAll` that returns 0 the cached state of the slot satisfies
`output_state & ~direction_mask == 0`; (2) `IO16_SetPin`, whatever it returns,
keeps `output_state & ~direction_mask == 0` for every module if it held before
the call; (3) if the sequence contains no `IO16_SetDirection` towards input and
no `IO16_PrintStatus`, `output_state & ~direction_mask == 0` holds for every
module. -/
theorem IO16_outputs_masked (env : Env) (s0 : Fw) (slot0 : Nat) (calls : List IO16_Call)
    (h0 : s0.io16_modules = []) :
    (∀ slot state : Nat,
      (IO16_WriteAll env slot state (IO16_run env calls (IO16_Register slot0 s0))).1 = 0 →
      ∃ m : Nat, IO16_GetModule slot (IO16_run env calls (IO16_Register slot0 s0)) = some m ∧
        io16_stray_outputs (io16_module m (IO16_WriteAll env slot state
          (IO16_run env calls (IO16_Register slot0 s0))).2) = 0) ∧
    (∀ slot pin st : Nat,
      (∀ md ∈ (IO16_run env calls (IO16_Register slot0 s0)).io16_modules,
        io16_stray_outputs md = 0) →
      ∀ md ∈ (IO16_SetPin env slot pin st
          (IO16_run env calls (IO16_Register slot0 s0))).2.io16_modules,
        io16_stray_outputs md = 0) ∧
    ((∀ c ∈ calls, c.keeps_outputs = true) →
      ∀ md ∈ (IO16_run env calls (IO16_Register slot0 s0)).io16_modules,
        io16_stray_outputs md = 0) := by
  have hreg := IO16_Register_masked slot0 s0 h0
  have hnar := IO16_run_narrow env calls (IO16_Register slot0 s0) (fun md hmd => (hreg md hmd).1)
  have hmask := IO16_run_masked env calls (IO16_Register slot0 s0)
  generalize IO16_run env calls (IO16_Register slot0 s0) = s at hnar hmask
  refine ⟨?_, ?_, ?_⟩
  · intro slot state hok
    rcases IO16_WriteAll_spec env slot state s _ rfl with
      ⟨-, h, -⟩ | ⟨m, hG, ⟨_, -, h, -⟩ | ⟨_, -, h, -⟩ | ⟨-, e⟩⟩
    · rw [hok] at h; exact absurd h (by decide)
    · rw [hok] at h; exact absurd h (by decide)
    · rw [hok] at h; exact absurd h (by decide)
    · refine ⟨m, hG, ?_⟩
      obtain ⟨hm, -⟩ := IO16_GetModule_some slot m s hG
      have e1 : io16_module m (IO16_WriteAll env slot state s).2 =
          io16_module m (off_spi (IO16_WriteAll env slot state s).2) :=
        (io16_module_off_spi m _).symm
      rw [e1, e, io16_module_store m (IO16_WriteAll_cache state)
        (log_reg (.io16_write slot 0x0D 1 [(state >>> 8) &&& 0xFF] 0)
          (log_reg (.io16_write slot 0x0C 1 [state &&& 0xFF] 0) (off_spi s))) hm]
      refine (IO16_WriteAll_cache_masked state _ (hnar _ ?_)).2
      show s.io16_modules.getD m _ ∈ s.io16_modules
      rw [List.getD_eq_getElem _ _ hm]
      exact List.getElem_mem _
  · intro slot pin st hs
    have hm : ∀ md ∈ s.io16_modules, io16_masked md := fun md hmd => ⟨hnar md hmd, hs md hmd⟩
    intro md hmd
    exact (IO16_Call_run_masked env (.SetPin slot pin st) s rfl hm md hmd).2
  · intro hc md hmd
    exact (hmask hc hreg md hmd).2

set_option maxRecDepth 100000 in
/-- C15, amended, on the sequence `IO16_SetPin(0, 5, 1)` after registration of
slot 0 on the booted firmware: the cache holds output 0x0020 inside direction
0x00F0. -/
theorem IO16_outputs_masked_witness :
    fw_boot.io16_modules = [] ∧
    (∀ c ∈ [IO16_Call.SetPin 0 5 1], c.keeps_outputs = true) ∧
    (IO16_run env_set_pin_5 [.SetPin 0 5 1] (IO16_Register 0 fw_boot)).io16_modules =
      [⟨0, 0, 0x0020, 0x00F0⟩] ∧
    ∀ md ∈ (IO16_run env_set_pin_5 [.SetPin 0 5 1] (IO16_Register 0 fw_boot)).io16_modules,
      io16_stray_outputs md = 0 :=
  ⟨rfl, by decide, by decide,
    (IO16_outputs_masked env_set_pin_5 fw_boot 0 [.SetPin 0 5 1] rfl).2.2 (by decide)⟩

/-! ## Theorems: the retry loop and the slot loop of the scan -/

theorem OwVisit_refl (k : Int) (a : Fw) : OwVisit k a a :=
  ⟨[], by simp, by simp⟩

theorem OwVisit_of_eq {k : Int} {a x x' : Fw} (h : OwVisit k a x) (e : x'.ow_log = x.ow_log) :
    OwVisit k a x' := by
  obtain ⟨l, h1, h2⟩ := h
  exact ⟨l, e.trans h1, h2⟩

theorem OwVisit_events {k : Int} {a x x' : Fw} (h : OwVisit k a x) (l : List OwEv)
    (e : x'.ow_log = x.ow_log ++ l) (hl : ∀ ev ∈ l, ev.line = k) : OwVisit k a x' := by
  obtain ⟨l0, h1, h2⟩ := h
  refine ⟨l0 ++ l, by rw [e, h1, List.append_assoc], ?_⟩
  intro ev hev
  rcases List.mem_append.1 hev with h | h
  · exact h2 ev h
  · exact hl ev h

theorem UART_SendString_ow_log (str : String) (x : Fw) :
    (UART_SendString str x).ow_log = x.ow_log := rfl

theorem UART_SendHex8_ow_log (d : Nat) (x : Fw) : (UART_SendHex8 d x).ow_log = x.ow_log := rfl

theorem OwVisit_uart {k : Int} {a x : Fw} (str : String) (h : OwVisit k a x) :
    OwVisit k a (UART_SendString str x) := h

theorem OwVisit_hex8 {k : Int} {a x : Fw} (d : Nat) (h : OwVisit k a x) :
    OwVisit k a (UART_SendHex8 d x) := h

theorem OwVisit_send {k : Int} {a x : Fw} (c : Nat) (h : OwVisit k a x) :
    OwVisit k a (USART_SendData c x) := h

theorem OwVisit_ite {k : Int} {a x y : Fw} {c : Prop} [Decidable c]
    (hx : OwVisit k a x) (hy : OwVisit k a y) : OwVisit k a (if c then x else y) := by
  split
  · exact hx
  · exact hy

theorem UART_SendHexRow_ow_log (buf : List Nat) (s : Fw) :
    (UART_SendHexRow buf s).ow_log = s.ow_log := by
  unfold UART_SendHexRow
  generalize List.range 8 = l
  induction l generalizing s with
  | nil => rfl
  | cons x xs ih =>
    rw [List.foldl_cons, ih]
    rfl

theorem OwVisit_row {k : Int} {a x : Fw} (buf : List Nat) (h : OwVisit k a x) :
    OwVisit k a (UART_SendHexRow buf x) :=
  OwVisit_of_eq h (UART_SendHexRow_ow_log buf x)

theorem scan_name_ow_log (l : List Nat) : ∀ s : Fw, (scan_name l s).ow_log = s.ow_log := by
  induction l with
  | nil => intro s; rfl
  | cons c cs ih =>
    intro s
    simp only [scan_name]
    split
    · rw [ih]; rfl
    · split
      · rfl
      · exact ih s

theorem scan_hid_ascii_ow_log (l : List Nat) : ∀ s : Fw,
    (scan_hid_ascii l s).ow_log = s.ow_log := by
  induction l with
  | nil => intro s; rfl
  | cons c cs ih =>
    intro s
    simp only [scan_hid_ascii]
    split
    · rw [ih]; rfl
    · split
      · rfl
      · rw [ih]; rfl

theorem OwVisit_reset {k : Int} {a x : Fw} (env : Env) (h : OwVisit k a x) :
    OwVisit k a (onewire_reset env k x).2 := by
  refine OwVisit_events h [OwEv.reset k] ?_ (by simp [OwEv.line])
  simp only [onewire_reset]
  rfl

theorem onewire_write_fold_ow_log (module : Int) (byte : Nat) (l : List Nat) : ∀ s : Fw,
    ∃ evs : List OwEv,
      (l.foldl (fun s i => onewire_write_bit module ((byte >>> i) &&& 0x01) s) s).ow_log =
        s.ow_log ++ evs ∧ ∀ ev ∈ evs, ev.line = module := by
  induction l with
  | nil => intro s; exact ⟨[], by simp, by simp⟩
  | cons x xs ih =>
    intro s
    rw [List.foldl_cons]
    obtain ⟨evs, h1, h2⟩ := ih (onewire_write_bit module ((byte >>> x) &&& 0x01) s)
    refine ⟨OwEv.write_bit module (if (byte >>> x) &&& 0x01 ≠ 0 then 1 else 0) :: evs, ?_, ?_⟩
    · rw [h1]
      simp only [onewire_write_bit, List.append_assoc, List.singleton_append]
    · intro ev hev
      rcases List.mem_cons.1 hev with h | h
      · rw [h]; rfl
      · exact h2 ev h

theorem OwVisit_write_byte {k : Int} {a x : Fw} (byte : Nat) (h : OwVisit k a x) :
    OwVisit k a (onewire_write_byte k byte x) := by
  obtain ⟨evs, h1, h2⟩ := onewire_write_fold_ow_log k byte (List.range 8) x
  exact OwVisit_events h evs h1 h2

theorem OwVisit_read_into {k : Int} {a : Fw} (env : Env) : ∀ (n i : Nat) (buf : List Nat)
    (x : Fw), OwVisit k a x → OwVisit k a (onewire_read_into env k n i buf x).2 := by
  intro n
  induction n with
  | zero => intro i buf x h; exact h
  | succ n ih =>
    intro i buf x h
    simp only [onewire_read_into, onewire_read_byte_eq]
    refine ih _ _ _ (OwVisit_events h (List.replicate 8 (OwEv.read_bit k)) rfl ?_)
    intro ev hev
    rw [List.eq_of_mem_replicate hev]
    rfl

theorem OwVisit_read_module_memory {k : Int} {a x : Fw} (env : Env) (addr : Nat)
    (data : List Nat) (len : Nat) (h : OwVisit k a x) :
    OwVisit k a (read_module_memory env k addr data len x).2 := by
  simp only [read_module_memory]
  split
  · exact OwVisit_reset env h
  · exact OwVisit_reset env (OwVisit_read_into env _ _ _ _ (OwVisit_write_byte _
      (OwVisit_write_byte _ (OwVisit_write_byte _ (OwVisit_write_byte _ (OwVisit_reset env h))))))

theorem OwVisit_read_module_uid_after_reset {k : Int} (env : Env) (uid : List Nat) (x : Fw) :
    OwVisit k (onewire_reset env k x).2 (read_module_uid env k uid x).2 := by
  have h := OwVisit_refl k (onewire_reset env k x).2
  simp only [read_module_uid]
  split
  · exact OwVisit_uart _ (OwVisit_uart _ (OwVisit_uart _ h))
  · refine OwVisit_hex8 _ (OwVisit_uart _ (OwVisit_hex8 _ (OwVisit_uart _ (OwVisit_row _
      (OwVisit_uart _ ?_)))))
    exact OwVisit_read_into env _ _ _ _ (OwVisit_write_byte _ (OwVisit_uart _ (OwVisit_uart _
      (OwVisit_uart _ h))))

theorem logs_ow_log (ops : List RegOp) : ∀ y : Fw,
    (ops.foldl (fun s op => log_reg op s) y).ow_log = y.ow_log := by
  induction ops with
  | nil => intro y; rfl
  | cons op ops ih =>
    intro y
    rw [List.foldl_cons, ih]
    rfl

theorem IO16_ChipInit_ow_log (env : Env) (slot : Nat) (s : Fw) :
    (IO16_ChipInit env slot s).2.ow_log = s.ow_log := by
  obtain ⟨ops, e, -⟩ := IO16_ChipInit_appends env slot s (Appends_refl _ _)
  have := congrArg Fw.ow_log e
  rw [logs_ow_log] at this
  exact this

theorem scan_init_retry_ow_log (env : Env) (slot : Nat) : ∀ (fuel : Nat) (st : Int) (t : Nat)
    (s : Fw), (scan_init_retry env slot fuel st t s).2.ow_log = s.ow_log := by
  intro fuel
  induction fuel with
  | zero => intro st t s; rfl
  | succ f ih =>
    intro st t s
    simp only [scan_init_retry]
    split
    · rw [ih, IO16_ChipInit_ow_log]
    · rfl

theorem IO16_Register_ow_log (slot : Nat) (s : Fw) :
    (IO16_Register slot s).ow_log = s.ow_log := by
  unfold IO16_Register
  split <;> rfl

theorem AIO20_Register_ow_log (slot : Nat) (s : Fw) :
    (AIO20_Register slot s).ow_log = s.ow_log := by
  unfold AIO20_Register
  split <;> rfl

theorem FPGA_Register_ow_log (slot : Nat) (s : Fw) :
    (FPGA_Register slot s).ow_log = s.ow_log := by
  unfold FPGA_Register
  split <;> rfl

theorem OwVisit_scan_register {k : Int} {a x : Fw} (env : Env) (slot : Nat) (b : ScanBufs)
    (h : OwVisit k a x) : OwVisit k a (scan_register env slot b x) := by
  unfold scan_register
  by_cases h1 : strncmp_eq b.fid (c_str "io16") 4 = true ∨ strncmp_eq b.hid (c_str "io16") 4 = true
  · rw [if_pos h1]
    have hr : OwVisit k a (scan_init_retry env slot 100 (-1) 0
        (UART_SendString "  [INIT] Initializing IO678 chip (with retry)...\r\n"
          (UART_SendString "\r\n" (UART_SendHex8 slot
            (UART_SendString "  [REGISTERED] IO16 module at slot " (IO16_Register slot x)))))).2 :=
      OwVisit_of_eq (OwVisit_uart _ (OwVisit_uart _ (OwVisit_hex8 _ (OwVisit_uart _
        (OwVisit_of_eq h (IO16_Register_ow_log slot x)))))) (scan_init_retry_ow_log env slot _ _ _ _)
    simp only []
    exact OwVisit_ite (OwVisit_uart _ (OwVisit_hex8 _ (OwVisit_uart _ hr))) (OwVisit_uart _ hr)
  · rw [if_neg h1]
    by_cases h2 : strncmp_eq b.fid (c_str "aio20") 5 = true ∨
        strncmp_eq b.hid (c_str "aio20") 5 = true
    · rw [if_pos h2]
      exact OwVisit_uart _ (OwVisit_hex8 _ (OwVisit_uart _
        (OwVisit_of_eq h (AIO20_Register_ow_log slot x))))
    · rw [if_neg h2]
      by_cases h3 : strncmp_eq b.fid (c_str "fpga") 4 = true ∨
          strncmp_eq b.hid (c_str "fpga") 4 = true
      · rw [if_pos h3]
        exact OwVisit_uart _ (OwVisit_hex8 _ (OwVisit_uart _
          (OwVisit_of_eq h (FPGA_Register_ow_log slot x))))
      · rw [if_neg h3]
        exact h

theorem OwVisit_scan_identify {a x : Fw} (env : Env) (slot : Nat) (b : ScanBufs)
    (h : OwVisit (slot : Int) a x) : OwVisit (slot : Int) a (scan_identify env slot b x).2 := by
  simp only [scan_identify]
  refine OwVisit_uart _ (OwVisit_hex8 _ (OwVisit_uart _ (OwVisit_hex8 _ (OwVisit_uart _
    (OwVisit_uart _ ?_)))))
  refine OwVisit_of_eq ?_ (scan_hid_ascii_ow_log _ _)
  refine OwVisit_uart _ (OwVisit_uart _ ?_)
  refine OwVisit_of_eq ?_ (scan_name_ow_log _ _)
  refine OwVisit_uart _ (OwVisit_uart _ (OwVisit_uart _ (OwVisit_uart _ ?_)))
  have h0 : OwVisit (slot : Int) a (UART_SendString ")\r\n" (UART_SendString
      (if b.uid.getD 0 0 = 0x2B then "=DS2431"
        else if b.uid.getD 0 0 = 0x0D then "=Unknown-0D" else "=Unknown")
      (UART_SendHex8 (b.uid.getD 0 0) (UART_SendString "(Family: " (UART_SendHexRow b.uid
      (UART_SendString "  UID: " (UART_SendString " -> FOUND!\r\n" x))))))) :=
    OwVisit_uart _ (OwVisit_uart _ (OwVisit_hex8 _ (OwVisit_uart _ (OwVisit_row _
      (OwVisit_uart _ (OwVisit_uart _ h))))))
  have hh := OwVisit_read_module_memory env 0x00 b.hid 8 h0
  refine OwVisit_ite (OwVisit_uart _ (OwVisit_row _ (OwVisit_uart _ ?_))) (OwVisit_uart _ ?_) <;>
  refine OwVisit_read_module_memory env 0x08 b.fid 8 ?_ <;>
  exact OwVisit_ite (OwVisit_uart _ (OwVisit_row _ (OwVisit_uart _ hh))) (OwVisit_uart _ hh)

theorem OwVisit_scan_slot (env : Env) (slot : Nat) (p : ScanBufs × Fw) :
    OwVisit (slot : Int) (onewire_reset env slot (scan_slot_header slot p.2)).2
      (scan_slot env slot p).2 := by
  have hu := OwVisit_read_module_uid_after_reset env (k := (slot : Int)) p.1.uid (scan_slot_header slot p.2)
  simp only [scan_slot]
  split
  · exact OwVisit_uart _ (OwVisit_scan_register env slot _ (OwVisit_scan_identify env slot _ hu))
  · exact OwVisit_uart _ hu

/-- One pass of the slot loop starts with a reset pulse on the line of its slot
and works on that line only. -/
theorem scan_slot_visit (env : Env) (slot : Nat) (p : ScanBufs × Fw) :
    ∃ l : List OwEv, (scan_slot env slot p).2.ow_log = p.2.ow_log ++ OwEv.reset slot :: l ∧
      ∀ ev ∈ l, ev.line = (slot : Int) := by
  obtain ⟨l, h1, h2⟩ := OwVisit_scan_slot env slot p
  refine ⟨l, ?_, h2⟩
  rw [h1]
  simp only [onewire_reset, scan_slot_header]
  show (p.2.ow_log ++ [OwEv.reset slot]) ++ l = _
  rw [List.append_assoc]
  rfl

/-- The slot loop of `scan_modules` visits the lines 0, 1, 2, 3 in this order:
its single-wire operations are four blocks, each starting with the reset pulse of
its line and staying on that line. -/
theorem scan_modules_visits (env : Env) (bufs : ScanBufs) (s : Fw) :
    ∃ l0 l1 l2 l3 : List OwEv,
      (scan_modules env bufs s).ow_log =
        s.ow_log ++ (OwEv.reset 0 :: l0) ++ (OwEv.reset 1 :: l1) ++ (OwEv.reset 2 :: l2) ++
          (OwEv.reset 3 :: l3) ∧
      (∀ ev ∈ l0, ev.line = 0) ∧ (∀ ev ∈ l1, ev.line = 1) ∧ (∀ ev ∈ l2, ev.line = 2) ∧
      (∀ ev ∈ l3, ev.line = 3) := by
  obtain ⟨l0, e0, h0⟩ := scan_slot_visit env 0 (bufs, scan_banner env s)
  obtain ⟨l1, e1, h1⟩ := scan_slot_visit env 1 (scan_slot env 0 (bufs, scan_banner env s))
  obtain ⟨l2, e2, h2⟩ := scan_slot_visit env 2
    (scan_slot env 1 (scan_slot env 0 (bufs, scan_banner env s)))
  obtain ⟨l3, e3, h3⟩ := scan_slot_visit env 3
    (scan_slot env 2 (scan_slot env 1 (scan_slot env 0 (bufs, scan_banner env s))))
  refine ⟨l0, l1, l2, l3, ?_, h0, h1, h2, h3⟩
  have hb : (scan_banner env s).ow_log = s.ow_log := by
    simp only [scan_banner, UART_SendString_ow_log, UART_SendHex8_ow_log]
  simp only [scan_modules, UART_SendString_ow_log]
  rw [e3, e2, e1, e0, hb]
  simp only [List.append_assoc, Nat.cast_ofNat, Nat.cast_zero, Nat.cast_one]

theorem scan_init_retry_stop (env : Env) (slot : Nat) (fuel : Nat) (st : Int) (t : Nat) (s : Fw)
    (h : st = 0 ∨ 100 ≤ t) : scan_init_retry env slot fuel st t s = ((st, t), s) := by
  cases fuel with
  | zero => rfl
  | succ f =>
    simp only [scan_init_retry]
    rw [if_neg]
    rcases h with h | h
    · exact fun hc => hc.1 h
    · exact fun hc => by omega

theorem scan_init_retry_step (env : Env) (slot : Nat) (f : Nat) (st : Int) (t : Nat) (s : Fw)
    (hst : st ≠ 0) (ht : t < 100) :
    scan_init_retry env slot (f + 1) st t s =
      scan_init_retry env slot f (IO16_ChipInit env slot s).1 (t + 1)
        (IO16_ChipInit env slot s).2 := by
  simp only [scan_init_retry]
  rw [if_pos ⟨hst, ht⟩]

/-- The retry loop from `tries = t` with `j = 100 - t` passes left: it makes `n`
calls of `IO16_ChipInit`, `1 ≤ n ≤ j`, all but the last of which fail, and the
last of which fails only if `n = j`; any fuel of at least `j` gives this result. -/
theorem scan_init_retry_spec (env : Env) (slot : Nat) : ∀ (j t : Nat) (st : Int) (s : Fw),
    t + j = 100 → 1 ≤ j → st ≠ 0 → ∀ fuel, j ≤ fuel →
    ∃ n : Nat, 1 ≤ n ∧ n ≤ j ∧
      scan_init_retry env slot fuel st t s =
        (((IO16_ChipInit env slot ((fun x => (IO16_ChipInit env slot x).2)^[n - 1] s)).1, t + n),
          (fun x => (IO16_ChipInit env slot x).2)^[n] s) ∧
      (∀ k, k < n - 1 →
        (IO16_ChipInit env slot ((fun x => (IO16_ChipInit env slot x).2)^[k] s)).1 ≠ 0) ∧
      ((IO16_ChipInit env slot ((fun x => (IO16_ChipInit env slot x).2)^[n - 1] s)).1 ≠ 0 →
        n = j) := by
  intro j
  induction j with
  | zero => intro t st s _ h1; omega
  | succ j ih =>
    intro t st s htj _ hst fuel hfuel
    obtain ⟨f, rfl⟩ : ∃ f, fuel = f + 1 := ⟨fuel - 1, by omega⟩
    rw [scan_init_retry_step env slot f st t s hst (by omega)]
    by_cases h0 : (IO16_ChipInit env slot s).1 = 0
    · refine ⟨1, le_refl 1, by omega, ?_, ?_, ?_⟩
      · rw [scan_init_retry_stop env slot f _ _ _ (Or.inl h0)]
        simp only [Nat.sub_self, Function.iterate_zero, Function.iterate_one, id_eq]
      · intro k hk; omega
      · intro hne
        exact absurd h0 hne
    · by_cases hj : j = 0
      · subst hj
        refine ⟨1, le_refl 1, le_refl 1, ?_, ?_, ?_⟩
        · rw [scan_init_retry_stop env slot f _ _ _ (Or.inr (by omega))]
          simp only [Nat.sub_self, Function.iterate_zero, Function.iterate_one, id_eq]
        · intro k hk; omega
        · intro _; rfl
      · obtain ⟨n, hn1, hnj, e, hfail, hlast⟩ := ih (t + 1) (IO16_ChipInit env slot s).1
          (IO16_ChipInit env slot s).2 (by omega) (by omega) h0 f (by omega)
        obtain ⟨m, rfl⟩ : ∃ m, n = m + 1 := ⟨n - 1, by omega⟩
        simp only [Nat.add_sub_cancel] at e hfail hlast
        refine ⟨m + 2, by omega, by omega, ?_, ?_, ?_⟩
        · have e1 : (fun x => (IO16_ChipInit env slot x).2)^[m + 1] s =
              (fun x => (IO16_ChipInit env slot x).2)^[m] (IO16_ChipInit env slot s).2 :=
            Function.iterate_succ_apply _ _ _
          have e2 : (fun x => (IO16_ChipInit env slot x).2)^[m + 2] s =
              (fun x => (IO16_ChipInit env slot x).2)^[m + 1] (IO16_ChipInit env slot s).2 :=
            Function.iterate_succ_apply _ _ _
          rw [e, show t + 1 + (m + 1) = t + (m + 2) by omega,
            show m + 2 - 1 = m + 1 by omega, e1, e2]
        · intro k hk
          cases k with
          | zero => exact h0
          | succ k =>
            rw [Function.iterate_succ_apply]
            exact hfail k (by omega)
        · intro hne
          have : m + 1 = j := hlast (by
            simpa only [show m + 2 - 1 = m + 1 by omega, Function.iterate_succ_apply] using hne)
          omega

/-- The retry loop of the registration step: for a slot whose firmware-id or
hardware-id starts with the lower-case text "io16", the registration step of
`scan_modules` makes `n` calls of `IO16_ChipInit` with
`1 ≤ n ≤ 100`: every call before the `n`-th returned non-zero, the `n`-th
returned non-zero only if `n = 100`, and the loop has left by its own condition
(any fuel of at least 100 gives this same result).  The step prints the SUCCESS
line with `n` when the last call returned 0 and the FAILED line otherwise, and
returns in either case.  Every scan performs its single-wire operations in four
blocks, for the lines 0, 1, 2, 3 in this order, each starting with the reset
pulse of its line and touching no other line. -/
theorem scan_modules_retry (env : Env) :
    (∀ (slot : Nat) (b : ScanBufs) (s : Fw),
      (strncmp_eq b.fid (c_str "io16") 4 = true ∨ strncmp_eq b.hid (c_str "io16") 4 = true) →
      ∃ n : Nat, 1 ≤ n ∧ n ≤ 100 ∧
        (∀ k, k < n - 1 →
          (IO16_ChipInit env slot ((fun x => (IO16_ChipInit env slot x).2)^[k]
            (UART_SendString "  [INIT] Initializing IO678 chip (with retry)...\r\n"
              (UART_SendString "\r\n" (UART_SendHex8 slot
                (UART_SendString "  [REGISTERED] IO16 module at slot "
                  (IO16_Register slot s))))))).1 ≠ 0) ∧
        ((IO16_ChipInit env slot ((fun x => (IO16_ChipInit env slot x).2)^[n - 1]
            (UART_SendString "  [INIT] Initializing IO678 chip (with retry)...\r\n"
              (UART_SendString "\r\n" (UART_SendHex8 slot
                (UART_SendString "  [REGISTERED] IO16 module at slot "
                  (IO16_Register slot s))))))).1 ≠ 0 → n = 100) ∧
        (∀ fuel, 100 ≤ fuel →
          scan_init_retry env slot fuel (-1) 0
            (UART_SendString "  [INIT] Initializing IO678 chip (with retry)...\r\n"
              (UART_SendString "\r\n" (UART_SendHex8 slot
                (UART_SendString "  [REGISTERED] IO16 module at slot "
                  (IO16_Register slot s))))) =
          (((IO16_ChipInit env slot ((fun x => (IO16_ChipInit env slot x).2)^[n - 1]
            (UART_SendString "  [INIT] Initializing IO678 chip (with retry)...\r\n"
              (UART_SendString "\r\n" (UART_SendHex8 slot
                (UART_SendString "  [REGISTERED] IO16 module at slot "
                  (IO16_Register slot s))))))).1, n),
            (fun x => (IO16_ChipInit env slot x).2)^[n]
              (UART_SendString "  [INIT] Initializing IO678 chip (with retry)...\r\n"
                (UART_SendString "\r\n" (UART_SendHex8 slot
                  (UART_SendString "  [REGISTERED] IO16 module at slot "
                    (IO16_Register slot s))))))) ∧
        scan_register env slot b s =
          if (IO16_ChipInit env slot ((fun x => (IO16_ChipInit env slot x).2)^[n - 1]
            (UART_SendString "  [INIT] Initializing IO678 chip (with retry)...\r\n"
              (UART_SendString "\r\n" (UART_SendHex8 slot
                (UART_SendString "  [REGISTERED] IO16 module at slot "
                  (IO16_Register slot s))))))).1 = 0 then
            UART_SendString " tries!\r\n" (UART_SendHex8 n
              (UART_SendString "  [SUCCESS] IO16 chip initialized after "
                ((fun x => (IO16_ChipInit env slot x).2)^[n]
                  (UART_SendString "  [INIT] Initializing IO678 chip (with retry)...\r\n"
                    (UART_SendString "\r\n" (UART_SendHex8 slot
                      (UART_SendString "  [REGISTERED] IO16 module at slot "
                        (IO16_Register slot s))))))))
          else
            UART_SendString "  [ERROR] IO16 chip initialization FAILED after 100 tries!\r\n"
              ((fun x => (IO16_ChipInit env slot x).2)^[n]
                (UART_SendString "  [INIT] Initializing IO678 chip (with retry)...\r\n"
                  (UART_SendString "\r\n" (UART_SendHex8 slot
                    (UART_SendString "  [REGISTERED] IO16 module at slot "
                      (IO16_Register slot s))))))) ∧
    (∀ (bufs : ScanBufs) (s : Fw), ∃ l0 l1 l2 l3 : List OwEv,
      (scan_modules env bufs s).ow_log =
        s.ow_log ++ (OwEv.reset 0 :: l0) ++ (OwEv.reset 1 :: l1) ++ (OwEv.reset 2 :: l2) ++
          (OwEv.reset 3 :: l3) ∧
      (∀ ev ∈ l0, ev.line = 0) ∧ (∀ ev ∈ l1, ev.line = 1) ∧ (∀ ev ∈ l2, ev.line = 2) ∧
      (∀ ev ∈ l3, ev.line = 3)) := by
  refine ⟨?_, scan_modules_visits env⟩
  intro slot b s h
  generalize hs1 : UART_SendString "  [INIT] Initializing IO678 chip (with retry)...\r\n"
    (UART_SendString "\r\n" (UART_SendHex8 slot
      (UART_SendString "  [REGISTERED] IO16 module at slot " (IO16_Register slot s)))) = s1
  have hreg : scan_register env slot b s =
      if (scan_init_retry env slot 100 (-1) 0 s1).1.1 = 0 then
        UART_SendString " tries!\r\n" (UART_SendHex8 (scan_init_retry env slot 100 (-1) 0 s1).1.2
          (UART_SendString "  [SUCCESS] IO16 chip initialized after "
            (scan_init_retry env slot 100 (-1) 0 s1).2))
      else UART_SendString "  [ERROR] IO16 chip initialization FAILED after 100 tries!\r\n"
        (scan_init_retry env slot 100 (-1) 0 s1).2 := by
    subst hs1
    unfold scan_register
    rw [if_pos h]
  have hfuel : ∀ fuel, 100 ≤ fuel → ∃ n : Nat, 1 ≤ n ∧ n ≤ 100 ∧
      scan_init_retry env slot fuel (-1) 0 s1 =
        (((IO16_ChipInit env slot ((fun x => (IO16_ChipInit env slot x).2)^[n - 1] s1)).1, 0 + n),
          (fun x => (IO16_ChipInit env slot x).2)^[n] s1) ∧
      (∀ k, k < n - 1 →
        (IO16_ChipInit env slot ((fun x => (IO16_ChipInit env slot x).2)^[k] s1)).1 ≠ 0) ∧
      ((IO16_ChipInit env slot ((fun x => (IO16_ChipInit env slot x).2)^[n - 1] s1)).1 ≠ 0 →
        n = 100) :=
    fun fuel hf => scan_init_retry_spec env slot 100 0 (-1) s1 rfl (by decide) (by decide) fuel hf
  obtain ⟨n, hn1, hn2, e, hfail, hlast⟩ := hfuel 100 (le_refl _)
  refine ⟨n, hn1, hn2, hfail, hlast, ?_, ?_⟩
  · intro fuel hf
    obtain ⟨m, hm1, hm2, e', hfail', hlast'⟩ := hfuel fuel hf
    have hmn : m = n := by
      rcases Nat.lt_trichotomy m n with hlt | heq | hgt
      · have a1 := hfail (m - 1) (by omega)
        have a2 := hlast' a1
        omega
      · exact heq
      · have a1 := hfail' (n - 1) (by omega)
        have a2 := hlast a1
        omega
    subst hmn
    rw [e', Nat.zero_add]
  · rw [hreg, e, Nat.zero_add]

/-- The retry loop at a concrete input: a module whose firmware-id starts with
"io16", in slot 0 of a board whose chip never answers. -/
theorem scan_modules_retry_witness :
    (strncmp_eq (c_str "io16") (c_str "io16") 4 = true ∨
      strncmp_eq [] (c_str "io16") 4 = true) ∧
    ∃ n : Nat, 1 ≤ n ∧ n ≤ 100 ∧ ∀ fuel, 100 ≤ fuel →
      (scan_init_retry (env_of [] []) 0 fuel (-1) 0
        (UART_SendString "  [INIT] Initializing IO678 chip (with retry)...\r\n"
          (UART_SendString "\r\n" (UART_SendHex8 0
            (UART_SendString "  [REGISTERED] IO16 module at slot "
              (IO16_Register 0 fw_boot)))))).1.2 = n := by
  have h : strncmp_eq (c_str "io16") (c_str "io16") 4 = true ∨
      strncmp_eq [] (c_str "io16") 4 = true := Or.inl (by decide)
  obtain ⟨n, h1, h2, -, -, h3, -⟩ :=
    (scan_modules_retry (env_of [] [])).1 0 ⟨[], [], c_str "io16"⟩ fw_boot h
  exact ⟨h, n, h1, h2, fun fuel hf => by rw [h3 fuel hf]⟩

/-! ## Theorems: the registries across scans -/

theorem RegKeeps_refl (a : Fw) : RegKeeps a a :=
  ⟨List.prefix_refl _, List.prefix_refl _⟩

theorem RegKeeps_of_registries {a x x' : Fw} (h : RegKeeps a x)
    (e : registries x' = registries x) : RegKeeps a x' := by
  have e1 : x'.io16_modules = x.io16_modules := congrArg Prod.fst e
  have e2 : x'.aio20_modules = x.aio20_modules := congrArg (fun r => r.2.1) e
  unfold RegKeeps
  rw [e1, e2]
  exact h

theorem RegKeeps_uart {a x : Fw} (str : String) (h : RegKeeps a x) :
    RegKeeps a (UART_SendString str x) := h

theorem RegKeeps_hex8 {a x : Fw} (d : Nat) (h : RegKeeps a x) :
    RegKeeps a (UART_SendHex8 d x) := h

theorem RegKeeps_ite {a x y : Fw} {c : Prop} [Decidable c]
    (hx : RegKeeps a x) (hy : RegKeeps a y) : RegKeeps a (if c then x else y) := by
  split
  · exact hx
  · exact hy

theorem RegKeeps_row {a x : Fw} (buf : List Nat) (h : RegKeeps a x) :
    RegKeeps a (UART_SendHexRow buf x) :=
  RegKeeps_of_registries h (registries_UART_SendHexRow buf x)

theorem registries_scan_name (l : List Nat) : ∀ s : Fw,
    registries (scan_name l s) = registries s := by
  induction l with
  | nil => intro s; rfl
  | cons c cs ih =>
    intro s
    simp only [scan_name]
    split
    · rw [ih]; rfl
    · split
      · rfl
      · exact ih s

theorem registries_scan_hid_ascii (l : List Nat) : ∀ s : Fw,
    registries (scan_hid_ascii l s) = registries s := by
  induction l with
  | nil => intro s; rfl
  | cons c cs ih =>
    intro s
    simp only [scan_hid_ascii]
    split
    · rw [ih]; rfl
    · split
      · rfl
      · rw [ih]; rfl

theorem RegKeeps_reset {a x : Fw} (env : Env) (k : Int) (h : RegKeeps a x) :
    RegKeeps a (onewire_reset env k x).2 :=
  RegKeeps_of_registries h (registries_onewire_reset env k x)

theorem RegKeeps_write_byte {a x : Fw} (k : Int) (byte : Nat) (h : RegKeeps a x) :
    RegKeeps a (onewire_write_byte k byte x) :=
  RegKeeps_of_registries h (registries_onewire_write_byte k byte x)

theorem RegKeeps_read_into {a x : Fw} (env : Env) (k : Int) (n i : Nat) (buf : List Nat)
    (h : RegKeeps a x) : RegKeeps a (onewire_read_into env k n i buf x).2 :=
  RegKeeps_of_registries h (registries_onewire_read_into env k n i buf x)

theorem RegKeeps_read_module_memory {a x : Fw} (env : Env) (k : Int) (addr : Nat)
    (data : List Nat) (len : Nat) (h : RegKeeps a x) :
    RegKeeps a (read_module_memory env k addr data len x).2 := by
  simp only [read_module_memory]
  split
  · exact RegKeeps_reset env k h
  · exact RegKeeps_reset env k (RegKeeps_read_into env k _ _ _ (RegKeeps_write_byte k _
      (RegKeeps_write_byte k _ (RegKeeps_write_byte k _ (RegKeeps_write_byte k _
        (RegKeeps_reset env k h))))))

theorem logs_registries (ops : List RegOp) : ∀ y : Fw,
    registries (ops.foldl (fun s op => log_reg op s) y) = registries y := by
  induction ops with
  | nil => intro y; rfl
  | cons op ops ih =>
    intro y
    rw [List.foldl_cons, ih]
    rfl

theorem registries_IO16_ChipInit (env : Env) (slot : Nat) (s : Fw) :
    registries (IO16_ChipInit env slot s).2 = registries s := by
  obtain ⟨ops, e, -⟩ := IO16_ChipInit_appends env slot s (Appends_refl _ _)
  have := congrArg registries e
  rw [logs_registries] at this
  exact this

theorem registries_scan_init_retry (env : Env) (slot : Nat) : ∀ (fuel : Nat) (st : Int)
    (t : Nat) (s : Fw), registries (scan_init_retry env slot fuel st t s).2 = registries s := by
  intro fuel
  induction fuel with
  | zero => intro st t s; rfl
  | succ f ih =>
    intro st t s
    simp only [scan_init_retry]
    split
    · rw [ih, registries_IO16_ChipInit]
    · rfl

theorem RegKeeps_IO16_Register {a x : Fw} (slot : Nat) (h : RegKeeps a x) :
    RegKeeps a (IO16_Register slot x) := by
  unfold IO16_Register
  split
  · exact ⟨h.1.trans (List.prefix_append _ _), h.2⟩
  · exact h

theorem RegKeeps_AIO20_Register {a x : Fw} (slot : Nat) (h : RegKeeps a x) :
    RegKeeps a (AIO20_Register slot x) := by
  unfold AIO20_Register
  split
  · exact ⟨h.1, h.2.trans (List.prefix_append _ _)⟩
  · exact h

theorem RegKeeps_FPGA_Register {a x : Fw} (slot : Nat) (h : RegKeeps a x) :
    RegKeeps a (FPGA_Register slot x) := by
  unfold FPGA_Register
  split
  · exact h
  · exact h

theorem RegKeeps_scan_register {a x : Fw} (env : Env) (slot : Nat) (b : ScanBufs)
    (h : RegKeeps a x) : RegKeeps a (scan_register env slot b x) := by
  unfold scan_register
  by_cases h1 : strncmp_eq b.fid (c_str "io16") 4 = true ∨ strncmp_eq b.hid (c_str "io16") 4 = true
  · rw [if_pos h1]
    have hr : RegKeeps a (scan_init_retry env slot 100 (-1) 0
        (UART_SendString "  [INIT] Initializing IO678 chip (with retry)...\r\n"
          (UART_SendString "\r\n" (UART_SendHex8 slot
            (UART_SendString "  [REGISTERED] IO16 module at slot " (IO16_Register slot x)))))).2 :=
      RegKeeps_of_registries (RegKeeps_uart _ (RegKeeps_uart _ (RegKeeps_hex8 _ (RegKeeps_uart _
        (RegKeeps_IO16_Register slot h))))) (registries_scan_init_retry env slot _ _ _ _)
    simp only []
    exact RegKeeps_ite (RegKeeps_uart _ (RegKeeps_hex8 _ (RegKeeps_uart _ hr)))
      (RegKeeps_uart _ hr)
  · rw [if_neg h1]
    by_cases h2 : strncmp_eq b.fid (c_str "aio20") 5 = true ∨
        strncmp_eq b.hid (c_str "aio20") 5 = true
    · rw [if_pos h2]
      exact RegKeeps_uart _ (RegKeeps_hex8 _ (RegKeeps_uart _ (RegKeeps_AIO20_Register slot h)))
    · rw [if_neg h2]
      by_cases h3 : strncmp_eq b.fid (c_str "fpga") 4 = true ∨
          strncmp_eq b.hid (c_str "fpga") 4 = true
      · rw [if_pos h3]
        exact RegKeeps_uart _ (RegKeeps_hex8 _ (RegKeeps_uart _ (RegKeeps_FPGA_Register slot h)))
      · rw [if_neg h3]
        exact h

theorem RegKeeps_scan_identify {a x : Fw} (env : Env) (slot : Nat) (b : ScanBufs)
    (h : RegKeeps a x) : RegKeeps a (scan_identify env slot b x).2 := by
  simp only [scan_identify]
  refine RegKeeps_uart _ (RegKeeps_hex8 _ (RegKeeps_uart _ (RegKeeps_hex8 _ (RegKeeps_uart _
    (RegKeeps_uart _ ?_)))))
  refine RegKeeps_of_registries ?_ (registries_scan_hid_ascii _ _)
  refine RegKeeps_uart _ (RegKeeps_uart _ ?_)
  refine RegKeeps_of_registries ?_ (registries_scan_name _ _)
  refine RegKeeps_uart _ (RegKeeps_uart _ (RegKeeps_uart _ (RegKeeps_uart _ ?_)))
  have h0 : RegKeeps a (UART_SendString ")\r\n" (UART_SendString
      (if b.uid.getD 0 0 = 0x2B then "=DS2431"
        else if b.uid.getD 0 0 = 0x0D then "=Unknown-0D" else "=Unknown")
      (UART_SendHex8 (b.uid.getD 0 0) (UART_SendString "(Family: " (UART_SendHexRow b.uid
      (UART_SendString "  UID: " (UART_SendString " -> FOUND!\r\n" x))))))) :=
    RegKeeps_uart _ (RegKeeps_uart _ (RegKeeps_hex8 _ (RegKeeps_uart _ (RegKeeps_row _
      (RegKeeps_uart _ (RegKeeps_uart _ h))))))
  have hh := RegKeeps_read_module_memory env slot 0x00 b.hid 8 h0
  refine RegKeeps_ite (RegKeeps_uart _ (RegKeeps_row _ (RegKeeps_uart _ ?_)))
    (RegKeeps_uart _ ?_) <;>
  refine RegKeeps_read_module_memory env slot 0x08 b.fid 8 ?_ <;>
  exact RegKeeps_ite (RegKeeps_uart _ (RegKeeps_row _ (RegKeeps_uart _ hh))) (RegKeeps_uart _ hh)

theorem RegKeeps_scan_slot {a : Fw} (env : Env) (slot : Nat) (p : ScanBufs × Fw)
    (h : RegKeeps a p.2) : RegKeeps a (scan_slot env slot p).2 := by
  have hu : RegKeeps a (read_module_uid env slot p.1.uid (scan_slot_header slot p.2)).2 :=
    RegKeeps_of_registries (x := p.2) h (by
      rw [registries_read_module_uid]
      simp only [scan_slot_header, registries_UART_SendString, registries_UART_SendHex8])
  simp only [scan_slot]
  split
  · exact RegKeeps_uart _ (RegKeeps_scan_register env slot _ (RegKeeps_scan_identify env slot _ hu))
  · exact RegKeeps_uart _ hu

/-- A scan removes no registry entry and changes none: the digital and the analog
registry before the scan are initial segments of the registries after it. -/
theorem scan_modules_keeps_registries (env : Env) (bufs : ScanBufs) (s : Fw) :
    s.io16_modules <+: (scan_modules env bufs s).io16_modules ∧
    s.aio20_modules <+: (scan_modules env bufs s).aio20_modules := by
  have hb : RegKeeps s (scan_banner env s) :=
    RegKeeps_of_registries (RegKeeps_refl s) (by
      simp only [scan_banner, registries_UART_SendString, registries_UART_SendHex8])
  have h := RegKeeps_scan_slot env 3 _ (RegKeeps_scan_slot env 2 _ (RegKeeps_scan_slot env 1 _
    (RegKeeps_scan_slot env 0 (bufs, scan_banner env s) hb)))
  unfold scan_modules
  exact RegKeeps_uart _ (RegKeeps_uart _ (RegKeeps_uart _ h))

theorem IO16_GetModule_from_append (slot : Nat) (l : List IO16_Module) :
    ∀ (mods : List IO16_Module) (i m : Nat), IO16_GetModule_from mods i slot = some m →
      IO16_GetModule_from (mods ++ l) i slot = some m := by
  intro mods
  induction mods with
  | nil => intro i m h; simp [IO16_GetModule_from] at h
  | cons md rest ih =>
    intro i m h
    simp only [IO16_GetModule_from, List.cons_append] at h ⊢
    split
    · rename_i hs
      rw [if_pos hs] at h
      exact h
    · rename_i hs
      rw [if_neg hs] at h
      exact ih _ _ h

/-- For a slot that was registered before a scan, `IO16_GetModule` finds after
the scan the entry it found before, with the state it had before. -/
theorem scan_modules_keeps_module (env : Env) (bufs : ScanBufs) (s : Fw) (slot m : Nat)
    (h : IO16_GetModule slot s = some m) :
    IO16_GetModule slot (scan_modules env bufs s) = some m ∧
    io16_module m (scan_modules env bufs s) = io16_module m s := by
  obtain ⟨l, hl⟩ := (scan_modules_keeps_registries env bufs s).1
  have hm := (IO16_GetModule_some slot m s h).1
  unfold IO16_GetModule io16_module
  rw [← hl]
  refine ⟨IO16_GetModule_from_append slot l _ _ _ h, ?_⟩
  rw [List.getD_append _ _ _ _ hm]

theorem IO16_Register_full (slot : Nat) (s : Fw) (h : 4 ≤ s.io16_modules.length) :
    IO16_Register slot s = s := by
  unfold IO16_Register
  rw [if_neg (fun hc => by omega)]

theorem AIO20_Register_full (slot : Nat) (s : Fw) (h : 4 ≤ s.aio20_modules.length) :
    AIO20_Register slot s = s := by
  unfold AIO20_Register
  rw [if_neg (fun hc => by omega)]

/-- With four entries in the analog registry the registration step of the scan
changes nothing but still prints its REGISTERED line. -/
theorem scan_register_full (env : Env) (slot : Nat) (b : ScanBufs) (s : Fw)
    (hio : ¬ (strncmp_eq b.fid (c_str "io16") 4 = true ∨ strncmp_eq b.hid (c_str "io16") 4 = true))
    (ha : strncmp_eq b.fid (c_str "aio20") 5 = true ∨ strncmp_eq b.hid (c_str "aio20") 5 = true)
    (h : 4 ≤ s.aio20_modules.length) :
    scan_register env slot b s =
      UART_SendString "\r\n" (UART_SendHex8 slot
        (UART_SendString "  [REGISTERED] AIO20 module at slot " s)) := by
  unfold scan_register
  rw [if_neg hio, if_pos ha, AIO20_Register_full slot s h]

set_option maxRecDepth 1000000 in
/-- C11, the code at the failing input.  A digital module sits in slot 0.  The
first scan after boot registers it with a fresh state.  `IO16_SetDirection(0,
13, 1)` then returns 0 and sets bits 12..15 of the cached direction mask.  The
second scan leaves two registry entries with slot number 0: the old one, still
with direction mask 0xF000, and behind it a fresh one; `IO16_GetModule(0)` finds
the old one.  A third scan, of an empty backplane, leaves both entries in
place.  Two scans of an analog module in slot 0 leave two analog registry
entries with slot number 0. -/
theorem scan_modules_rescan :
    (scan_modules env_rescan_io16 bufs_zero fw_boot).io16_modules = [⟨0, 0, 0, 0⟩] ∧
    (IO16_SetDirection env_rescan_io16 0 13 1
      (scan_modules env_rescan_io16 bufs_zero fw_boot)).1 = 0 ∧
    (scan_modules env_rescan_io16 bufs_zero (IO16_SetDirection env_rescan_io16 0 13 1
      (scan_modules env_rescan_io16 bufs_zero fw_boot)).2).io16_modules =
        [⟨0, 0, 0, 0xF000⟩, ⟨0, 0, 0, 0⟩] ∧
    IO16_GetModule 0 (scan_modules env_rescan_io16 bufs_zero
      (IO16_SetDirection env_rescan_io16 0 13 1
        (scan_modules env_rescan_io16 bufs_zero fw_boot)).2) = some 0 ∧
    (scan_modules env_rescan_io16 bufs_zero (scan_modules env_rescan_io16 bufs_zero
      (IO16_SetDirection env_rescan_io16 0 13 1
        (scan_modules env_rescan_io16 bufs_zero fw_boot)).2)).io16_modules =
        [⟨0, 0, 0, 0xF000⟩, ⟨0, 0, 0, 0⟩] ∧
    (scan_modules env_rescan_aio20 bufs_zero
      (scan_modules env_rescan_aio20 bufs_zero fw_boot)).aio20_modules.map
        AIO20_Module.slot = [0, 0] := by
  decide


/-! ## C21: range limits of the AFE classification -/

/-- C21, evaluation of the code at the documented range limits: `AIO20_DetectAFE`
compares strictly, so the values 980, 1180, 2060 and 2260 are classified as
`AFE_TYPE_NONE`, as is 4000, while their inner neighbours 981, 1179, 2061, 2259
and 4001 get the card types. -/
theorem AIO20_DetectAFE_limits :
    AIO20_DetectAFE 980 = .AFE_TYPE_NONE ∧ AIO20_DetectAFE 981 = .AFE_TYPE_0_10V ∧
    AIO20_DetectAFE 1179 = .AFE_TYPE_0_10V ∧ AIO20_DetectAFE 1180 = .AFE_TYPE_NONE ∧
    AIO20_DetectAFE 2060 = .AFE_TYPE_NONE ∧ AIO20_DetectAFE 2061 = .AFE_TYPE_PT1000 ∧
    AIO20_DetectAFE 2259 = .AFE_TYPE_PT1000 ∧ AIO20_DetectAFE 2260 = .AFE_TYPE_NONE ∧
    AIO20_DetectAFE 4000 = .AFE_TYPE_NONE ∧ AIO20_DetectAFE 4001 = .AFE_TYPE_4_20MA := by
  decide

/-! ## C26: slot range of the chip-select function -/

/-- Counterexample to C26 as stated: slot 4, which lies outside 0..3, is accepted
by `SPI_SetCS`: CS_ENABLE returns 0, claims the bus for slot 4 and drives the
fifth chip-select line low; CS_DISABLE returns 0 and releases the bus. -/
theorem SPI_SetCS_slot4_counterexample :
    (SPI_SetCS 4 .CS_ENABLE (SPI_Module_Init fw_boot)).1 = 0 ∧
    (SPI_SetCS 4 .CS_ENABLE (SPI_Module_Init fw_boot)).2.current_cs_slot = 4 ∧
    (SPI_SetCS 4 .CS_ENABLE (SPI_Module_Init fw_boot)).2.cs_pins =
      [true, true, true, true, false] ∧
    (SPI_SetCS 4 .CS_DISABLE (SPI_SetCS 4 .CS_ENABLE (SPI_Module_Init fw_boot)).2).1 = 0 ∧
    (SPI_SetCS 4 .CS_DISABLE
      (SPI_SetCS 4 .CS_ENABLE (SPI_Module_Init fw_boot)).2).2.current_cs_slot = -1 := by
  decide

/-- C26, amended: for every slot argument below 0 or above 4, `SPI_SetCS` returns
-1 for either chip-select action and leaves the whole state, in particular the
claimed slot and the chip-select lines, unchanged. -/
theorem SPI_SetCS_out_of_range (slot : Int) (cs : chip_select_t) (s : Fw)
    (h : slot < 0 ∨ 4 < slot) :
    (SPI_SetCS slot cs s).1 = -1 ∧
    (SPI_SetCS slot cs s).2.current_cs_slot = s.current_cs_slot ∧
    (SPI_SetCS slot cs s).2.cs_pins = s.cs_pins ∧ (SPI_SetCS slot cs s).2 = s := by
  rw [SPI_SetCS_invalid s slot cs h]
  exact ⟨rfl, rfl, rfl, rfl⟩

/-- Witness for C26: slot 5 and slot -1 on a state in which slot 0 holds the
bus. -/
theorem SPI_SetCS_out_of_range_witness :
    ((5 : Int) < 0 ∨ (4 : Int) < 5) ∧
    (SPI_SetCS 5 .CS_ENABLE fw_slot0_claimed).1 = -1 ∧
    (SPI_SetCS 5 .CS_ENABLE fw_slot0_claimed).2.current_cs_slot = 0 ∧
    (SPI_SetCS (-1) .CS_DISABLE fw_slot0_claimed).1 = -1 :=
  ⟨Or.inr (by decide),
   (SPI_SetCS_out_of_range 5 .CS_ENABLE fw_slot0_claimed (Or.inr (by decide))).1,
   by decide,
   (SPI_SetCS_out_of_range (-1) .CS_DISABLE fw_slot0_claimed (Or.inl (by decide))).1⟩

/-! ## C27: polling budget of the data exchange -/

theorem spi_wait_eq : ∀ w timeout : Nat,
    spi_wait w timeout = if w ≤ timeout then timeout - w else 4294967295 := by
  intro w
  induction w with
  | zero => intro t; simp [spi_wait]
  | succ w ih =>
    intro t
    cases t with
    | zero => simp [spi_wait]
    | succ t =>
      rw [spi_wait, ih]
      simp only [Nat.add_le_add_iff_right, Nat.add_sub_add_right]

theorem spi_polls_le : ∀ w timeout : Nat, spi_polls w timeout ≤ timeout + 1 := by
  intro w
  induction w with
  | zero => intro t; simp [spi_polls]
  | succ w ih =>
    intro t
    cases t with
    | zero => simp [spi_polls]
    | succ t =>
      rw [spi_polls]
      exact Nat.succ_le_succ (ih t)

/-- C27, evaluation of the code at the failing inputs: when TXE (or RXNE) stays
clear for the whole polling budget, the counter wraps to 0xFFFFFFFF, the test
`timeout == 0` fails and `SPI_DataExchange` goes on: it transmits the byte and
returns what the data register holds (0x5A), not 0xFF.  The value 0xFF is
returned only when the flag rises exactly at poll 100001, a case in which the
flag did become set.  A flag is polled at most 100001 times in every case. -/
theorem SPI_DataExchange_timeout :
    (SPI_DataExchange env_txe_stuck 0 0xA5 fw_boot).1 = 0x5A ∧
    (SPI_DataExchange env_txe_stuck 0 0xA5 fw_boot).2.spi_log = [⟨0xA5, true, 0x5A⟩] ∧
    (SPI_DataExchange env_rxne_stuck 0 0xA5 fw_boot).1 = 0x5A ∧
    (SPI_DataExchange env_rxne_stuck 0 0xA5 fw_boot).2.spi_log = [⟨0xA5, true, 0x5A⟩] ∧
    (SPI_DataExchange env_txe_late 0 0xA5 fw_boot).1 = 0xFF ∧
    (SPI_DataExchange env_txe_late 0 0xA5 fw_boot).2.spi_log = [⟨0xA5, false, 0xFF⟩] ∧
    spi_wait 100001 100000 = 4294967295 ∧ spi_wait 100000 100000 = 0 ∧
    spi_wait 99999 100000 = 1 ∧
    (∀ w, spi_polls w 100000 ≤ 100001) := by
  have e1 : spi_wait 100001 100000 = 4294967295 := by rw [spi_wait_eq]; decide
  have e2 : spi_wait 100000 100000 = 0 := by rw [spi_wait_eq]; decide
  have e3 : spi_wait 0 100000 = 100000 := by rw [spi_wait_eq]; decide
  have e4 : spi_wait 99999 100000 = 1 := by rw [spi_wait_eq]; decide
  refine ⟨?_, ?_, ?_, ?_, ?_, ?_, e1, e2, e4, fun w => spi_polls_le w 100000⟩ <;>
  simp [SPI_DataExchange_eq, miso_of, wired_of, env_txe_stuck, env_rxne_stuck, env_txe_late,
    e1, e2, e3, fw_boot]

/-! ## C28: one output register per pin write -/

set_option maxRecDepth 1000000 in
/-- C30, evaluation of the code at the failing input: two scans in which slot 1
returns the same line samples (a valid ROM code, then no presence pulse, so
both block reads fail).  When slot 0 held an analog module, the buffers `hid`
and `fid` still hold its blocks after the pass for slot 1, slot 1 is reported
as AIO20 and registered; when slot 0 was empty, slot 1 is reported as EMPTY and
nothing is registered. -/
theorem scan_modules_stale_buffers :
    ow_stale_after_aio20.drop 207 = ow_stale_after_empty.drop 3 ∧
    (scan_slot (env_of [] ow_stale_after_aio20) 0
      (bufs_zero, scan_banner (env_of [] ow_stale_after_aio20) fw_boot)).2.ow_n = 207 ∧
    (scan_slot (env_of [] ow_stale_after_empty) 0
      (bufs_zero, scan_banner (env_of [] ow_stale_after_empty) fw_boot)).2.ow_n = 3 ∧
    (scan_slot (env_of [] ow_stale_after_aio20) 1 (scan_slot (env_of [] ow_stale_after_aio20) 0
      (bufs_zero, scan_banner (env_of [] ow_stale_after_aio20) fw_boot))).1 =
        ⟨rom_good, (c_str "HW-REV-A").dropLast, (c_str "aio20-v1").dropLast⟩ ∧
    (scan_slot (env_of [] ow_stale_after_empty) 1 (scan_slot (env_of [] ow_stale_after_empty) 0
      (bufs_zero, scan_banner (env_of [] ow_stale_after_empty) fw_boot))).1 =
        ⟨rom_good, List.replicate 8 0, List.replicate 8 0⟩ ∧
    get_module_type (c_str "HW-REV-A").dropLast (c_str "aio20-v1").dropLast =
      "AIO20 - 20 Channel Analog I/O" ∧
    get_module_type (List.replicate 8 0) (List.replicate 8 0) =
      "EMPTY - No Module or Test Pattern" ∧
    (scan_modules (env_of [] ow_stale_after_aio20) bufs_zero fw_boot).aio20_modules.map
      AIO20_Module.slot = [0, 1] ∧
    registries (scan_modules (env_of [] ow_stale_after_empty) bufs_zero fw_boot) =
      ([], [], []) := by
  decide

/-! ## Analog driver: register functions and chip initialisation -/

theorem AIO20_WriteRegister_fst (env : Env) (slot reg data : Nat) (s : Fw) :
    (AIO20_WriteRegister env slot reg data s).1 = 0 := rfl

theorem OffEq_aio20_write {x y : Fw} (env : Env) (slot reg data : Nat) (h : off_spi x = y) :
    off_spi (AIO20_WriteRegister env slot reg data x).2 =
      log_reg (.aio20_write slot reg data 0) y := by
  simp only [AIO20_WriteRegister, off_spi_log_reg, off_spi_SPI_SetCS, off_spi_SPI_DataExchange]
  rw [h]

theorem AIO20_WriteRegister_spi_n (env : Env) (slot reg data : Nat) (s : Fw) :
    (AIO20_WriteRegister env slot reg data s).2.spi_n = s.spi_n + 3 := by
  simp only [AIO20_WriteRegister, log_reg_spi_n, SPI_SetCS_spi_n, SPI_DataExchange_spi_n]

theorem AIO20_ReadRegister_fst (env : Env) (slot reg v : Nat) (s : Fw) :
    (AIO20_ReadRegister env slot reg (some v) s).1 = (0, some (aio20_word env s.spi_n)) := by
  simp only [AIO20_ReadRegister, aio20_word, SPI_DataExchange_fst, SPI_SetCS_spi_n,
    SPI_DataExchange_spi_n]

theorem OffEq_aio20_read {x y : Fw} (env : Env) (slot reg v : Nat) (h : off_spi x = y) :
    off_spi (AIO20_ReadRegister env slot reg (some v) x).2 =
      log_reg (.aio20_read slot reg 0 (some (aio20_word env x.spi_n))) y := by
  simp only [AIO20_ReadRegister, aio20_word, SPI_DataExchange_fst, SPI_SetCS_spi_n,
    SPI_DataExchange_spi_n, off_spi_log_reg, off_spi_SPI_SetCS, off_spi_SPI_DataExchange]
  rw [h]

theorem AIO20_ReadRegister_spi_n (env : Env) (slot reg v : Nat) (s : Fw) :
    (AIO20_ReadRegister env slot reg (some v) s).2.spi_n = s.spi_n + 3 := by
  simp only [AIO20_ReadRegister, log_reg_spi_n, SPI_SetCS_spi_n, SPI_DataExchange_spi_n]

theorem AIO20_GetDeviceID_fst (env : Env) (slot : Nat) (s : Fw) :
    (AIO20_GetDeviceID env slot s).1 = aio20_word env s.spi_n := by
  simp only [AIO20_GetDeviceID, AIO20_ReadRegister_fst, Option.getD_some]

theorem OffEq_GetDeviceID {x y : Fw} (env : Env) (slot : Nat) (h : off_spi x = y) :
    off_spi (AIO20_GetDeviceID env slot x).2 =
      log_reg (.aio20_read slot 0x00 0 (some (aio20_word env x.spi_n))) y := by
  simp only [AIO20_GetDeviceID]
  exact OffEq_aio20_read env slot 0x00 0 h

theorem logs_append (ops ops' : List RegOp) (y : Fw) :
    logs (ops ++ ops') y = logs ops' (logs ops y) := by
  simp only [logs, List.foldl_append]

theorem logs_cons (op : RegOp) (ops : List RegOp) (y : Fw) :
    logs (op :: ops) y = logs ops (log_reg op y) := rfl

theorem logs_nil (y : Fw) : logs [] y = y := rfl

theorem logs_reg_log (ops : List RegOp) (y : Fw) : (logs ops y).reg_log = y.reg_log ++ ops :=
  (log_reg_foldl_reg_log ops y).1

theorem logs_aio20_modules (ops : List RegOp) : ∀ y : Fw,
    (logs ops y).aio20_modules = y.aio20_modules := by
  induction ops with
  | nil => intro y; rfl
  | cons op ops ih =>
    intro y
    rw [logs_cons, ih]
    rfl

theorem OffEq_ChipInit_ports {x y : Fw} (env : Env) (slot : Nat) (h : off_spi x = y) :
    off_spi (AIO20_ChipInit_ports env slot x) =
      logs ((List.range 20).map (fun port => .aio20_write slot (0x20 + port) 0x71e0 0)) y := by
  unfold AIO20_ChipInit_ports
  generalize List.range 20 = l
  induction l generalizing x y with
  | nil => exact h
  | cons p ps ih =>
    rw [List.foldl_cons, List.map_cons, logs_cons]
    exact ih (OffEq_aio20_write env slot (0x20 + p) 0x71e0 h)

theorem AIO20_GetModule_off_spi (slot : Nat) (s : Fw) :
    AIO20_GetModule slot (off_spi s) = AIO20_GetModule slot s := rfl

theorem OffEq_aio20_store {x y : Fw} (m : Nat) (f : AIO20_Module → AIO20_Module)
    (h : off_spi x = y) : off_spi (aio20_store m f x) = aio20_store m f y := by
  subst h
  rfl

theorem AIO20_ChipInit_configure_spec {x y : Fw} (env : Env) (slot : Nat) (h : off_spi x = y) :
    (AIO20_ChipInit_configure env slot x).1 = 0 ∧
    off_spi (AIO20_ChipInit_configure env slot x).2 =
      AIO20_ChipInit_store slot (logs (AIO20_ChipInit_writes slot) y) := by
  refine ⟨by simp only [AIO20_ChipInit_configure], ?_⟩
  have e : off_spi (UART_SendString "[MAX11300-INIT] All 20 ports configured as ADC - OK!\r\n"
      (AIO20_ChipInit_ports env slot
        (UART_SendString "[MAX11300-INIT] Step 2: Configuring ALL 20 ports as ADC (MODE_7)...\r\n"
        (UART_SendString "[MAX11300-INIT] Device control configured - OK!\r\n"
        (AIO20_WriteRegister env slot 0x10 0x0003
          (UART_SendString "[MAX11300-INIT] Step 1: Configuring device control...\r\n"
          (UART_SendString "[MAX11300-INIT] Device ID OK!\r\n" x))).2)))) =
      logs (AIO20_ChipInit_writes slot) y := by
    rw [AIO20_ChipInit_writes, logs_cons]
    exact OffEq_uart _ (OffEq_ChipInit_ports env slot (OffEq_uart _ (OffEq_uart _
      (OffEq_aio20_write env slot 0x10 0x0003 (OffEq_uart _ (OffEq_uart _ h))))))
  simp only [AIO20_ChipInit_configure]
  generalize UART_SendString "[MAX11300-INIT] All 20 ports configured as ADC - OK!\r\n"
      (AIO20_ChipInit_ports env slot
        (UART_SendString "[MAX11300-INIT] Step 2: Configuring ALL 20 ports as ADC (MODE_7)...\r\n"
        (UART_SendString "[MAX11300-INIT] Device control configured - OK!\r\n"
        (AIO20_WriteRegister env slot 0x10 0x0003
          (UART_SendString "[MAX11300-INIT] Step 1: Configuring device control...\r\n"
          (UART_SendString "[MAX11300-INIT] Device ID OK!\r\n" x))).2))) = z at e ⊢
  have hG : AIO20_GetModule slot z = AIO20_GetModule slot (logs (AIO20_ChipInit_writes slot) y) := by
    rw [← e]
    rfl
  refine OffEq_uart _ (OffEq_uart _ (OffEq_uart _ ?_))
  unfold AIO20_ChipInit_store
  rw [← hG]
  cases AIO20_GetModule slot z with
  | none => exact e
  | some m => exact OffEq_aio20_store m _ e

/-- What `AIO20_ChipInit(slot)` does, in terms of the word `id` that the read of
the device-identity register returns. -/
theorem AIO20_ChipInit_spec {s y : Fw} (env : Env) (slot : Nat) (h : off_spi s = y) :
    (AIO20_ChipInit env slot s).1 = (if aio20_word env s.spi_n ≠ 0x0424 then -1 else 0) ∧
    off_spi (AIO20_ChipInit env slot s).2 =
      if aio20_word env s.spi_n ≠ 0x0424 then
        log_reg (.aio20_read slot 0x00 0 (some (aio20_word env s.spi_n))) y
      else
        AIO20_ChipInit_store slot (logs (AIO20_ChipInit_writes slot)
          (log_reg (.aio20_read slot 0x00 0 (some (aio20_word env s.spi_n))) y)) := by
  simp only [AIO20_ChipInit]
  generalize hx : UART_SendString "[MAX11300-INIT] Step 0: Reading Device ID...\r\n"
    (UART_SendString "====================================\r\n"
    (UART_SendString " - Initializing PIXI chip...\r\n"
    (UART_SendHex8 slot (UART_SendString "[MAX11300-INIT] Slot "
    (UART_SendString "====================================\r\n"
    (UART_SendString "\r\n" s)))))) = x
  have hn : x.spi_n = s.spi_n := by
    subst hx
    simp only [UART_SendString_spi_n, UART_SendHex8_spi_n]
  have hx' : off_spi x = y := by
    subst hx
    exact OffEq_uart _ (OffEq_uart _ (OffEq_uart _ (OffEq_hex8 _ (OffEq_uart _ (OffEq_uart _
      (OffEq_uart _ h))))))
  have hd : (AIO20_GetDeviceID env slot x).1 = aio20_word env s.spi_n := by
    rw [AIO20_GetDeviceID_fst, hn]
  have hd2 : off_spi (AIO20_GetDeviceID env slot x).2 =
      log_reg (.aio20_read slot 0x00 0 (some (aio20_word env s.spi_n))) y := by
    rw [← hn]
    exact OffEq_GetDeviceID env slot hx'
  generalize AIO20_GetDeviceID env slot x = d at hd hd2 ⊢
  rw [hd]
  by_cases hid : aio20_word env s.spi_n ≠ 0x0424
  · rw [if_pos hid, if_pos hid, if_pos hid]
    exact ⟨rfl, OffEq_uart _ (OffEq_uart _ (OffEq_hex16 _ (OffEq_uart _ hd2)))⟩
  · rw [if_neg hid, if_neg hid, if_neg hid]
    exact AIO20_ChipInit_configure_spec env slot
      (OffEq_uart _ (OffEq_hex16 _ (OffEq_uart _ hd2)))

/-! ## C23: device identity check of the chip initialisation -/

theorem foldl_set_range (v : Nat) (l : List Nat) : ∀ n : Nat,
    (List.range n).foldl (fun l i => l.set i v) l =
      List.replicate (min n l.length) v ++ l.drop n := by
  intro n
  induction n with
  | zero => simp
  | succ n ih =>
    rw [List.range_succ, List.foldl_append, ih, List.foldl_cons, List.foldl_nil]
    by_cases h : n < l.length
    · rw [Nat.min_eq_left (Nat.le_of_lt h), Nat.min_eq_left h]
      rw [List.set_append_right _ _ (by simp), List.length_replicate, Nat.sub_self]
      rw [List.drop_eq_getElem_cons h, List.set_cons_zero, List.replicate_succ']
      simp
    · have h' : l.length ≤ n := Nat.le_of_not_lt h
      rw [Nat.min_eq_right h', Nat.min_eq_right (Nat.le_succ_of_le h'),
        List.drop_eq_nil_of_le h', List.drop_eq_nil_of_le (Nat.le_succ_of_le h')]
      rw [List.set_eq_of_length_le (by simp [h'])]

theorem AIO20_ChipInit_cache_eq (md : AIO20_Module) :
    AIO20_ChipInit_cache md =
      { md with port_modes :=
          List.replicate (min 20 md.port_modes.length) 7 ++ md.port_modes.drop 20 } := by
  unfold AIO20_ChipInit_cache
  rw [foldl_set_range]

theorem mosi_bytes_uart (str : String) (s : Fw) :
    mosi_bytes (UART_SendString str s) = mosi_bytes s := rfl

theorem mosi_bytes_hex8 (d : Nat) (s : Fw) : mosi_bytes (UART_SendHex8 d s) = mosi_bytes s := rfl

theorem mosi_bytes_hex16 (d : Nat) (s : Fw) : mosi_bytes (UART_SendHex16 d s) = mosi_bytes s := rfl

theorem mosi_bytes_log_reg (op : RegOp) (s : Fw) : mosi_bytes (log_reg op s) = mosi_bytes s := rfl

theorem mosi_bytes_SPI_SetCS (slot : Int) (cs : chip_select_t) (s : Fw) :
    mosi_bytes (SPI_SetCS slot cs s).2 = mosi_bytes s := by
  unfold mosi_bytes
  rw [SPI_SetCS_spi_log]

theorem mosi_bytes_SPI_DataExchange (env : Env) (slot : Int) (m : Nat) (s : Fw) :
    mosi_bytes (SPI_DataExchange env slot m s).2 = mosi_bytes s ++ [m] := by
  unfold mosi_bytes
  rw [SPI_DataExchange_spi_log, List.map_append]
  rfl

theorem mosi_bytes_aio20_store (m : Nat) (f : AIO20_Module → AIO20_Module) (s : Fw) :
    mosi_bytes (aio20_store m f s) = mosi_bytes s := rfl

/-- The bytes that `AIO20_WriteRegister(slot, reg, data)` hands to
`SPI_DataExchange`: the address byte `(reg << 1) | 0`, then `data` MSB first. -/
theorem AIO20_WriteRegister_mosi (env : Env) (slot reg data : Nat) (s : Fw) :
    mosi_bytes (AIO20_WriteRegister env slot reg data s).2 =
      mosi_bytes s ++ [((reg <<< 1) ||| 0x00) % 256, (data >>> 8) &&& 0xFF, data &&& 0xFF] := by
  simp only [AIO20_WriteRegister, mosi_bytes_log_reg, mosi_bytes_SPI_SetCS,
    mosi_bytes_SPI_DataExchange, List.append_assoc, List.singleton_append]
  rfl

/-- The bytes that `AIO20_ReadRegister(slot, reg, &v)` hands to
`SPI_DataExchange`: the address byte `(reg << 1) | 1` and two zero bytes. -/
theorem AIO20_ReadRegister_mosi (env : Env) (slot reg v : Nat) (s : Fw) :
    mosi_bytes (AIO20_ReadRegister env slot reg (some v) s).2 =
      mosi_bytes s ++ [((reg <<< 1) ||| 0x01) % 256, 0x00, 0x00] := by
  simp only [AIO20_ReadRegister, mosi_bytes_log_reg, mosi_bytes_SPI_SetCS,
    mosi_bytes_SPI_DataExchange, List.append_assoc, List.singleton_append]
  rfl

theorem AIO20_ChipInit_ports_mosi_from (env : Env) (slot : Nat) : ∀ (l : List Nat) (s : Fw),
    mosi_bytes (l.foldl (fun s port => (AIO20_WriteRegister env slot (0x20 + port) 0x71e0 s).2) s) =
      mosi_bytes s ++ l.flatMap (fun port =>
        [(((0x20 + port) <<< 1) ||| 0x00) % 256, (0x71e0 >>> 8) &&& 0xFF, 0x71e0 &&& 0xFF]) := by
  intro l
  induction l with
  | nil => intro s; simp
  | cons p ps ih =>
    intro s
    rw [List.foldl_cons, ih, AIO20_WriteRegister_mosi, List.flatMap_cons, List.append_assoc]

set_option maxRecDepth 100000 in
theorem AIO20_ChipInit_ports_frames :
    (List.range 20).flatMap (fun port =>
        [(((0x20 + port) <<< 1) ||| 0x00) % 256, (0x71e0 >>> 8) &&& 0xFF, 0x71e0 &&& 0xFF]) =
      (List.range 20).flatMap (fun port => [(0x20 + port) <<< 1, 0x71, 0xE0]) := by
  decide

theorem AIO20_ChipInit_ports_mosi (env : Env) (slot : Nat) (s : Fw) :
    mosi_bytes (AIO20_ChipInit_ports env slot s) =
      mosi_bytes s ++ (List.range 20).flatMap (fun port => [(0x20 + port) <<< 1, 0x71, 0xE0]) := by
  unfold AIO20_ChipInit_ports
  rw [AIO20_ChipInit_ports_mosi_from, AIO20_ChipInit_ports_frames]

theorem AIO20_ChipInit_configure_mosi (env : Env) (slot : Nat) (s : Fw) :
    mosi_bytes (AIO20_ChipInit_configure env slot s).2 =
      mosi_bytes s ++ [0x20, 0x00, 0x03] ++
        (List.range 20).flatMap (fun port => [(0x20 + port) <<< 1, 0x71, 0xE0]) := by
  simp only [AIO20_ChipInit_configure]
  generalize hz : UART_SendString "[MAX11300-INIT] All 20 ports configured as ADC - OK!\r\n"
      (AIO20_ChipInit_ports env slot
        (UART_SendString "[MAX11300-INIT] Step 2: Configuring ALL 20 ports as ADC (MODE_7)...\r\n"
        (UART_SendString "[MAX11300-INIT] Device control configured - OK!\r\n"
        (AIO20_WriteRegister env slot 0x10 0x0003
          (UART_SendString "[MAX11300-INIT] Step 1: Configuring device control...\r\n"
          (UART_SendString "[MAX11300-INIT] Device ID OK!\r\n" s))).2))) = z
  have hz' : mosi_bytes z = mosi_bytes s ++ [0x20, 0x00, 0x03] ++
      (List.range 20).flatMap (fun port => [(0x20 + port) <<< 1, 0x71, 0xE0]) := by
    subst hz
    rw [mosi_bytes_uart, AIO20_ChipInit_ports_mosi, mosi_bytes_uart, mosi_bytes_uart,
      AIO20_WriteRegister_mosi, mosi_bytes_uart, mosi_bytes_uart]
    rfl
  rw [mosi_bytes_uart, mosi_bytes_uart, mosi_bytes_uart]
  cases AIO20_GetModule slot z with
  | none => exact hz'
  | some m => exact hz'

/-- The bytes that `AIO20_ChipInit(slot)` hands to `SPI_DataExchange`: the read
frame of register 0x00, and only when the word read is 0x0424 the write frames
of 0x0003 to register 0x10 and of 0x71E0 to the registers 0x20..0x33. -/
theorem AIO20_ChipInit_mosi (env : Env) (slot : Nat) (s : Fw) :
    mosi_bytes (AIO20_ChipInit env slot s).2 =
      if aio20_word env s.spi_n ≠ 0x0424 then mosi_bytes s ++ [0x01, 0x00, 0x00]
      else mosi_bytes s ++ [0x01, 0x00, 0x00] ++ [0x20, 0x00, 0x03] ++
        (List.range 20).flatMap (fun port => [(0x20 + port) <<< 1, 0x71, 0xE0]) := by
  simp only [AIO20_ChipInit]
  generalize hx : UART_SendString "[MAX11300-INIT] Step 0: Reading Device ID...\r\n"
    (UART_SendString "====================================\r\n"
    (UART_SendString " - Initializing PIXI chip...\r\n"
    (UART_SendHex8 slot (UART_SendString "[MAX11300-INIT] Slot "
    (UART_SendString "====================================\r\n"
    (UART_SendString "\r\n" s)))))) = x
  have hn : x.spi_n = s.spi_n := by
    subst hx
    simp only [UART_SendString_spi_n, UART_SendHex8_spi_n]
  have hb : mosi_bytes x = mosi_bytes s := by
    subst hx
    rfl
  have hd : (AIO20_GetDeviceID env slot x).1 = aio20_word env s.spi_n := by
    rw [AIO20_GetDeviceID_fst, hn]
  have hd2 : mosi_bytes (AIO20_GetDeviceID env slot x).2 = mosi_bytes s ++ [0x01, 0x00, 0x00] := by
    simp only [AIO20_GetDeviceID]
    rw [AIO20_ReadRegister_mosi, hb]
    rfl
  generalize AIO20_GetDeviceID env slot x = d at hd hd2 ⊢
  rw [hd]
  by_cases hid : aio20_word env s.spi_n ≠ 0x0424
  · rw [if_pos hid, if_pos hid, mosi_bytes_uart, mosi_bytes_uart, mosi_bytes_hex16,
      mosi_bytes_uart, hd2]
  · rw [if_neg hid, if_neg hid, AIO20_ChipInit_configure_mosi]
    rw [mosi_bytes_uart, mosi_bytes_hex16, mosi_bytes_uart, hd2]

/-- C23: `AIO20_ChipInit(slot)` in terms of the 16-bit word read from register
0x00 (the bytes received in the second and third SPI exchange of the call).
If the word is not 0x0424 the call returns -1, the only bytes it hands to
`SPI_DataExchange` are the read frame 0x01, 0x00, 0x00 of register 0x00 (no
write frame goes out), its only register transaction is that read, and the
module cache is unchanged.  If the word is 0x0424 the call returns 0 and
hands to `SPI_DataExchange`, after the read frame, the write frame 0x20, 0x00,
0x03 (0x0003 to the device control register 0x10) and then for each port
0..19 in order the write frame `(0x20 + port) << 1`, 0x71, 0xE0 (the mode word
0x71E0 to the port configuration registers 0x20..0x33), and nothing else; for a
registered slot it sets the first 20 cached port modes (a registered module
has exactly 20) to 7, leaving the rest of the cache alone. -/
theorem AIO20_ChipInit_identity (env : Env) (slot : Nat) (s : Fw) :
    (aio20_word env s.spi_n ≠ 0x0424 →
      (AIO20_ChipInit env slot s).1 = -1 ∧
      mosi_bytes (AIO20_ChipInit env slot s).2 = mosi_bytes s ++ [0x01, 0x00, 0x00] ∧
      (AIO20_ChipInit env slot s).2.reg_log =
        s.reg_log ++ [.aio20_read slot 0x00 0 (some (aio20_word env s.spi_n))] ∧
      (AIO20_ChipInit env slot s).2.aio20_modules = s.aio20_modules) ∧
    (aio20_word env s.spi_n = 0x0424 →
      (AIO20_ChipInit env slot s).1 = 0 ∧
      mosi_bytes (AIO20_ChipInit env slot s).2 =
        mosi_bytes s ++ [0x01, 0x00, 0x00] ++ [0x20, 0x00, 0x03] ++
          (List.range 20).flatMap (fun port => [(0x20 + port) <<< 1, 0x71, 0xE0]) ∧
      (AIO20_ChipInit env slot s).2.reg_log =
        s.reg_log ++ .aio20_read slot 0x00 0 (some 0x0424) :: .aio20_write slot 0x10 0x0003 0 ::
          (List.range 20).map (fun port => .aio20_write slot (0x20 + port) 0x71E0 0) ∧
      (AIO20_GetModule slot s = none →
        (AIO20_ChipInit env slot s).2.aio20_modules = s.aio20_modules) ∧
      ∀ m md, AIO20_GetModule slot s = some m → aio20_module m s = md →
        (AIO20_ChipInit env slot s).2.aio20_modules = s.aio20_modules.set m
          { md with port_modes :=
              List.replicate (min 20 md.port_modes.length) 7 ++ md.port_modes.drop 20 }) := by
  obtain ⟨h1, h2⟩ := @AIO20_ChipInit_spec s _ env slot rfl
  have hb := AIO20_ChipInit_mosi env slot s
  have hl : (off_spi (AIO20_ChipInit env slot s).2).reg_log =
      (AIO20_ChipInit env slot s).2.reg_log := rfl
  have hm : (off_spi (AIO20_ChipInit env slot s).2).aio20_modules =
      (AIO20_ChipInit env slot s).2.aio20_modules := rfl
  constructor
  · intro hid
    rw [if_pos hid] at h1 h2 hb
    rw [← hl, ← hm, h2]
    exact ⟨h1, hb, rfl, rfl⟩
  · intro hid
    rw [if_neg (not_not.2 hid)] at h1 h2 hb
    rw [hid] at h2
    have hG : ∀ Y : Fw, Y = logs (AIO20_ChipInit_writes slot)
        (log_reg (.aio20_read slot 0x00 0 (some 0x0424)) (off_spi s)) →
        AIO20_GetModule slot Y = AIO20_GetModule slot s ∧
        Y.aio20_modules = s.aio20_modules ∧
        Y.reg_log = s.reg_log ++ .aio20_read slot 0x00 0 (some 0x0424) ::
          .aio20_write slot 0x10 0x0003 0 ::
          (List.range 20).map (fun port => .aio20_write slot (0x20 + port) 0x71E0 0) := by
      intro Y hY
      have a : Y.aio20_modules = s.aio20_modules := by
        rw [hY, logs_aio20_modules]
        rfl
      refine ⟨?_, a, ?_⟩
      · unfold AIO20_GetModule
        rw [a]
      · rw [hY, logs_reg_log, log_reg_reg_log, List.append_assoc]
        rfl
    generalize logs (AIO20_ChipInit_writes slot)
        (log_reg (.aio20_read slot 0x00 0 (some 0x0424)) (off_spi s)) = Y at h2 hG
    obtain ⟨g1, g2, g3⟩ := hG Y rfl
    rw [← hl, ← hm, h2]
    refine ⟨h1, hb, ?_, ?_, ?_⟩
    · unfold AIO20_ChipInit_store
      cases hc : AIO20_GetModule slot Y with
      | none => exact g3
      | some m => exact g3
    · intro hn
      unfold AIO20_ChipInit_store
      rw [g1, hn]
      exact g2
    · intro m md hs hmd
      unfold AIO20_ChipInit_store
      rw [g1, hs]
      show Y.aio20_modules.set m (AIO20_ChipInit_cache (aio20_module m Y)) = _
      have : aio20_module m Y = aio20_module m s := by
        unfold aio20_module
        rw [g2]
      rw [this, g2, AIO20_ChipInit_cache_eq, hmd]

/-! ## Analog driver: cached AFE types -/

theorem afe_types_of_off_spi (s : Fw) : afe_types_of (off_spi s) = afe_types_of s := rfl

theorem afe_types_of_log_reg (op : RegOp) (s : Fw) :
    afe_types_of (log_reg op s) = afe_types_of s := rfl

theorem afe_types_of_logs (ops : List RegOp) (y : Fw) :
    afe_types_of (logs ops y) = afe_types_of y := by
  unfold afe_types_of
  rw [logs_aio20_modules]

theorem aio20_module_afe (m : Nat) (s : Fw) :
    (aio20_module m s).afe_types = (afe_types_of s).getD m [] := by
  unfold aio20_module afe_types_of
  rw [List.getD_eq_getElem?_getD, List.getD_eq_getElem?_getD, List.getElem?_map]
  cases s.aio20_modules[m]? <;> rfl

theorem afe_types_of_store (m : Nat) (f : AIO20_Module → AIO20_Module) (y : Fw) :
    afe_types_of (aio20_store m f y) =
      (afe_types_of y).set m (f (aio20_module m y)).afe_types := by
  unfold afe_types_of aio20_store
  exact List.map_set

theorem list_set_self {α : Type} (l : List α) (m : Nat) (h : m < l.length) :
    l.set m l[m] = l := by
  apply List.ext_getElem
  · simp
  · intro i h1 h2
    by_cases e : m = i
    · subst e; simp
    · simp [List.getElem_set_of_ne e]

theorem afe_types_of_store_keep (m : Nat) (f : AIO20_Module → AIO20_Module) (y : Fw)
    (hf : ∀ md, (f md).afe_types = md.afe_types) :
    afe_types_of (aio20_store m f y) = afe_types_of y := by
  rw [afe_types_of_store, hf, aio20_module_afe]
  by_cases h : m < (afe_types_of y).length
  · rw [List.getD_eq_getElem _ _ h, list_set_self _ _ h]
  · rw [List.set_eq_of_length_le (by omega)]

theorem AfeKeeps_refl (a : Fw) : AfeKeeps a a := rfl

theorem AfeKeeps_uart {a x : Fw} (str : String) (h : AfeKeeps a x) :
    AfeKeeps a (UART_SendString str x) := h

theorem AfeKeeps_hex8 {a x : Fw} (d : Nat) (h : AfeKeeps a x) :
    AfeKeeps a (UART_SendHex8 d x) := h

theorem AfeKeeps_hex16 {a x : Fw} (d : Nat) (h : AfeKeeps a x) :
    AfeKeeps a (UART_SendHex16 d x) := h

theorem AfeKeeps_ite {a x y : Fw} {c : Prop} [Decidable c]
    (hx : AfeKeeps a x) (hy : AfeKeeps a y) : AfeKeeps a (if c then x else y) := by
  split
  · exact hx
  · exact hy

theorem AfeKeeps_of_off {a x x' : Fw} (h : AfeKeeps a x) (e : afe_types_of (off_spi x') =
    afe_types_of (off_spi x)) : AfeKeeps a x' :=
  e.trans h

theorem UART_SendBytes_off_spi (l : List Nat) : ∀ s : Fw,
    off_spi (UART_SendBytes l s) = off_spi s := by
  induction l with
  | nil => intro s; rfl
  | cons c cs ih =>
    intro s
    simp only [UART_SendBytes]
    split
    · rfl
    · rw [ih]; rfl

theorem OffEq_bytes {x y : Fw} (l : List Nat) (h : off_spi x = y) :
    off_spi (UART_SendBytes l x) = y := by
  rw [UART_SendBytes_off_spi]
  exact h

/-- The effect of `AIO20_ReadADC(slot, port)` for a port below 20: the word read
from register `0x40 + port`, cut to 12 bits, is returned and cached. -/
theorem AIO20_ReadADC_spec {x y : Fw} (env : Env) (slot port : Nat) (hp : port < 20)
    (h : off_spi x = y) :
    (AIO20_ReadADC env slot port x).1 = ((aio20_word env x.spi_n &&& 0x0FFF : Nat) : Int) ∧
    (AIO20_ReadADC env slot port x).2.spi_n = x.spi_n + 3 ∧
    ∃ Y : Fw, off_spi (AIO20_ReadADC env slot port x).2 = Y ∧
      Y.reg_log = y.reg_log ++ [.aio20_read slot (0x40 + port) 0 (some (aio20_word env x.spi_n))] ∧
      afe_types_of Y = afe_types_of y := by
  have e := OffEq_aio20_read env slot (0x40 + port) 0 h
  have e1 := AIO20_ReadRegister_fst env slot (0x40 + port) 0 x
  have e2 := AIO20_ReadRegister_spi_n env slot (0x40 + port) 0 x
  unfold AIO20_ReadADC
  rw [if_neg (by omega)]
  simp only []
  generalize AIO20_ReadRegister env slot (0x40 + port) (some 0) x = r at e e1 e2 ⊢
  rw [e1]
  simp only [ne_eq, not_true_eq_false, if_false, Option.getD_some]
  cases AIO20_GetModule slot r.2 with
  | none => exact ⟨rfl, e2, _, e, rfl, rfl⟩
  | some m =>
    refine ⟨rfl, e2, _, OffEq_aio20_store m _ e, rfl, ?_⟩
    exact afe_types_of_store_keep m _ _ (fun _ => rfl)

theorem AfeKeeps_ReadADC {a x : Fw} (env : Env) (slot port : Nat) (h : AfeKeeps a x) :
    AfeKeeps a (AIO20_ReadADC env slot port x).2 := by
  by_cases hp : port < 20
  · obtain ⟨-, -, Y, e, -, hY⟩ := AIO20_ReadADC_spec env slot port hp (rfl : off_spi x = off_spi x)
    refine AfeKeeps_of_off h ?_
    rw [e, hY]
  · unfold AIO20_ReadADC
    rw [if_pos (by omega)]
    exact h

theorem aio20_store_spi_n (m : Nat) (f : AIO20_Module → AIO20_Module) (s : Fw) :
    (aio20_store m f s).spi_n = s.spi_n := rfl

/-- One pass of the card loop of `AIO20_DetectAFECards`: one read of the
detection port of the card, whose 12-bit value decides the cached type of the
card and of no other card. -/
theorem AIO20_DetectAFECards_card_spec (env : Env) (slot m k : Nat) (x : Fw) (hk : k < 4) :
    (AIO20_DetectAFECards_card env slot m x k).spi_n = x.spi_n + 3 ∧
    (AIO20_DetectAFECards_card env slot m x k).reg_log = x.reg_log ++
      [.aio20_read slot (0x40 + [4, 7, 12, 17].getD k 0) 0 (some (aio20_word env x.spi_n))] ∧
    afe_types_of (AIO20_DetectAFECards_card env slot m x k) =
      (afe_types_of x).set m (((afe_types_of x).getD m []).set k
        (AIO20_DetectAFE (aio20_word env x.spi_n &&& 0x0FFF)).val) := by
  have hp : [4, 7, 12, 17].getD k 0 < 20 := by
    have : k = 0 ∨ k = 1 ∨ k = 2 ∨ k = 3 := by omega
    rcases this with h | h | h | h <;> subst h <;> decide
  obtain ⟨a1, a2, Y, e, hl, ha⟩ := AIO20_ReadADC_spec env slot ([4, 7, 12, 17].getD k 0) hp
    (rfl : off_spi x = off_spi x)
  simp only [AIO20_DetectAFECards_card]
  generalize AIO20_ReadADC env slot ([4, 7, 12, 17].getD k 0) x = a at a1 a2 e ⊢
  have hlt : aio20_word env x.spi_n &&& 0x0FFF < 65536 :=
    Nat.lt_of_le_of_lt Nat.and_le_right (by decide)
  have hneg : ¬ a.1 < 0 := by
    rw [a1]
    exact Int.not_lt.2 (Int.ofNat_nonneg _)
  have hnat : a.1.toNat % 65536 = aio20_word env x.spi_n &&& 0x0FFF := by
    rw [a1, Int.toNat_ofNat, Nat.mod_eq_of_lt hlt]
  rw [if_neg hneg, hnat]
  generalize hT : (AIO20_DetectAFE (aio20_word env x.spi_n &&& 0x0FFF)).val = T
  have eR : ∀ (str str' : String), off_spi (UART_SendString str'
      (aio20_store m (AIO20_DetectAFECards_cache k T) (UART_SendString str a.2))) =
      aio20_store m (AIO20_DetectAFECards_cache k T) Y :=
    fun str str' => OffEq_uart _ (OffEq_aio20_store m _ (OffEq_uart _ e))
  have h1 : ∀ (str str' : String), (UART_SendString str'
      (aio20_store m (AIO20_DetectAFECards_cache k T) (UART_SendString str a.2))).reg_log =
      Y.reg_log := by
    intro str str'
    have := congrArg Fw.reg_log (eR str str')
    exact this
  have h2 : ∀ (str str' : String), afe_types_of (UART_SendString str'
      (aio20_store m (AIO20_DetectAFECards_cache k T) (UART_SendString str a.2))) =
      (afe_types_of x).set m (((afe_types_of x).getD m []).set k T) := by
    intro str str'
    have := congrArg afe_types_of (eR str str')
    rw [afe_types_of_off_spi] at this
    rw [this, afe_types_of_store]
    show (afe_types_of Y).set m ((aio20_module m Y).afe_types.set k T) = _
    rw [aio20_module_afe, ha]
    rfl
  refine ⟨a2, ?_, ?_⟩
  · rw [h1]
    exact hl
  · rw [h2]

theorem AIO20_GetModule_from_some (slot : Nat) : ∀ (mods : List AIO20_Module) (i m : Nat),
    AIO20_GetModule_from mods i slot = some m → i ≤ m ∧ m - i < mods.length := by
  intro mods
  induction mods with
  | nil => intro i m h; simp [AIO20_GetModule_from] at h
  | cons md rest ih =>
    intro i m h
    simp only [AIO20_GetModule_from] at h
    split at h
    · have : i = m := by simpa using h
      subst this
      simp
    · obtain ⟨h1, h2⟩ := ih (i + 1) m h
      refine ⟨by omega, ?_⟩
      simp only [List.length_cons]
      omega

theorem AIO20_GetModule_some (slot m : Nat) (s : Fw) (h : AIO20_GetModule slot s = some m) :
    m < (afe_types_of s).length := by
  have := (AIO20_GetModule_from_some slot s.aio20_modules 0 m h).2
  simpa [afe_types_of] using this

theorem afe_set_step (A : List (List Nat)) (m k T : Nat) (X : List Nat) (hm : m < A.length) :
    (A.set m X).set m (((A.set m X).getD m []).set k T) = A.set m (X.set k T) := by
  rw [List.set_set, List.getD_eq_getElem _ _ (by simpa using hm), List.getElem_set_self]

/-- What `AIO20_DetectAFECards(slot)` does for a registered slot: four reads, of
the ADC data registers of ports 4, 7, 12 and 17 in this order, and the cached
type of card `k` becomes `AIO20_DetectAFE` of the low 12 bits of the `k`-th
word read. -/
theorem AIO20_DetectAFECards_spec (env : Env) (slot m : Nat) (s : Fw)
    (hG : AIO20_GetModule slot s = some m) :
    (AIO20_DetectAFECards env slot s).reg_log = s.reg_log ++
      [.aio20_read slot 0x44 0 (some (aio20_word env s.spi_n)),
       .aio20_read slot 0x47 0 (some (aio20_word env (s.spi_n + 3))),
       .aio20_read slot 0x4C 0 (some (aio20_word env (s.spi_n + 6))),
       .aio20_read slot 0x51 0 (some (aio20_word env (s.spi_n + 9)))] ∧
    afe_types_of (AIO20_DetectAFECards env slot s) =
      (afe_types_of s).set m ((((((afe_types_of s).getD m []).set 0
        (AIO20_DetectAFE (aio20_word env s.spi_n &&& 0x0FFF)).val).set 1
        (AIO20_DetectAFE (aio20_word env (s.spi_n + 3) &&& 0x0FFF)).val).set 2
        (AIO20_DetectAFE (aio20_word env (s.spi_n + 6) &&& 0x0FFF)).val).set 3
        (AIO20_DetectAFE (aio20_word env (s.spi_n + 9) &&& 0x0FFF)).val) := by
  have hm := AIO20_GetModule_some slot m s hG
  unfold AIO20_DetectAFECards
  rw [hG]
  simp only []
  generalize hx0 : UART_SendString "====================================\r\n"
    (UART_SendString "[AIO20-AFE] Physical IO16-19 \xe2\x86\x92 Port 4,7,12,17\r\n"
    (UART_SendString "[AIO20-AFE] AFE Kart Alg\xc4\xb1lama\r\n"
    (UART_SendString "====================================\r\n"
    (UART_SendString "\r\n" s)))) = x0
  have n0 : x0.spi_n = s.spi_n := by subst hx0; rfl
  have l0 : x0.reg_log = s.reg_log := by subst hx0; rfl
  have a0 : afe_types_of x0 = afe_types_of s := by subst hx0; rfl
  have hr : List.range 4 = [0, 1, 2, 3] := rfl
  rw [hr, List.foldl_cons, List.foldl_cons, List.foldl_cons, List.foldl_cons, List.foldl_nil]
  obtain ⟨n1, l1, a1⟩ := AIO20_DetectAFECards_card_spec env slot m 0 x0 (by decide)
  generalize AIO20_DetectAFECards_card env slot m x0 0 = x1 at n1 l1 a1 ⊢
  obtain ⟨n2, l2, a2⟩ := AIO20_DetectAFECards_card_spec env slot m 1 x1 (by decide)
  generalize AIO20_DetectAFECards_card env slot m x1 1 = x2 at n2 l2 a2 ⊢
  obtain ⟨n3, l3, a3⟩ := AIO20_DetectAFECards_card_spec env slot m 2 x2 (by decide)
  generalize AIO20_DetectAFECards_card env slot m x2 2 = x3 at n3 l3 a3 ⊢
  obtain ⟨-, l4, a4⟩ := AIO20_DetectAFECards_card_spec env slot m 3 x3 (by decide)
  generalize AIO20_DetectAFECards_card env slot m x3 3 = x4 at l4 a4 ⊢
  rw [n0] at n1 l1 a1
  rw [n1] at n2 l2 a2
  rw [n2] at l3 a3 n3
  rw [n3] at l4 a4
  rw [a0] at a1
  rw [a1, afe_set_step _ _ _ _ _ hm] at a2
  rw [a2, afe_set_step _ _ _ _ _ hm] at a3
  rw [a3, afe_set_step _ _ _ _ _ hm] at a4
  constructor
  · show x4.reg_log = _
    rw [l4, l3, l2, l1, l0]
    simp only [List.append_assoc, List.cons_append, List.nil_append, Nat.add_assoc]
    rfl
  · show afe_types_of x4 = _
    rw [a4]

theorem AIO20_DetectAFECards_none (env : Env) (slot : Nat) (s : Fw)
    (hG : AIO20_GetModule slot s = none) : AIO20_DetectAFECards env slot s = s := by
  unfold AIO20_DetectAFECards
  rw [hG]

theorem AfeKeeps_foldl {α : Type} {a : Fw} (f : Fw → α → Fw)
    (hf : ∀ x k, AfeKeeps a x → AfeKeeps a (f x k)) :
    ∀ (l : List α) (x : Fw), AfeKeeps a x → AfeKeeps a (l.foldl f x) := by
  intro l
  induction l with
  | nil => intro x h; exact h
  | cons k ks ih => intro x h; exact ih _ (hf x k h)

theorem AfeKeeps_volt {a x : Fw} (env : Env) (slot ch : Nat) (h : AfeKeeps a x) :
    AfeKeeps a (AIO20_PrintStatus_volt env slot x ch) := by
  simp only [AIO20_PrintStatus_volt]
  exact AfeKeeps_uart _ (AfeKeeps_ReadADC env slot ch h)

theorem AfeKeeps_current {a x : Fw} (env : Env) (slot ch : Nat) (h : AfeKeeps a x) :
    AfeKeeps a (AIO20_PrintStatus_current env slot x ch) := by
  simp only [AIO20_PrintStatus_current]
  exact AfeKeeps_uart _ (AfeKeeps_ReadADC env slot ch h)

theorem AfeKeeps_temp {a x : Fw} (env : Env) (slot ch : Nat) (h : AfeKeeps a x) :
    AfeKeeps a (AIO20_PrintStatus_temp env slot x ch) := by
  simp only [AIO20_PrintStatus_temp]
  exact AfeKeeps_uart _ (AfeKeeps_ReadADC env slot ch h)

theorem AfeKeeps_card {a x : Fw} (env : Env) (slot m afe : Nat) (h : AfeKeeps a x) :
    AfeKeeps a (AIO20_PrintStatus_card env slot m x afe) := by
  simp only [AIO20_PrintStatus_card]
  have h3 : ∀ (s1 s2 s3 : String), AfeKeeps a (UART_SendString s3 (UART_SendString s2
      (UART_SendString s1 x))) := fun _ _ _ => AfeKeeps_uart _ (AfeKeeps_uart _ (AfeKeeps_uart _ h))
  refine AfeKeeps_ite ?_ (AfeKeeps_ite ?_ (AfeKeeps_ite ?_ ?_))
  · exact AfeKeeps_foldl _ (fun x k hx => AfeKeeps_volt env slot k hx) _ _
      (AfeKeeps_uart _ (AfeKeeps_uart _ (AfeKeeps_uart _ (AfeKeeps_uart _ (AfeKeeps_uart _
        (h3 _ _ _))))))
  · exact AfeKeeps_foldl _ (fun x k hx => AfeKeeps_current env slot k hx) _ _
      (AfeKeeps_uart _ (AfeKeeps_uart _ (AfeKeeps_uart _ (AfeKeeps_uart _ (AfeKeeps_uart _
        (h3 _ _ _))))))
  · exact AfeKeeps_foldl _ (fun x k hx => AfeKeeps_temp env slot k hx) _ _
      (AfeKeeps_uart _ (AfeKeeps_uart _ (AfeKeeps_uart _ (AfeKeeps_uart _ (AfeKeeps_uart _
        (h3 _ _ _))))))
  · exact AfeKeeps_uart _ (AfeKeeps_uart _ (h3 _ _ _))

theorem AfeKeeps_PrintStatus {a x : Fw} (env : Env) (slot : Nat) (h : AfeKeeps a x) :
    AfeKeeps a (AIO20_PrintStatus env slot x) := by
  unfold AIO20_PrintStatus
  cases AIO20_GetModule slot x with
  | none => exact AfeKeeps_uart _ h
  | some m =>
    simp only []
    refine AfeKeeps_uart _ (AfeKeeps_uart _ (AfeKeeps_uart _ ?_))
    refine AfeKeeps_foldl _ (fun x k hx => AfeKeeps_card env slot m k hx) _ _ ?_
    exact AfeKeeps_uart _ (AfeKeeps_uart _ (AfeKeeps_uart _ (AfeKeeps_uart _ (AfeKeeps_uart _
      (AfeKeeps_uart _ h)))))

theorem AfeKeeps_GetDeviceID {a x : Fw} (env : Env) (slot : Nat) (h : AfeKeeps a x) :
    AfeKeeps a (AIO20_GetDeviceID env slot x).2 := by
  refine AfeKeeps_of_off h ?_
  rw [OffEq_GetDeviceID env slot (rfl : off_spi x = off_spi x)]
  rfl

theorem AfeKeeps_PrintInfo {a x : Fw} (env : Env) (slot : Nat) (h : AfeKeeps a x) :
    AfeKeeps a (AIO20_PrintInfo env slot x) := by
  simp only [AIO20_PrintInfo]
  exact AfeKeeps_uart _ (AfeKeeps_uart _ (AfeKeeps_uart _ (AfeKeeps_hex16 _ (AfeKeeps_uart _
    (AfeKeeps_uart _ (AfeKeeps_hex8 _ (AfeKeeps_uart _ (AfeKeeps_uart _ (AfeKeeps_uart _
    (AfeKeeps_uart _ (AfeKeeps_uart _ (AfeKeeps_GetDeviceID env slot h))))))))))))

theorem AfeKeeps_read {a x : Fw} (env : Env) (slot : Nat) (cmd : List Nat) (h : AfeKeeps a x) :
    AfeKeeps a (AIO20_HandleCommand_read env slot cmd x) := by
  simp only [AIO20_HandleCommand_read]
  exact AfeKeeps_ite (AfeKeeps_uart _ h)
    (AfeKeeps_ite (AfeKeeps_uart _ (AfeKeeps_ReadADC env slot _ h))
      (AfeKeeps_uart _ (AfeKeeps_ReadADC env slot _ h)))

theorem AfeKeeps_write {a x : Fw} (slot : Nat) (cmd : List Nat) (h : AfeKeeps a x) :
    AfeKeeps a (AIO20_HandleCommand_write slot cmd x) := by
  simp only [AIO20_HandleCommand_write, AIO20_WriteDAC]
  exact AfeKeeps_ite (AfeKeeps_uart _ h) (AfeKeeps_ite (AfeKeeps_uart _ h)
    (AfeKeeps_ite (AfeKeeps_uart _ (AfeKeeps_uart _ h)) (AfeKeeps_uart _ (AfeKeeps_uart _ h))))

theorem AfeKeeps_setvolt {a x : Fw} (slot : Nat) (cmd : List Nat) (h : AfeKeeps a x) :
    AfeKeeps a (AIO20_HandleCommand_setvolt slot cmd x) := by
  simp only [AIO20_HandleCommand_setvolt, AIO20_WriteDAC]
  exact AfeKeeps_ite (AfeKeeps_uart _ h) (AfeKeeps_ite (AfeKeeps_uart _ h)
    (AfeKeeps_ite (AfeKeeps_uart _ (AfeKeeps_uart _ h)) (AfeKeeps_uart _ (AfeKeeps_uart _ h))))

theorem AfeKeeps_usage {a x : Fw} (h : AfeKeeps a x) :
    AfeKeeps a (AIO20_HandleCommand_usage x) := by
  simp only [AIO20_HandleCommand_usage]
  exact AfeKeeps_uart _ (AfeKeeps_uart _ (AfeKeeps_uart _ (AfeKeeps_uart _ (AfeKeeps_uart _
    (AfeKeeps_uart _ (AfeKeeps_uart _ (AfeKeeps_uart _ (AfeKeeps_uart _ h))))))))

theorem AIO20_GetModule_from_congr (slot : Nat) : ∀ (mods mods' : List AIO20_Module) (i : Nat),
    mods.map AIO20_Module.slot = mods'.map AIO20_Module.slot →
    AIO20_GetModule_from mods i slot = AIO20_GetModule_from mods' i slot := by
  intro mods
  induction mods with
  | nil =>
    intro mods' i h
    cases mods' with
    | nil => rfl
    | cons _ _ => simp at h
  | cons md rest ih =>
    intro mods' i h
    cases mods' with
    | nil => simp at h
    | cons md' rest' =>
      simp only [List.map_cons, List.cons.injEq] at h
      simp only [AIO20_GetModule_from, h.1]
      rw [ih rest' (i + 1) h.2]

theorem AIO20_ChipInit_cache_afe (md : AIO20_Module) :
    (AIO20_ChipInit_cache md).afe_types = md.afe_types := by
  rw [AIO20_ChipInit_cache_eq]

theorem AIO20_ChipInit_cache_slot (md : AIO20_Module) :
    (AIO20_ChipInit_cache md).slot = md.slot := by
  rw [AIO20_ChipInit_cache_eq]

theorem AIO20_GetModule_store_keep (slot m : Nat) (f : AIO20_Module → AIO20_Module) (y : Fw)
    (hf : ∀ md, (f md).slot = md.slot) :
    AIO20_GetModule slot (aio20_store m f y) = AIO20_GetModule slot y := by
  refine AIO20_GetModule_from_congr slot _ _ 0 ?_
  show (y.aio20_modules.set m _).map AIO20_Module.slot = _
  rw [List.map_set, hf]
  unfold aio20_module
  by_cases h : m < y.aio20_modules.length
  · rw [List.getD_eq_getElem _ _ h]
    have h' : m < (y.aio20_modules.map AIO20_Module.slot).length := by simpa using h
    have := list_set_self (y.aio20_modules.map AIO20_Module.slot) m h'
    rw [List.getElem_map] at this
    exact this
  · rw [List.set_eq_of_length_le (by simp; omega)]

theorem AIO20_ChipInit_store_facts (slot : Nat) (y : Fw) :
    afe_types_of (AIO20_ChipInit_store slot y) = afe_types_of y ∧
    AIO20_GetModule slot (AIO20_ChipInit_store slot y) = AIO20_GetModule slot y ∧
    (AIO20_ChipInit_store slot y).reg_log = y.reg_log := by
  unfold AIO20_ChipInit_store
  cases hG : AIO20_GetModule slot y with
  | none => exact ⟨rfl, hG, rfl⟩
  | some m =>
    refine ⟨afe_types_of_store_keep m _ _ AIO20_ChipInit_cache_afe, ?_, rfl⟩
    exact (AIO20_GetModule_store_keep slot m _ y AIO20_ChipInit_cache_slot).trans hG

/-- What a successful `AIO20_ChipInit(slot)` leaves of the state that matters
for AFE detection: the cached AFE types and the registered slots are as before,
and the record of register transactions has grown by the device-id read and
the writes of the initialisation. -/
theorem AIO20_ChipInit_ok (env : Env) (slot : Nat) (s : Fw)
    (hok : (AIO20_ChipInit env slot s).1 = 0) :
    afe_types_of (AIO20_ChipInit env slot s).2 = afe_types_of s ∧
    AIO20_GetModule slot (AIO20_ChipInit env slot s).2 = AIO20_GetModule slot s ∧
    (AIO20_ChipInit env slot s).2.reg_log = s.reg_log ++
      .aio20_read slot 0x00 0 (some 0x0424) :: AIO20_ChipInit_writes slot := by
  obtain ⟨h1, h2⟩ := @AIO20_ChipInit_spec s _ env slot rfl
  by_cases hid : aio20_word env s.spi_n ≠ 0x0424
  · rw [if_pos hid, hok] at h1
    exact absurd h1 (by decide)
  · rw [if_neg hid] at h2
    rw [not_not.1 hid] at h2
    obtain ⟨f1, f2, f3⟩ := AIO20_ChipInit_store_facts slot (logs (AIO20_ChipInit_writes slot)
      (log_reg (.aio20_read slot 0x00 0 (some 0x0424)) (off_spi s)))
    rw [← h2] at f1 f2 f3
    refine ⟨?_, ?_, ?_⟩
    · rw [afe_types_of_off_spi, afe_types_of_logs] at f1
      exact f1
    · rw [AIO20_GetModule_off_spi] at f2
      rw [f2]
      unfold AIO20_GetModule
      rw [logs_aio20_modules]
      rfl
    · rw [logs_reg_log, log_reg_reg_log, List.append_assoc] at f3
      exact f3

theorem AfeKeeps_ChipInit {a x : Fw} (env : Env) (slot : Nat) (h : AfeKeeps a x) :
    AfeKeeps a (AIO20_ChipInit env slot x).2 := by
  obtain ⟨-, h2⟩ := @AIO20_ChipInit_spec x _ env slot rfl
  refine AfeKeeps_of_off h ?_
  rw [h2]
  split
  · rfl
  · rw [(AIO20_ChipInit_store_facts slot _).1, afe_types_of_logs]
    rfl

/-! ## C22: commands that change cached AFE types -/

theorem AIO20_HandleCommand_dispatch_afe (env : Env) (slot : Nat) (cmd : List Nat) (x : Fw) :
    afe_types_of (AIO20_HandleCommand_dispatch env slot cmd x) = afe_types_of x ∨
    ∃ m pre n,
      ((strcmp_eq cmd (c_str "detectafe") = true ∧ pre = []) ∨
       (strcmp_eq cmd (c_str "init") = true ∧
          pre = .aio20_read slot 0x00 0 (some 0x0424) :: AIO20_ChipInit_writes slot)) ∧
      AIO20_GetModule slot x = some m ∧
      (AIO20_HandleCommand_dispatch env slot cmd x).reg_log = x.reg_log ++ pre ++
        [.aio20_read slot 0x44 0 (some (aio20_word env n)),
         .aio20_read slot 0x47 0 (some (aio20_word env (n + 3))),
         .aio20_read slot 0x4C 0 (some (aio20_word env (n + 6))),
         .aio20_read slot 0x51 0 (some (aio20_word env (n + 9)))] ∧
      afe_types_of (AIO20_HandleCommand_dispatch env slot cmd x) =
        (afe_types_of x).set m ((((((afe_types_of x).getD m []).set 0
          (AIO20_DetectAFE (aio20_word env n &&& 0x0FFF)).val).set 1
          (AIO20_DetectAFE (aio20_word env (n + 3) &&& 0x0FFF)).val).set 2
          (AIO20_DetectAFE (aio20_word env (n + 6) &&& 0x0FFF)).val).set 3
          (AIO20_DetectAFE (aio20_word env (n + 9) &&& 0x0FFF)).val) := by
  unfold AIO20_HandleCommand_dispatch
  by_cases c1 : strncmp_eq cmd (c_str "read:") 5 = true
  · rw [if_pos c1]; exact Or.inl (AfeKeeps_read env slot _ (AfeKeeps_refl x))
  rw [if_neg c1]
  by_cases c2 : strncmp_eq cmd (c_str "write:") 6 = true
  · rw [if_pos c2]; exact Or.inl (AfeKeeps_write slot _ (AfeKeeps_refl x))
  rw [if_neg c2]
  by_cases c3 : strncmp_eq cmd (c_str "setvolt:") 8 = true
  · rw [if_pos c3]; exact Or.inl (AfeKeeps_setvolt slot _ (AfeKeeps_refl x))
  rw [if_neg c3]
  by_cases c4 : strcmp_eq cmd (c_str "status") = true
  · rw [if_pos c4]; exact Or.inl (AfeKeeps_PrintStatus env slot (AfeKeeps_refl x))
  rw [if_neg c4]
  by_cases c5 : strcmp_eq cmd (c_str "info") = true
  · rw [if_pos c5]; exact Or.inl (AfeKeeps_PrintInfo env slot (AfeKeeps_refl x))
  rw [if_neg c5]
  by_cases c6 : strcmp_eq cmd (c_str "init") = true
  · rw [if_pos c6]
    unfold AIO20_HandleCommand_init
    by_cases hok : (AIO20_ChipInit env slot x).1 = 0
    · simp only [if_pos hok]
      obtain ⟨f1, f2, f3⟩ := AIO20_ChipInit_ok env slot x hok
      cases hG : AIO20_GetModule slot x with
      | none =>
        left
        have hn : AIO20_GetModule slot (UART_SendString "OK: Chip initialized\r\n"
            (AIO20_ChipInit env slot x).2) = none := f2.trans hG
        rw [AIO20_DetectAFECards_none env slot _ hn]
        exact f1
      | some m =>
        right
        obtain ⟨g1, g2⟩ := AIO20_DetectAFECards_spec env slot m
          (UART_SendString "OK: Chip initialized\r\n" (AIO20_ChipInit env slot x).2)
          (f2.trans hG)
        refine ⟨m, _, (AIO20_ChipInit env slot x).2.spi_n, Or.inr ⟨c6, rfl⟩, rfl, ?_, ?_⟩
        · rw [g1]
          show (AIO20_ChipInit env slot x).2.reg_log ++ _ = _
          rw [f3]
          rfl
        · have f1' : afe_types_of (UART_SendString "OK: Chip initialized\r\n"
              (AIO20_ChipInit env slot x).2) = afe_types_of x := f1
          rw [g2, f1']
          rfl
    · simp only [if_neg hok]
      exact Or.inl (AfeKeeps_uart _ (AfeKeeps_ChipInit env slot (AfeKeeps_refl x)))
  rw [if_neg c6]
  by_cases c7 : strcmp_eq cmd (c_str "detectafe") = true
  · rw [if_pos c7]
    cases hG : AIO20_GetModule slot x with
    | none => left; rw [AIO20_DetectAFECards_none env slot _ hG]
    | some m =>
      right
      obtain ⟨g1, g2⟩ := AIO20_DetectAFECards_spec env slot m x hG
      refine ⟨m, [], x.spi_n, Or.inl ⟨c7, rfl⟩, rfl, ?_, g2⟩
      rw [g1, List.append_nil]
  rw [if_neg c7]
  exact Or.inl (AfeKeeps_usage (AfeKeeps_refl x))

theorem AIO20_HandleCommand_ack_off (cmd : List Nat) (s : Fw) :
    off_spi (UART_SendString "]\r\n" (UART_SendBytes cmd (UART_SendString "[ACK:aio20:" s))) =
      off_spi s :=
  OffEq_uart _ (OffEq_bytes _ (OffEq_uart _ rfl))

/-- C22, amended: an aio20 command either leaves every cached AFE type as it was,
or it is `detectafe` or a successful `init` (device id 0x0424, then the writes
of the initialisation) on a registered slot.  In that case the command reads
the four detection ports 4, 7, 12, 17 (registers 0x44, 0x47, 0x4C, 0x51), and
the cached AFE type of card k of that module becomes `AIO20_DetectAFE` of the
low 12 bits of the word read at the port of card k; the AFE types of the other
modules stay as they were. -/
theorem AIO20_HandleCommand_afe_types (env : Env) (cmd : List Nat) (s : Fw) :
    afe_types_of (AIO20_HandleCommand env cmd s) = afe_types_of s ∨
    ∃ slot m pre n, slot < 4 ∧ cmd.headD 0 = 48 + slot ∧ cmd.getD 1 0 = 58 ∧
      ((strcmp_eq (cmd.drop 2) (c_str "detectafe") = true ∧ pre = []) ∨
       (strcmp_eq (cmd.drop 2) (c_str "init") = true ∧
          pre = .aio20_read slot 0x00 0 (some 0x0424) :: AIO20_ChipInit_writes slot)) ∧
      AIO20_GetModule slot s = some m ∧
      (AIO20_HandleCommand env cmd s).reg_log = s.reg_log ++ pre ++
        [.aio20_read slot 0x44 0 (some (aio20_word env n)),
         .aio20_read slot 0x47 0 (some (aio20_word env (n + 3))),
         .aio20_read slot 0x4C 0 (some (aio20_word env (n + 6))),
         .aio20_read slot 0x51 0 (some (aio20_word env (n + 9)))] ∧
      afe_types_of (AIO20_HandleCommand env cmd s) =
        (afe_types_of s).set m ((((((afe_types_of s).getD m []).set 0
          (AIO20_DetectAFE (aio20_word env n &&& 0x0FFF)).val).set 1
          (AIO20_DetectAFE (aio20_word env (n + 3) &&& 0x0FFF)).val).set 2
          (AIO20_DetectAFE (aio20_word env (n + 6) &&& 0x0FFF)).val).set 3
          (AIO20_DetectAFE (aio20_word env (n + 9) &&& 0x0FFF)).val) := by
  have hoff := AIO20_HandleCommand_ack_off cmd s
  have hafe : afe_types_of (UART_SendString "]\r\n" (UART_SendBytes cmd
      (UART_SendString "[ACK:aio20:" s))) = afe_types_of s := by
    have := congrArg afe_types_of hoff
    rwa [afe_types_of_off_spi, afe_types_of_off_spi] at this
  have hlog : (UART_SendString "]\r\n" (UART_SendBytes cmd
      (UART_SendString "[ACK:aio20:" s))).reg_log = s.reg_log := by
    have := congrArg Fw.reg_log hoff
    rwa [off_spi_reg_log, off_spi_reg_log] at this
  have hget : ∀ slot, AIO20_GetModule slot (UART_SendString "]\r\n" (UART_SendBytes cmd
      (UART_SendString "[ACK:aio20:" s))) = AIO20_GetModule slot s := by
    intro slot
    have := congrArg (AIO20_GetModule slot) hoff
    rwa [AIO20_GetModule_off_spi, AIO20_GetModule_off_spi] at this
  unfold AIO20_HandleCommand
  simp only []
  by_cases h1 : cmd.headD 0 < 48 ∨ cmd.headD 0 > 51
  · rw [if_pos h1]
    exact Or.inl hafe
  rw [if_neg h1]
  by_cases h2 : cmd.getD 1 0 ≠ 58
  · rw [if_pos h2]
    exact Or.inl hafe
  rw [if_neg h2]
  rcases AIO20_HandleCommand_dispatch_afe env (cmd.headD 0 - 48) (cmd.drop 2)
    (UART_SendString "]\r\n" (UART_SendBytes cmd (UART_SendString "[ACK:aio20:" s))) with h | h
  · exact Or.inl (h.trans hafe)
  · obtain ⟨m, pre, n, hc, hG, hr, ha⟩ := h
    right
    refine ⟨cmd.headD 0 - 48, m, pre, n, by omega, by omega, not_not.1 h2, hc, ?_, ?_, ?_⟩
    · rw [← hget]; exact hG
    · rw [hr, hlog]
    · rw [ha, hafe]

/-! ## C22 to C25, C29: the command handlers at concrete inputs -/

set_option maxRecDepth 1000000 in
/-- Counterexample to C22 as stated: the command `init` (not `detectafe`) on a
registered slot whose chip answers the device-id read with 0x0424 changes the
cached AFE types, here from all `AFE_TYPE_NONE` to 0-10V, 4-20mA, PT-1000 and
none, after the reads of the detection ports 4, 7, 12 and 17. -/
theorem AIO20_HandleCommand_init_counterexample :
    strcmp_eq (c_str "init") (c_str "detectafe") = false ∧
    afe_types_of fw_aio20_slot0 = [[0, 0, 0, 0]] ∧
    afe_types_of (AIO20_HandleCommand env_init_detect (c_str "0:init") fw_aio20_slot0) =
      [[AIO20_AFE_Type.AFE_TYPE_0_10V.val, AIO20_AFE_Type.AFE_TYPE_4_20MA.val,
        AIO20_AFE_Type.AFE_TYPE_PT1000.val, AIO20_AFE_Type.AFE_TYPE_NONE.val]] ∧
    (AIO20_HandleCommand env_init_detect (c_str "0:init") fw_aio20_slot0).reg_log.drop 22 =
      [.aio20_read 0 0x44 0 (some 1080), .aio20_read 0 0x47 0 (some 4095),
       .aio20_read 0 0x4C 0 (some 2160), .aio20_read 0 0x51 0 (some 0)] := by
  decide

set_option maxRecDepth 1000000 in
/-- Witness for C23: on the registered slot 0 a chip that answers the device-id
read with 0x0424 gets the read frame and the 21 write frames, and all 20 cached
port modes become 7; a chip that does not answer (the bus reads 0xFFFF) gets
the read frame only and the call returns -1. -/
theorem AIO20_ChipInit_identity_witness :
    aio20_word (env_of [0, 0x04, 0x24] []) fw_aio20_slot0.spi_n = 0x0424 ∧
    (AIO20_ChipInit (env_of [0, 0x04, 0x24] []) 0 fw_aio20_slot0).1 = 0 ∧
    mosi_bytes (AIO20_ChipInit (env_of [0, 0x04, 0x24] []) 0 fw_aio20_slot0).2 =
      [0x01, 0x00, 0x00, 0x20, 0x00, 0x03, 0x40, 0x71, 0xE0, 0x42, 0x71, 0xE0,
       0x44, 0x71, 0xE0, 0x46, 0x71, 0xE0, 0x48, 0x71, 0xE0, 0x4A, 0x71, 0xE0,
       0x4C, 0x71, 0xE0, 0x4E, 0x71, 0xE0, 0x50, 0x71, 0xE0, 0x52, 0x71, 0xE0,
       0x54, 0x71, 0xE0, 0x56, 0x71, 0xE0, 0x58, 0x71, 0xE0, 0x5A, 0x71, 0xE0,
       0x5C, 0x71, 0xE0, 0x5E, 0x71, 0xE0, 0x60, 0x71, 0xE0, 0x62, 0x71, 0xE0,
       0x64, 0x71, 0xE0, 0x66, 0x71, 0xE0] ∧
    (AIO20_ChipInit (env_of [0, 0x04, 0x24] []) 0 fw_aio20_slot0).2.aio20_modules =
      [⟨0, List.replicate 20 0, List.replicate 20 0, List.replicate 20 7, List.replicate 4 0⟩] ∧
    aio20_word (env_of [] []) fw_aio20_slot0.spi_n = 0xFFFF ∧
    (AIO20_ChipInit (env_of [] []) 0 fw_aio20_slot0).1 = -1 ∧
    mosi_bytes (AIO20_ChipInit (env_of [] []) 0 fw_aio20_slot0).2 = [0x01, 0x00, 0x00] ∧
    (AIO20_ChipInit (env_of [] []) 0 fw_aio20_slot0).2.reg_log =
      [.aio20_read 0 0x00 0 (some 0xFFFF)] :=
  ⟨by decide,
   ((AIO20_ChipInit_identity (env_of [0, 0x04, 0x24] []) 0 fw_aio20_slot0).2 (by decide)).1,
   ((AIO20_ChipInit_identity (env_of [0, 0x04, 0x24] []) 0 fw_aio20_slot0).2 (by decide)).2.1,
   by decide, by decide,
   ((AIO20_ChipInit_identity (env_of [] []) 0 fw_aio20_slot0).1 (by decide)).1,
   ((AIO20_ChipInit_identity (env_of [] []) 0 fw_aio20_slot0).1 (by decide)).2.1,
   by decide⟩

set_option maxRecDepth 1000000 in
/-- C24, evaluation of the code at two failing inputs: the complete output of
`Process_Command` for the valid command "aio20:0:read:5" on a registered
analog module, and for "io16:9:status" (bad slot), ends with the result line
and the error line; the text "Komut tamamlandi" occurs nowhere in either. -/
theorem Process_Command_completion_marker (fpga : List Nat → Fw → Fw) (bufs : ScanBufs)
    (reg_value : Nat) :
    (Process_Command fpga (env_of [0, 0x04, 0x38] []) bufs reg_value []
      (c_str "aio20:0:read:5") fw_aio20_slot0).uart =
      ("\r\n[ACK] Komut alindi: aio20\r\n[ACK:aio20:0:read:5]\r\n" ++
        "Port 5: Raw=1080, Voltage=2.637V\r\n").toList ∧
    (Process_Command fpga (env_of [] []) bufs reg_value []
      (c_str "io16:9:status") fw_io16_slot0).uart =
      ("\r\n[ACK] Komut alindi: io16\r\n[ACK:io16:9:status]\r\n" ++
        "Hata: Ge\xc3\xa7ersiz slot (0-3)\r\n").toList ∧
    ¬ "Komut tamamlandi".toList <:+: (Process_Command fpga (env_of [0, 0x04, 0x38] []) bufs
      reg_value [] (c_str "aio20:0:read:5") fw_aio20_slot0).uart ∧
    ¬ "Komut tamamlandi".toList <:+: (Process_Command fpga (env_of [] []) bufs reg_value []
      (c_str "io16:9:status") fw_io16_slot0).uart := by
  have h1 : (Process_Command fpga (env_of [0, 0x04, 0x38] []) bufs reg_value []
      (c_str "aio20:0:read:5") fw_aio20_slot0).uart =
      ("\r\n[ACK] Komut alindi: aio20\r\n[ACK:aio20:0:read:5]\r\n" ++
        "Port 5: Raw=1080, Voltage=2.637V\r\n").toList := rfl
  have h2 : (Process_Command fpga (env_of [] []) bufs reg_value []
      (c_str "io16:9:status") fw_io16_slot0).uart =
      ("\r\n[ACK] Komut alindi: io16\r\n[ACK:io16:9:status]\r\n" ++
        "Hata: Ge\xc3\xa7ersiz slot (0-3)\r\n").toList := rfl
  refine ⟨h1, h2, ?_, ?_⟩
  · rw [h1]; decide
  · rw [h2]; decide

set_option maxRecDepth 1000000 in
/-- C25, evaluation of the code at the failing input "0:read:256": the port
number is parsed into a `uint8_t`, 256 wraps to 0, the bounds check passes and
`AIO20_ReadADC` reads port 0 (register 0x40) in three SPI exchanges; "300"
wraps to 44 and "20" stays 20, which are rejected without SPI access. -/
theorem AIO20_HandleCommand_read_port_wraps :
    (parse_u8 (c_str "256") 0).1 = 0 ∧
    (AIO20_HandleCommand (env_of [0, 0x04, 0x38] []) (c_str "0:read:256")
      fw_aio20_slot0).reg_log = [.aio20_read 0 0x40 0 (some 1080)] ∧
    (AIO20_HandleCommand (env_of [0, 0x04, 0x38] []) (c_str "0:read:256")
      fw_aio20_slot0).spi_log =
      [⟨0x81, true, 0x00⟩, ⟨0x00, true, 0x04⟩, ⟨0x00, true, 0x38⟩] ∧
    (AIO20_HandleCommand (env_of [0, 0x04, 0x38] []) (c_str "0:read:256")
      fw_aio20_slot0).uart =
      "[ACK:aio20:0:read:256]\r\nPort 0: Raw=1080, Voltage=2.637V\r\n".toList ∧
    (parse_u8 (c_str "300") 0).1 = 44 ∧
    (AIO20_HandleCommand (env_of [0, 0x04, 0x38] []) (c_str "0:read:300")
      fw_aio20_slot0).spi_log = [] ∧
    (AIO20_HandleCommand (env_of [0, 0x04, 0x38] []) (c_str "0:read:300")
      fw_aio20_slot0).uart =
      "[ACK:aio20:0:read:300]\r\nHata: Ge\xc3\xa7ersiz port (0-19)\r\n".toList ∧
    (AIO20_HandleCommand (env_of [0, 0x04, 0x38] []) (c_str "0:read:20")
      fw_aio20_slot0).spi_log = [] := by
  decide

set_option maxRecDepth 1000000 in
/-- C29, evaluation of the code at the failing input "0:dirgroup:1:out" on a
registered slot 0: the command succeeds and writes 0x80 to the direction
register 0x16 (bit 7: pins 4..7 are outputs on the chip), but the cached
`direction_mask` stays 0, so a following `IO16_GetPin(0, 5)` reads the input
register 0x00 for a pin that the chip drives as an output.  The sibling
`IO16_SetDirection(0, 5, 1)` performs the same two transactions and sets the
mask to 0x00F0. -/
theorem IO16_HandleCommand_dirgroup_mask :
    (IO16_HandleCommand env_dirgroup_1 0 (c_str "0:dirgroup:1:out")
      fw_io16_slot0).reg_log =
      [.io16_read 0 0x16 1 0 [0x00], .io16_write 0 0x16 1 [0x80] 0] ∧
    (IO16_HandleCommand env_dirgroup_1 0 (c_str "0:dirgroup:1:out")
      fw_io16_slot0).io16_modules = [⟨0, 0, 0, 0⟩] ∧
    (IO16_HandleCommand env_dirgroup_1 0 (c_str "0:dirgroup:1:out")
      fw_io16_slot0).uart.drop 487 =
      "OK: Group 01 (Pins 04-07) = OUTPUT\r\n\r\nKomut tamamlandi: io16\r\n".toList ∧
    (IO16_GetPin env_dirgroup_1 0 5 (IO16_HandleCommand env_dirgroup_1 0
      (c_str "0:dirgroup:1:out") fw_io16_slot0)).2.reg_log =
      [.io16_read 0 0x16 1 0 [0x00], .io16_write 0 0x16 1 [0x80] 0,
       .io16_read 0 0x00 1 0 [0x00]] ∧
    (IO16_SetDirection env_dirgroup_1 0 5 1 fw_io16_slot0).1 = 0 ∧
    (IO16_SetDirection env_dirgroup_1 0 5 1 fw_io16_slot0).2.reg_log =
      [.io16_read 0 0x16 1 0 [0x00], .io16_write 0 0x16 1 [0x80] 0] ∧
    (IO16_SetDirection env_dirgroup_1 0 5 1 fw_io16_slot0).2.io16_modules =
      [⟨0, 0, 0, 0x00F0⟩] := by
  decide

/-! ## C12: chip initialisation of a slot classified as IO16 -/

set_option maxRecDepth 1000000 in
/-- C12, evaluation of the code at the failing input: slot 0 holds a module whose
firmware-id block is "IO16   !" (hardware-id "HW-REV-A").  The scan classifies
the slot as IO16 and prints that type, but `IO16_ChipInit` is not called once:
the report of slot 0 goes from the CON line straight on to slot 1, without the
REGISTERED and INIT lines, no register transaction and no SPI exchange takes
place during the whole scan, and no driver gets the slot.  The scan still
visits the single-wire lines 0, 1, 2, 3 in order.  With the firmware-id
"io16-v01" and a chip that answers, the same scan runs `IO16_ChipInit` (15
register transactions, the first one the read of the information register). -/
theorem scan_modules_uppercase_no_init :
    get_module_type (c_str "HW-REV-A").dropLast (c_str "IO16   !").dropLast =
      "IO16 - 16 Channel Digital I/O" ∧
    ((scan_modules (env_slot0 "IO16   !") bufs_zero fw_boot).uart.drop 721).take 118 =
      ("  TYPE: IO16 - 16 Channel Digital I/O\r\n  NAME: IO16   !\r\n" ++
        "  HID_ASCII: HW-REV-A\r\n  CON: CON00 (Connector 00)\r\n\r\nSlot 01").toList ∧
    (scan_modules (env_slot0 "IO16   !") bufs_zero fw_boot).reg_log = [] ∧
    (scan_modules (env_slot0 "IO16   !") bufs_zero fw_boot).spi_log = [] ∧
    (scan_modules (env_slot0 "IO16   !") bufs_zero fw_boot).io16_modules = [] ∧
    ((scan_modules (env_slot0 "IO16   !") bufs_zero fw_boot).ow_log.map OwEv.line).eraseDups =
      [0, 1, 2, 3] ∧
    (scan_modules env_rescan_io16 bufs_zero fw_boot).reg_log.length = 15 ∧
    (scan_modules env_rescan_io16 bufs_zero fw_boot).reg_log.head? =
      some (.io16_read 0 0x1D 1 0 [0x20]) ∧
    (scan_modules env_rescan_io16 bufs_zero fw_boot).io16_modules.map IO16_Module.slot = [0] := by
  decide

end Burjuva
